import Mathlib

/-!
# Render-target state cache, draw pipeline and shader program manager

A shallow embedding of `src/SFML/Graphics/RenderTarget.cpp` and of the parts of
`src/SFML/Graphics/Shader.cpp` that the draw pipeline calls.

Conventions of the embedding

* `float` values are rationals. The arithmetic that decides integer results (the pixel
  rectangles of `getViewport` and `getScissor`, the pixel/world mappings) is single
  precision: every conversion, product, quotient, sum and difference is rounded by
  `Float32.round`. Infinities and NaN are not modelled: no theorem below depends on a
  result beyond the finite range or on a division by zero. A conversion of a `float`
  to `int` has a result only when the truncated value fits (`floatToInt` returns
  `none` otherwise). The matrices and vertex positions handed to the driver are kept as
  exact rationals.
* `unsigned`/`std::size_t`/`std::uint64_t` values are `Nat`, `int`/`long` values are
  `Int`; every narrowing conversion the source performs is written out
  (`toInt32`, `% 2 ^ 64`). `long` and `std::size_t` are taken as 64 bits wide, and
  `int` arithmetic wraps around where C++ leaves the overflow undefined; no theorem
  below depends on either choice except through an explicit range hypothesis.
* Code and declarations of the repository outside `src/` (value types, `View`,
  `Transform`, `Texture::bind`, `VertexBuffer::bind`, the driver enumerants) are
  modelled from their use in the source and marked so.
* Every driver call the code issues is appended to `Driver.trace`; messages written
  to `sf::err()` are appended to `World.errLog`.
* Objects reached through pointers (shaders) live in the `World`; a render target
  is passed and returned explicitly.
* Locks (`std::recursive_mutex`, `TransientContextLock`) and the `glCheck` wrapper
  have no sequential effect and are left out.
-/

namespace sf

/-! ## Arithmetic helpers -/

/-- Conversion of an integer to a 32-bit `int` (two's complement wrap-around). -/
def toInt32 (z : Int) : Int :=
  (z + 2 ^ 31) % 2 ^ 32 - 2 ^ 31

/-- The range of a 32-bit `int`. -/
def InInt32 (z : Int) : Prop :=
  -(2 : Int) ^ 31 ≤ z ∧ z < 2 ^ 31

instance (z : Int) : Decidable (InInt32 z) := by
  unfold InInt32
  exact inferInstance

/-- The C library function `std::lround`: nearest integer, halves away from zero. -/
def lround (x : ℚ) : Int :=
  if 0 ≤ x then Rat.floor (x + 1 / 2) else -Rat.floor (-x + 1 / 2)

/-- Nearest integer, a tie going to the even neighbour. -/
def roundHalfEven (x : ℚ) : Int :=
  if x - Rat.floor x < 1 / 2 then Rat.floor x
  else if 1 / 2 < x - Rat.floor x then Rat.floor x + 1
  else if Rat.floor x % 2 = 0 then Rat.floor x else Rat.floor x + 1

namespace Float32

/-- The exponent of the spacing of single-precision values around `x`: `e - 23` for
`2^e ≤ |x| < 2^(e+1)`, and `-149` below the smallest normal number `2^-126`. -/
def ulpExponent (x : ℚ) : Int :=
  max (Int.log 2 |x|) (-126) - 23

/-- Rounding of an exact result to single precision (IEEE 754 binary32, round to
nearest, ties to even). -/
def round (x : ℚ) : ℚ :=
  (roundHalfEven (x / 2 ^ ulpExponent x) : ℚ) * 2 ^ ulpExponent x

/-- The operator `+` of `float`. -/
def add (a b : ℚ) : ℚ := round (a + b)

/-- The operator `-` of `float`. -/
def sub (a b : ℚ) : ℚ := round (a - b)

/-- The operator `*` of `float`. -/
def mul (a b : ℚ) : ℚ := round (a * b)

/-- The operator `/` of `float`, for a divisor other than zero. -/
def div (a b : ℚ) : ℚ := round (a / b)

/-- Conversion `static_cast<float>(int)`. -/
def ofInt (z : Int) : ℚ := round (z : ℚ)

/-- Conversion `static_cast<float>(unsigned int)`. -/
def ofNat (n : Nat) : ℚ := round (n : ℚ)

end Float32

/-- Truncation toward zero. -/
def truncate (x : ℚ) : Int :=
  if 0 ≤ x then Rat.floor x else -Rat.floor (-x)

/-- Conversion `static_cast<int>(float)`: truncation toward zero. The conversion is
undefined when the truncated value is outside the range of `int`: no result. -/
def floatToInt (x : ℚ) : Option Int :=
  if InInt32 (truncate x) then some (truncate x) else none

/-! ## Value types consumed by the core (declared outside `src/`) -/

/-- Modelled from the spec: `sf::Vector2f`, a pair of floats. -/
structure Vector2f where
  x : ℚ
  y : ℚ
deriving DecidableEq

/-- Modelled from the spec: `sf::Vector2i`, a pair of ints. -/
structure Vector2i where
  x : Int
  y : Int
deriving DecidableEq

/-- Modelled from the spec: `sf::Vector2u`, a pair of unsigned ints. -/
structure Vector2u where
  x : Nat
  y : Nat
deriving DecidableEq

/-- Modelled from the spec: `sf::FloatRect`, position and size. -/
structure FloatRect where
  position : Vector2f
  size : Vector2f
deriving DecidableEq

/-- Modelled from the spec: `sf::IntRect`, position and size. -/
structure IntRect where
  position : Vector2i
  size : Vector2i
deriving DecidableEq

namespace Vector2f

/-- Modelled from the spec: `operator+` of `Vector2f`, in single precision. -/
def add (a b : Vector2f) : Vector2f := ⟨Float32.add a.x b.x, Float32.add a.y b.y⟩

/-- Modelled from the spec: `operator-` of `Vector2f`, in single precision. -/
def sub (a b : Vector2f) : Vector2f := ⟨Float32.sub a.x b.x, Float32.sub a.y b.y⟩

/-- Modelled from the spec: `Vector2f::componentWiseMul`, in single precision. -/
def componentWiseMul (a b : Vector2f) : Vector2f :=
  ⟨Float32.mul a.x b.x, Float32.mul a.y b.y⟩

/-- Modelled from the spec: `Vector2f::componentWiseDiv`, in single precision. -/
def componentWiseDiv (a b : Vector2f) : Vector2f :=
  ⟨Float32.div a.x b.x, Float32.div a.y b.y⟩

/-- Conversion `Vector2f(Vector2u)`: each component through `static_cast<float>`. -/
def ofVector2u (v : Vector2u) : Vector2f := ⟨Float32.ofNat v.x, Float32.ofNat v.y⟩

/-- Conversion `Vector2f(Vector2i)`: each component through `static_cast<float>`. -/
def ofVector2i (v : Vector2i) : Vector2f := ⟨Float32.ofInt v.x, Float32.ofInt v.y⟩

end Vector2f

/-- Conversion `Vector2i(Vector2f)`: each component through `static_cast<int>`; no
result when one of the two conversions is undefined. -/
def Vector2i.ofVector2f (v : Vector2f) : Option Vector2i :=
  match floatToInt v.x, floatToInt v.y with
  | some x, some y => some ⟨x, y⟩
  | _, _ => none

/-- Conversion `FloatRect(IntRect)`. -/
def FloatRect.ofIntRect (r : IntRect) : FloatRect :=
  ⟨Vector2f.ofVector2i r.position, Vector2f.ofVector2i r.size⟩

/-- Conversion `IntRect(Rect<long>)`: each component narrowed from `long` to `int`. -/
def IntRect.ofLongs (x y w h : Int) : IntRect :=
  ⟨⟨toInt32 x, toInt32 y⟩, ⟨toInt32 w, toInt32 h⟩⟩

/-- Modelled from the spec: `sf::Transform`, a 3x3 affine matrix given by its nine
coefficients (the class is declared outside `src/`). -/
structure Transform where
  a00 : ℚ
  a01 : ℚ
  a02 : ℚ
  a10 : ℚ
  a11 : ℚ
  a12 : ℚ
  a20 : ℚ
  a21 : ℚ
  a22 : ℚ
deriving DecidableEq

namespace Transform

/-- Modelled from the spec: `Transform::Identity`. -/
def Identity : Transform := ⟨1, 0, 0, 0, 1, 0, 0, 0, 1⟩

/-- Modelled from the spec: `Transform::getMatrix`, the 4x4 column-major matrix
handed to the driver. -/
def getMatrix (t : Transform) : List ℚ :=
  [t.a00, t.a10, 0, t.a20,
   t.a01, t.a11, 0, t.a21,
   0, 0, 1, 0,
   t.a02, t.a12, 0, t.a22]

/-- Modelled from the spec: `Transform::transformPoint` (also `Transform * Vector2f`). -/
def transformPoint (t : Transform) (p : Vector2f) : Vector2f :=
  ⟨t.a00 * p.x + t.a01 * p.y + t.a02, t.a10 * p.x + t.a11 * p.y + t.a12⟩

/-- Modelled from the spec: `Transform::transformPoint` as the pixel/world mappings of
the render target evaluate it, in single precision: the two products, then the two
sums, each rounded. -/
def transformPointFloat (t : Transform) (p : Vector2f) : Vector2f :=
  ⟨Float32.add (Float32.add (Float32.mul t.a00 p.x) (Float32.mul t.a01 p.y)) t.a02,
   Float32.add (Float32.add (Float32.mul t.a10 p.x) (Float32.mul t.a11 p.y)) t.a12⟩

end Transform

/-- Modelled from the spec: `sf::View`, a normalized viewport sub-rect, a normalized
scissor sub-rect, a transform and its inverse (the class is declared outside `src/`;
how the two transforms are computed from centre, size and rotation is not modelled). -/
structure View where
  viewport : FloatRect
  scissor : FloatRect
  transform : Transform
  inverseTransform : Transform
deriving DecidableEq

namespace View

def getViewport (v : View) : FloatRect := v.viewport

def getScissor (v : View) : FloatRect := v.scissor

def getTransform (v : View) : Transform := v.transform

def getInverseTransform (v : View) : Transform := v.inverseTransform

/-- Modelled from the spec: the constructor `View(FloatRect)`: the view covers the
rectangle, without rotation, with the full unit rectangle as viewport and scissor.
The projection is that of the unrotated rectangle. -/
def ofRect (r : FloatRect) : View :=
  let cx := r.position.x + r.size.x / 2
  let cy := r.position.y + r.size.y / 2
  let a := 2 / r.size.x
  let b := -2 / r.size.y
  { viewport := ⟨⟨0, 0⟩, ⟨1, 1⟩⟩
    scissor := ⟨⟨0, 0⟩, ⟨1, 1⟩⟩
    transform := ⟨a, 0, -a * cx, 0, b, -b * cy, 0, 0, 1⟩
    inverseTransform := ⟨r.size.x / 2, 0, cx, 0, -r.size.y / 2, cy, 0, 0, 1⟩ }

end View

/-- Values of `sf::BlendMode::Factor`, as switched over by `factorToGlConstant`. -/
inductive Factor where
  | Zero | One | SrcColor | OneMinusSrcColor | DstColor | OneMinusDstColor
  | SrcAlpha | OneMinusSrcAlpha | DstAlpha | OneMinusDstAlpha
deriving DecidableEq

/-- Values of `sf::BlendMode::Equation`, as switched over by `equationToGlConstant`. -/
inductive Equation where
  | Add | Subtract | ReverseSubtract | Min | Max
deriving DecidableEq

/-- The six components of `sf::BlendMode` read by `applyBlendMode`. -/
structure BlendMode where
  colorSrcFactor : Factor
  colorDstFactor : Factor
  colorEquation : Equation
  alphaSrcFactor : Factor
  alphaDstFactor : Factor
  alphaEquation : Equation
deriving DecidableEq

/-- Modelled from the spec: the constant `sf::BlendAlpha` (declared outside `src/`). -/
def BlendAlpha : BlendMode :=
  ⟨Factor.SrcAlpha, Factor.OneMinusSrcAlpha, Equation.Add,
   Factor.One, Factor.OneMinusSrcAlpha, Equation.Add⟩

/-- Values of `sf::StencilUpdateOperation`. -/
inductive StencilUpdateOperation where
  | Keep | Zero | Replace | Increment | Decrement | Invert
deriving DecidableEq

/-- Values of `sf::StencilComparison`. -/
inductive StencilComparison where
  | Never | Less | LessEqual | Greater | GreaterEqual | Equal | NotEqual | Always
deriving DecidableEq

/-- The components of `sf::StencilMode` read by `applyStencilMode`; the two
`StencilValue`s are unsigned ints. -/
structure StencilMode where
  stencilComparison : StencilComparison
  stencilUpdateOperation : StencilUpdateOperation
  stencilReference : Nat
  stencilMask : Nat
  stencilOnly : Bool
deriving DecidableEq

/-- Modelled from the spec: the default-constructed `StencilMode()`, the distinguished
"default/disabled" mode (declared outside `src/`). -/
def StencilMode.default : StencilMode :=
  ⟨StencilComparison.Always, StencilUpdateOperation.Keep, 0, 2 ^ 32 - 1, false⟩

/-- Values of `sf::CoordinateType`. -/
inductive CoordinateType where
  | Normalized | Pixels
deriving DecidableEq

/-- Values of `sf::PrimitiveType`, in declaration order. -/
inductive PrimitiveType where
  | Points | Lines | LineStrip | Triangles | TriangleStrip | TriangleFan
deriving DecidableEq

/-- Modelled from the spec: `sf::Color`, four 8-bit channels. -/
structure Color where
  r : Nat
  g : Nat
  b : Nat
  a : Nat
deriving DecidableEq

/-- Modelled from the spec: `sf::Vertex`: position, colour, texture coordinates. -/
structure Vertex where
  position : Vector2f
  color : Color
  texCoords : Vector2f
deriving DecidableEq

instance : Inhabited Vertex := ⟨⟨⟨0, 0⟩, ⟨255, 255, 255, 255⟩, ⟨0, 0⟩⟩⟩

/-- The members of `sf::Texture` that `RenderTarget.cpp` reads. -/
structure Texture where
  m_size : Vector2u
  m_actualSize : Vector2u
  m_texture : Nat
  m_pixelsFlipped : Bool
  m_fboAttachment : Bool
  m_cacheId : Nat
deriving DecidableEq

/-- The members of `sf::Shader`: program handle, location of the "current texture"
sampler, location-to-texture table, name-to-location table. The two tables are
association lists in insertion order. -/
structure Shader where
  m_shaderProgram : Nat
  m_currentTexture : Int
  m_textures : List (Int × Texture)
  m_uniforms : List (String × Int)
deriving DecidableEq

/-- A default-constructed `sf::Shader`. -/
def Shader.empty : Shader := ⟨0, -1, [], []⟩

/-- Which shader object a `Shader*` points to: one of the two static default shaders
or a caller-owned shader, identified by its address. -/
inductive ShaderRef where
  | defaultShader
  | defaultTexShader
  | user (address : Nat)
deriving DecidableEq

/-- The members of `sf::RenderStates`. The shader is a pointer to a caller-owned
shader object (`none` is the null pointer), the texture is read only. -/
structure RenderStates where
  blendMode : BlendMode
  stencilMode : StencilMode
  transform : Transform
  coordinateType : CoordinateType
  texture : Option Texture
  shader : Option Nat

/-- Modelled from the spec: `RenderStates::Default`. -/
def RenderStates.Default : RenderStates :=
  ⟨BlendAlpha, StencilMode.default, Transform.Identity, CoordinateType.Pixels, none, none⟩

/-- Modelled from the spec: the members of `sf::VertexBuffer` that `RenderTarget.cpp`
reads (the class is defined outside `src/`). -/
structure VertexBuffer where
  m_buffer : Nat
  m_size : Nat
  m_primitiveType : PrimitiveType
deriving DecidableEq

namespace VertexBuffer

def getVertexCount (b : VertexBuffer) : Nat := b.m_size

def getNativeHandle (b : VertexBuffer) : Nat := b.m_buffer

def getPrimitiveType (b : VertexBuffer) : PrimitiveType := b.m_primitiveType

end VertexBuffer

/-! ## The driver -/

/-- The driver enumerants named in the source (the macros are declared outside
`src/`; only their identity matters here). -/
inductive GLenum where
  | GL_ZERO | GL_ONE | GL_SRC_COLOR | GL_ONE_MINUS_SRC_COLOR | GL_DST_COLOR
  | GL_ONE_MINUS_DST_COLOR | GL_SRC_ALPHA | GL_ONE_MINUS_SRC_ALPHA | GL_DST_ALPHA
  | GL_ONE_MINUS_DST_ALPHA
  | GL_FUNC_ADD | GL_FUNC_SUBTRACT | GL_FUNC_REVERSE_SUBTRACT | GLEXT_GL_MIN | GLEXT_GL_MAX
  | GL_KEEP | GL_REPLACE | GL_INCR | GL_DECR | GL_INVERT
  | GL_NEVER | GL_LESS | GL_LEQUAL | GL_GREATER | GL_GEQUAL | GL_EQUAL | GL_NOTEQUAL
  | GL_ALWAYS
  | GL_POINTS | GL_LINES | GL_LINE_STRIP | GL_TRIANGLES | GL_TRIANGLE_STRIP
  | GL_TRIANGLE_FAN
  | GL_CULL_FACE | GL_DEPTH_TEST | GL_BLEND | GL_SCISSOR_TEST | GL_STENCIL_TEST
  | GL_FRAMEBUFFER_SRGB
  | GL_ARRAY_BUFFER | GL_DYNAMIC_DRAW | GL_FLOAT | GL_UNSIGNED_BYTE
  | GL_VERTEX_SHADER | GL_GEOMETRY_SHADER | GL_FRAGMENT_SHADER
  | GL_COMPILE_STATUS | GL_LINK_STATUS | GL_CURRENT_PROGRAM
  | GL_MAX_COMBINED_TEXTURE_IMAGE_UNITS
  | GL_COLOR_BUFFER_BIT | GL_STENCIL_BUFFER_BIT
deriving DecidableEq

/-- One call issued to the graphics driver, with its arguments. Calls that return a
value (`glGen*`, `glCreate*`) carry the value returned. `Texture_bind` and
`VertexBuffer_bind` stand for the driver calls of `Texture::bind` and
`VertexBuffer::bind`, which are defined outside `src/`. -/
inductive GLCall where
  | glViewport (x y width height : Int)
  | glScissor (x y width height : Int)
  | glEnable (cap : GLenum)
  | glDisable (cap : GLenum)
  | glBlendFuncSeparate (srcRGB dstRGB srcAlpha dstAlpha : GLenum)
  | glBlendEquationSeparate (modeRGB modeAlpha : GLenum)
  | glColorMask (r g b a : Bool)
  | glStencilOp (sfail dpfail dppass : GLenum)
  | glStencilFunc (func : GLenum) (ref : Int) (mask : Nat)
  | glActiveTexture (unit : Nat)
  | glUseProgram (program : Nat)
  | glGetIntegerv (pname : GLenum)
  | glGetUniformLocation (program : Nat) (name : String)
  | glGetAttribLocation (program : Nat) (name : String)
  | glUniform1i (location : Int) (v0 : Int)
  | glUniform1f (location : Int) (v0 : ℚ)
  | glUniform2f (location : Int) (v0 v1 : ℚ)
  | glUniformMatrix4fv (location : Int) (value : List ℚ)
  | glEnableVertexAttribArray (index : Nat)
  | glDisableVertexAttribArray (index : Nat)
  | glVertexAttribPointer (index size : Nat) (type : GLenum) (normalized : Bool)
      (stride offset : Nat)
  | glGenVertexArrays (result : Nat)
  | glDeleteVertexArrays (array : Nat)
  | glBindVertexArray (array : Nat)
  | glGenBuffers (result : Nat)
  | glDeleteBuffers (buffer : Nat)
  | glBindBuffer (target : GLenum) (buffer : Nat)
  | glBufferData (target : GLenum) (size : Nat) (data : List Vertex) (usage : GLenum)
  | glDrawArrays (mode : GLenum) (first count : Int)
  | glClearColor (r g b a : ℚ)
  | glClearStencil (s : Int)
  | glClear (mask : List GLenum)
  | glCreateProgram (result : Nat)
  | glCreateShader (type : GLenum) (result : Nat)
  | glShaderSource (shader : Nat) (code : String)
  | glCompileShader (shader : Nat)
  | glGetShaderiv (shader : Nat) (pname : GLenum)
  | glGetShaderInfoLog (shader : Nat)
  | glDeleteShader (shader : Nat)
  | glAttachShader (program shader : Nat)
  | glLinkProgram (program : Nat)
  | glGetProgramiv (program : Nat) (pname : GLenum)
  | glGetProgramInfoLog (program : Nat)
  | glDeleteProgram (program : Nat)
  | glFlush
  | Texture_bind (texture : Option Texture) (coordinateType : CoordinateType)
  | VertexBuffer_bind (vertexBuffer : Option Nat)

/-- What the driver answers to the queries the code makes. -/
structure DriverEnv where
  compileStatus : Nat → Bool
  linkStatus : Nat → Bool
  uniformLocation : Nat → String → Int
  attribLocation : Nat → String → Int
  maxCombinedTextureImageUnits : Int
  EXT_blend_minmax : Bool

/-- The driver state the code depends on: the calls issued so far (oldest first),
the program in use (`GL_CURRENT_PROGRAM`) and the next object name it hands out. -/
structure Driver where
  trace : List GLCall
  currentProgram : Nat
  nextHandle : Nat

/-- Issue one driver call: it is recorded, and `glUseProgram` changes the program in
use. -/
def Driver.call (c : GLCall) (d : Driver) : Driver :=
  match c with
  | GLCall.glUseProgram p => { d with trace := d.trace ++ [c], currentProgram := p }
  | _ => { d with trace := d.trace ++ [c] }

/-- Compile-time configuration (`SFML_OPENGL_ES`, `SFML_SYSTEM_MACOS`) and the answer
of `VertexBuffer::isAvailable()`, which is defined outside `src/`. -/
structure BuildConfig where
  openglES : Bool
  macOS : Bool
  vertexBufferAvailable : Bool

/-- Everything outside a single render target: configuration, driver, the identity
of the active driver context (`Context::getActiveContextId()`), the function-local
statics of `RenderTarget.cpp` and `Shader.cpp`, the caller-owned shader objects, and
the text written to `sf::err()`. -/
structure World where
  config : BuildConfig
  env : DriverEnv
  gl : Driver
  activeContextId : Nat
  contextRenderTargetMap : Nat → Option Nat
  uniqueId : Nat
  warned : Bool
  defaultShader : Shader
  defaultShaderFirst : Bool
  defaultTexShader : Shader
  defaultTexShaderFirst : Bool
  userShaders : Nat → Shader
  errLog : List String

namespace World

/-- Issue one driver call. -/
def call (c : GLCall) (w : World) : World := { w with gl := w.gl.call c }

/-- Write one message to `sf::err()`. -/
def err (msg : String) (w : World) : World := { w with errLog := w.errLog ++ [msg] }

/-- A `glGen*`/`glCreate*` object name handed out by the driver. -/
def freshHandle (w : World) : Nat × World :=
  (w.gl.nextHandle, { w with gl := { w.gl with nextHandle := w.gl.nextHandle + 1 } })

/-- Dereference a shader pointer. -/
def getShader (r : ShaderRef) (w : World) : Shader :=
  match r with
  | ShaderRef.defaultShader => w.defaultShader
  | ShaderRef.defaultTexShader => w.defaultTexShader
  | ShaderRef.user a => w.userShaders a

/-- Store through a shader pointer. -/
def setShader (r : ShaderRef) (s : Shader) (w : World) : World :=
  match r with
  | ShaderRef.defaultShader => { w with defaultShader := s }
  | ShaderRef.defaultTexShader => { w with defaultTexShader := s }
  | ShaderRef.user a =>
    { w with userShaders := fun b => if b = a then s else w.userShaders b }

/-- The state of the statics when the process starts: the identity counter is 1, the
registry is empty, no warning has been printed and the default shaders are not yet
compiled. -/
def initial (config : BuildConfig) (env : DriverEnv) (gl : Driver) (contextId : Nat)
    (userShaders : Nat → Shader) : World :=
  { config := config
    env := env
    gl := gl
    activeContextId := contextId
    contextRenderTargetMap := fun _ => none
    uniqueId := 1
    warned := false
    defaultShader := Shader.empty
    defaultShaderFirst := true
    defaultTexShader := Shader.empty
    defaultTexShaderFirst := true
    userShaders := userShaders
    errLog := [] }

end World

/-! ## `RenderTargetImpl`: identities, registry, constant mapping -/

namespace RenderTargetImpl

/-- `getUniqueId`: return the 64-bit counter and increment it. -/
def getUniqueId (w : World) : Nat × World :=
  (w.uniqueId, { w with uniqueId := (w.uniqueId + 1) % 2 ^ 64 })

/-- `isActive`: is the target with this id recorded for the current context? -/
def isActive (id : Nat) (w : World) : Bool :=
  match w.contextRenderTargetMap w.activeContextId with
  | some target => target == id
  | none => false

/-- `factorToGlConstant`; the switch covers every enumerator. -/
def factorToGlConstant (blendFactor : Factor) : GLenum :=
  match blendFactor with
  | Factor.Zero => GLenum.GL_ZERO
  | Factor.One => GLenum.GL_ONE
  | Factor.SrcColor => GLenum.GL_SRC_COLOR
  | Factor.OneMinusSrcColor => GLenum.GL_ONE_MINUS_SRC_COLOR
  | Factor.DstColor => GLenum.GL_DST_COLOR
  | Factor.OneMinusDstColor => GLenum.GL_ONE_MINUS_DST_COLOR
  | Factor.SrcAlpha => GLenum.GL_SRC_ALPHA
  | Factor.OneMinusSrcAlpha => GLenum.GL_ONE_MINUS_SRC_ALPHA
  | Factor.DstAlpha => GLenum.GL_DST_ALPHA
  | Factor.OneMinusDstAlpha => GLenum.GL_ONE_MINUS_DST_ALPHA

/-- The warning `equationToGlConstant` prints once. -/
def blendWarning : String :=
  "OpenGL extension EXT_blend_minmax or EXT_blend_subtract unavailable\n" ++
  "Some blending equations will fallback to sf::BlendMode::Equation::Add\n" ++
  "Ensure that hardware acceleration is enabled if available"

/-- `equationToGlConstant`, given the value of `GLEXT_blend_minmax`: an unavailable
Min/Max falls back to Add and warns once. -/
def equationToGlConstant (blend_minmax : Bool) (blendEquation : Equation) (w : World) :
    GLenum × World :=
  let fallback : GLenum × World :=
    (GLenum.GL_FUNC_ADD,
      if w.warned then w else { w.err blendWarning with warned := true })
  match blendEquation with
  | Equation.Add => (GLenum.GL_FUNC_ADD, w)
  | Equation.Subtract => (GLenum.GL_FUNC_SUBTRACT, w)
  | Equation.ReverseSubtract => (GLenum.GL_FUNC_REVERSE_SUBTRACT, w)
  | Equation.Min => if blend_minmax then (GLenum.GLEXT_GL_MIN, w) else fallback
  | Equation.Max => if blend_minmax then (GLenum.GLEXT_GL_MAX, w) else fallback

/-- `stencilOperationToGlConstant`; the switch covers every enumerator. -/
def stencilOperationToGlConstant (operation : StencilUpdateOperation) : GLenum :=
  match operation with
  | StencilUpdateOperation.Keep => GLenum.GL_KEEP
  | StencilUpdateOperation.Zero => GLenum.GL_ZERO
  | StencilUpdateOperation.Replace => GLenum.GL_REPLACE
  | StencilUpdateOperation.Increment => GLenum.GL_INCR
  | StencilUpdateOperation.Decrement => GLenum.GL_DECR
  | StencilUpdateOperation.Invert => GLenum.GL_INVERT

/-- `stencilFunctionToGlConstant`; the switch covers every enumerator. -/
def stencilFunctionToGlConstant (comparison : StencilComparison) : GLenum :=
  match comparison with
  | StencilComparison.Never => GLenum.GL_NEVER
  | StencilComparison.Less => GLenum.GL_LESS
  | StencilComparison.LessEqual => GLenum.GL_LEQUAL
  | StencilComparison.Greater => GLenum.GL_GREATER
  | StencilComparison.GreaterEqual => GLenum.GL_GEQUAL
  | StencilComparison.Equal => GLenum.GL_EQUAL
  | StencilComparison.NotEqual => GLenum.GL_NOTEQUAL
  | StencilComparison.Always => GLenum.GL_ALWAYS

end RenderTargetImpl

/-! ## `Shader` -/

namespace Shader

/-- `Shader::getNativeHandle`. -/
def getNativeHandle (s : Shader) : Nat := s.m_shaderProgram

/-- `Shader::isAvailable`. -/
def isAvailable : Bool := true

/-- `Shader::isGeometryAvailable`: false exactly on OpenGL ES builds
(`priv::ensureExtensionsInit`, defined outside `src/`, issues no call modelled here). -/
def isGeometryAvailable (w : World) : Bool := !w.config.openglES

/-- `Shader::getUniformLocation`: look the name up in the cache, ask the driver
only on a miss, cache the answer and warn when it is -1. -/
def getUniformLocation (s : Shader) (name : String) (w : World) : Int × Shader × World :=
  match s.m_uniforms.lookup name with
  | some location => (location, s, w)
  | none =>
    let location := w.env.uniformLocation s.m_shaderProgram name
    let w1 := w.call (GLCall.glGetUniformLocation s.m_shaderProgram name)
    let s1 := { s with m_uniforms := s.m_uniforms ++ [(name, location)] }
    let w2 := if location = -1 then
        w1.err ("Uniform \"" ++ name ++ "\" not found in shader")
      else w1
    (location, s1, w2)

/-- The data members of `Shader::UniformBinder`. -/
structure UniformBinder where
  savedProgram : Nat
  currentProgram : Nat
  location : Int

/-- Constructor of `UniformBinder`: with a program, save the program in use, switch
to the shader's program if it differs, and resolve the location. -/
def UniformBinder.construct (shader : Shader) (name : String) (w : World) :
    UniformBinder × Shader × World :=
  let currentProgram := shader.m_shaderProgram
  if currentProgram ≠ 0 then
    let w1 := w.call (GLCall.glGetIntegerv GLenum.GL_CURRENT_PROGRAM)
    let savedProgram := w1.gl.currentProgram
    let w2 := if currentProgram ≠ savedProgram then
        w1.call (GLCall.glUseProgram currentProgram)
      else w1
    let r := shader.getUniformLocation name w2
    (⟨savedProgram, currentProgram, r.1⟩, r.2.1, r.2.2)
  else
    (⟨0, currentProgram, -1⟩, shader, w)

/-- Destructor of `UniformBinder`: switch back to the saved program. -/
def UniformBinder.destruct (binder : UniformBinder) (w : World) : World :=
  if binder.currentProgram ≠ 0 ∧ binder.currentProgram ≠ binder.savedProgram then
    w.call (GLCall.glUseProgram binder.savedProgram)
  else w

/-- `Shader::setUniform(const std::string&, Glsl::Vec2)`. -/
def setUniformVec2 (s : Shader) (name : String) (x y : ℚ) (w : World) : Shader × World :=
  let b := UniformBinder.construct s name w
  let w1 := if b.1.location ≠ -1 then
      b.2.2.call (GLCall.glUniform2f b.1.location x y)
    else b.2.2
  (b.2.1, b.1.destruct w1)

/-- `Shader::setUniform(const std::string&, const Glsl::Mat4&)`. -/
def setUniformMat4 (s : Shader) (name : String) (matrix : List ℚ) (w : World) :
    Shader × World :=
  let b := UniformBinder.construct s name w
  let w1 := if b.1.location ≠ -1 then
      b.2.2.call (GLCall.glUniformMatrix4fv b.1.location matrix)
    else b.2.2
  (b.2.1, b.1.destruct w1)

/-- The loop of `Shader::bindTextures`: the `i`-th recorded texture goes to unit
`i + 1` (`Texture::bind` with its default coordinate type). -/
def bindTexturesLoop (i : Nat) : List (Int × Texture) → World → World
  | [], w => w
  | (location, texture) :: rest, w =>
    let w1 := w.call (GLCall.glUniform1i location (toInt32 ((i : Int) + 1)))
    let w2 := w1.call (GLCall.glActiveTexture ((i + 1) % 2 ^ 32))
    let w3 := w2.call (GLCall.Texture_bind (some texture) CoordinateType.Normalized)
    bindTexturesLoop (i + 1) rest w3

/-- `Shader::bindTextures`: bind every recorded texture, then leave unit 0 active. -/
def bindTextures (s : Shader) (w : World) : World :=
  (bindTexturesLoop 0 s.m_textures w).call (GLCall.glActiveTexture 0)

/-- `Shader::bind`: use the program (with its textures and the current-texture
sampler) when the shader has one, else no program. -/
def bind (shader : Option ShaderRef) (w : World) : World :=
  match shader with
  | some r =>
    let s := w.getShader r
    if s.m_shaderProgram ≠ 0 then
      let w1 := w.call (GLCall.glUseProgram s.m_shaderProgram)
      let w2 := s.bindTextures w1
      if s.m_currentTexture ≠ -1 then w2.call (GLCall.glUniform1i s.m_currentTexture 0)
      else w2
    else w.call (GLCall.glUseProgram 0)
  | none => w.call (GLCall.glUseProgram 0)

/-- The lambda `createAndAttachShader` of `Shader::compile`. -/
def createAndAttachShader (shaderProgram : Nat) (shaderType : GLenum)
    (shaderTypeStr shaderCode : String) (w : World) : Bool × World :=
  let shader := w.freshHandle.1
  let w1 := w.freshHandle.2.call (GLCall.glCreateShader shaderType shader)
  let w2 := w1.call (GLCall.glShaderSource shader shaderCode)
  let w3 := w2.call (GLCall.glCompileShader shader)
  let w4 := w3.call (GLCall.glGetShaderiv shader GLenum.GL_COMPILE_STATUS)
  if w4.env.compileStatus shader = false then
    let w5 := w4.call (GLCall.glGetShaderInfoLog shader)
    let w6 := w5.err ("Failed to compile " ++ shaderTypeStr ++ " shader:")
    let w7 := w6.call (GLCall.glDeleteShader shader)
    (false, w7.call (GLCall.glDeleteProgram shaderProgram))
  else
    let w5 := w4.call (GLCall.glAttachShader shaderProgram shader)
    (true, w5.call (GLCall.glDeleteShader shader))

/-- `Shader::compile`. The result is the return value, the shader object and the
world. -/
def compile (s : Shader) (vertexShaderCode geometryShaderCode fragmentShaderCode : String)
    (w : World) : Bool × Shader × World :=
  if !isAvailable then
    (false, s, w.err "Failed to create a shader: your system doesn't support shaders")
  else if !geometryShaderCode.isEmpty && !isGeometryAvailable w then
    (false, s,
      w.err "Failed to create a shader: your system doesn't support geometry shaders")
  else
    -- Destroy the shader if it was already created, reset the internal state
    let w1 := if s.m_shaderProgram ≠ 0 then w.call (GLCall.glDeleteProgram s.m_shaderProgram)
      else w
    let s1 : Shader := ⟨0, -1, [], []⟩
    -- Create the program
    let shaderProgram := w1.freshHandle.1
    let w2 := w1.freshHandle.2.call (GLCall.glCreateProgram shaderProgram)
    let v := if !vertexShaderCode.isEmpty then
        createAndAttachShader shaderProgram GLenum.GL_VERTEX_SHADER "vertex"
          vertexShaderCode w2
      else (true, w2)
    if !v.1 then (false, s1, v.2) else
    let g := if !w.config.openglES && !geometryShaderCode.isEmpty then
        createAndAttachShader shaderProgram GLenum.GL_GEOMETRY_SHADER "geometry"
          geometryShaderCode v.2
      else (true, v.2)
    if !g.1 then (false, s1, g.2) else
    let f := if !fragmentShaderCode.isEmpty then
        createAndAttachShader shaderProgram GLenum.GL_FRAGMENT_SHADER "fragment"
          fragmentShaderCode g.2
      else (true, g.2)
    if !f.1 then (false, s1, f.2) else
    -- Link the program
    let w3 := f.2.call (GLCall.glLinkProgram shaderProgram)
    let w4 := w3.call (GLCall.glGetProgramiv shaderProgram GLenum.GL_LINK_STATUS)
    if w4.env.linkStatus shaderProgram = false then
      let w5 := w4.call (GLCall.glGetProgramInfoLog shaderProgram)
      let w6 := w5.err "Failed to link shader:"
      (false, s1, w6.call (GLCall.glDeleteProgram shaderProgram))
    else
      -- Destroy the shader if it was already created, reset the internal state
      let w5 := if s1.m_shaderProgram ≠ 0 then
          w4.call (GLCall.glDeleteProgram s1.m_shaderProgram)
        else w4
      let s2 : Shader := ⟨shaderProgram, -1, [], []⟩
      (true, s2, w5.call GLCall.glFlush)

/-- `Shader::loadFromMemory(vertexShader, fragmentShader)`. -/
def loadFromMemory (s : Shader) (vertexShader fragmentShader : String) (w : World) :
    Bool × Shader × World :=
  compile s vertexShader "" fragmentShader w

/-- Vertex source of the default shader. -/
def defaultVertexSource (openglES : Bool) : String :=
  (if openglES then
    "#version 100\n" ++ "attribute vec2 position;" ++ "attribute vec4 color;" ++
    "varying vec4 sf_color;"
  else
    "#version 330 core\n" ++ "in vec2 position;" ++ "in vec4 color;" ++
    "out vec4 sf_color;") ++
  "uniform mat4 sf_modelview;" ++ "uniform mat4 sf_projection;" ++ "void main()" ++
  "\x7b" ++ "    vec2 pos = position;" ++ "    sf_color = color;" ++
  "    gl_Position = sf_projection * sf_modelview * vec4(pos.xy, 0.0, 1.0);" ++ "\x7d"

/-- Fragment source of the default shader. -/
def defaultFragmentSource (openglES : Bool) : String :=
  (if openglES then
    "#version 100\n" ++ "precision mediump float;" ++ "varying vec4 sf_color;"
  else
    "#version 330 core\n" ++ "in vec4 sf_color;") ++
  "void main()" ++ "\x7b" ++ "    gl_FragColor = sf_color;" ++ "\x7d"

/-- Vertex source of the default textured shader. -/
def defaultTexVertexSource (openglES : Bool) : String :=
  (if openglES then
    "#version 100\n" ++ "attribute vec2 position;" ++ "attribute vec4 color;" ++
    "attribute vec2 texCoord;" ++ "varying vec4 sf_color;" ++ "varying vec2 sf_texCoord;"
  else
    "#version 330 core\n" ++ "in vec2 position;" ++ "in vec4 color;" ++
    "in vec2 texCoord;" ++ "out vec4 sf_color;" ++ "out vec2 sf_texCoord;") ++
  "uniform mat4 sf_modelview;" ++ "uniform mat4 sf_projection;" ++ "void main()" ++
  "\x7b" ++ "    vec2 pos = position;" ++ "    sf_color = color;" ++
  "    sf_texCoord = texCoord;" ++
  "    gl_Position = sf_projection * sf_modelview * vec4(pos.xy, 0.0, 1.0);" ++ "\x7d"

/-- Fragment source of the default textured shader. -/
def defaultTexFragmentSource (openglES : Bool) : String :=
  (if openglES then
    "#version 100\n" ++ "precision mediump float;" ++ "varying vec4 sf_color;" ++
    "varying vec2 sf_texCoord;"
  else
    "#version 330 core\n" ++ "in vec4 sf_color;" ++ "in vec2 sf_texCoord;") ++
  "uniform sampler2D sf_sampler;" ++ "uniform mat4 sf_texture;" ++
  "uniform vec2 factor_npot;" ++ "void main()" ++ "\x7b" ++
  "    vec4 coord = sf_texture * vec4(sf_texCoord, 0.0, 1.0);" ++
  "    coord.xy = mod(coord.xy, factor_npot.xy);" ++
  "    gl_FragColor = texture2D(sf_sampler, coord.xy) * sf_color;" ++ "\x7d"

/-- `Shader::getDefaultShader`: the static instance, compiled on the first call. -/
def getDefaultShader (w : World) : ShaderRef × World :=
  if w.defaultShaderFirst then
    let r := loadFromMemory w.defaultShader (defaultVertexSource w.config.openglES)
      (defaultFragmentSource w.config.openglES) w
    (ShaderRef.defaultShader,
      { r.2.2 with defaultShader := r.2.1, defaultShaderFirst := false })
  else (ShaderRef.defaultShader, w)

/-- `Shader::getDefaultTexShader`: the static instance, compiled on the first call. -/
def getDefaultTexShader (w : World) : ShaderRef × World :=
  if w.defaultTexShaderFirst then
    let r := loadFromMemory w.defaultTexShader (defaultTexVertexSource w.config.openglES)
      (defaultTexFragmentSource w.config.openglES) w
    (ShaderRef.defaultTexShader,
      { r.2.2 with defaultTexShader := r.2.1, defaultTexShaderFirst := false })
  else (ShaderRef.defaultTexShader, w)

end Shader

/-- `usedShader->setUniform(name, Glsl::Vec2)` through a shader pointer. -/
def World.setUniformVec2 (r : ShaderRef) (name : String) (x y : ℚ) (w : World) : World :=
  let res := (w.getShader r).setUniformVec2 name x y w
  res.2.setShader r res.1

/-- `usedShader->setUniform(name, Glsl::Mat4)` through a shader pointer. -/
def World.setUniformMat4 (r : ShaderRef) (name : String) (matrix : List ℚ) (w : World) :
    World :=
  let res := (w.getShader r).setUniformMat4 name matrix w
  res.2.setShader r res.1

/-! ## `RenderTarget` -/

/-- The members of `RenderTarget::StatesCache` that `RenderTarget.cpp` reads or
writes. `vertexCache` is a fixed-size array; its length is its capacity. -/
structure StatesCache where
  enable : Bool
  glStatesSet : Bool
  viewChanged : Bool
  scissorEnabled : Bool
  stencilEnabled : Bool
  lastBlendMode : BlendMode
  lastStencilMode : StencilMode
  lastTextureId : Nat
  lastCoordinateType : CoordinateType
  lastShaderId : Nat
  posAttrib : Int
  colAttrib : Int
  texAttrib : Int
  texCoordsArrayEnabled : Bool
  useVertexCache : Bool
  vertexCache : List Vertex
  defaultBuffer : Nat
  defaultBufferSize : Nat
  defaultArray : Nat
deriving DecidableEq

/-- A render target: the answers of its virtual functions `getSize()` and `isSrgb()`
(the base class answers `false`), its two views, its state cache and its identity. -/
structure RenderTarget where
  size : Vector2u
  srgb : Bool
  m_defaultView : View
  m_view : View
  m_cache : StatesCache
  m_id : Nat
deriving DecidableEq

namespace RenderTarget

def getSize (rt : RenderTarget) : Vector2u := rt.size

def isSrgb (rt : RenderTarget) : Bool := rt.srgb

/-- `RenderTarget::setView`. -/
def setView (rt : RenderTarget) (view : View) : RenderTarget :=
  { rt with m_view := view, m_cache := { rt.m_cache with viewChanged := true } }

def getView (rt : RenderTarget) : View := rt.m_view

def getDefaultView (rt : RenderTarget) : View := rt.m_defaultView

/-- `RenderTarget::getViewport`. -/
def getViewport (rt : RenderTarget) (view : View) : IntRect :=
  let width := (Vector2f.ofVector2u rt.getSize).x
  let height := (Vector2f.ofVector2u rt.getSize).y
  let viewport := view.getViewport
  IntRect.ofLongs (lround (Float32.mul width viewport.position.x))
    (lround (Float32.mul height viewport.position.y))
    (lround (Float32.mul width viewport.size.x)) (lround (Float32.mul height viewport.size.y))

/-- `RenderTarget::getScissor`. -/
def getScissor (rt : RenderTarget) (view : View) : IntRect :=
  let width := (Vector2f.ofVector2u rt.getSize).x
  let height := (Vector2f.ofVector2u rt.getSize).y
  let scissor := view.getScissor
  IntRect.ofLongs (lround (Float32.mul width scissor.position.x))
    (lround (Float32.mul height scissor.position.y))
    (lround (Float32.mul width scissor.size.x)) (lround (Float32.mul height scissor.size.y))

/-- The first statement of `mapPixelToCoords`: the pixel in homogeneous (normalized
device) coordinates. -/
def pixelToNormalized (rt : RenderTarget) (point : Vector2i) (view : View) : Vector2f :=
  -- First, convert from viewport coordinates to homogeneous coordinates
  let viewport := FloatRect.ofIntRect (rt.getViewport view)
  (Vector2f.mk (-1) 1).add
    (((Vector2f.mk 2 (-2)).componentWiseMul
      ((Vector2f.ofVector2i point).sub viewport.position)).componentWiseDiv viewport.size)

/-- `RenderTarget::mapPixelToCoords(Vector2i, const View&)`. -/
def mapPixelToCoords (rt : RenderTarget) (point : Vector2i) (view : View) : Vector2f :=
  -- Then transform by the inverse of the view matrix
  view.getInverseTransform.transformPointFloat (rt.pixelToNormalized point view)

/-- The second statement of `mapCoordsToPixel`: from homogeneous coordinates to
viewport coordinates, before the conversion to `Vector2i`. -/
def normalizedToViewport (rt : RenderTarget) (normalized : Vector2f) (view : View) :
    Vector2f :=
  -- Then convert to viewport coordinates
  let viewport := FloatRect.ofIntRect (rt.getViewport view)
  ((((normalized.componentWiseMul ⟨1, -1⟩).add ⟨1, 1⟩).componentWiseDiv
    ⟨2, 2⟩).componentWiseMul viewport.size).add viewport.position

/-- The float vector that `mapCoordsToPixel` converts to `Vector2i`: the point in
viewport coordinates, before truncation. -/
def coordsToViewport (rt : RenderTarget) (point : Vector2f) (view : View) : Vector2f :=
  -- First, transform the point by the view matrix
  rt.normalizedToViewport (view.getTransform.transformPointFloat point) view

/-- `RenderTarget::mapCoordsToPixel(Vector2f, const View&)`. -/
def mapCoordsToPixel (rt : RenderTarget) (point : Vector2f) (view : View) :
    Option Vector2i :=
  Vector2i.ofVector2f (rt.coordsToViewport point view)

/-- `RenderTarget::setActive`: returns the result, the target and the world. -/
def setActive (rt : RenderTarget) (active : Bool) (w : World) : Bool × RenderTarget × World :=
  let contextId := w.activeContextId
  let it := w.contextRenderTargetMap contextId
  if active then
    match it with
    | none =>
      (true,
        { rt with m_cache := { rt.m_cache with glStatesSet := false, enable := false } },
        { w with contextRenderTargetMap :=
            fun c => if c = contextId then some rt.m_id else w.contextRenderTargetMap c })
    | some second =>
      if second ≠ rt.m_id then
        (true,
          { rt with m_cache := { rt.m_cache with enable := false } },
          { w with contextRenderTargetMap :=
              fun c => if c = contextId then some rt.m_id else w.contextRenderTargetMap c })
      else (true, rt, w)
  else
    let w1 := match it with
      | some _ =>
        { w with contextRenderTargetMap :=
            fun c => if c = contextId then none else w.contextRenderTargetMap c }
      | none => w
    (true, { rt with m_cache := { rt.m_cache with enable := false } }, w1)

/-- The guard `RenderTargetImpl::isActive(m_id) || setActive(true)` that opens every
drawing operation. -/
def ensureActive (rt : RenderTarget) (w : World) : Bool × RenderTarget × World :=
  if RenderTargetImpl.isActive rt.m_id w then (true, rt, w) else rt.setActive true w

/-- `RenderTarget::applyCurrentView`. -/
def applyCurrentView (rt : RenderTarget) (w : World) : RenderTarget × World :=
  -- Set the viewport
  let viewport := rt.getViewport rt.m_view
  let viewportTop :=
    toInt32 (toInt32 rt.getSize.y - toInt32 (viewport.position.y + viewport.size.y))
  let w1 := w.call
    (GLCall.glViewport viewport.position.x viewportTop viewport.size.x viewport.size.y)
  -- Set the scissor rectangle and enable/disable scissor testing
  let r : RenderTarget × World :=
    if rt.m_view.getScissor = ⟨⟨0, 0⟩, ⟨1, 1⟩⟩ then
      if !rt.m_cache.enable || rt.m_cache.scissorEnabled then
        ({ rt with m_cache := { rt.m_cache with scissorEnabled := false } },
          w1.call (GLCall.glDisable GLenum.GL_SCISSOR_TEST))
      else (rt, w1)
    else
      let pixelScissor := rt.getScissor rt.m_view
      let scissorTop :=
        toInt32 (toInt32 rt.getSize.y -
          toInt32 (pixelScissor.position.y + pixelScissor.size.y))
      let w2 := w1.call
        (GLCall.glScissor pixelScissor.position.x scissorTop pixelScissor.size.x
          pixelScissor.size.y)
      if !rt.m_cache.enable || !rt.m_cache.scissorEnabled then
        ({ rt with m_cache := { rt.m_cache with scissorEnabled := true } },
          w2.call (GLCall.glEnable GLenum.GL_SCISSOR_TEST))
      else (rt, w2)
  ({ r.1 with m_cache := { r.1.m_cache with viewChanged := false } }, r.2)

/-- The value of the macro `GLEXT_blend_minmax`: constant `true` on desktop builds,
the extension flag on OpenGL ES builds. -/
def blendMinmax (w : World) : Bool :=
  if w.config.openglES then w.env.EXT_blend_minmax else true

/-- `RenderTarget::applyBlendMode`. -/
def applyBlendMode (rt : RenderTarget) (mode : BlendMode) (w : World) :
    RenderTarget × World :=
  let w1 := w.call
    (GLCall.glBlendFuncSeparate (RenderTargetImpl.factorToGlConstant mode.colorSrcFactor)
      (RenderTargetImpl.factorToGlConstant mode.colorDstFactor)
      (RenderTargetImpl.factorToGlConstant mode.alphaSrcFactor)
      (RenderTargetImpl.factorToGlConstant mode.alphaDstFactor))
  let c := RenderTargetImpl.equationToGlConstant (blendMinmax w1) mode.colorEquation w1
  let a := RenderTargetImpl.equationToGlConstant (blendMinmax c.2) mode.alphaEquation c.2
  let w2 := a.2.call (GLCall.glBlendEquationSeparate c.1 a.1)
  ({ rt with m_cache := { rt.m_cache with lastBlendMode := mode } }, w2)

/-- `RenderTarget::applyStencilMode`. -/
def applyStencilMode (rt : RenderTarget) (mode : StencilMode) (w : World) :
    RenderTarget × World :=
  let r : RenderTarget × World :=
    -- Fast path if we have a default (disabled) stencil mode
    if mode = StencilMode.default then
      if !rt.m_cache.enable || rt.m_cache.stencilEnabled then
        let w1 := w.call (GLCall.glDisable GLenum.GL_STENCIL_TEST)
        let w2 := w1.call (GLCall.glColorMask true true true true)
        ({ rt with m_cache := { rt.m_cache with stencilEnabled := false } }, w2)
      else (rt, w)
    else
      -- Apply the stencil mode
      let w1 := if !rt.m_cache.enable || !rt.m_cache.stencilEnabled then
          w.call (GLCall.glEnable GLenum.GL_STENCIL_TEST)
        else w
      let w2 := w1.call
        (GLCall.glStencilOp GLenum.GL_KEEP
          (RenderTargetImpl.stencilOperationToGlConstant mode.stencilUpdateOperation)
          (RenderTargetImpl.stencilOperationToGlConstant mode.stencilUpdateOperation))
      let w3 := w2.call
        (GLCall.glStencilFunc
          (RenderTargetImpl.stencilFunctionToGlConstant mode.stencilComparison)
          (toInt32 mode.stencilReference) mode.stencilMask)
      ({ rt with m_cache := { rt.m_cache with stencilEnabled := true } }, w3)
  ({ r.1 with m_cache := { r.1.m_cache with lastStencilMode := mode } }, r.2)

/-- `RenderTarget::applyTexture`. -/
def applyTexture (rt : RenderTarget) (texture : Option Texture)
    (coordinateType : CoordinateType) (w : World) : RenderTarget × World :=
  let w1 := w.call (GLCall.Texture_bind texture coordinateType)
  ({ rt with m_cache :=
      { rt.m_cache with
        lastTextureId := match texture with
          | some t => t.m_cacheId
          | none => 0
        lastCoordinateType := coordinateType } }, w1)

/-- The default argument of `applyTexture` (declared in the header, outside `src/`). -/
def applyTextureDefaultCoordinateType : CoordinateType := CoordinateType.Pixels

/-- `glDisableVertexAttribArray` for a cached attribute location, when it is valid. -/
def disableAttrib (location : Int) (w : World) : World :=
  if location ≥ 0 then w.call (GLCall.glDisableVertexAttribArray (location.toNat % 2 ^ 32))
  else w

/-- `glEnableVertexAttribArray` for a cached attribute location, when it is valid. -/
def enableAttrib (location : Int) (w : World) : World :=
  if location ≥ 0 then w.call (GLCall.glEnableVertexAttribArray (location.toNat % 2 ^ 32))
  else w

/-- `RenderTarget::applyShader`. -/
def applyShader (rt : RenderTarget) (shader : Option ShaderRef) (w : World) :
    RenderTarget × World :=
  let w1 := Shader.bind shader w
  match shader with
  | none => (rt, w1)
  | some r =>
    let handle := (w1.getShader r).getNativeHandle
    if rt.m_cache.lastShaderId ≠ handle then
      let w2 := disableAttrib rt.m_cache.posAttrib w1
      let w3 := disableAttrib rt.m_cache.colAttrib w2
      let w4 := disableAttrib rt.m_cache.texAttrib w3
      let pos := w4.env.attribLocation handle "position"
      let w5 := w4.call (GLCall.glGetAttribLocation handle "position")
      let col := w5.env.attribLocation handle "color"
      let w6 := w5.call (GLCall.glGetAttribLocation handle "color")
      let tex := w6.env.attribLocation handle "texCoord"
      let w7 := w6.call (GLCall.glGetAttribLocation handle "texCoord")
      let w8 := enableAttrib pos w7
      let w9 := enableAttrib col w8
      let w10 := enableAttrib tex w9
      ({ rt with m_cache :=
          { rt.m_cache with
            lastShaderId := handle, posAttrib := pos, colAttrib := col, texAttrib := tex } },
        w10)
    else (rt, w1)

/-- `RenderTarget::resetGLStates`. -/
def resetGLStates (rt : RenderTarget) (w : World) : RenderTarget × World :=
  let shaderAvailable := Shader.isAvailable
  let vertexBufferAvailable := w.config.vertexBufferAvailable
  -- Workaround for states not being properly reset on macOS
  let m : RenderTarget × World :=
    if w.config.macOS then
      let d := rt.setActive false w
      if !d.1 then (d.2.1, d.2.2.err "Failed to set render target inactive") else d.2
    else (rt, w)
  let g := m.1.ensureActive m.2
  if g.1 then
    let rt0 := g.2.1
    -- Make sure that the texture unit which is active is the number 0
    let w1 := g.2.2.call (GLCall.glActiveTexture 0)
    -- Define the default OpenGL states
    let w2 := w1.call (GLCall.glDisable GLenum.GL_CULL_FACE)
    let w3 := w2.call (GLCall.glDisable GLenum.GL_DEPTH_TEST)
    let w4 := w3.call (GLCall.glEnable GLenum.GL_BLEND)
    let w5 := disableAttrib rt0.m_cache.posAttrib w4
    let w6 := disableAttrib rt0.m_cache.colAttrib w5
    let w7 := disableAttrib rt0.m_cache.texAttrib w6
    let rt1 := { rt0 with m_cache := { rt0.m_cache with glStatesSet := true } }
    -- Apply the default SFML states
    let b := rt1.applyBlendMode BlendAlpha w7
    let s := b.1.applyStencilMode StencilMode.default b.2
    let t := s.1.applyTexture none applyTextureDefaultCoordinateType s.2
    let h := if shaderAvailable then t.1.applyShader none t.2 else t
    let w8 := if vertexBufferAvailable then h.2.call (GLCall.VertexBuffer_bind none) else h.2
    let rt2 := { h.1 with m_cache :=
      { h.1.m_cache with texCoordsArrayEnabled := true, useVertexCache := false } }
    -- Set the default view
    let rt3 := rt2.setView rt2.getView
    ({ rt3 with m_cache := { rt3.m_cache with enable := true } }, w8)
  else (g.2.1, g.2.2)

/-- The texture-coordinate matrix computed by `setupDraw` (a `std::array` of 16
floats, starting from the identity). -/
def textureMatrix (coordinateType : CoordinateType) (texture : Texture) : List ℚ :=
  let matrix : List ℚ := [1, 0, 0, 0, 0, 1, 0, 0, 0, 0, 1, 0, 0, 0, 0, 1]
  -- Check if we need to define a special texture matrix
  if coordinateType = CoordinateType.Pixels ∨ texture.m_pixelsFlipped = true ∨
      (coordinateType = CoordinateType.Normalized ∧ texture.m_size ≠ texture.m_actualSize) then
    -- Pixel coordinates: convert the range [0 .. size] to [0 .. 1]
    let m1 := if coordinateType = CoordinateType.Pixels then
        (matrix.set 0 (1 / (texture.m_actualSize.x : ℚ))).set 5
          (1 / (texture.m_actualSize.y : ℚ))
      else matrix
    -- Normalized coordinates on a padded texture: relative to the actual size
    let m2 := if coordinateType = CoordinateType.Normalized ∧
          texture.m_size ≠ texture.m_actualSize then
        (m1.set 0 ((texture.m_size.x : ℚ) / (texture.m_actualSize.x : ℚ))).set 5
          ((texture.m_size.y : ℚ) / (texture.m_actualSize.y : ℚ))
      else m1
    -- If pixels are flipped we must invert the Y axis
    if texture.m_pixelsFlipped then
      (m2.set 5 (-(m2.getD 5 0))).set 13
        ((texture.m_size.y : ℚ) / (texture.m_actualSize.y : ℚ))
    else m2
  else matrix

/-- The block of `setupDraw` run when a texture was bound (`setTexture`): upload the
texture matrix, and the size ratio when the actual size is non-zero. -/
def uploadTextureUniforms (usedShader : ShaderRef) (coordinateType : CoordinateType)
    (texture : Texture) (w : World) : World :=
  let w1 := w.setUniformMat4 usedShader "sf_texture" (textureMatrix coordinateType texture)
  if texture.m_actualSize.x ≠ 0 ∧ texture.m_actualSize.y ≠ 0 then
    w1.setUniformVec2 usedShader "factor_npot"
      ((texture.m_size.x : ℚ) / (texture.m_actualSize.x : ℚ))
      ((texture.m_size.y : ℚ) / (texture.m_actualSize.y : ℚ))
  else w1

/-- The choice of `usedShader` in `setupDraw`: the caller's shader, else one of the
two default shaders according to whether a texture is present. -/
def chooseShader (states : RenderStates) (w : World) : ShaderRef × World :=
  match states.shader, states.texture with
  | some address, _ => (ShaderRef.user address, w)
  | none, none => Shader.getDefaultShader w
  | none, some _ => Shader.getDefaultTexShader w

/-- Is the texture of the draw a render-target attachment
(`states.texture && states.texture->m_fboAttachment`)? -/
def isFboAttachment (texture : Option Texture) : Bool :=
  match texture with
  | some t => t.m_fboAttachment
  | none => false

/-- The cache identity of the texture of the draw, 0 for none. -/
def textureCacheId (texture : Option Texture) : Nat :=
  match texture with
  | some t => t.m_cacheId
  | none => 0

/-- `RenderTarget::setupDraw`. -/
def setupDraw (rt : RenderTarget) (useVertexCache : Bool) (states : RenderStates)
    (w : World) : RenderTarget × World :=
  -- Enable or disable sRGB encoding (not on OpenGL ES)
  let w1 := if !w.config.openglES && !rt.m_cache.enable then
      (if rt.isSrgb then w.call (GLCall.glEnable GLenum.GL_FRAMEBUFFER_SRGB)
        else w.call (GLCall.glDisable GLenum.GL_FRAMEBUFFER_SRGB))
    else w
  -- First set the persistent OpenGL states if it's the very first call
  let a := if !rt.m_cache.glStatesSet then rt.resetGLStates w1 else (rt, w1)
  let u := chooseShader states a.2
  let usedShader := u.1
  let w2 := if useVertexCache then
      -- Since vertices are transformed, we must use an identity transform to render them
      u.2.setUniformMat4 usedShader "sf_modelview" Transform.Identity.getMatrix
    else u.2.setUniformMat4 usedShader "sf_modelview" states.transform.getMatrix
  -- Set the viewport
  let viewport := a.1.getViewport a.1.m_view
  let top := toInt32 (toInt32 a.1.getSize.y - toInt32 (viewport.position.y + viewport.size.y))
  let w3 := w2.call (GLCall.glViewport viewport.position.x top viewport.size.x viewport.size.y)
  -- Set the projection matrix
  let w4 := w3.setUniformMat4 usedShader "sf_projection" a.1.m_view.getTransform.getMatrix
  -- Apply the blend mode
  let b := if !a.1.m_cache.enable || decide (states.blendMode ≠ a.1.m_cache.lastBlendMode) then
      a.1.applyBlendMode states.blendMode w4
    else (a.1, w4)
  -- Apply the stencil mode
  let s := if !b.1.m_cache.enable ||
        decide (states.stencilMode ≠ b.1.m_cache.lastStencilMode) then
      b.1.applyStencilMode states.stencilMode b.2
    else b
  -- Mask the color buffer off if necessary
  let w5 := if states.stencilMode.stencilOnly then
      s.2.call (GLCall.glColorMask false false false false)
    else s.2
  -- Apply the texture
  let t : (RenderTarget × World) × Bool :=
    if !s.1.m_cache.enable || isFboAttachment states.texture then
      (s.1.applyTexture states.texture states.coordinateType w5, states.texture.isSome)
    else
      let textureId := textureCacheId states.texture
      let shaderId := (w5.getShader usedShader).getNativeHandle
      if textureId ≠ s.1.m_cache.lastTextureId ∨ shaderId ≠ s.1.m_cache.lastShaderId ∨
          states.coordinateType ≠ s.1.m_cache.lastCoordinateType then
        (s.1.applyTexture states.texture states.coordinateType w5, states.texture.isSome)
      else ((s.1, w5), false)
  let w6 := match states.texture with
    | some texture =>
      if t.2 then uploadTextureUniforms usedShader states.coordinateType texture t.1.2
      else t.1.2
    | none => t.1.2
  t.1.1.applyShader (some usedShader) w6

/-- The table `modes` of `drawPrimitives`. -/
def modes (type : PrimitiveType) : GLenum :=
  match type with
  | PrimitiveType.Points => GLenum.GL_POINTS
  | PrimitiveType.Lines => GLenum.GL_LINES
  | PrimitiveType.LineStrip => GLenum.GL_LINE_STRIP
  | PrimitiveType.Triangles => GLenum.GL_TRIANGLES
  | PrimitiveType.TriangleStrip => GLenum.GL_TRIANGLE_STRIP
  | PrimitiveType.TriangleFan => GLenum.GL_TRIANGLE_FAN

/-- `RenderTarget::drawPrimitives`; the two `std::size_t` arguments are cast to
`GLint` and `GLsizei`. -/
def drawPrimitives (type : PrimitiveType) (firstVertex vertexCount : Nat) (w : World) : World :=
  w.call (GLCall.glDrawArrays (modes type) (toInt32 firstVertex) (toInt32 vertexCount))

/-- `RenderTarget::cleanupDraw`. -/
def cleanupDraw (rt : RenderTarget) (states : RenderStates) (w : World) :
    RenderTarget × World :=
  -- Unbind the shader, if any
  let a := if states.shader.isSome then rt.applyShader none w else (rt, w)
  -- Forcibly unbind a texture that belongs to a RenderTexture
  let b := if isFboAttachment states.texture then
      a.1.applyTexture none applyTextureDefaultCoordinateType a.2
    else a
  -- Mask the color buffer back on if necessary
  let w1 := if states.stencilMode.stencilOnly then
      b.2.call (GLCall.glColorMask true true true true)
    else b.2
  -- Re-enable the cache at the end of the draw if it was disabled
  ({ b.1 with m_cache := { b.1.m_cache with enable := true } }, w1)

/-- The pre-transform loop of `draw`: entry `i` of the vertex cache receives vertex
`i` with its position transformed, for `i < vertexCount`. -/
def preTransform (transform : Transform) (vertices : List Vertex) (vertexCount : Nat)
    (vertexCache : List Vertex) : List Vertex :=
  (List.range vertexCount).foldl
    (fun cache i =>
      cache.set i
        ⟨transform.transformPoint (vertices.getD i default).position,
          (vertices.getD i default).color, (vertices.getD i default).texCoords⟩)
    vertexCache

/-- `sizeof(Vertex)`: two floats, four bytes, two floats. -/
def sizeofVertex : Nat := 20

/-- `glVertexAttribPointer` for a cached attribute location, when it is valid. -/
def attribPointer (location : Int) (size : Nat) (type : GLenum) (normalized : Bool)
    (offset : Nat) (w : World) : World :=
  if location ≥ 0 then
    w.call (GLCall.glVertexAttribPointer (location.toNat % 2 ^ 32) size type normalized
      sizeofVertex offset)
  else w

/-- `RenderTarget::draw(const Vertex*, std::size_t, PrimitiveType, const RenderStates&)`.
`vertices` is `none` for a null pointer; the driver reads `vertexCount` vertices. -/
def draw (rt : RenderTarget) (vertices : Option (List Vertex)) (vertexCount : Nat)
    (type : PrimitiveType) (states : RenderStates) (w : World) : RenderTarget × World :=
  match vertices with
  | none => (rt, w)
  | some vs =>
    -- Nothing to draw?
    if vertexCount = 0 then (rt, w) else
    let g := rt.ensureActive w
    if g.1 then
      let rt0 := g.2.1
      -- Check if the vertex count is low enough so that we can pre-transform them
      let useVertexCache := decide (vertexCount ≤ rt0.m_cache.vertexCache.length)
      let rt1 := if useVertexCache then
          { rt0 with m_cache :=
            { rt0.m_cache with
              vertexCache :=
                preTransform states.transform vs vertexCount rt0.m_cache.vertexCache } }
        else rt0
      let w1 := if !g.2.2.config.openglES then
          g.2.2.call (GLCall.glBindVertexArray rt1.m_cache.defaultArray)
        else g.2.2
      let d := rt1.setupDraw useVertexCache states w1
      -- Check if texture coordinates array is needed
      let enableTexCoordsArray := states.texture.isSome || states.shader.isSome
      let data := if useVertexCache then d.1.m_cache.vertexCache else vs
      let gen : RenderTarget × World :=
        if d.1.m_cache.defaultBuffer = 0 then
          ({ d.1 with m_cache := { d.1.m_cache with defaultBuffer := d.2.freshHandle.1 } },
            d.2.freshHandle.2.call (GLCall.glGenBuffers d.2.freshHandle.1))
        else d
      let rt2 := gen.1
      let w2 := gen.2.call (GLCall.glBindBuffer GLenum.GL_ARRAY_BUFFER rt2.m_cache.defaultBuffer)
      let w3 := w2.call
        (GLCall.glBufferData GLenum.GL_ARRAY_BUFFER ((sizeofVertex * vertexCount) % 2 ^ 64)
          (data.take vertexCount) GLenum.GL_DYNAMIC_DRAW)
      let w4 := attribPointer rt2.m_cache.posAttrib 2 GLenum.GL_FLOAT false 0 w3
      let w5 := attribPointer rt2.m_cache.colAttrib 4 GLenum.GL_UNSIGNED_BYTE true 8 w4
      let w6 := if enableTexCoordsArray then
          attribPointer rt2.m_cache.texAttrib 2 GLenum.GL_FLOAT false 12 w5
        else w5
      let w7 := drawPrimitives type 0 vertexCount w6
      let w8 := w7.call (GLCall.glBindBuffer GLenum.GL_ARRAY_BUFFER 0)
      let w9 := if !w8.config.openglES then w8.call (GLCall.glBindVertexArray 0) else w8
      let c := rt2.cleanupDraw states w9
      -- Update the cache
      ({ c.1 with m_cache :=
          { c.1.m_cache with
            useVertexCache := useVertexCache
            texCoordsArrayEnabled := enableTexCoordsArray } }, c.2)
    else (g.2.1, g.2.2)

/-- `RenderTarget::initialize`. -/
def initializeTarget (rt : RenderTarget) (w : World) : RenderTarget × World :=
  -- Setup the default and current views
  let view := View.ofRect ⟨⟨0, 0⟩, Vector2f.ofVector2u rt.getSize⟩
  let rt1 := { rt with m_defaultView := view, m_view := view }
  let a : RenderTarget × World :=
    if !w.config.openglES then
      let w1 := if rt1.m_cache.defaultArray ≠ 0 then
          w.call (GLCall.glDeleteVertexArrays rt1.m_cache.defaultArray)
        else w
      ({ rt1 with m_cache := { rt1.m_cache with defaultArray := w1.freshHandle.1 } },
        w1.freshHandle.2.call (GLCall.glGenVertexArrays w1.freshHandle.1))
    else (rt1, w)
  let w2 := if a.1.m_cache.defaultBuffer ≠ 0 then
      a.2.call (GLCall.glDeleteBuffers a.1.m_cache.defaultBuffer)
    else a.2
  let w3 := w2.freshHandle.2.call (GLCall.glGenBuffers w2.freshHandle.1)
  -- Generate a unique ID for this RenderTarget
  let i := RenderTargetImpl.getUniqueId w3
  ({ a.1 with
      m_cache :=
        { a.1.m_cache with
          defaultBuffer := w2.freshHandle.1
          defaultBufferSize := 0
          glStatesSet := false }
      m_id := i.1 }, i.2)

/-- `draw(const VertexBuffer&, std::size_t, std::size_t, const RenderStates&)`. -/
def drawVertexBuffer (rt : RenderTarget) (vertexBuffer : VertexBuffer)
    (firstVertex vertexCount : Nat) (states : RenderStates) (w : World) :
    RenderTarget × World :=
  -- VertexBuffer not supported?
  if !w.config.vertexBufferAvailable then
    (rt, w.err "sf::VertexBuffer is not available, drawing skipped")
  -- Sanity check
  else if firstVertex > vertexBuffer.getVertexCount then (rt, w)
  else
    -- Clamp vertexCount to something that makes sense
    let count := min vertexCount (vertexBuffer.getVertexCount - firstVertex)
    -- Nothing to draw?
    if count = 0 ∨ vertexBuffer.getNativeHandle = 0 then (rt, w) else
    let g := rt.ensureActive w
    if g.1 then
      let w1 := if !g.2.2.config.openglES then
          g.2.2.call (GLCall.glBindVertexArray g.2.1.m_cache.defaultArray)
        else g.2.2
      let d := g.2.1.setupDraw false states w1
      -- Bind vertex buffer
      let w2 := d.2.call (GLCall.VertexBuffer_bind (some vertexBuffer.getNativeHandle))
      let w3 := if !d.1.m_cache.enable || !d.1.m_cache.texCoordsArrayEnabled then
          enableAttrib d.1.m_cache.texAttrib w2
        else w2
      let w4 := attribPointer d.1.m_cache.posAttrib 2 GLenum.GL_FLOAT false 0 w3
      let w5 := attribPointer d.1.m_cache.colAttrib 4 GLenum.GL_UNSIGNED_BYTE true 8 w4
      let w6 := attribPointer d.1.m_cache.texAttrib 2 GLenum.GL_FLOAT false 12 w5
      let w7 := drawPrimitives vertexBuffer.getPrimitiveType firstVertex count w6
      -- Unbind vertex buffer
      let w8 := w7.call (GLCall.VertexBuffer_bind none)
      let w9 := if !w8.config.openglES then w8.call (GLCall.glBindVertexArray 0) else w8
      let c := d.1.cleanupDraw states w9
      -- Update the cache
      ({ c.1 with m_cache :=
          { c.1.m_cache with useVertexCache := false, texCoordsArrayEnabled := true } }, c.2)
    else (g.2.1, g.2.2)

/-- `draw(const VertexBuffer&, const RenderStates&)`. -/
def drawWholeVertexBuffer (rt : RenderTarget) (vertexBuffer : VertexBuffer)
    (states : RenderStates) (w : World) : RenderTarget × World :=
  rt.drawVertexBuffer vertexBuffer 0 vertexBuffer.getVertexCount states w

end RenderTarget

/-! ## Sequences of initializations, observed driver calls, sample inputs -/

/-- Initialize the targets of a list one after the other. `between k` stands for
whatever else the program does to the world just before the initialization after
which `k` targets remain. The result is the list of identities assigned, in order,
and the final world. -/
def initializeAll (between : Nat → World → World) : List RenderTarget → World → List Nat × World
  | [], w => ([], w)
  | rt :: rest, w =>
    let r := rt.initializeTarget (between rest.length w)
    let q := initializeAll between rest r.2
    (r.1.m_id :: q.1, q.2)

/-- The driver calls that set the viewport, set or toggle the scissor test, or draw
primitives. -/
def GLCall.isViewportScissorOrDraw : GLCall → Bool
  | GLCall.glViewport _ _ _ _ => true
  | GLCall.glScissor _ _ _ _ => true
  | GLCall.glEnable cap => cap == GLenum.GL_SCISSOR_TEST
  | GLCall.glDisable cap => cap == GLenum.GL_SCISSOR_TEST
  | GLCall.glDrawArrays _ _ _ => true
  | _ => false

/-- The viewport, scissor and draw calls in the driver trace, oldest first. -/
def Driver.observed (d : Driver) : List GLCall :=
  d.trace.filter GLCall.isViewportScissorOrDraw

/-- The viewport, scissor and draw calls issued so far, oldest first. -/
def World.observed (w : World) : List GLCall := w.gl.observed

/-- A driver that accepts every shader, knows every uniform name, and numbers the
three vertex attributes 0, 1, 2. -/
def sampleEnv : DriverEnv :=
  { compileStatus := fun _ => true
    linkStatus := fun _ => true
    uniformLocation := fun _ _ => 0
    attribLocation := fun _ name =>
      if name = "position" then 0 else if name = "color" then 1
      else if name = "texCoord" then 2 else -1
    maxCombinedTextureImageUnits := 16
    EXT_blend_minmax := true }

/-- The world at process start, on an OpenGL ES build, with context 7 active and an
empty driver trace. -/
def sampleWorld : World :=
  World.initial ⟨true, false, true⟩ sampleEnv ⟨[], 0, 1⟩ 7 (fun _ => Shader.empty)

/-- A state cache with nothing applied yet and a scratch buffer of four vertices. -/
def sampleCache : StatesCache :=
  { enable := false
    glStatesSet := false
    viewChanged := false
    scissorEnabled := false
    stencilEnabled := false
    lastBlendMode := BlendAlpha
    lastStencilMode := StencilMode.default
    lastTextureId := 0
    lastCoordinateType := CoordinateType.Pixels
    lastShaderId := 0
    posAttrib := -1
    colAttrib := -1
    texAttrib := -1
    texCoordsArrayEnabled := false
    useVertexCache := false
    vertexCache := List.replicate 4 default
    defaultBuffer := 0
    defaultBufferSize := 0
    defaultArray := 0 }

/-- A view with the full unit rectangle as viewport and scissor and the identity as
transform. -/
def sampleView : View :=
  ⟨⟨⟨0, 0⟩, ⟨1, 1⟩⟩, ⟨⟨0, 0⟩, ⟨1, 1⟩⟩, Transform.Identity, Transform.Identity⟩

/-- A target of 100 x 100 pixels with identity 1. -/
def sampleTarget : RenderTarget :=
  { size := ⟨100, 100⟩
    srgb := false
    m_defaultView := sampleView
    m_view := sampleView
    m_cache := sampleCache
    m_id := 1 }

/-- The quad (0,0), (10,0), (10,10), (0,10), all white. -/
def sampleQuad : List Vertex :=
  [⟨⟨0, 0⟩, ⟨255, 255, 255, 255⟩, ⟨0, 0⟩⟩, ⟨⟨10, 0⟩, ⟨255, 255, 255, 255⟩, ⟨0, 0⟩⟩,
   ⟨⟨10, 10⟩, ⟨255, 255, 255, 255⟩, ⟨0, 0⟩⟩, ⟨⟨0, 10⟩, ⟨255, 255, 255, 255⟩, ⟨0, 0⟩⟩]

/-- A target of 2^31 x 100 pixels: its width does not fit a 32-bit `int`. -/
def hugeTarget : RenderTarget :=
  { sampleTarget with size := ⟨2147483648, 100⟩ }

/-- A view whose normalized viewport is 30,000,000 wide. -/
def wideView : View :=
  { sampleView with viewport := ⟨⟨0, 0⟩, ⟨30000000, 1⟩⟩ }

/-- A target of (2^24 + 1) x 100 pixels: its width is not a single-precision value. -/
def oddTarget : RenderTarget :=
  { sampleTarget with size := ⟨16777217, 100⟩ }

/-- A target of 5 x 5 pixels. -/
def tinyTarget : RenderTarget :=
  { sampleTarget with size := ⟨5, 5⟩ }

/-- A view whose normalized viewport has the width `0.7f`, the single-precision value
nearest to 7/10. -/
def fractionView : View :=
  { sampleView with viewport := ⟨⟨0, 0⟩, ⟨11744051 / 16777216, 1⟩⟩ }

/-- A target of 128 x 64 pixels. -/
def gridTarget : RenderTarget :=
  { sampleTarget with size := ⟨128, 64⟩ }

/-- The spec's rounding, in its own words: `z` is a nearest integer to `x`, and at a
tie the one away from zero. -/
def IsRoundHalfAwayFromZero (x : ℚ) (z : Int) : Prop :=
  |x - (z : ℚ)| < 1 / 2 ∨ (|x - (z : ℚ)| = 1 / 2 ∧ |x| < |(z : ℚ)|)

/-- The viewport rectangle as the spec words it: the target's pixel size times the
view's normalized viewport, each component rounded (no narrowing to `int`). -/
def RenderTarget.specViewport (rt : RenderTarget) (view : View) : IntRect :=
  ⟨⟨lround ((rt.size.x : ℚ) * view.viewport.position.x),
    lround ((rt.size.y : ℚ) * view.viewport.position.y)⟩,
   ⟨lround ((rt.size.x : ℚ) * view.viewport.size.x),
    lround ((rt.size.y : ℚ) * view.viewport.size.y)⟩⟩

/-- A view whose viewport is the top-left half-width, quarter-height corner. -/
def cornerView : View :=
  { sampleView with viewport := ⟨⟨0, 0⟩, ⟨1 / 2, 1 / 4⟩⟩ }

/-- The sample target looking through `cornerView`. -/
def cornerTarget : RenderTarget :=
  { sampleTarget with m_view := cornerView }

/-- The transform of a view and its inverse transform undo each other. -/
def View.MutuallyInverse (v : View) : Prop :=
  (∀ p : Vector2f, v.getTransform.transformPoint (v.getInverseTransform.transformPoint p) = p) ∧
  (∀ p : Vector2f, v.getInverseTransform.transformPoint (v.getTransform.transformPoint p) = p)

/-- A pixel lies strictly inside a pixel rectangle. -/
def IntRect.StrictlyContains (r : IntRect) (p : Vector2i) : Prop :=
  r.position.x < p.x ∧ p.x < r.position.x + r.size.x ∧
  r.position.y < p.y ∧ p.y < r.position.y + r.size.y

instance (r : IntRect) (p : Vector2i) : Decidable (r.StrictlyContains p) := by
  unfold IntRect.StrictlyContains
  exact inferInstance

/-! ## Teardown, kinds of driver calls, further sample inputs -/

/-- `RenderTarget::~RenderTarget`: the vertex-storage object is deleted when its handle
is non-zero; outside OpenGL ES the vertex-layout object is deleted when the test
`!m_cache.defaultArray` holds, that is when its handle is zero. -/
def RenderTarget.destructor (rt : RenderTarget) (w : World) : World :=
  let w1 := if rt.m_cache.defaultBuffer ≠ 0 then
      w.call (GLCall.glDeleteBuffers rt.m_cache.defaultBuffer)
    else w
  if !w1.config.openglES then
    (if rt.m_cache.defaultArray = 0 then
      w1.call (GLCall.glDeleteVertexArrays rt.m_cache.defaultArray)
    else w1)
  else w1

/-- The parts of the world that no operation changes: the build configuration and the
answers of the driver. -/
def World.fixed (w : World) : BuildConfig × DriverEnv := (w.config, w.env)

/-- The members of a shader object that only compilation and the texture uniform setter
change: program handle, current-texture location, texture table. -/
def Shader.core (s : Shader) : Nat × Int × List (Int × Texture) :=
  (s.m_shaderProgram, s.m_currentTexture, s.m_textures)

/-- The `core` of every shader object in the world. -/
def World.shaderCores (w : World) : ShaderRef → Nat × Int × List (Int × Texture) :=
  fun r => (w.getShader r).core

/-- The calls of the driver trace selected by `p`, oldest first. -/
def World.sel (p : GLCall → Bool) (w : World) : List GLCall := w.gl.trace.filter p

/-- The selection `p` avoids the class `k` of calls: no call of class `k` is selected
by `p`. -/
class GLCall.Avoids (p k : GLCall → Bool) : Prop where
  avoids : ∀ c, k c = true → p c = false

/-- The calls a matrix uniform setter can issue for the matrix `matrix`: the query of
the program in use, program switches, the location query and the upload of `matrix`. -/
def GLCall.isMat4SetterCall (matrix : List ℚ) : GLCall → Bool
  | GLCall.glGetIntegerv _ => true
  | GLCall.glUseProgram _ => true
  | GLCall.glGetUniformLocation _ _ => true
  | GLCall.glUniformMatrix4fv _ value => decide (value = matrix)
  | _ => false

/-- The calls a two-component uniform setter can issue for the value `(x, y)`. -/
def GLCall.isVec2SetterCall (x y : ℚ) : GLCall → Bool
  | GLCall.glGetIntegerv _ => true
  | GLCall.glUseProgram _ => true
  | GLCall.glGetUniformLocation _ _ => true
  | GLCall.glUniform2f _ v0 v1 => decide (v0 = x ∧ v1 = y)
  | _ => false

/-- The calls `Shader::compile` can issue. -/
def GLCall.isCompileCall : GLCall → Bool
  | GLCall.glCreateProgram _ => true
  | GLCall.glCreateShader _ _ => true
  | GLCall.glShaderSource _ _ => true
  | GLCall.glCompileShader _ => true
  | GLCall.glGetShaderiv _ _ => true
  | GLCall.glGetShaderInfoLog _ => true
  | GLCall.glDeleteShader _ => true
  | GLCall.glAttachShader _ _ => true
  | GLCall.glLinkProgram _ => true
  | GLCall.glGetProgramiv _ _ => true
  | GLCall.glGetProgramInfoLog _ => true
  | GLCall.glDeleteProgram _ => true
  | GLCall.glFlush => true
  | _ => false

/-- The calls `applyShader` can issue: those of `Shader::bind` and the
vertex attribute queries and toggles. -/
def GLCall.isBindCall : GLCall → Bool
  | GLCall.glUseProgram _ => true
  | GLCall.glUniform1i _ _ => true
  | GLCall.glActiveTexture _ => true
  | GLCall.Texture_bind _ _ => true
  | GLCall.glGetAttribLocation _ _ => true
  | GLCall.glEnableVertexAttribArray _ => true
  | GLCall.glDisableVertexAttribArray _ => true
  | _ => false

/-- The calls `resetGLStates` can issue; the only color-mask call among them is the one
with all four channels true. -/
def GLCall.isResetCall : GLCall → Bool
  | GLCall.glActiveTexture _ => true
  | GLCall.glEnable _ => true
  | GLCall.glDisable _ => true
  | GLCall.glDisableVertexAttribArray _ => true
  | GLCall.glBlendFuncSeparate _ _ _ _ => true
  | GLCall.glBlendEquationSeparate _ _ => true
  | GLCall.glColorMask r g b a => r && g && b && a
  | GLCall.Texture_bind _ _ => true
  | GLCall.glUseProgram _ => true
  | GLCall.VertexBuffer_bind _ => true
  | _ => false

/-- The two blend calls: separate blend factors, separate blend equations. -/
def GLCall.isBlendCall : GLCall → Bool
  | GLCall.glBlendFuncSeparate _ _ _ _ => true
  | GLCall.glBlendEquationSeparate _ _ => true
  | _ => false

/-- The calls that change the stencil state or the color write mask. -/
def GLCall.isStencilCall : GLCall → Bool
  | GLCall.glEnable cap => cap == GLenum.GL_STENCIL_TEST
  | GLCall.glDisable cap => cap == GLenum.GL_STENCIL_TEST
  | GLCall.glColorMask _ _ _ _ => true
  | GLCall.glStencilOp _ _ _ => true
  | GLCall.glStencilFunc _ _ _ => true
  | _ => false

/-- The color-mask calls. -/
def GLCall.isColorMask : GLCall → Bool
  | GLCall.glColorMask _ _ _ _ => true
  | _ => false

/-- The color-mask calls and the primitive draw calls. -/
def GLCall.isColorMaskOrDraw : GLCall → Bool
  | GLCall.glColorMask _ _ _ _ => true
  | GLCall.glDrawArrays _ _ _ => true
  | _ => false

/-- The texture binds (`Texture::bind`). -/
def GLCall.isTextureBind : GLCall → Bool
  | GLCall.Texture_bind _ _ => true
  | _ => false

/-- The uploads of vertex data. -/
def GLCall.isBufferData : GLCall → Bool
  | GLCall.glBufferData _ _ _ _ => true
  | _ => false

/-- The uploads of a matrix uniform. -/
def GLCall.isMatrixUpload : GLCall → Bool
  | GLCall.glUniformMatrix4fv _ _ => true
  | _ => false

/-- The uploads of a matrix uniform that carry another matrix than `matrix`. -/
def GLCall.isOtherMatrixUpload (matrix : List ℚ) : GLCall → Bool
  | GLCall.glUniformMatrix4fv _ value => decide (value ≠ matrix)
  | _ => false

/-- The color-mask calls that mask at least one channel off. -/
def GLCall.isColorMaskOff : GLCall → Bool
  | GLCall.glColorMask r g b a => !(r && g && b && a)
  | _ => false

/-- The uploads of a uniform value. -/
def GLCall.isUniformUpload : GLCall → Bool
  | GLCall.glUniform1i _ _ => true
  | GLCall.glUniform1f _ _ => true
  | GLCall.glUniform2f _ _ _ => true
  | GLCall.glUniformMatrix4fv _ _ => true
  | _ => false

/-- The vertex attribute pointer calls. -/
def GLCall.isAttribPointer : GLCall → Bool
  | GLCall.glVertexAttribPointer _ _ _ _ _ _ => true
  | _ => false

/-- The viewport calls. -/
def GLCall.isViewport : GLCall → Bool
  | GLCall.glViewport _ _ _ _ => true
  | _ => false

/-- The texture binds `Shader::bind` issues for a shader: one per recorded texture
when the shader has a program, none otherwise. -/
def Shader.textureBinds (s : Shader) : List GLCall :=
  if s.m_shaderProgram ≠ 0 then
    s.m_textures.map (fun e => GLCall.Texture_bind (some e.2) CoordinateType.Normalized)
  else []

/-- What the default shaders of `Shader.cpp` compute with a matrix uniform,
`sf_modelview * vec4(pos.xy, 0.0, 1.0)` in the vertex shaders and
`sf_texture * vec4(sf_texCoord, 0.0, 1.0)` in the fragment shader: the product of the
column-major 4x4 matrix with the point `(p.x, p.y, 0, 1)`, of which the first two
components are kept. -/
def Glsl.transformPoint (matrix : List ℚ) (p : Vector2f) : Vector2f :=
  ⟨matrix.getD 0 0 * p.x + matrix.getD 4 0 * p.y + matrix.getD 12 0,
   matrix.getD 1 0 * p.x + matrix.getD 5 0 * p.y + matrix.getD 13 0⟩

/-- The scale factors `(sx, sy)` of the texture matrix as the spec words them:
`(1/aw, 1/ah)` for pixel coordinates, `(w/aw, h/ah)` for normalized coordinates on a
texture whose logical size differs from its backing size, `(1, 1)` otherwise. -/
def RenderTarget.specTextureScale (coordinateType : CoordinateType) (texture : Texture) :
    ℚ × ℚ :=
  match coordinateType with
  | CoordinateType.Pixels =>
    (1 / (texture.m_actualSize.x : ℚ), 1 / (texture.m_actualSize.y : ℚ))
  | CoordinateType.Normalized =>
    if texture.m_size ≠ texture.m_actualSize then
      ((texture.m_size.x : ℚ) / (texture.m_actualSize.x : ℚ),
        (texture.m_size.y : ℚ) / (texture.m_actualSize.y : ℚ))
    else (1, 1)

/-- The texture matrix as the spec words it: the identity except entry 0 = sx and
entry 5 = sy, and for flipped rows entry 5 = -sy and entry 13 = h/ah. -/
def RenderTarget.specTextureMatrix (coordinateType : CoordinateType) (texture : Texture) :
    List ℚ :=
  [(RenderTarget.specTextureScale coordinateType texture).1, 0, 0, 0,
   0, (if texture.m_pixelsFlipped then
        -(RenderTarget.specTextureScale coordinateType texture).2
      else (RenderTarget.specTextureScale coordinateType texture).2), 0, 0,
   0, 0, 1, 0,
   0, (if texture.m_pixelsFlipped then
        (texture.m_size.y : ℚ) / (texture.m_actualSize.y : ℚ)
      else 0), 0, 1]

/-- A state cache after a first draw: the persistent defaults are established and the
cache is trustworthy. -/
def steadyCache : StatesCache :=
  { sampleCache with enable := true, glStatesSet := true }

/-- The sample target with the persistent defaults established. -/
def steadyTarget : RenderTarget :=
  { sampleTarget with m_cache := steadyCache }

/-- The sample world after the textured default shader was compiled to program 5 and
its four uniforms were located. -/
def texturedWorld : World :=
  { sampleWorld with
    defaultTexShader :=
      ⟨5, -1, [],
        [("sf_modelview", 0), ("sf_projection", 1), ("sf_texture", 2), ("factor_npot", 3)]⟩
    defaultTexShaderFirst := false }

/-- The sample world in which context 7 has the sample target (identity 1) active. -/
def activeWorld : World :=
  { sampleWorld with contextRenderTargetMap := fun c => if c = 7 then some 1 else none }

/-- An additive blend mode. -/
def additiveBlend : BlendMode :=
  ⟨Factor.SrcAlpha, Factor.One, Equation.Add, Factor.One, Factor.One, Equation.Add⟩

/-- A stencil mode that replaces the stencil value with 1 wherever it draws. -/
def stencilReplace : StencilMode :=
  ⟨StencilComparison.Always, StencilUpdateOperation.Replace, 1, 255, false⟩

/-- The mode `stencilReplace` with color writes masked off. -/
def stencilReplaceOnly : StencilMode :=
  { stencilReplace with stencilOnly := true }

/-- A 100 x 50 texture stored flipped in a 128 x 64 backing store. -/
def paddedTexture : Texture :=
  { m_size := ⟨100, 50⟩
    m_actualSize := ⟨128, 64⟩
    m_texture := 9
    m_pixelsFlipped := true
    m_fboAttachment := false
    m_cacheId := 42 }

/-- The texture `paddedTexture` as the attachment of a render texture. -/
def attachmentTexture : Texture :=
  { paddedTexture with m_fboAttachment := true }

/-- Render states drawing the attachment texture through the caller's shader at
address 3. -/
def attachmentStates : RenderStates :=
  { RenderStates.Default with texture := some attachmentTexture, shader := some 3 }

/-- The translation by (5, 7). -/
def sampleTranslation : Transform := ⟨1, 0, 5, 0, 1, 7, 0, 0, 1⟩

/-- A vertex buffer of four vertices drawn as a triangle strip, stored in driver
object 6. -/
def sampleBuffer : VertexBuffer := ⟨6, 4, PrimitiveType.TriangleStrip⟩

/-! ### Which selections avoid which classes of calls -/

instance GLCall.avoids_not (cls : GLCall → Bool) : GLCall.Avoids (fun c => !cls c) cls :=
  ⟨fun c h => by simp [h]⟩

instance GLCall.avoids_not_or_left (a b : GLCall → Bool) :
    GLCall.Avoids (fun c => !(a c || b c)) a :=
  ⟨fun c h => by simp [h]⟩

instance GLCall.avoids_not_or_right (a b : GLCall → Bool) :
    GLCall.Avoids (fun c => !(a c || b c)) b :=
  ⟨fun c h => by simp [h]⟩

instance GLCall.isBlendCall_avoids_mat4 (m : List ℚ) :
    GLCall.Avoids GLCall.isBlendCall (GLCall.isMat4SetterCall m) :=
  ⟨by intro c; cases c <;> simp [GLCall.isBlendCall, GLCall.isMat4SetterCall]⟩

instance GLCall.isBlendCall_avoids_vec2 (x y : ℚ) :
    GLCall.Avoids GLCall.isBlendCall (GLCall.isVec2SetterCall x y) :=
  ⟨by intro c; cases c <;> simp [GLCall.isBlendCall, GLCall.isVec2SetterCall]⟩

instance GLCall.isBlendCall_avoids_compile :
    GLCall.Avoids GLCall.isBlendCall GLCall.isCompileCall :=
  ⟨by intro c; cases c <;> simp [GLCall.isBlendCall, GLCall.isCompileCall]⟩

instance GLCall.isBlendCall_avoids_bind :
    GLCall.Avoids GLCall.isBlendCall GLCall.isBindCall :=
  ⟨by intro c; cases c <;> simp [GLCall.isBlendCall, GLCall.isBindCall]⟩

instance GLCall.isStencilCall_avoids_mat4 (m : List ℚ) :
    GLCall.Avoids GLCall.isStencilCall (GLCall.isMat4SetterCall m) :=
  ⟨by intro c; cases c <;> simp [GLCall.isStencilCall, GLCall.isMat4SetterCall]⟩

instance GLCall.isStencilCall_avoids_vec2 (x y : ℚ) :
    GLCall.Avoids GLCall.isStencilCall (GLCall.isVec2SetterCall x y) :=
  ⟨by intro c; cases c <;> simp [GLCall.isStencilCall, GLCall.isVec2SetterCall]⟩

instance GLCall.isStencilCall_avoids_compile :
    GLCall.Avoids GLCall.isStencilCall GLCall.isCompileCall :=
  ⟨by intro c; cases c <;> simp [GLCall.isStencilCall, GLCall.isCompileCall]⟩

instance GLCall.isStencilCall_avoids_bind :
    GLCall.Avoids GLCall.isStencilCall GLCall.isBindCall :=
  ⟨by intro c; cases c <;> simp [GLCall.isStencilCall, GLCall.isBindCall]⟩

instance GLCall.isColorMask_avoids_mat4 (m : List ℚ) :
    GLCall.Avoids GLCall.isColorMask (GLCall.isMat4SetterCall m) :=
  ⟨by intro c; cases c <;> simp [GLCall.isColorMask, GLCall.isMat4SetterCall]⟩

instance GLCall.isColorMask_avoids_vec2 (x y : ℚ) :
    GLCall.Avoids GLCall.isColorMask (GLCall.isVec2SetterCall x y) :=
  ⟨by intro c; cases c <;> simp [GLCall.isColorMask, GLCall.isVec2SetterCall]⟩

instance GLCall.isColorMask_avoids_compile :
    GLCall.Avoids GLCall.isColorMask GLCall.isCompileCall :=
  ⟨by intro c; cases c <;> simp [GLCall.isColorMask, GLCall.isCompileCall]⟩

instance GLCall.isColorMask_avoids_bind :
    GLCall.Avoids GLCall.isColorMask GLCall.isBindCall :=
  ⟨by intro c; cases c <;> simp [GLCall.isColorMask, GLCall.isBindCall]⟩

instance GLCall.isColorMaskOrDraw_avoids_mat4 (m : List ℚ) :
    GLCall.Avoids GLCall.isColorMaskOrDraw (GLCall.isMat4SetterCall m) :=
  ⟨by intro c; cases c <;> simp [GLCall.isColorMaskOrDraw, GLCall.isMat4SetterCall]⟩

instance GLCall.isColorMaskOrDraw_avoids_vec2 (x y : ℚ) :
    GLCall.Avoids GLCall.isColorMaskOrDraw (GLCall.isVec2SetterCall x y) :=
  ⟨by intro c; cases c <;> simp [GLCall.isColorMaskOrDraw, GLCall.isVec2SetterCall]⟩

instance GLCall.isColorMaskOrDraw_avoids_compile :
    GLCall.Avoids GLCall.isColorMaskOrDraw GLCall.isCompileCall :=
  ⟨by intro c; cases c <;> simp [GLCall.isColorMaskOrDraw, GLCall.isCompileCall]⟩

instance GLCall.isColorMaskOrDraw_avoids_bind :
    GLCall.Avoids GLCall.isColorMaskOrDraw GLCall.isBindCall :=
  ⟨by intro c; cases c <;> simp [GLCall.isColorMaskOrDraw, GLCall.isBindCall]⟩

instance GLCall.isTextureBind_avoids_mat4 (m : List ℚ) :
    GLCall.Avoids GLCall.isTextureBind (GLCall.isMat4SetterCall m) :=
  ⟨by intro c; cases c <;> simp [GLCall.isTextureBind, GLCall.isMat4SetterCall]⟩

instance GLCall.isTextureBind_avoids_vec2 (x y : ℚ) :
    GLCall.Avoids GLCall.isTextureBind (GLCall.isVec2SetterCall x y) :=
  ⟨by intro c; cases c <;> simp [GLCall.isTextureBind, GLCall.isVec2SetterCall]⟩

instance GLCall.isTextureBind_avoids_compile :
    GLCall.Avoids GLCall.isTextureBind GLCall.isCompileCall :=
  ⟨by intro c; cases c <;> simp [GLCall.isTextureBind, GLCall.isCompileCall]⟩

instance GLCall.isBufferData_avoids_mat4 (m : List ℚ) :
    GLCall.Avoids GLCall.isBufferData (GLCall.isMat4SetterCall m) :=
  ⟨by intro c; cases c <;> simp [GLCall.isBufferData, GLCall.isMat4SetterCall]⟩

instance GLCall.isBufferData_avoids_vec2 (x y : ℚ) :
    GLCall.Avoids GLCall.isBufferData (GLCall.isVec2SetterCall x y) :=
  ⟨by intro c; cases c <;> simp [GLCall.isBufferData, GLCall.isVec2SetterCall]⟩

instance GLCall.isBufferData_avoids_compile :
    GLCall.Avoids GLCall.isBufferData GLCall.isCompileCall :=
  ⟨by intro c; cases c <;> simp [GLCall.isBufferData, GLCall.isCompileCall]⟩

instance GLCall.isBufferData_avoids_bind :
    GLCall.Avoids GLCall.isBufferData GLCall.isBindCall :=
  ⟨by intro c; cases c <;> simp [GLCall.isBufferData, GLCall.isBindCall]⟩

instance GLCall.isMatrixUpload_avoids_vec2 (x y : ℚ) :
    GLCall.Avoids GLCall.isMatrixUpload (GLCall.isVec2SetterCall x y) :=
  ⟨by intro c; cases c <;> simp [GLCall.isMatrixUpload, GLCall.isVec2SetterCall]⟩

instance GLCall.isMatrixUpload_avoids_compile :
    GLCall.Avoids GLCall.isMatrixUpload GLCall.isCompileCall :=
  ⟨by intro c; cases c <;> simp [GLCall.isMatrixUpload, GLCall.isCompileCall]⟩

instance GLCall.isMatrixUpload_avoids_bind :
    GLCall.Avoids GLCall.isMatrixUpload GLCall.isBindCall :=
  ⟨by intro c; cases c <;> simp [GLCall.isMatrixUpload, GLCall.isBindCall]⟩

instance GLCall.isViewport_avoids_mat4 (m : List ℚ) :
    GLCall.Avoids GLCall.isViewport (GLCall.isMat4SetterCall m) :=
  ⟨by intro c; cases c <;> simp [GLCall.isViewport, GLCall.isMat4SetterCall]⟩

instance GLCall.isViewport_avoids_vec2 (x y : ℚ) :
    GLCall.Avoids GLCall.isViewport (GLCall.isVec2SetterCall x y) :=
  ⟨by intro c; cases c <;> simp [GLCall.isViewport, GLCall.isVec2SetterCall]⟩

instance GLCall.isViewport_avoids_compile :
    GLCall.Avoids GLCall.isViewport GLCall.isCompileCall :=
  ⟨by intro c; cases c <;> simp [GLCall.isViewport, GLCall.isCompileCall]⟩

instance GLCall.isViewport_avoids_bind :
    GLCall.Avoids GLCall.isViewport GLCall.isBindCall :=
  ⟨by intro c; cases c <;> simp [GLCall.isViewport, GLCall.isBindCall]⟩

instance GLCall.isBlendCall_avoids_attribPointer :
    GLCall.Avoids GLCall.isBlendCall GLCall.isAttribPointer :=
  ⟨by intro c; cases c <;> simp [GLCall.isBlendCall, GLCall.isAttribPointer]⟩

instance GLCall.isStencilCall_avoids_attribPointer :
    GLCall.Avoids GLCall.isStencilCall GLCall.isAttribPointer :=
  ⟨by intro c; cases c <;> simp [GLCall.isStencilCall, GLCall.isAttribPointer]⟩

instance GLCall.isColorMask_avoids_attribPointer :
    GLCall.Avoids GLCall.isColorMask GLCall.isAttribPointer :=
  ⟨by intro c; cases c <;> simp [GLCall.isColorMask, GLCall.isAttribPointer]⟩

instance GLCall.isColorMaskOrDraw_avoids_attribPointer :
    GLCall.Avoids GLCall.isColorMaskOrDraw GLCall.isAttribPointer :=
  ⟨by intro c; cases c <;> simp [GLCall.isColorMaskOrDraw, GLCall.isAttribPointer]⟩

instance GLCall.isTextureBind_avoids_attribPointer :
    GLCall.Avoids GLCall.isTextureBind GLCall.isAttribPointer :=
  ⟨by intro c; cases c <;> simp [GLCall.isTextureBind, GLCall.isAttribPointer]⟩

instance GLCall.isBufferData_avoids_attribPointer :
    GLCall.Avoids GLCall.isBufferData GLCall.isAttribPointer :=
  ⟨by intro c; cases c <;> simp [GLCall.isBufferData, GLCall.isAttribPointer]⟩

instance GLCall.isMatrixUpload_avoids_attribPointer :
    GLCall.Avoids GLCall.isMatrixUpload GLCall.isAttribPointer :=
  ⟨by intro c; cases c <;> simp [GLCall.isMatrixUpload, GLCall.isAttribPointer]⟩

instance GLCall.isViewport_avoids_attribPointer :
    GLCall.Avoids GLCall.isViewport GLCall.isAttribPointer :=
  ⟨by intro c; cases c <;> simp [GLCall.isViewport, GLCall.isAttribPointer]⟩

instance GLCall.isBufferData_avoids_reset :
    GLCall.Avoids GLCall.isBufferData GLCall.isResetCall :=
  ⟨by intro c; cases c <;> simp [GLCall.isBufferData, GLCall.isResetCall]⟩

instance GLCall.isMatrixUpload_avoids_reset :
    GLCall.Avoids GLCall.isMatrixUpload GLCall.isResetCall :=
  ⟨by intro c; cases c <;> simp [GLCall.isMatrixUpload, GLCall.isResetCall]⟩

instance GLCall.isViewport_avoids_reset :
    GLCall.Avoids GLCall.isViewport GLCall.isResetCall :=
  ⟨by intro c; cases c <;> simp [GLCall.isViewport, GLCall.isResetCall]⟩

instance GLCall.isColorMaskOff_avoids_mat4 (m : List ℚ) :
    GLCall.Avoids GLCall.isColorMaskOff (GLCall.isMat4SetterCall m) :=
  ⟨by intro c; cases c <;> simp [GLCall.isColorMaskOff, GLCall.isMat4SetterCall]⟩

instance GLCall.isColorMaskOff_avoids_vec2 (x y : ℚ) :
    GLCall.Avoids GLCall.isColorMaskOff (GLCall.isVec2SetterCall x y) :=
  ⟨by intro c; cases c <;> simp [GLCall.isColorMaskOff, GLCall.isVec2SetterCall]⟩

instance GLCall.isColorMaskOff_avoids_compile :
    GLCall.Avoids GLCall.isColorMaskOff GLCall.isCompileCall :=
  ⟨by intro c; cases c <;> simp [GLCall.isColorMaskOff, GLCall.isCompileCall]⟩

instance GLCall.isColorMaskOff_avoids_bind :
    GLCall.Avoids GLCall.isColorMaskOff GLCall.isBindCall :=
  ⟨by intro c; cases c <;> simp [GLCall.isColorMaskOff, GLCall.isBindCall]⟩

instance GLCall.isColorMaskOff_avoids_attribPointer :
    GLCall.Avoids GLCall.isColorMaskOff GLCall.isAttribPointer :=
  ⟨by intro c; cases c <;> simp [GLCall.isColorMaskOff, GLCall.isAttribPointer]⟩

instance GLCall.isColorMaskOff_avoids_reset :
    GLCall.Avoids GLCall.isColorMaskOff GLCall.isResetCall :=
  ⟨by intro c; cases c <;> simp [GLCall.isColorMaskOff, GLCall.isResetCall]⟩

instance GLCall.isOtherMatrixUpload_avoids_mat4 (m : List ℚ) :
    GLCall.Avoids (GLCall.isOtherMatrixUpload m) (GLCall.isMat4SetterCall m) :=
  ⟨by intro c; cases c <;> simp [GLCall.isOtherMatrixUpload, GLCall.isMat4SetterCall]⟩

instance GLCall.isOtherMatrixUpload_avoids_vec2 (k : List ℚ) (x y : ℚ) :
    GLCall.Avoids (GLCall.isOtherMatrixUpload k) (GLCall.isVec2SetterCall x y) :=
  ⟨by intro c; cases c <;> simp [GLCall.isOtherMatrixUpload, GLCall.isVec2SetterCall]⟩

instance GLCall.isOtherMatrixUpload_avoids_compile (k : List ℚ) :
    GLCall.Avoids (GLCall.isOtherMatrixUpload k) GLCall.isCompileCall :=
  ⟨by intro c; cases c <;> simp [GLCall.isOtherMatrixUpload, GLCall.isCompileCall]⟩

instance GLCall.isOtherMatrixUpload_avoids_bind (k : List ℚ) :
    GLCall.Avoids (GLCall.isOtherMatrixUpload k) GLCall.isBindCall :=
  ⟨by intro c; cases c <;> simp [GLCall.isOtherMatrixUpload, GLCall.isBindCall]⟩

instance GLCall.isOtherMatrixUpload_avoids_attribPointer (k : List ℚ) :
    GLCall.Avoids (GLCall.isOtherMatrixUpload k) GLCall.isAttribPointer :=
  ⟨by intro c; cases c <;> simp [GLCall.isOtherMatrixUpload, GLCall.isAttribPointer]⟩

instance GLCall.isOtherMatrixUpload_avoids_reset (k : List ℚ) :
    GLCall.Avoids (GLCall.isOtherMatrixUpload k) GLCall.isResetCall :=
  ⟨by intro c; cases c <;> simp [GLCall.isOtherMatrixUpload, GLCall.isResetCall]⟩

/-! ## Further setters, texture uniforms, kinds of compilation calls -/

/-- Conversion `static_cast<std::size_t>` of an `int` (64-bit wrap-around). -/
def toSizeT (z : Int) : Nat := (z % 2 ^ 64).toNat

/-- `getMaxTextureUnits`. The function-local static `maxUnits` is passed and returned
explicitly: it is `none` until the first call, which asks the driver. -/
def Shader.getMaxTextureUnits (maxUnits : Option Int) (w : World) : Nat × Option Int × World :=
  match maxUnits with
  | some value => (toSizeT value, some value, w)
  | none =>
    let w1 := w.call (GLCall.glGetIntegerv GLenum.GL_MAX_COMBINED_TEXTURE_IMAGE_UNITS)
    let value := w1.env.maxCombinedTextureImageUnits
    (toSizeT value, some value, w1)

/-- `Shader::setUniform(const std::string&, float)`. -/
def Shader.setUniformFloat (s : Shader) (name : String) (x : ℚ) (w : World) : Shader × World :=
  let b := Shader.UniformBinder.construct s name w
  let w1 := if b.1.location ≠ -1 then
      b.2.2.call (GLCall.glUniform1f b.1.location x)
    else b.2.2
  (b.2.1, b.1.destruct w1)

/-- `Shader::setUniform(const std::string&, const Texture&)`: record the texture for the
location of the name; a new location is recorded only while a texture unit is left. The
static of `getMaxTextureUnits` is passed and returned. -/
def Shader.setUniformTexture (s : Shader) (name : String) (texture : Texture)
    (maxUnits : Option Int) (w : World) : Shader × Option Int × World :=
  if s.m_shaderProgram = 0 then (s, maxUnits, w) else
  -- Find the location of the variable in the shader
  let r := s.getUniformLocation name w
  let location := r.1
  if location ≠ -1 then
    -- Store the location -> texture mapping
    match r.2.1.m_textures.lookup location with
    | none =>
      -- New entry, make sure there are enough texture units
      let m := Shader.getMaxTextureUnits maxUnits r.2.2
      if (r.2.1.m_textures.length + 1) % 2 ^ 64 ≥ m.1 then
        (r.2.1, m.2.1,
          m.2.2.err ("Impossible to use texture \"" ++ name ++
            "\" for shader: all available texture units are used"))
      else
        ({ r.2.1 with m_textures := r.2.1.m_textures ++ [(location, texture)] }, m.2.1, m.2.2)
    | some _ =>
      -- Location already used, just replace the texture
      ({ r.2.1 with m_textures :=
          r.2.1.m_textures.map (fun e => if e.1 = location then (location, texture) else e) },
        maxUnits, r.2.2)
  else (r.2.1, maxUnits, r.2.2)

/-- `RenderTarget::pushGLStates` (the `SFML_DEBUG` block, which only reads the driver's
error flag, is left out). -/
def RenderTarget.pushGLStates (rt : RenderTarget) (w : World) : RenderTarget × World :=
  let g := rt.ensureActive w
  g.2.1.resetGLStates g.2.2

/-- The calls that delete a program object. -/
def GLCall.isDeleteProgram : GLCall → Bool
  | GLCall.glDeleteProgram _ => true
  | _ => false

/-- The calls that create or delete a shader-stage object. -/
def GLCall.isStageCreateOrDelete : GLCall → Bool
  | GLCall.glCreateShader _ _ => true
  | GLCall.glDeleteShader _ => true
  | _ => false

/-- The calls that create, attach or delete a shader-stage object. -/
def GLCall.isStageLifetime : GLCall → Bool
  | GLCall.glCreateShader _ _ => true
  | GLCall.glAttachShader _ _ => true
  | GLCall.glDeleteShader _ => true
  | _ => false

/-- The calls that select the program in use. -/
def GLCall.isUseProgram : GLCall → Bool
  | GLCall.glUseProgram _ => true
  | _ => false

/-- The calls that select the active texture unit. -/
def GLCall.isActiveTexture : GLCall → Bool
  | GLCall.glActiveTexture _ => true
  | _ => false

/-- The primitive draw calls. -/
def GLCall.isDrawCall : GLCall → Bool
  | GLCall.glDrawArrays _ _ _ => true
  | _ => false

/-- The calls that set or toggle the scissor test. -/
def GLCall.isScissorCall : GLCall → Bool
  | GLCall.glScissor _ _ _ _ => true
  | GLCall.glEnable cap => cap == GLenum.GL_SCISSOR_TEST
  | GLCall.glDisable cap => cap == GLenum.GL_SCISSOR_TEST
  | _ => false

/-- The stages `Shader::compile` builds, in order, with the name of each in messages:
every non-empty source, the geometry stage only outside OpenGL ES. -/
def Shader.stagesOf (openglES : Bool) (vertexShaderCode geometryShaderCode
    fragmentShaderCode : String) : List (GLenum × String × String) :=
  (if !vertexShaderCode.isEmpty then [(GLenum.GL_VERTEX_SHADER, "vertex", vertexShaderCode)]
    else []) ++
  (if !openglES && !geometryShaderCode.isEmpty then
    [(GLenum.GL_GEOMETRY_SHADER, "geometry", geometryShaderCode)] else []) ++
  (if !fragmentShaderCode.isEmpty then
    [(GLenum.GL_FRAGMENT_SHADER, "fragment", fragmentShaderCode)] else [])

/-- The calls of one run of the lambda `createAndAttachShader` of `Shader::compile` for
the stage object `shader`, according to the compile status the driver reports. -/
def Shader.stageCalls (program shader : Nat) (type : GLenum) (code : String) (status : Bool) :
    List GLCall :=
  [GLCall.glCreateShader type shader, GLCall.glShaderSource shader code,
    GLCall.glCompileShader shader, GLCall.glGetShaderiv shader GLenum.GL_COMPILE_STATUS] ++
  (if status then [GLCall.glAttachShader program shader, GLCall.glDeleteShader shader]
   else [GLCall.glGetShaderInfoLog shader, GLCall.glDeleteShader shader,
     GLCall.glDeleteProgram program])

/-- The calls of building the given stages one after the other, stopping at the first
one the driver rejects, the stage objects being named consecutively from `shader` on;
and whether every stage was accepted. -/
def Shader.stagesRun (env : DriverEnv) (program : Nat) :
    Nat → List (GLenum × String × String) → List GLCall × Bool
  | _, [] => ([], true)
  | shader, (type, _, code) :: rest =>
    if env.compileStatus shader then
      (Shader.stageCalls program shader type code true ++
        (Shader.stagesRun env program (shader + 1) rest).1,
       (Shader.stagesRun env program (shader + 1) rest).2)
    else (Shader.stageCalls program shader type code false, false)

/-- Creation followed by deletion of stage objects of the given types, named
consecutively from `shader` on. -/
def Shader.createdAndDeleted : Nat → List GLenum → List GLCall
  | _, [] => []
  | shader, type :: rest =>
    [GLCall.glCreateShader type shader, GLCall.glDeleteShader shader] ++
      Shader.createdAndDeleted (shader + 1) rest

/-- Creation, attachment to `program` and deletion of stage objects of the given types,
named consecutively from `shader` on. -/
def Shader.attachedAndDeleted (program : Nat) : Nat → List GLenum → List GLCall
  | _, [] => []
  | shader, type :: rest =>
    [GLCall.glCreateShader type shader, GLCall.glAttachShader program shader,
      GLCall.glDeleteShader shader] ++ Shader.attachedAndDeleted program (shader + 1) rest

/-- A driver that rejects every shader stage. -/
def rejectingEnv : DriverEnv := { sampleEnv with compileStatus := fun _ => false }

/-- A driver that compiles every shader stage and links no program. -/
def unlinkingEnv : DriverEnv := { sampleEnv with linkStatus := fun _ => false }

/-- A shader object holding the linked program 5, with one cached uniform location, one
recorded texture and a current-texture location. -/
def linkedShader : Shader := ⟨5, 3, [(4, paddedTexture)], [("sf_modelview", 0)]⟩

/-- The calls by which the recorded textures are assigned to consecutive texture units
from `unit` on: the sampler at the location is given the unit, the unit is made active
and the texture is bound to it. -/
def Shader.unitAssignments : Nat → List (Int × Texture) → List GLCall
  | _, [] => []
  | unit, (location, texture) :: rest =>
    [GLCall.glUniform1i location unit, GLCall.glActiveTexture unit,
      GLCall.Texture_bind (some texture) CoordinateType.Normalized] ++
    Shader.unitAssignments (unit + 1) rest

/-- A shader object holding the linked program 5, with empty tables. -/
def plainShader : Shader := ⟨5, -1, [], []⟩

/-- A world in which `VertexBuffer::isAvailable()` answers false. -/
def unavailableWorld : World :=
  { activeWorld with config := ⟨true, false, false⟩ }

/-- A vertex buffer of 2^31 + 1 vertices. -/
def hugeBuffer : VertexBuffer := ⟨6, 2147483649, PrimitiveType.TriangleStrip⟩

/-- The sample view with the scissor rectangle restricted to the top-left quarter. -/
def scissorView : View :=
  { sampleView with scissor := ⟨⟨0, 0⟩, ⟨1 / 2, 1 / 2⟩⟩ }

/-- The steady sample target after `setView(scissorView)`. -/
def scissorTarget : RenderTarget := steadyTarget.setView scissorView

/-- The view of the rectangle (0, 0, 100, 100), as `View(FloatRect)` projects it, with a
quarter of the unit rectangle as scissor rectangle. -/
def zoomView : View :=
  { sampleView with
    scissor := ⟨⟨0, 0⟩, ⟨1 / 2, 1 / 2⟩⟩
    transform := ⟨1 / 50, 0, -1, 0, -1 / 50, 1, 0, 0, 1⟩
    inverseTransform := ⟨50, 0, 50, 0, -50, 50, 0, 0, 1⟩ }

/-- The steady sample target after `setView(zoomView)`. -/
def zoomTarget : RenderTarget := steadyTarget.setView zoomView

/-! ## Sequences of operations on one render target -/

/-- The operations of a render target that a sequence is made of: the two draw
overloads, `resetGLStates`, `pushGLStates` and `setActive`. -/
inductive RenderTarget.Op where
  | draw (vertices : List Vertex) (vertexCount : Nat) (type : PrimitiveType)
      (states : RenderStates)
  | drawVertexBuffer (vertexBuffer : VertexBuffer) (firstVertex vertexCount : Nat)
      (states : RenderStates)
  | resetGLStates
  | pushGLStates
  | setActive (active : Bool)

/-- Run one operation. -/
def RenderTarget.Op.run (op : RenderTarget.Op) (x : RenderTarget × World) :
    RenderTarget × World :=
  match op with
  | RenderTarget.Op.draw vertices vertexCount type states =>
    x.1.draw (some vertices) vertexCount type states x.2
  | RenderTarget.Op.drawVertexBuffer vertexBuffer firstVertex vertexCount states =>
    x.1.drawVertexBuffer vertexBuffer firstVertex vertexCount states x.2
  | RenderTarget.Op.resetGLStates => x.1.resetGLStates x.2
  | RenderTarget.Op.pushGLStates => x.1.pushGLStates x.2
  | RenderTarget.Op.setActive active => (x.1.setActive active x.2).2

/-- Run a sequence of operations, first to last. -/
def RenderTarget.runAll (ops : List RenderTarget.Op) (x : RenderTarget × World) :
    RenderTarget × World :=
  ops.foldl (fun y op => op.run y) x

/-- Modelled from the spec: the vertex attribute arrays enabled after a list of driver
calls, given those enabled before it; only `glEnableVertexAttribArray` and
`glDisableVertexAttribArray` change them. -/
def GLCall.arraysAfter (enabled : List Nat) : List GLCall → List Nat
  | [] => enabled
  | GLCall.glEnableVertexAttribArray i :: rest =>
    GLCall.arraysAfter (enabled.filter (fun j => j ≠ i) ++ [i]) rest
  | GLCall.glDisableVertexAttribArray i :: rest =>
    GLCall.arraysAfter (enabled.filter (fun j => j ≠ i)) rest
  | _ :: rest => GLCall.arraysAfter enabled rest

/-- Modelled from the spec: for each primitive draw call of a list of driver calls, in
order, the vertex attribute arrays enabled at the moment it is issued. -/
def GLCall.arraysAtDraws (enabled : List Nat) : List GLCall → List (List Nat)
  | [] => []
  | GLCall.glDrawArrays _ _ _ :: rest => enabled :: GLCall.arraysAtDraws enabled rest
  | GLCall.glEnableVertexAttribArray i :: rest =>
    GLCall.arraysAtDraws (enabled.filter (fun j => j ≠ i) ++ [i]) rest
  | GLCall.glDisableVertexAttribArray i :: rest =>
    GLCall.arraysAtDraws (enabled.filter (fun j => j ≠ i)) rest
  | _ :: rest => GLCall.arraysAtDraws enabled rest

/-- The calls that enable or disable a vertex attribute array. -/
def GLCall.isAttribArray : GLCall → Bool
  | GLCall.glEnableVertexAttribArray _ => true
  | GLCall.glDisableVertexAttribArray _ => true
  | _ => false

/-- The call `disableAttrib` issues for a cached attribute location. -/
def RenderTarget.disableCalls (location : Int) : List GLCall :=
  if location ≥ 0 then [GLCall.glDisableVertexAttribArray (location.toNat % 2 ^ 32)] else []

/-- The sample world after the default shader was compiled to program 4. -/
def loadedWorld : World :=
  { activeWorld with
    defaultShader := ⟨4, -1, [], []⟩
    defaultShaderFirst := false }

/-! ## The matrices held by the shader programs -/

/-- Modelled from the spec: the uniform state of the driver as far as 4x4 matrices go:
the program in use and, most recent first, every matrix uploaded together with the
program and the location it went to. -/
structure UniformState where
  current : Nat
  matrices : List ((Nat × Int) × List ℚ)

/-- Modelled from the spec: the effect of one driver call on the uniform state:
`glUseProgram` changes the program in use, `glUniformMatrix4fv` stores a matrix at a
location of the program in use. -/
def GLCall.applyUniform (g : UniformState) : GLCall → UniformState
  | GLCall.glUseProgram program => { g with current := program }
  | GLCall.glUniformMatrix4fv location matrix =>
    { g with matrices := ((g.current, location), matrix) :: g.matrices }
  | _ => g

/-- The uniform state after a list of driver calls. -/
def UniformState.run (g : UniformState) (calls : List GLCall) : UniformState :=
  calls.foldl GLCall.applyUniform g

/-- The most recent matrix uploaded to a location of a program, if any. -/
def UniformState.lastMatrix (g : UniformState) (program : Nat) (location : Int) :
    Option (List ℚ) :=
  g.matrices.lookup (program, location)

/-- The uniform state reached in `w`, counting the calls issued since `w0`. -/
def World.ghost (w w0 : World) : UniformState :=
  UniformState.run ⟨w0.gl.currentProgram, []⟩ (w.gl.trace.drop w0.gl.trace.length)

/-- The location cache of a shader object holds only answers of the driver for the
program of the object. -/
def Shader.Coherent (env : DriverEnv) (s : Shader) : Prop :=
  ∀ name location, s.m_uniforms.lookup name = some location →
    location = env.uniformLocation s.m_shaderProgram name

/-- What every operation of a render target preserves once both default shaders are
compiled: the build and the driver's answers, the program handle and texture table of
every shader object, the coherence of the location caches, and the agreement of the
driver's program in use with the `glUseProgram` calls issued since `w0`. -/
structure World.Inv (w0 w : World) : Prop where
  fixed : w.fixed = w0.fixed
  loaded : w.defaultShaderFirst = false
  loadedTex : w.defaultTexShaderFirst = false
  core : ∀ r, (w.getShader r).core = (w0.getShader r).core
  coherent : ∀ r, (w.getShader r).Coherent w0.env
  grows : w0.gl.trace <+: w.gl.trace
  program : w.gl.currentProgram = (w.ghost w0).current

/-- The shader a draw uses once both default shaders are compiled (the choice of
`usedShader` in `setupDraw`): the caller's shader, else the default shader for its
texture or lack of one. -/
def RenderTarget.usedShader (states : RenderStates) : ShaderRef :=
  match states.shader, states.texture with
  | some address, _ => ShaderRef.user address
  | none, none => ShaderRef.defaultShader
  | none, some _ => ShaderRef.defaultTexShader

/-- The members of a texture that its texture-coordinate matrix is computed from. -/
def Texture.dims (t : Texture) : Vector2u × Vector2u × Bool :=
  (t.m_size, t.m_actualSize, t.m_pixelsFlipped)

/-- A texture whose sizes and flipped flag are the ones on record for its cache
identity, the identity 0 standing for "no texture". -/
def Texture.Registered (texOf : Nat → Vector2u × Vector2u × Bool) (t : Texture) : Prop :=
  t.m_cacheId ≠ 0 ∧ t.dims = texOf t.m_cacheId

/-- The texture cache of a render target can be trusted: when the cache is enabled and
names a texture, the matrix last uploaded to the `sf_texture` location of the program
`lastShaderId` is the one computed from that texture and the cached coordinate type. -/
def RenderTarget.CacheValid (texOf : Nat → Vector2u × Vector2u × Bool) (env : DriverEnv)
    (rt : RenderTarget) (g : UniformState) : Prop :=
  rt.m_cache.enable = true → rt.m_cache.glStatesSet = true →
  ∀ t : Texture, t.Registered texOf → t.m_cacheId = rt.m_cache.lastTextureId →
    env.uniformLocation rt.m_cache.lastShaderId "sf_texture" ≠ -1 →
    g.lastMatrix rt.m_cache.lastShaderId
        (env.uniformLocation rt.m_cache.lastShaderId "sf_texture")
      = some (RenderTarget.textureMatrix rt.m_cache.lastCoordinateType t)

instance GLCall.isDrawCall_avoids_attribPointer :
    GLCall.Avoids GLCall.isDrawCall GLCall.isAttribPointer :=
  ⟨by intro c; cases c <;> simp [GLCall.isDrawCall, GLCall.isAttribPointer]⟩

/-- The texture of an operation: that of the render states of a draw, none otherwise. -/
def RenderTarget.Op.texture : RenderTarget.Op → Option Texture
  | RenderTarget.Op.draw _ _ _ states => states.texture
  | RenderTarget.Op.drawVertexBuffer _ _ _ states => states.texture
  | _ => none

/-- A driver that numbers the uniforms of the default shaders 0 to 3 and knows no other
name. -/
def distinctEnv : DriverEnv :=
  { sampleEnv with
    uniformLocation := fun _ name =>
      if name = "sf_modelview" then 0 else if name = "sf_projection" then 1
      else if name = "sf_texture" then 2 else if name = "factor_npot" then 3 else -1 }

/-- The sample world once both default shaders are compiled (programs 4 and 5), with
every caller's shader compiled to program 6, on the driver `distinctEnv`. -/
def readyWorld : World :=
  { sampleWorld with
    env := distinctEnv
    defaultShader := ⟨4, -1, [], []⟩
    defaultShaderFirst := false
    defaultTexShader := ⟨5, -1, [], []⟩
    defaultTexShaderFirst := false
    userShaders := fun _ => ⟨6, -1, [], []⟩ }

/-- The sizes and flipped flag on record for the cache identity 42, those of
`paddedTexture`. -/
def sampleRegistry (id : Nat) : Vector2u × Vector2u × Bool :=
  if id = 42 then (⟨100, 50⟩, ⟨128, 64⟩, true) else (⟨0, 0⟩, ⟨0, 0⟩, false)

/-- Render states drawing `paddedTexture` with the textured default shader. -/
def paddedStates : RenderStates :=
  { RenderStates.Default with texture := some paddedTexture }

/-! ## Active-target tracking -/

/-- C1: `setActive(true)` when the calling context has no entry, or the entry of another
target: afterwards the registry maps the context to this target (the context is the
same, `isActive` holds for this id and for no other), `cache.enable` is false, and
when there was no entry `cache.glStatesSet` is false too. -/
theorem setActive_true_records_target (rt : RenderTarget) (w : World)
    (h : w.contextRenderTargetMap w.activeContextId ≠ some rt.m_id) :
    (rt.setActive true w).2.2.activeContextId = w.activeContextId ∧
    (rt.setActive true w).2.2.contextRenderTargetMap w.activeContextId = some rt.m_id ∧
    RenderTargetImpl.isActive rt.m_id (rt.setActive true w).2.2 = true ∧
    (∀ j, j ≠ rt.m_id → RenderTargetImpl.isActive j (rt.setActive true w).2.2 = false) ∧
    (rt.setActive true w).2.1.m_cache.enable = false ∧
    (w.contextRenderTargetMap w.activeContextId = none →
      (rt.setActive true w).2.1.m_cache.glStatesSet = false) := by
  unfold RenderTarget.setActive RenderTargetImpl.isActive
  cases hit : w.contextRenderTargetMap w.activeContextId with
  | none =>
    simp only [hit]
    simp
    intro j hj e
    exact hj e.symm
  | some second =>
    have hne : second ≠ rt.m_id := fun e => h (by rw [hit, e])
    simp only [hit]
    simp [hne]
    intro j hj e
    exact hj e.symm

/-- Witness of C1: a target with identity 1 activated in a world whose registry is
empty. -/
theorem setActive_true_records_target_witness :
    sampleWorld.contextRenderTargetMap sampleWorld.activeContextId ≠ some sampleTarget.m_id ∧
    (sampleTarget.setActive true sampleWorld).2.2.contextRenderTargetMap 7 = some 1 ∧
    (sampleTarget.setActive true sampleWorld).2.1.m_cache.enable = false :=
  ⟨by decide,
    (setActive_true_records_target sampleTarget sampleWorld (by decide)).2.1,
    (setActive_true_records_target sampleTarget sampleWorld (by decide)).2.2.2.2.1⟩

/-- C2: `setActive(true)` when the registry already maps the calling context to this
target returns true and changes nothing: the target (its whole cache) and the world
(registry, driver trace, error log) are the ones passed in. -/
theorem setActive_true_same_target_noop (rt : RenderTarget) (w : World)
    (h : w.contextRenderTargetMap w.activeContextId = some rt.m_id) :
    rt.setActive true w = (true, rt, w) := by
  unfold RenderTarget.setActive
  simp [h]

/-- Witness of C2: the sample target activated a second time. -/
theorem setActive_true_same_target_noop_witness :
    (sampleTarget.setActive true sampleWorld).2.2.contextRenderTargetMap
        (sampleTarget.setActive true sampleWorld).2.2.activeContextId
      = some (sampleTarget.setActive true sampleWorld).2.1.m_id ∧
    (sampleTarget.setActive true sampleWorld).2.1.setActive true
        (sampleTarget.setActive true sampleWorld).2.2
      = (true, (sampleTarget.setActive true sampleWorld).2.1,
          (sampleTarget.setActive true sampleWorld).2.2) :=
  ⟨by decide,
    setActive_true_same_target_noop (sampleTarget.setActive true sampleWorld).2.1
      (sampleTarget.setActive true sampleWorld).2.2 (by decide)⟩

/-- C3: `setActive(false)` leaves the calling context without an entry (whatever
target it held), leaves the world unchanged when there was none, leaves the entries
of all other contexts and the context identity unchanged, sets `cache.enable` to
false, and afterwards `isActive` is false for every id. -/
theorem setActive_false_erases (rt : RenderTarget) (w : World) :
    (rt.setActive false w).1 = true ∧
    (rt.setActive false w).2.2.activeContextId = w.activeContextId ∧
    (rt.setActive false w).2.2.contextRenderTargetMap w.activeContextId = none ∧
    (w.contextRenderTargetMap w.activeContextId = none → (rt.setActive false w).2.2 = w) ∧
    (∀ c, c ≠ w.activeContextId →
      (rt.setActive false w).2.2.contextRenderTargetMap c = w.contextRenderTargetMap c) ∧
    (rt.setActive false w).2.1.m_cache.enable = false ∧
    (∀ j, RenderTargetImpl.isActive j (rt.setActive false w).2.2 = false) := by
  unfold RenderTarget.setActive RenderTargetImpl.isActive
  cases hit : w.contextRenderTargetMap w.activeContextId with
  | none =>
    simp only [hit]
    simp [hit]
  | some second =>
    simp only [hit]
    simp +contextual

/-- Counterexample to C4 as stated: on an empty registry, two `setActive(true)` calls in
a row leave `cache.enable` false, not true. -/
theorem setActive_twice_enable_counterexample :
    ((sampleTarget.setActive true sampleWorld).2.1.setActive true
      (sampleTarget.setActive true sampleWorld).2.2).2.1.m_cache.enable = false := by
  decide

/-- C4 (amended): after `setActive(true)` twice in a row, the second call returned true
and changed neither the target (its cache) nor the world (registry, driver trace),
neither call issued a driver call, and `cache.enable` is the value it had before the
first call when the target was already the recorded one, and false otherwise. -/
theorem setActive_twice (rt : RenderTarget) (w : World) :
    (rt.setActive true w).2.1.setActive true (rt.setActive true w).2.2
      = (true, (rt.setActive true w).2.1, (rt.setActive true w).2.2) ∧
    ((rt.setActive true w).2.1.setActive true (rt.setActive true w).2.2).2.2.gl.trace
      = w.gl.trace ∧
    ((rt.setActive true w).2.1.setActive true (rt.setActive true w).2.2).2.1.m_cache.enable
      = (if RenderTargetImpl.isActive rt.m_id w then rt.m_cache.enable else false) := by
  unfold RenderTarget.setActive RenderTargetImpl.isActive
  cases hit : w.contextRenderTargetMap w.activeContextId with
  | none =>
    simp only [hit]
    simp
  | some second =>
    simp only [hit]
    by_cases hs : second = rt.m_id
    · simp [hs, hit]
    · simp [hs]

/-! ## Identities -/

theorem initializeTarget_id (rt : RenderTarget) (w : World) :
    (rt.initializeTarget w).1.m_id = w.uniqueId ∧
    (rt.initializeTarget w).2.uniqueId = (w.uniqueId + 1) % 2 ^ 64 := by
  unfold RenderTarget.initializeTarget RenderTargetImpl.getUniqueId
  constructor <;> (simp only []; split_ifs <;> rfl)

theorem initializeAll_ids (between : Nat → World → World)
    (hb : ∀ (k : Nat) (w : World), (between k w).uniqueId = w.uniqueId)
    (rts : List RenderTarget) :
    ∀ w : World, w.uniqueId + rts.length ≤ 2 ^ 64 →
      (initializeAll between rts w).1 = List.range' w.uniqueId rts.length := by
  induction rts with
  | nil => intro w _; rfl
  | cons rt rest ih =>
    intro w h
    have hlen : (rt :: rest).length = rest.length + 1 := rfl
    rw [hlen] at h
    have hid := initializeTarget_id rt (between rest.length w)
    rw [hb] at hid
    cases rest with
    | nil => simpa [initializeAll] using hid.1
    | cons r2 rest2 =>
      have hlen2 : (r2 :: rest2).length = rest2.length + 1 := rfl
      rw [hlen2] at h
      have hmod : (w.uniqueId + 1) % 2 ^ 64 = w.uniqueId + 1 :=
        Nat.mod_eq_of_lt (by omega)
      have h2 : (rt.initializeTarget (between (r2 :: rest2).length w)).2.uniqueId
          + (r2 :: rest2).length ≤ 2 ^ 64 := by
        rw [hid.2, hmod, hlen2]; omega
      have := ih (rt.initializeTarget (between (r2 :: rest2).length w)).2 h2
      unfold initializeAll
      simp only [this, hid.1, hid.2, hmod]
      rw [hlen, List.range'_succ]

/-- C5: `getUniqueId` returns 1 on its first call; while the 64-bit counter has not
wrapped, a call returns one more than the call before it; hence the identities that
fewer than 2^64 initializations assign from process start, whatever else happens to
the world in between that leaves the function-local counter alone, are 1, 2, 3, ... in
order: each is non-zero, and each is strictly greater than (so different from) every
identity assigned before it. -/
theorem getUniqueId_counts (config : BuildConfig) (env : DriverEnv) (gl : Driver)
    (contextId : Nat) (userShaders : Nat → Shader) (between : Nat → World → World)
    (rts : List RenderTarget)
    (hb : ∀ (k : Nat) (w : World), (between k w).uniqueId = w.uniqueId)
    (h : rts.length < 2 ^ 64) :
    (RenderTargetImpl.getUniqueId
      (World.initial config env gl contextId userShaders)).1 = 1 ∧
    (∀ w : World, w.uniqueId + 1 < 2 ^ 64 →
      (RenderTargetImpl.getUniqueId (RenderTargetImpl.getUniqueId w).2).1
        = (RenderTargetImpl.getUniqueId w).1 + 1) ∧
    (initializeAll between rts (World.initial config env gl contextId userShaders)).1
      = List.range' 1 rts.length ∧
    (∀ id ∈ (initializeAll between rts
        (World.initial config env gl contextId userShaders)).1, id ≠ 0) ∧
    List.Pairwise (fun earlier later => earlier < later)
      (initializeAll between rts (World.initial config env gl contextId userShaders)).1 := by
  have hids := initializeAll_ids between hb rts
    (World.initial config env gl contextId userShaders)
    (by simp only [World.initial]; omega)
  have h1 : (World.initial config env gl contextId userShaders).uniqueId = 1 := rfl
  rw [h1] at hids
  refine ⟨rfl, ?_, hids, ?_, ?_⟩
  · intro w hw
    simp only [RenderTargetImpl.getUniqueId]
    exact Nat.mod_eq_of_lt hw
  · intro id hid
    rw [hids, List.mem_range'_1] at hid
    omega
  · rw [hids]
    exact List.pairwise_lt_range' 1 rts.length

/-- Witness of C5: two targets initialized from process start, each after an
activation of the sample target, get identities 1, 2. -/
theorem getUniqueId_counts_witness :
    [sampleTarget, sampleTarget].length < 2 ^ 64 ∧
    (initializeAll (fun _ w => (sampleTarget.setActive true w).2.2)
      [sampleTarget, sampleTarget] sampleWorld).1 = [1, 2] :=
  ⟨by decide,
    (getUniqueId_counts ⟨true, false, true⟩ sampleEnv ⟨[], 0, 1⟩ 7 (fun _ => Shader.empty)
      (fun _ w => (sampleTarget.setActive true w).2.2) [sampleTarget, sampleTarget]
      (by
        intro k w
        unfold RenderTarget.setActive
        cases hit : w.contextRenderTargetMap w.activeContextId <;> simp only [hit]
        · rfl
        · simp only [if_true]
          split_ifs <;> rfl)
      (by decide)).2.2.1⟩

/-! ## Nothing to draw -/

/-- C6: `draw` with a null vertex pointer or a vertex count of 0 returns the target
(every field of its state cache) and the world (driver trace, error log, registry)
unchanged. -/
theorem draw_nothing (rt : RenderTarget) (vertices : Option (List Vertex))
    (vertexCount : Nat) (type : PrimitiveType) (states : RenderStates) (w : World)
    (h : vertices = none ∨ vertexCount = 0) :
    rt.draw vertices vertexCount type states w = (rt, w) := by
  unfold RenderTarget.draw
  cases vertices with
  | none => rfl
  | some vs =>
    cases h with
    | inl h => cases h
    | inr h => simp [h]

/-- Witness of C6: drawing zero vertices of the sample quad. -/
theorem draw_nothing_witness :
    ((some sampleQuad = none ∨ 0 = 0) ∧
      (sampleTarget.draw (some sampleQuad) 0 PrimitiveType.TriangleStrip
        RenderStates.Default sampleWorld).2.gl.trace = []) ∧
    (sampleTarget.draw none 4 PrimitiveType.TriangleStrip
        RenderStates.Default sampleWorld).2.errLog = [] :=
  ⟨⟨Or.inr rfl,
    by rw [draw_nothing sampleTarget (some sampleQuad) 0 PrimitiveType.TriangleStrip
        RenderStates.Default sampleWorld (Or.inr rfl)]; rfl⟩,
    by rw [draw_nothing sampleTarget none 4 PrimitiveType.TriangleStrip
        RenderStates.Default sampleWorld (Or.inl rfl)]; rfl⟩

/-! ## Viewport, scissor and draw calls issued by the pipeline -/

theorem fst_ite {α β : Type} (c : Prop) [Decidable c] (p q : α × β) :
    (if c then p else q).1 = if c then p.1 else q.1 := by
  split_ifs <;> rfl

theorem snd_ite {α β : Type} (c : Prop) [Decidable c] (p q : α × β) :
    (if c then p else q).2 = if c then p.2 else q.2 := by
  split_ifs <;> rfl

@[simp]
theorem World.observed_ite (c : Prop) [Decidable c] (a b : World) :
    (if c then a else b).observed = if c then a.observed else b.observed := by
  split_ifs <;> rfl

@[simp]
theorem World.observed_mk (config : BuildConfig) (env : DriverEnv) (gl : Driver)
    (ctx : Nat) (m : Nat → Option Nat) (u : Nat) (wn : Bool) (d : Shader) (df : Bool)
    (dt : Shader) (dtf : Bool) (us : Nat → Shader) (el : List String) :
    (World.mk config env gl ctx m u wn d df dt dtf us el).observed = gl.observed :=
  rfl

@[simp]
theorem World.gl_observed (w : World) : w.gl.observed = w.observed :=
  rfl

@[simp]
theorem World.observed_call (c : GLCall) (w : World) :
    (w.call c).observed
      = w.observed ++ (if c.isViewportScissorOrDraw then [c] else []) := by
  cases c <;> simp [World.observed, Driver.observed, World.call, Driver.call,
    List.filter_append, List.filter_cons]

@[simp]
theorem World.observed_err (msg : String) (w : World) : (w.err msg).observed = w.observed :=
  rfl

@[simp]
theorem World.observed_freshHandle (w : World) : w.freshHandle.2.observed = w.observed :=
  rfl

@[simp]
theorem World.observed_setShader (r : ShaderRef) (s : Shader) (w : World) :
    (w.setShader r s).observed = w.observed := by
  cases r <;> rfl

@[simp]
theorem Shader.getUniformLocation_observed (s : Shader) (name : String) (w : World) :
    (s.getUniformLocation name w).2.2.observed = w.observed := by
  unfold Shader.getUniformLocation
  split
  · rfl
  · simp [World.observed_ite, World.observed_call, World.observed_err,
      GLCall.isViewportScissorOrDraw]

@[simp]
theorem Shader.UniformBinder.construct_observed (s : Shader) (name : String) (w : World) :
    (Shader.UniformBinder.construct s name w).2.2.observed = w.observed := by
  unfold Shader.UniformBinder.construct
  simp [snd_ite, World.observed_ite, World.observed_call, Shader.getUniformLocation_observed,
    GLCall.isViewportScissorOrDraw]

@[simp]
theorem Shader.UniformBinder.destruct_observed (b : Shader.UniformBinder) (w : World) :
    (b.destruct w).observed = w.observed := by
  unfold Shader.UniformBinder.destruct
  simp [World.observed_ite, World.observed_call, GLCall.isViewportScissorOrDraw]

@[simp]
theorem Shader.setUniformVec2_observed (s : Shader) (name : String) (x y : ℚ) (w : World) :
    (s.setUniformVec2 name x y w).2.observed = w.observed := by
  unfold Shader.setUniformVec2
  simp [GLCall.isViewportScissorOrDraw]

@[simp]
theorem Shader.setUniformMat4_observed (s : Shader) (name : String) (m : List ℚ)
    (w : World) : (s.setUniformMat4 name m w).2.observed = w.observed := by
  unfold Shader.setUniformMat4
  simp [GLCall.isViewportScissorOrDraw]

@[simp]
theorem World.setUniformVec2_ref_observed (r : ShaderRef) (name : String) (x y : ℚ)
    (w : World) : (w.setUniformVec2 r name x y).observed = w.observed := by
  unfold World.setUniformVec2
  simp

@[simp]
theorem World.setUniformMat4_ref_observed (r : ShaderRef) (name : String) (m : List ℚ)
    (w : World) : (w.setUniformMat4 r name m).observed = w.observed := by
  unfold World.setUniformMat4
  simp

@[simp]
theorem Shader.bindTexturesLoop_observed (l : List (Int × Texture)) :
    ∀ (i : Nat) (w : World), (Shader.bindTexturesLoop i l w).observed = w.observed := by
  induction l with
  | nil => intro i w; rfl
  | cons e rest ih =>
    intro i w
    obtain ⟨location, texture⟩ := e
    simp [Shader.bindTexturesLoop, ih, GLCall.isViewportScissorOrDraw]

@[simp]
theorem Shader.bindTextures_observed (s : Shader) (w : World) :
    (s.bindTextures w).observed = w.observed := by
  unfold Shader.bindTextures
  simp [GLCall.isViewportScissorOrDraw]

@[simp]
theorem Shader.bind_observed (shader : Option ShaderRef) (w : World) :
    (Shader.bind shader w).observed = w.observed := by
  unfold Shader.bind
  cases shader <;> simp [GLCall.isViewportScissorOrDraw]

@[simp]
theorem Shader.createAndAttachShader_observed (program : Nat) (type : GLenum)
    (typeStr code : String) (w : World) :
    (Shader.createAndAttachShader program type typeStr code w).2.observed = w.observed := by
  unfold Shader.createAndAttachShader
  simp [snd_ite, GLCall.isViewportScissorOrDraw]

@[simp]
theorem Shader.compile_observed (s : Shader) (v g f : String) (w : World) :
    (Shader.compile s v g f w).2.2.observed = w.observed := by
  unfold Shader.compile
  simp [snd_ite, GLCall.isViewportScissorOrDraw]

@[simp]
theorem Shader.loadFromMemory_observed (s : Shader) (v f : String) (w : World) :
    (Shader.loadFromMemory s v f w).2.2.observed = w.observed := by
  unfold Shader.loadFromMemory
  simp

@[simp]
theorem Shader.getDefaultShader_observed (w : World) :
    (Shader.getDefaultShader w).2.observed = w.observed := by
  unfold Shader.getDefaultShader
  simp [snd_ite]

@[simp]
theorem Shader.getDefaultTexShader_observed (w : World) :
    (Shader.getDefaultTexShader w).2.observed = w.observed := by
  unfold Shader.getDefaultTexShader
  simp [snd_ite]

@[simp]
theorem RenderTarget.size_ite (c : Prop) [Decidable c] (a b : RenderTarget) :
    (if c then a else b).size = if c then a.size else b.size := by
  split_ifs <;> rfl

@[simp]
theorem RenderTarget.view_ite (c : Prop) [Decidable c] (a b : RenderTarget) :
    (if c then a else b).m_view = if c then a.m_view else b.m_view := by
  split_ifs <;> rfl

@[simp]
theorem RenderTargetImpl.equationToGlConstant_observed (b : Bool) (e : Equation)
    (w : World) : (RenderTargetImpl.equationToGlConstant b e w).2.observed = w.observed := by
  unfold RenderTargetImpl.equationToGlConstant
  cases e <;> simp [snd_ite]

@[simp]
theorem RenderTarget.setActive_observed (rt : RenderTarget) (active : Bool) (w : World) :
    (rt.setActive active w).2.2.observed = w.observed := by
  unfold RenderTarget.setActive
  cases active <;> cases h : w.contextRenderTargetMap w.activeContextId <;>
    simp [h, snd_ite]

@[simp]
theorem RenderTarget.setActive_size (rt : RenderTarget) (active : Bool) (w : World) :
    (rt.setActive active w).2.1.size = rt.size := by
  unfold RenderTarget.setActive
  cases active <;> cases h : w.contextRenderTargetMap w.activeContextId <;>
    simp [h, snd_ite, fst_ite]

@[simp]
theorem RenderTarget.setActive_view (rt : RenderTarget) (active : Bool) (w : World) :
    (rt.setActive active w).2.1.m_view = rt.m_view := by
  unfold RenderTarget.setActive
  cases active <;> cases h : w.contextRenderTargetMap w.activeContextId <;>
    simp [h, snd_ite, fst_ite]

@[simp]
theorem RenderTarget.setActive_result (rt : RenderTarget) (active : Bool) (w : World) :
    (rt.setActive active w).1 = true := by
  unfold RenderTarget.setActive
  cases active <;> cases h : w.contextRenderTargetMap w.activeContextId <;>
    simp [h, fst_ite]

@[simp]
theorem RenderTarget.ensureActive_result (rt : RenderTarget) (w : World) :
    (rt.ensureActive w).1 = true := by
  unfold RenderTarget.ensureActive
  simp [fst_ite]

@[simp]
theorem RenderTarget.ensureActive_observed (rt : RenderTarget) (w : World) :
    (rt.ensureActive w).2.2.observed = w.observed := by
  unfold RenderTarget.ensureActive
  simp [snd_ite]

@[simp]
theorem RenderTarget.ensureActive_size (rt : RenderTarget) (w : World) :
    (rt.ensureActive w).2.1.size = rt.size := by
  unfold RenderTarget.ensureActive
  simp [snd_ite, fst_ite]

@[simp]
theorem RenderTarget.ensureActive_view (rt : RenderTarget) (w : World) :
    (rt.ensureActive w).2.1.m_view = rt.m_view := by
  unfold RenderTarget.ensureActive
  simp [snd_ite, fst_ite]

@[simp]
theorem RenderTarget.applyBlendMode_observed (rt : RenderTarget) (mode : BlendMode)
    (w : World) : (rt.applyBlendMode mode w).2.observed = w.observed := by
  unfold RenderTarget.applyBlendMode
  simp [GLCall.isViewportScissorOrDraw]

@[simp]
theorem RenderTarget.applyBlendMode_size (rt : RenderTarget) (mode : BlendMode)
    (w : World) : (rt.applyBlendMode mode w).1.size = rt.size :=
  rfl

@[simp]
theorem RenderTarget.applyBlendMode_view (rt : RenderTarget) (mode : BlendMode)
    (w : World) : (rt.applyBlendMode mode w).1.m_view = rt.m_view :=
  rfl

@[simp]
theorem RenderTarget.applyStencilMode_observed (rt : RenderTarget) (mode : StencilMode)
    (w : World) : (rt.applyStencilMode mode w).2.observed = w.observed := by
  unfold RenderTarget.applyStencilMode
  simp [snd_ite, GLCall.isViewportScissorOrDraw]

@[simp]
theorem RenderTarget.applyStencilMode_size (rt : RenderTarget) (mode : StencilMode)
    (w : World) : (rt.applyStencilMode mode w).1.size = rt.size := by
  unfold RenderTarget.applyStencilMode
  simp [fst_ite]

@[simp]
theorem RenderTarget.applyStencilMode_view (rt : RenderTarget) (mode : StencilMode)
    (w : World) : (rt.applyStencilMode mode w).1.m_view = rt.m_view := by
  unfold RenderTarget.applyStencilMode
  simp [fst_ite]

@[simp]
theorem RenderTarget.applyTexture_observed (rt : RenderTarget) (t : Option Texture)
    (c : CoordinateType) (w : World) : (rt.applyTexture t c w).2.observed = w.observed := by
  unfold RenderTarget.applyTexture
  simp [GLCall.isViewportScissorOrDraw]

@[simp]
theorem RenderTarget.applyTexture_size (rt : RenderTarget) (t : Option Texture)
    (c : CoordinateType) (w : World) : (rt.applyTexture t c w).1.size = rt.size :=
  rfl

@[simp]
theorem RenderTarget.applyTexture_view (rt : RenderTarget) (t : Option Texture)
    (c : CoordinateType) (w : World) : (rt.applyTexture t c w).1.m_view = rt.m_view :=
  rfl

@[simp]
theorem RenderTarget.disableAttrib_observed (location : Int) (w : World) :
    (RenderTarget.disableAttrib location w).observed = w.observed := by
  unfold RenderTarget.disableAttrib
  simp [GLCall.isViewportScissorOrDraw]

@[simp]
theorem RenderTarget.enableAttrib_observed (location : Int) (w : World) :
    (RenderTarget.enableAttrib location w).observed = w.observed := by
  unfold RenderTarget.enableAttrib
  simp [GLCall.isViewportScissorOrDraw]

@[simp]
theorem RenderTarget.attribPointer_observed (location : Int) (size : Nat) (type : GLenum)
    (normalized : Bool) (offset : Nat) (w : World) :
    (RenderTarget.attribPointer location size type normalized offset w).observed
      = w.observed := by
  unfold RenderTarget.attribPointer
  simp [GLCall.isViewportScissorOrDraw]

@[simp]
theorem RenderTarget.applyShader_observed (rt : RenderTarget) (shader : Option ShaderRef)
    (w : World) : (rt.applyShader shader w).2.observed = w.observed := by
  unfold RenderTarget.applyShader
  cases shader <;> simp [snd_ite, GLCall.isViewportScissorOrDraw]

@[simp]
theorem RenderTarget.applyShader_size (rt : RenderTarget) (shader : Option ShaderRef)
    (w : World) : (rt.applyShader shader w).1.size = rt.size := by
  unfold RenderTarget.applyShader
  cases shader <;> simp [fst_ite]

@[simp]
theorem RenderTarget.applyShader_view (rt : RenderTarget) (shader : Option ShaderRef)
    (w : World) : (rt.applyShader shader w).1.m_view = rt.m_view := by
  unfold RenderTarget.applyShader
  cases shader <;> simp [fst_ite]

@[simp]
theorem RenderTarget.resetGLStates_observed (rt : RenderTarget) (w : World) :
    (rt.resetGLStates w).2.observed = w.observed := by
  unfold RenderTarget.resetGLStates
  simp [snd_ite, fst_ite, Shader.isAvailable, GLCall.isViewportScissorOrDraw]

@[simp]
theorem RenderTarget.resetGLStates_size (rt : RenderTarget) (w : World) :
    (rt.resetGLStates w).1.size = rt.size := by
  unfold RenderTarget.resetGLStates
  simp [snd_ite, fst_ite, Shader.isAvailable, RenderTarget.setView]

@[simp]
theorem RenderTarget.resetGLStates_view (rt : RenderTarget) (w : World) :
    (rt.resetGLStates w).1.m_view = rt.m_view := by
  unfold RenderTarget.resetGLStates
  simp [snd_ite, fst_ite, Shader.isAvailable, RenderTarget.setView, RenderTarget.getView]

@[simp]
theorem RenderTarget.chooseShader_observed (states : RenderStates) (w : World) :
    (RenderTarget.chooseShader states w).2.observed = w.observed := by
  unfold RenderTarget.chooseShader
  split <;> simp

@[simp]
theorem RenderTarget.uploadTextureUniforms_observed (r : ShaderRef) (c : CoordinateType)
    (t : Texture) (w : World) :
    (RenderTarget.uploadTextureUniforms r c t w).observed = w.observed := by
  unfold RenderTarget.uploadTextureUniforms
  simp

@[simp]
theorem RenderTarget.cleanupDraw_observed (rt : RenderTarget) (states : RenderStates)
    (w : World) : (rt.cleanupDraw states w).2.observed = w.observed := by
  unfold RenderTarget.cleanupDraw
  simp [snd_ite, GLCall.isViewportScissorOrDraw]

@[simp]
theorem RenderTarget.drawPrimitives_observed (type : PrimitiveType) (first count : Nat)
    (w : World) :
    (RenderTarget.drawPrimitives type first count w).observed
      = w.observed ++
        [GLCall.glDrawArrays (RenderTarget.modes type) (toInt32 first) (toInt32 count)] := by
  unfold RenderTarget.drawPrimitives
  simp [GLCall.isViewportScissorOrDraw]

/-- The viewport call `setupDraw` issues for a target and its current view. -/
theorem RenderTarget.setupDraw_observed (rt : RenderTarget) (useVertexCache : Bool)
    (states : RenderStates) (w : World) :
    (rt.setupDraw useVertexCache states w).2.observed
      = w.observed ++
        [GLCall.glViewport (rt.getViewport rt.m_view).position.x
          (toInt32 (toInt32 rt.getSize.y -
            toInt32 ((rt.getViewport rt.m_view).position.y + (rt.getViewport rt.m_view).size.y)))
          (rt.getViewport rt.m_view).size.x (rt.getViewport rt.m_view).size.y] := by
  unfold RenderTarget.setupDraw
  lift_lets
  extract_lets w1 a u usedShader w2 viewport top w3 w4 b s w5 textureId shaderId t w6
  have h1 : w1.observed = w.observed := by
    simp [w1, GLCall.isViewportScissorOrDraw]
  have ha : a.2.observed = w.observed ∧ a.1.size = rt.size ∧ a.1.m_view = rt.m_view := by
    simp [a, snd_ite, fst_ite, h1]
  clear_value w1 a
  obtain ⟨ha2, hsize, hview⟩ := ha
  have hu : u.2.observed = w.observed := by simp [u, ha2]
  clear_value u
  have h2 : w2.observed = w.observed := by simp [w2, hu]
  clear_value w2
  have h4 : w4.observed = w.observed ++ [GLCall.glViewport viewport.position.x top
      viewport.size.x viewport.size.y] := by
    simp [w4, w3, h2, GLCall.isViewportScissorOrDraw]
  clear_value w3 w4
  have hb : b.2.observed = w4.observed := by simp [b, snd_ite]
  clear_value b
  have hs : s.2.observed = w4.observed := by simp [s, snd_ite, hb]
  clear_value s
  have h5 : w5.observed = w4.observed := by
    simp [w5, hs, GLCall.isViewportScissorOrDraw]
  clear_value w5
  have ht : t.1.2.observed = w4.observed := by simp [t, snd_ite, fst_ite, h5]
  clear_value t
  have h6 : w6.observed = w4.observed := by
    simp only [w6]
    split <;> simp [ht]
  clear_value w6
  have hvp : viewport = rt.getViewport rt.m_view := by
    simp [viewport, RenderTarget.getViewport, RenderTarget.getSize, hsize, hview]
  have htop : top = toInt32 (toInt32 rt.getSize.y -
      toInt32 ((rt.getViewport rt.m_view).position.y + (rt.getViewport rt.m_view).size.y)) := by
    simp [top, hvp, RenderTarget.getSize, hsize]
  rw [RenderTarget.applyShader_observed, h6, h4, hvp, htop]

theorem RenderTarget.getViewport_congr (a b : RenderTarget) (v : View)
    (h : a.size = b.size) : a.getViewport v = b.getViewport v := by
  unfold RenderTarget.getViewport RenderTarget.getSize
  rw [h]

/-- The viewport and draw calls of `draw` on non-empty vertex data. -/
theorem RenderTarget.draw_observed (rt : RenderTarget) (vs : List Vertex) (n : Nat)
    (type : PrimitiveType) (states : RenderStates) (w : World) (hn : n ≠ 0) :
    (rt.draw (some vs) n type states w).2.observed
      = w.observed ++
        [GLCall.glViewport (rt.getViewport rt.m_view).position.x
          (toInt32 (toInt32 rt.getSize.y -
            toInt32 ((rt.getViewport rt.m_view).position.y + (rt.getViewport rt.m_view).size.y)))
          (rt.getViewport rt.m_view).size.x (rt.getViewport rt.m_view).size.y,
         GLCall.glDrawArrays (RenderTarget.modes type) 0 (toInt32 n)] := by
  unfold RenderTarget.draw
  simp -zeta only [hn, if_false]
  lift_lets
  extract_lets g rt0 useVertexCache src4 rt1 w1 d enableTexCoordsArray data src3 src2 gen rt2
    w2 w3 w4 w5 w6 w7 w8 w9 c src1 src0
  have hg1 : g.1 = true := by simp [g]
  simp only [hg1, if_true]
  have hg : g.2.2.observed = w.observed ∧ g.2.1.size = rt.size ∧ g.2.1.m_view = rt.m_view := by
    simp [g]
  clear_value g
  obtain ⟨hg2, hgs, hgv⟩ := hg
  have hrt1 : rt1.size = rt.size ∧ rt1.m_view = rt.m_view := by
    simp only [rt1, rt0]
    split_ifs <;> exact ⟨hgs, hgv⟩
  clear_value rt1
  have h1 : w1.observed = w.observed := by
    simp [w1, hg2, GLCall.isViewportScissorOrDraw]
  clear_value w1
  have hd : d.2.observed = w.observed ++
      [GLCall.glViewport (rt.getViewport rt.m_view).position.x
        (toInt32 (toInt32 rt.getSize.y -
          toInt32 ((rt.getViewport rt.m_view).position.y + (rt.getViewport rt.m_view).size.y)))
        (rt.getViewport rt.m_view).size.x (rt.getViewport rt.m_view).size.y] := by
    simp only [d]
    rw [RenderTarget.setupDraw_observed, h1, hrt1.2,
      RenderTarget.getViewport_congr rt1 rt rt.m_view hrt1.1]
    simp [RenderTarget.getSize, hrt1.1]
  clear_value d
  have hgen : gen.2.observed = d.2.observed := by
    simp [gen, snd_ite, GLCall.isViewportScissorOrDraw]
  clear_value gen
  have h6 : w6.observed = d.2.observed := by
    simp [w6, w5, w4, w3, w2, hgen, GLCall.isViewportScissorOrDraw]
  clear_value w2 w3 w4 w5 w6
  have h9 : w9.observed = d.2.observed ++
      [GLCall.glDrawArrays (RenderTarget.modes type) 0 (toInt32 n)] := by
    simp [w9, w8, w7, h6, GLCall.isViewportScissorOrDraw, toInt32]
  clear_value w7 w8 w9
  have hc : c.2.observed = w9.observed := by simp [c]
  simp only [hc, h9, hd, List.append_assoc, List.singleton_append]

/-- The viewport and draw calls of `draw(const VertexBuffer&, ...)` when it reaches the
pipeline. -/
theorem RenderTarget.drawVertexBuffer_observed (rt : RenderTarget) (vb : VertexBuffer)
    (first count : Nat) (states : RenderStates) (w : World)
    (hav : w.config.vertexBufferAvailable = true) (hfirst : first ≤ vb.getVertexCount)
    (hcount : min count (vb.getVertexCount - first) ≠ 0) (hhandle : vb.getNativeHandle ≠ 0) :
    (rt.drawVertexBuffer vb first count states w).2.observed
      = w.observed ++
        [GLCall.glViewport (rt.getViewport rt.m_view).position.x
          (toInt32 (toInt32 rt.getSize.y -
            toInt32 ((rt.getViewport rt.m_view).position.y + (rt.getViewport rt.m_view).size.y)))
          (rt.getViewport rt.m_view).size.x (rt.getViewport rt.m_view).size.y,
         GLCall.glDrawArrays (RenderTarget.modes vb.getPrimitiveType) (toInt32 first)
          (toInt32 ((min count (vb.getVertexCount - first) : Nat) : Int))] := by
  unfold RenderTarget.drawVertexBuffer
  have hnot : ¬ (first > vb.getVertexCount) := by omega
  have hn : ¬ (min count (vb.getVertexCount - first) = 0 ∨ vb.getNativeHandle = 0) := by
    rintro (h | h)
    · exact hcount h
    · exact hhandle h
  simp -zeta only [hav, Bool.not_true, Bool.false_eq_true, if_false, hnot, hn]
  lift_lets
  extract_lets n g w1 d w2 w3 w4 w5 w6 w7 w8 w9 c src1 src0
  have hg1 : g.1 = true := by simp [g]
  rw [if_neg hn]
  simp only [hg1, if_true]
  have hg : g.2.2.observed = w.observed ∧ g.2.1.size = rt.size ∧ g.2.1.m_view = rt.m_view := by
    simp [g]
  clear_value g
  obtain ⟨hg2, hgs, hgv⟩ := hg
  have h1 : w1.observed = w.observed := by
    simp [w1, hg2, GLCall.isViewportScissorOrDraw]
  clear_value w1
  have hd : d.2.observed = w.observed ++
      [GLCall.glViewport (rt.getViewport rt.m_view).position.x
        (toInt32 (toInt32 rt.getSize.y -
          toInt32 ((rt.getViewport rt.m_view).position.y + (rt.getViewport rt.m_view).size.y)))
        (rt.getViewport rt.m_view).size.x (rt.getViewport rt.m_view).size.y] := by
    simp only [d]
    rw [RenderTarget.setupDraw_observed, h1, hgv,
      RenderTarget.getViewport_congr g.2.1 rt rt.m_view hgs]
    simp [RenderTarget.getSize, hgs]
  clear_value d
  have h6 : w6.observed = d.2.observed := by
    simp [w6, w5, w4, w3, w2, GLCall.isViewportScissorOrDraw]
  clear_value w2 w3 w4 w5 w6
  have h9 : w9.observed = d.2.observed ++
      [GLCall.glDrawArrays (RenderTarget.modes vb.getPrimitiveType) (toInt32 first)
        (toInt32 n)] := by
    simp [w9, w8, w7, h6, GLCall.isViewportScissorOrDraw]
  clear_value w7 w8 w9
  have hc : c.2.observed = w9.observed := by simp [c]
  simp only [hc, h9, hd, List.append_assoc, List.singleton_append, n]

/-- `draw(const VertexBuffer&, ...)` issues no viewport, scissor or draw call when it
returns early. -/
theorem RenderTarget.drawVertexBuffer_skipped (rt : RenderTarget) (vb : VertexBuffer)
    (first count : Nat) (states : RenderStates) (w : World)
    (h : w.config.vertexBufferAvailable = false ∨ vb.getVertexCount < first ∨
      min count (vb.getVertexCount - first) = 0 ∨ vb.getNativeHandle = 0) :
    (rt.drawVertexBuffer vb first count states w).1 = rt ∧
    (rt.drawVertexBuffer vb first count states w).2.gl = w.gl := by
  unfold RenderTarget.drawVertexBuffer
  by_cases hav : w.config.vertexBufferAvailable = true
  · by_cases hf : first > vb.getVertexCount
    · simp [hav, hf]
    · have hn : min count (vb.getVertexCount - first) = 0 ∨ vb.getNativeHandle = 0 := by
        rcases h with h | h | h | h
        · rw [hav] at h; cases h
        · exact absurd h hf
        · exact Or.inl h
        · exact Or.inr h
      simp only [hav, Bool.not_true, Bool.false_eq_true, if_false, hf]
      rw [if_pos hn]
      exact ⟨rfl, rfl⟩
  · simp only [Bool.not_eq_true] at hav
    simp [hav, World.err]

/-! ## The driver trace only grows -/

theorem World.call_trace_mono (c : GLCall) (w : World) (l : List GLCall)
    (h : l <+: w.gl.trace) : l <+: (w.call c).gl.trace := by
  have e : (w.call c).gl.trace = w.gl.trace ++ [c] := by
    cases c <;> rfl
  rw [e]
  exact h.trans (List.prefix_append _ _)

theorem World.ite_trace_mono (c : Prop) [Decidable c] (a b : World) (l : List GLCall)
    (ha : l <+: a.gl.trace) (hb : l <+: b.gl.trace) :
    l <+: (if c then a else b).gl.trace := by
  split_ifs <;> assumption

theorem World.ite_snd_trace_mono {α : Type} (c : Prop) [Decidable c] (a b : α × World)
    (l : List GLCall) (ha : l <+: a.2.gl.trace) (hb : l <+: b.2.gl.trace) :
    l <+: (if c then a else b).2.gl.trace := by
  split_ifs <;> assumption

theorem World.ite_snd_snd_trace_mono {α β : Type} (c : Prop) [Decidable c]
    (a b : α × β × World) (l : List GLCall) (ha : l <+: a.2.2.gl.trace)
    (hb : l <+: b.2.2.gl.trace) : l <+: (if c then a else b).2.2.gl.trace := by
  split_ifs <;> assumption

theorem World.setShader_trace_mono (r : ShaderRef) (s : Shader) (w : World)
    (l : List GLCall) (h : l <+: w.gl.trace) : l <+: (w.setShader r s).gl.trace := by
  cases r <;> exact h

theorem Shader.getUniformLocation_trace_mono (s : Shader) (name : String) (w : World)
    (l : List GLCall) (h : l <+: w.gl.trace) :
    l <+: (s.getUniformLocation name w).2.2.gl.trace := by
  unfold Shader.getUniformLocation
  split
  · exact h
  · apply World.ite_trace_mono
    · exact World.call_trace_mono _ _ _ h
    · exact World.call_trace_mono _ _ _ h

theorem Shader.UniformBinder.construct_trace_mono (s : Shader) (name : String) (w : World)
    (l : List GLCall) (h : l <+: w.gl.trace) :
    l <+: (Shader.UniformBinder.construct s name w).2.2.gl.trace := by
  unfold Shader.UniformBinder.construct
  apply_rules [World.ite_snd_snd_trace_mono, Shader.getUniformLocation_trace_mono,
    World.ite_trace_mono, World.call_trace_mono]

theorem Shader.UniformBinder.destruct_trace_mono (b : Shader.UniformBinder) (w : World)
    (l : List GLCall) (h : l <+: w.gl.trace) : l <+: (b.destruct w).gl.trace := by
  unfold Shader.UniformBinder.destruct
  apply_rules [World.ite_trace_mono, World.call_trace_mono]

theorem Shader.setUniformVec2_trace_mono (s : Shader) (name : String) (x y : ℚ) (w : World)
    (l : List GLCall) (h : l <+: w.gl.trace) :
    l <+: (s.setUniformVec2 name x y w).2.gl.trace := by
  unfold Shader.setUniformVec2
  apply_rules [Shader.UniformBinder.destruct_trace_mono, World.ite_trace_mono,
    World.call_trace_mono, Shader.UniformBinder.construct_trace_mono]

theorem Shader.setUniformMat4_trace_mono (s : Shader) (name : String) (m : List ℚ)
    (w : World) (l : List GLCall) (h : l <+: w.gl.trace) :
    l <+: (s.setUniformMat4 name m w).2.gl.trace := by
  unfold Shader.setUniformMat4
  apply_rules [Shader.UniformBinder.destruct_trace_mono, World.ite_trace_mono,
    World.call_trace_mono, Shader.UniformBinder.construct_trace_mono]

theorem World.setUniformVec2_ref_trace_mono (r : ShaderRef) (name : String) (x y : ℚ)
    (w : World) (l : List GLCall) (h : l <+: w.gl.trace) :
    l <+: (w.setUniformVec2 r name x y).gl.trace := by
  unfold World.setUniformVec2
  apply_rules [World.setShader_trace_mono, Shader.setUniformVec2_trace_mono]

theorem World.setUniformMat4_ref_trace_mono (r : ShaderRef) (name : String) (m : List ℚ)
    (w : World) (l : List GLCall) (h : l <+: w.gl.trace) :
    l <+: (w.setUniformMat4 r name m).gl.trace := by
  unfold World.setUniformMat4
  apply_rules [World.setShader_trace_mono, Shader.setUniformMat4_trace_mono]

theorem Shader.bindTexturesLoop_trace_mono (ts : List (Int × Texture)) :
    ∀ (i : Nat) (w : World) (l : List GLCall), l <+: w.gl.trace →
      l <+: (Shader.bindTexturesLoop i ts w).gl.trace := by
  induction ts with
  | nil => intro i w l h; exact h
  | cons e rest ih =>
    intro i w l h
    obtain ⟨location, texture⟩ := e
    unfold Shader.bindTexturesLoop
    apply ih
    apply_rules [World.call_trace_mono]

theorem Shader.bindTextures_trace_mono (s : Shader) (w : World) (l : List GLCall)
    (h : l <+: w.gl.trace) : l <+: (s.bindTextures w).gl.trace := by
  unfold Shader.bindTextures
  apply_rules [World.call_trace_mono, Shader.bindTexturesLoop_trace_mono]

theorem Shader.bind_trace_mono (shader : Option ShaderRef) (w : World) (l : List GLCall)
    (h : l <+: w.gl.trace) : l <+: (Shader.bind shader w).gl.trace := by
  unfold Shader.bind
  cases shader <;>
    apply_rules [Shader.bindTextures_trace_mono, Shader.bindTexturesLoop_trace_mono,
      World.ite_trace_mono, World.call_trace_mono]

theorem Shader.createAndAttachShader_trace_mono (program : Nat) (type : GLenum)
    (typeStr code : String) (w : World) (l : List GLCall) (h : l <+: w.gl.trace) :
    l <+: (Shader.createAndAttachShader program type typeStr code w).2.gl.trace := by
  unfold Shader.createAndAttachShader
  have h0 : l <+: w.freshHandle.2.gl.trace := h
  apply World.ite_snd_trace_mono
  · have e : ∀ (m : String) (x : World), (x.err m).gl.trace = x.gl.trace := fun _ _ => rfl
    apply World.call_trace_mono
    apply World.call_trace_mono
    rw [e]
    apply_rules [World.call_trace_mono]
  · apply_rules [World.call_trace_mono]

theorem World.err_trace (msg : String) (w : World) : (w.err msg).gl.trace = w.gl.trace :=
  rfl

theorem World.freshHandle_trace (w : World) : w.freshHandle.2.gl.trace = w.gl.trace :=
  rfl

theorem Shader.compile_trace_mono (s : Shader) (v g f : String) (w : World)
    (l : List GLCall) (h : l <+: w.gl.trace) :
    l <+: (Shader.compile s v g f w).2.2.gl.trace := by
  unfold Shader.compile
  apply World.ite_snd_snd_trace_mono
  · exact h
  apply World.ite_snd_snd_trace_mono
  · exact h
  lift_lets
  extract_lets w1 s1 shaderProgram w2 rv rg rf w3 w4 w5 w6 w7 s2
  have h1 : l <+: w1.gl.trace := by
    simp only [w1]
    apply_rules [World.ite_trace_mono, World.call_trace_mono]
  have h2 : l <+: w2.gl.trace := World.call_trace_mono _ _ _ h1
  clear_value w2
  have hv : l <+: rv.2.gl.trace := by
    simp only [rv]
    apply World.ite_snd_trace_mono
    · exact Shader.createAndAttachShader_trace_mono _ _ _ _ _ _ h2
    · exact h2
  clear_value rv
  have hg : l <+: rg.2.gl.trace := by
    simp only [rg]
    apply World.ite_snd_trace_mono
    · exact Shader.createAndAttachShader_trace_mono _ _ _ _ _ _ hv
    · exact hv
  clear_value rg
  have hf : l <+: rf.2.gl.trace := by
    simp only [rf]
    apply World.ite_snd_trace_mono
    · exact Shader.createAndAttachShader_trace_mono _ _ _ _ _ _ hg
    · exact hg
  clear_value rf
  have h4 : l <+: w4.gl.trace :=
    World.call_trace_mono _ _ _ (World.call_trace_mono _ _ _ hf)
  clear_value w4
  have h6 : l <+: w6.gl.trace := World.call_trace_mono _ _ _ h4
  have h7 : l <+: w7.gl.trace := by
    simp only [w7]
    apply World.ite_trace_mono
    · exact World.call_trace_mono _ _ _ h4
    · exact h4
  clear_value w6 w7
  apply World.ite_snd_snd_trace_mono
  · exact hv
  apply World.ite_snd_snd_trace_mono
  · exact hg
  apply World.ite_snd_snd_trace_mono
  · exact hf
  apply World.ite_snd_snd_trace_mono
  · exact World.call_trace_mono _ _ _ h6
  · exact World.call_trace_mono _ _ _ h7

theorem Shader.loadFromMemory_trace_mono (s : Shader) (v f : String) (w : World)
    (l : List GLCall) (h : l <+: w.gl.trace) :
    l <+: (Shader.loadFromMemory s v f w).2.2.gl.trace :=
  Shader.compile_trace_mono s v "" f w l h

theorem Shader.getDefaultShader_trace_mono (w : World) (l : List GLCall)
    (h : l <+: w.gl.trace) : l <+: (Shader.getDefaultShader w).2.gl.trace := by
  unfold Shader.getDefaultShader
  apply World.ite_snd_trace_mono
  · exact Shader.loadFromMemory_trace_mono _ _ _ w l h
  · exact h

theorem Shader.getDefaultTexShader_trace_mono (w : World) (l : List GLCall)
    (h : l <+: w.gl.trace) : l <+: (Shader.getDefaultTexShader w).2.gl.trace := by
  unfold Shader.getDefaultTexShader
  apply World.ite_snd_trace_mono
  · exact Shader.loadFromMemory_trace_mono _ _ _ w l h
  · exact h

theorem RenderTargetImpl.equationToGlConstant_trace_mono (b : Bool) (e : Equation)
    (w : World) (l : List GLCall) (h : l <+: w.gl.trace) :
    l <+: (RenderTargetImpl.equationToGlConstant b e w).2.gl.trace := by
  unfold RenderTargetImpl.equationToGlConstant
  cases e <;> cases b <;> cases hw : w.warned <;> simp [hw] <;> exact h

theorem RenderTarget.setActive_trace (rt : RenderTarget) (active : Bool) (w : World) :
    (rt.setActive active w).2.2.gl.trace = w.gl.trace := by
  unfold RenderTarget.setActive
  cases active <;> cases h : w.contextRenderTargetMap w.activeContextId <;>
    simp [h]
  split_ifs <;> rfl

theorem RenderTarget.ensureActive_trace (rt : RenderTarget) (w : World) :
    (rt.ensureActive w).2.2.gl.trace = w.gl.trace := by
  unfold RenderTarget.ensureActive
  split_ifs
  · rfl
  · exact RenderTarget.setActive_trace rt true w

theorem RenderTarget.ensureActive_trace_mono (rt : RenderTarget) (w : World)
    (l : List GLCall) (h : l <+: w.gl.trace) : l <+: (rt.ensureActive w).2.2.gl.trace := by
  rw [RenderTarget.ensureActive_trace]
  exact h

theorem RenderTarget.applyBlendMode_trace_mono (rt : RenderTarget) (mode : BlendMode)
    (w : World) (l : List GLCall) (h : l <+: w.gl.trace) :
    l <+: (rt.applyBlendMode mode w).2.gl.trace := by
  unfold RenderTarget.applyBlendMode
  apply_rules [World.call_trace_mono, RenderTargetImpl.equationToGlConstant_trace_mono]

theorem RenderTarget.applyStencilMode_trace_mono (rt : RenderTarget) (mode : StencilMode)
    (w : World) (l : List GLCall) (h : l <+: w.gl.trace) :
    l <+: (rt.applyStencilMode mode w).2.gl.trace := by
  unfold RenderTarget.applyStencilMode
  apply_rules [World.ite_snd_trace_mono, World.ite_trace_mono, World.call_trace_mono]

theorem RenderTarget.applyTexture_trace_mono (rt : RenderTarget) (t : Option Texture)
    (c : CoordinateType) (w : World) (l : List GLCall) (h : l <+: w.gl.trace) :
    l <+: (rt.applyTexture t c w).2.gl.trace := by
  unfold RenderTarget.applyTexture
  apply_rules [World.call_trace_mono]

theorem RenderTarget.disableAttrib_trace_mono (location : Int) (w : World)
    (l : List GLCall) (h : l <+: w.gl.trace) :
    l <+: (RenderTarget.disableAttrib location w).gl.trace := by
  unfold RenderTarget.disableAttrib
  apply_rules [World.ite_trace_mono, World.call_trace_mono]

theorem RenderTarget.enableAttrib_trace_mono (location : Int) (w : World)
    (l : List GLCall) (h : l <+: w.gl.trace) :
    l <+: (RenderTarget.enableAttrib location w).gl.trace := by
  unfold RenderTarget.enableAttrib
  apply_rules [World.ite_trace_mono, World.call_trace_mono]

theorem RenderTarget.attribPointer_trace_mono (location : Int) (size : Nat) (type : GLenum)
    (normalized : Bool) (offset : Nat) (w : World) (l : List GLCall)
    (h : l <+: w.gl.trace) :
    l <+: (RenderTarget.attribPointer location size type normalized offset w).gl.trace := by
  unfold RenderTarget.attribPointer
  apply_rules [World.ite_trace_mono, World.call_trace_mono]

theorem RenderTarget.applyShader_trace_mono (rt : RenderTarget) (shader : Option ShaderRef)
    (w : World) (l : List GLCall) (h : l <+: w.gl.trace) :
    l <+: (rt.applyShader shader w).2.gl.trace := by
  unfold RenderTarget.applyShader
  cases shader <;>
    apply_rules [World.ite_snd_trace_mono, RenderTarget.enableAttrib_trace_mono,
      RenderTarget.disableAttrib_trace_mono, Shader.bind_trace_mono, World.call_trace_mono]

theorem RenderTarget.resetGLStates_trace_mono (rt : RenderTarget) (w : World)
    (l : List GLCall) (h : l <+: w.gl.trace) : l <+: (rt.resetGLStates w).2.gl.trace := by
  unfold RenderTarget.resetGLStates
  lift_lets
  extract_lets shaderAvailable vertexBufferAvailable d m g rt0 w1 w2 w3 w4 w5 w6 w7 src3 rt1 b
    s t hh w8 src2 src1 rt2 rt3 src0
  have hd : l <+: d.2.2.gl.trace := by
    simp only [d]
    rw [RenderTarget.setActive_trace]
    exact h
  clear_value d
  have hm : l <+: m.2.gl.trace := by
    simp only [m]
    apply World.ite_snd_trace_mono
    · apply World.ite_snd_trace_mono
      · exact hd
      · exact hd
    · exact h
  clear_value m
  have hg : l <+: g.2.2.gl.trace := RenderTarget.ensureActive_trace_mono _ _ _ hm
  clear_value g
  have h7 : l <+: w7.gl.trace := by
    simp only [w7, w6, w5, w4, w3, w2, w1]
    apply_rules [RenderTarget.disableAttrib_trace_mono, World.call_trace_mono]
  clear_value w1 w2 w3 w4 w5 w6 w7
  have hb : l <+: b.2.gl.trace := RenderTarget.applyBlendMode_trace_mono _ _ _ _ h7
  clear_value b
  have hs : l <+: s.2.gl.trace := RenderTarget.applyStencilMode_trace_mono _ _ _ _ hb
  clear_value s
  have ht : l <+: t.2.gl.trace := RenderTarget.applyTexture_trace_mono _ _ _ _ _ hs
  clear_value t
  have hh2 : l <+: hh.2.gl.trace := by
    simp only [hh]
    apply World.ite_snd_trace_mono
    · exact RenderTarget.applyShader_trace_mono _ _ _ _ ht
    · exact ht
  clear_value hh
  have h8 : l <+: w8.gl.trace := by
    simp only [w8]
    apply World.ite_trace_mono
    · exact World.call_trace_mono _ _ _ hh2
    · exact hh2
  clear_value w8
  apply World.ite_snd_trace_mono
  · exact h8
  · exact hg

theorem RenderTarget.chooseShader_trace_mono (states : RenderStates) (w : World)
    (l : List GLCall) (h : l <+: w.gl.trace) :
    l <+: (RenderTarget.chooseShader states w).2.gl.trace := by
  unfold RenderTarget.chooseShader
  split
  · exact h
  · exact Shader.getDefaultShader_trace_mono w l h
  · exact Shader.getDefaultTexShader_trace_mono w l h

theorem RenderTarget.uploadTextureUniforms_trace_mono (r : ShaderRef) (c : CoordinateType)
    (t : Texture) (w : World) (l : List GLCall) (h : l <+: w.gl.trace) :
    l <+: (RenderTarget.uploadTextureUniforms r c t w).gl.trace := by
  unfold RenderTarget.uploadTextureUniforms
  apply World.ite_trace_mono
  · exact World.setUniformVec2_ref_trace_mono _ _ _ _ _ _
      (World.setUniformMat4_ref_trace_mono _ _ _ _ _ h)
  · exact World.setUniformMat4_ref_trace_mono _ _ _ _ _ h

theorem RenderTarget.cleanupDraw_trace_mono (rt : RenderTarget) (states : RenderStates)
    (w : World) (l : List GLCall) (h : l <+: w.gl.trace) :
    l <+: (rt.cleanupDraw states w).2.gl.trace := by
  unfold RenderTarget.cleanupDraw
  lift_lets
  extract_lets a b w1 src1 src0
  have ha : l <+: a.2.gl.trace := by
    simp only [a]
    apply World.ite_snd_trace_mono
    · exact RenderTarget.applyShader_trace_mono _ _ _ _ h
    · exact h
  clear_value a
  have hb : l <+: b.2.gl.trace := by
    simp only [b]
    apply World.ite_snd_trace_mono
    · exact RenderTarget.applyTexture_trace_mono _ _ _ _ _ ha
    · exact ha
  clear_value b
  have h1 : l <+: w1.gl.trace := by
    simp only [w1]
    apply World.ite_trace_mono
    · exact World.call_trace_mono _ _ _ hb
    · exact hb
  exact h1

theorem RenderTarget.drawPrimitives_trace_mono (type : PrimitiveType) (first count : Nat)
    (w : World) (l : List GLCall) (h : l <+: w.gl.trace) :
    l <+: (RenderTarget.drawPrimitives type first count w).gl.trace :=
  World.call_trace_mono _ _ _ h

theorem RenderTarget.setupDraw_trace_mono (rt : RenderTarget) (useVertexCache : Bool)
    (states : RenderStates) (w : World) (l : List GLCall) (h : l <+: w.gl.trace) :
    l <+: (rt.setupDraw useVertexCache states w).2.gl.trace := by
  unfold RenderTarget.setupDraw
  lift_lets
  extract_lets w1 a u usedShader w2 viewport top w3 w4 b s w5 textureId shaderId t w6
  have h1 : l <+: w1.gl.trace := by
    simp only [w1]
    apply_rules [World.ite_trace_mono, World.call_trace_mono]
  clear_value w1
  have ha : l <+: a.2.gl.trace := by
    simp only [a]
    apply World.ite_snd_trace_mono
    · exact RenderTarget.resetGLStates_trace_mono _ _ _ h1
    · exact h1
  clear_value a
  have hu : l <+: u.2.gl.trace := RenderTarget.chooseShader_trace_mono _ _ _ ha
  clear_value u
  have h2 : l <+: w2.gl.trace := by
    simp only [w2]
    apply World.ite_trace_mono
    · exact World.setUniformMat4_ref_trace_mono _ _ _ _ _ hu
    · exact World.setUniformMat4_ref_trace_mono _ _ _ _ _ hu
  clear_value w2
  have h4 : l <+: w4.gl.trace :=
    World.setUniformMat4_ref_trace_mono _ _ _ _ _ (World.call_trace_mono _ _ _ h2)
  clear_value w3 w4
  have hb : l <+: b.2.gl.trace := by
    simp only [b]
    apply World.ite_snd_trace_mono
    · exact RenderTarget.applyBlendMode_trace_mono _ _ _ _ h4
    · exact h4
  clear_value b
  have hs : l <+: s.2.gl.trace := by
    simp only [s]
    apply World.ite_snd_trace_mono
    · exact RenderTarget.applyStencilMode_trace_mono _ _ _ _ hb
    · exact hb
  clear_value s
  have h5 : l <+: w5.gl.trace := by
    simp only [w5]
    apply World.ite_trace_mono
    · exact World.call_trace_mono _ _ _ hs
    · exact hs
  clear_value w5
  have ht : l <+: t.1.2.gl.trace := by
    simp only [t]
    split_ifs
    · exact RenderTarget.applyTexture_trace_mono _ _ _ _ _ h5
    · exact RenderTarget.applyTexture_trace_mono _ _ _ _ _ h5
    · exact h5
  clear_value t
  have h6 : l <+: w6.gl.trace := by
    simp only [w6]
    split
    · apply World.ite_trace_mono
      · exact RenderTarget.uploadTextureUniforms_trace_mono _ _ _ _ _ ht
      · exact ht
    · exact ht
  clear_value w6
  exact RenderTarget.applyShader_trace_mono _ _ _ _ h6

theorem RenderTarget.draw_trace_mono (rt : RenderTarget) (vertices : Option (List Vertex))
    (n : Nat) (type : PrimitiveType) (states : RenderStates) (w : World) (l : List GLCall)
    (h : l <+: w.gl.trace) : l <+: (rt.draw vertices n type states w).2.gl.trace := by
  unfold RenderTarget.draw
  cases vertices with
  | none => exact h
  | some vs =>
    simp -zeta only []
    apply World.ite_snd_trace_mono
    · exact h
    lift_lets
    extract_lets g rt0 useVertexCache src4 rt1 w1 d enableTexCoordsArray data src3 src2 gen rt2
      w2 w3 w4 w5 w6 w7 w8 w9 c src1 src0
    have hg : l <+: g.2.2.gl.trace := RenderTarget.ensureActive_trace_mono _ _ _ h
    clear_value g
    have h1 : l <+: w1.gl.trace := by
      simp only [w1]
      apply World.ite_trace_mono
      · exact World.call_trace_mono _ _ _ hg
      · exact hg
    clear_value w1
    have hd : l <+: d.2.gl.trace := RenderTarget.setupDraw_trace_mono _ _ _ _ _ h1
    clear_value d
    have hgen : l <+: gen.2.gl.trace := by
      simp only [gen]
      apply World.ite_snd_trace_mono
      · exact World.call_trace_mono _ _ _ hd
      · exact hd
    clear_value gen
    have h9 : l <+: w9.gl.trace := by
      simp only [w9, w8, w7, w6, w5, w4, w3, w2]
      apply_rules [RenderTarget.drawPrimitives_trace_mono, RenderTarget.attribPointer_trace_mono,
        World.ite_trace_mono, World.call_trace_mono]
    clear_value w2 w3 w4 w5 w6 w7 w8 w9
    have hc : l <+: c.2.gl.trace := RenderTarget.cleanupDraw_trace_mono _ _ _ _ h9
    clear_value c
    apply World.ite_snd_trace_mono
    · exact hc
    · exact hg

theorem RenderTarget.drawVertexBuffer_trace_mono (rt : RenderTarget) (vb : VertexBuffer)
    (first count : Nat) (states : RenderStates) (w : World) (l : List GLCall)
    (h : l <+: w.gl.trace) :
    l <+: (rt.drawVertexBuffer vb first count states w).2.gl.trace := by
  unfold RenderTarget.drawVertexBuffer
  apply World.ite_snd_trace_mono
  · exact h
  apply World.ite_snd_trace_mono
  · exact h
  lift_lets
  extract_lets n g w1 d w2 w3 w4 w5 w6 w7 w8 w9 c src1 src0
  apply World.ite_snd_trace_mono
  · exact h
  have hg : l <+: g.2.2.gl.trace := RenderTarget.ensureActive_trace_mono _ _ _ h
  clear_value g
  have h1 : l <+: w1.gl.trace := by
    simp only [w1]
    apply World.ite_trace_mono
    · exact World.call_trace_mono _ _ _ hg
    · exact hg
  clear_value w1
  have hd : l <+: d.2.gl.trace := RenderTarget.setupDraw_trace_mono _ _ _ _ _ h1
  clear_value d
  have h9 : l <+: w9.gl.trace := by
    simp only [w9, w8, w7, w6, w5, w4, w3, w2]
    apply_rules [RenderTarget.drawPrimitives_trace_mono, RenderTarget.attribPointer_trace_mono,
      RenderTarget.enableAttrib_trace_mono, World.ite_trace_mono, World.call_trace_mono]
  clear_value w2 w3 w4 w5 w6 w7 w8 w9
  have hc : l <+: c.2.gl.trace := RenderTarget.cleanupDraw_trace_mono _ _ _ _ h9
  clear_value c
  apply World.ite_snd_trace_mono
  · exact hc
  · exact hg

theorem RenderTarget.initializeTarget_trace_mono (rt : RenderTarget) (w : World)
    (l : List GLCall) (h : l <+: w.gl.trace) :
    l <+: (rt.initializeTarget w).2.gl.trace := by
  unfold RenderTarget.initializeTarget RenderTargetImpl.getUniqueId
  lift_lets
  extract_lets view rt1 w1 src1 a w2 w3 i src2 src3
  have h1 : l <+: w1.gl.trace := by
    simp only [w1]
    apply World.ite_trace_mono
    · exact World.call_trace_mono _ _ _ h
    · exact h
  clear_value w1
  have ha : l <+: a.2.gl.trace := by
    simp only [a]
    apply World.ite_snd_trace_mono
    · exact World.call_trace_mono _ _ _ h1
    · exact h
  clear_value a
  have h2 : l <+: w2.gl.trace := by
    simp only [w2]
    apply World.ite_trace_mono
    · exact World.call_trace_mono _ _ _ ha
    · exact ha
  clear_value w2
  have h3 : l <+: w3.gl.trace := World.call_trace_mono _ _ _ h2
  exact h3

/-- From "the trace only grew" and the equation on observed calls: the calls issued in
between, restricted to viewport, scissor and draw calls, are `obs`. -/
theorem World.issued_of (w w' : World) (obs : List GLCall)
    (hp : w.gl.trace <+: w'.gl.trace) (ho : w'.observed = w.observed ++ obs) :
    ∃ issued, w'.gl.trace = w.gl.trace ++ issued ∧
      issued.filter GLCall.isViewportScissorOrDraw = obs := by
  obtain ⟨issued, hi⟩ := hp
  refine ⟨issued, hi.symm, ?_⟩
  unfold World.observed Driver.observed at ho
  rw [← hi, List.filter_append] at ho
  exact List.append_cancel_left ho

/-! ## Rounding -/

theorem Rat.floor_eq_intFloor (x : ℚ) : Rat.floor x = ⌊x⌋ :=
  rfl

/-- `lround` of a natural number is that number. -/
theorem lround_natCast (n : Nat) : lround (n : ℚ) = n := by
  unfold lround
  have h0 : (0 : ℚ) ≤ (n : ℚ) := Nat.cast_nonneg n
  rw [if_pos h0, Rat.floor_eq_intFloor, Int.floor_eq_iff]
  constructor
  · push_cast; linarith
  · push_cast; linarith

theorem toInt32_of_inInt32 (z : Int) (h : InInt32 z) : toInt32 z = z := by
  unfold InInt32 at h
  unfold toInt32
  omega

theorem toInt32_idem (z : Int) : toInt32 (toInt32 z) = toInt32 z := by
  unfold toInt32
  omega

/-- `lround` of an integer is that integer. -/
theorem lround_intCast (z : Int) : lround (z : ℚ) = z := by
  unfold lround
  split_ifs with h0
  · rw [Rat.floor_eq_intFloor, Int.floor_eq_iff]
    constructor <;> linarith
  · have hneg : -Int.floor (-(z : ℚ) + 1 / 2) = z := by
      rw [neg_eq_iff_eq_neg, Int.floor_eq_iff]
      constructor <;> push_cast <;> linarith
    rw [Rat.floor_eq_intFloor]
    exact hneg

/-- `lround` rounds to the nearest integer, halves away from zero. -/
theorem lround_isRound (x : ℚ) : IsRoundHalfAwayFromZero x (lround x) := by
  unfold IsRoundHalfAwayFromZero lround
  split_ifs with h0
  · rw [Rat.floor_eq_intFloor]
    have h1 := Int.floor_le (x + 1 / 2)
    have h2 := Int.lt_floor_add_one (x + 1 / 2)
    by_cases htie : x - (⌊x + 1 / 2⌋ : ℚ) = -(1 / 2)
    · right
      have hz : ((⌊x + 1 / 2⌋ : Int) : ℚ) = x + 1 / 2 := by linarith
      refine ⟨by rw [htie]; norm_num, ?_⟩
      rw [hz, abs_of_nonneg h0, abs_of_nonneg (by linarith)]
      linarith
    · left
      rw [abs_lt]
      constructor
      · rcases lt_or_eq_of_le (show -(1 / 2) ≤ x - (⌊x + 1 / 2⌋ : ℚ) by linarith) with h | h
        · exact h
        · exact absurd h.symm htie
      · linarith
  · push_neg at h0
    rw [Rat.floor_eq_intFloor]
    have h1 := Int.floor_le (-x + 1 / 2)
    have h2 := Int.lt_floor_add_one (-x + 1 / 2)
    push_cast
    by_cases htie : x + (⌊-x + 1 / 2⌋ : ℚ) = 1 / 2
    · right
      have hz : ((⌊-x + 1 / 2⌋ : Int) : ℚ) = -x + 1 / 2 := by linarith
      refine ⟨by rw [sub_neg_eq_add, htie]; norm_num, ?_⟩
      rw [hz, abs_of_neg h0, abs_neg, abs_of_nonneg (by linarith)]
      linarith
    · left
      rw [sub_neg_eq_add, abs_lt]
      constructor
      · linarith
      · rcases lt_or_eq_of_le (show x + (⌊-x + 1 / 2⌋ : ℚ) ≤ 1 / 2 by linarith) with h | h
        · exact h
        · exact absurd h htie

/-! ## Single precision -/

theorem roundHalfEven_intCast (z : Int) : roundHalfEven (z : ℚ) = z := by
  unfold roundHalfEven
  rw [Rat.floor_eq_intFloor, Int.floor_intCast]
  simp

theorem roundHalfEven_error (x : ℚ) : |(roundHalfEven x : ℚ) - x| ≤ 1 / 2 := by
  unfold roundHalfEven
  rw [Rat.floor_eq_intFloor]
  have h1 := Int.floor_le x
  have h2 := Int.lt_floor_add_one x
  split_ifs with a b c
  · rw [abs_le]; constructor <;> linarith
  · rw [abs_le]; push_cast; constructor <;> linarith
  · rw [abs_le]; constructor <;> linarith
  · rw [abs_le]; push_cast; constructor <;> linarith

theorem Int.log_two_eq_of (x : ℚ) (e : Int) (h1 : (2 : ℚ) ^ e ≤ x) (h2 : x < (2 : ℚ) ^ (e + 1)) :
    Int.log 2 x = e := by
  have hx : 0 < x := lt_of_lt_of_le (zpow_pos (by norm_num) e) h1
  have a : e ≤ Int.log 2 x := (Int.zpow_le_iff_le_log (by norm_num) hx).1 (by exact_mod_cast h1)
  have b : Int.log 2 x < e + 1 :=
    (Int.lt_zpow_iff_log_lt (by norm_num) hx).1 (by exact_mod_cast h2)
  omega

theorem Float32.ulpExponent_eq_of (x : ℚ) (e : Int) (h1 : (2 : ℚ) ^ e ≤ |x|)
    (h2 : |x| < (2 : ℚ) ^ (e + 1)) : Float32.ulpExponent x = max e (-126) - 23 := by
  unfold Float32.ulpExponent
  rw [Int.log_two_eq_of |x| e h1 h2]

/-- Evaluation of a rounding from the binade of the argument. -/
theorem Float32.round_eq_of (x : ℚ) (e m : Int) (h1 : (2 : ℚ) ^ e ≤ |x|)
    (h2 : |x| < (2 : ℚ) ^ (e + 1)) (he : -126 ≤ e)
    (hm : roundHalfEven (x / 2 ^ (e - 23)) = m) :
    Float32.round x = (m : ℚ) * 2 ^ (e - 23) := by
  unfold Float32.round
  rw [Float32.ulpExponent_eq_of x e h1 h2, max_eq_left he, hm]

theorem Float32.round_zero : Float32.round 0 = 0 := by
  unfold Float32.round
  rw [zero_div]
  have := roundHalfEven_intCast 0
  simp only [Int.cast_zero] at this
  rw [this]
  simp

theorem Float32.ulpExponent_ge (x : ℚ) : -149 ≤ Float32.ulpExponent x := by
  unfold Float32.ulpExponent
  have := le_max_right (Int.log 2 |x|) (-126)
  omega

/-- A multiple of the spacing at `x` rounds to itself. -/
theorem Float32.round_of_multiple (x : ℚ) (z : Int)
    (h : x = (z : ℚ) * 2 ^ Float32.ulpExponent x) : Float32.round x = x := by
  unfold Float32.round
  have hp : (2 : ℚ) ^ Float32.ulpExponent x ≠ 0 := zpow_ne_zero _ (by norm_num)
  have e : x / 2 ^ Float32.ulpExponent x = (z : ℚ) := by
    rw [div_eq_iff hp]
    exact h
  rw [e, roundHalfEven_intCast]
  exact h.symm

theorem Float32.round_dyadic_lt (m e : Int) (hm : |m| < 2 ^ 24) (he : -149 ≤ e) :
    Float32.round ((m : ℚ) * 2 ^ e) = (m : ℚ) * 2 ^ e := by
  by_cases h0 : m = 0
  · rw [h0]
    simp [Float32.round_zero]
  have hpos : (0 : ℚ) < 2 ^ e := zpow_pos (by norm_num) e
  have hx0 : 0 < |(m : ℚ) * 2 ^ e| := by
    rw [abs_pos]
    exact mul_ne_zero (by exact_mod_cast h0) (ne_of_gt hpos)
  have hlt : |(m : ℚ) * 2 ^ e| < (2 : ℚ) ^ (24 + e) := by
    rw [abs_mul, abs_of_pos hpos, zpow_add₀ (by norm_num : (2 : ℚ) ≠ 0)]
    apply mul_lt_mul_of_pos_right _ hpos
    have : ((|m| : Int) : ℚ) < ((2 ^ 24 : Int) : ℚ) := by exact_mod_cast hm
    rw [Int.cast_abs] at this
    calc |(m : ℚ)| < ((2 ^ 24 : Int) : ℚ) := this
      _ = 2 ^ (24 : Int) := by norm_num
  have hlog : Int.log 2 |(m : ℚ) * 2 ^ e| < 24 + e :=
    (Int.lt_zpow_iff_log_lt (by norm_num) hx0).1 (by exact_mod_cast hlt)
  have hu : Float32.ulpExponent ((m : ℚ) * 2 ^ e) ≤ e := by
    unfold Float32.ulpExponent
    have := max_le (show Int.log 2 |(m : ℚ) * 2 ^ e| ≤ e + 23 by omega)
      (show (-126 : Int) ≤ e + 23 by omega)
    omega
  obtain ⟨k, hk⟩ := Int.eq_ofNat_of_zero_le (sub_nonneg.2 hu)
  apply Float32.round_of_multiple _ (m * 2 ^ k)
  have e1 : e = (k : Int) + Float32.ulpExponent ((m : ℚ) * 2 ^ e) := by omega
  conv_lhs => rw [e1]
  rw [zpow_add₀ (by norm_num : (2 : ℚ) ≠ 0), zpow_natCast]
  push_cast
  ring

/-- Every `m * 2^e` with `|m| ≤ 2^24` and `e ≥ -149` is a single-precision value. -/
theorem Float32.round_dyadic (m e : Int) (hm : |m| ≤ 2 ^ 24) (he : -149 ≤ e) :
    Float32.round ((m : ℚ) * 2 ^ e) = (m : ℚ) * 2 ^ e := by
  rcases lt_or_eq_of_le hm with h | h
  · exact Float32.round_dyadic_lt m e h he
  · rcases abs_eq (by norm_num : (0 : Int) ≤ 2 ^ 24) |>.1 h with h' | h'
    · have e1 : (m : ℚ) * 2 ^ e = ((1 : Int) : ℚ) * 2 ^ (e + 24) := by
        rw [h', zpow_add₀ (by norm_num : (2 : ℚ) ≠ 0)]
        push_cast
        ring
      rw [e1]
      exact Float32.round_dyadic_lt 1 (e + 24) (by norm_num) (by omega)
    · have e1 : (m : ℚ) * 2 ^ e = ((-1 : Int) : ℚ) * 2 ^ (e + 24) := by
        rw [h', zpow_add₀ (by norm_num : (2 : ℚ) ≠ 0)]
        push_cast
        ring
      rw [e1]
      exact Float32.round_dyadic_lt (-1) (e + 24) (by norm_num) (by omega)

/-- Integers of magnitude at most 2^24 are single-precision values. -/
theorem Float32.round_intCast (z : Int) (hz : |z| ≤ 2 ^ 24) :
    Float32.round (z : ℚ) = z := by
  have := Float32.round_dyadic z 0 hz (by norm_num)
  simpa using this

theorem Float32.round_natCast (n : Nat) (hn : n ≤ 2 ^ 24) :
    Float32.round (n : ℚ) = n := by
  have := Float32.round_intCast (n : Int) (by rw [abs_of_nonneg (by positivity)]; exact_mod_cast hn)
  simpa using this

/-- The rounding error is at most half the spacing. -/
theorem Float32.round_error (x : ℚ) :
    |Float32.round x - x| ≤ 2 ^ Float32.ulpExponent x / 2 := by
  unfold Float32.round
  have hp : (0 : ℚ) < 2 ^ Float32.ulpExponent x := zpow_pos (by norm_num) _
  have h := roundHalfEven_error (x / 2 ^ Float32.ulpExponent x)
  have e : (roundHalfEven (x / 2 ^ Float32.ulpExponent x) : ℚ) * 2 ^ Float32.ulpExponent x - x
      = ((roundHalfEven (x / 2 ^ Float32.ulpExponent x) : ℚ) - x / 2 ^ Float32.ulpExponent x)
        * 2 ^ Float32.ulpExponent x := by
    field_simp
  rw [e, abs_mul, abs_of_pos hp]
  calc _ ≤ 1 / 2 * 2 ^ Float32.ulpExponent x := mul_le_mul_of_nonneg_right h (le_of_lt hp)
    _ = _ := by ring


/-- A value strictly within half a unit of the integer `z` rounds to `z`. -/
theorem roundHalfEven_eq_of (x : ℚ) (z : Int) (h1 : (z : ℚ) - 1 / 2 < x)
    (h2 : x < (z : ℚ) + 1 / 2) : roundHalfEven x = z := by
  unfold roundHalfEven
  rw [Rat.floor_eq_intFloor]
  by_cases hx : (z : ℚ) ≤ x
  · have hf : ⌊x⌋ = z := by
      rw [Int.floor_eq_iff]
      constructor <;> linarith
    rw [hf, if_pos (by linarith)]
  · push_neg at hx
    have hf : ⌊x⌋ = z - 1 := by
      rw [Int.floor_eq_iff]
      push_cast
      constructor <;> linarith
    rw [hf]
    push_cast
    rw [if_neg (by linarith), if_pos (by linarith)]
    ring

/-- Halfway above an even integer, the rounding goes down to it. -/
theorem roundHalfEven_tie_even (z : Int) (hz : z % 2 = 0) :
    roundHalfEven ((z : ℚ) + 1 / 2) = z := by
  unfold roundHalfEven
  rw [Rat.floor_eq_intFloor]
  have hf : ⌊(z : ℚ) + 1 / 2⌋ = z := by
    rw [Int.floor_eq_iff]
    constructor <;> linarith
  rw [hf, if_neg (by linarith), if_neg (by linarith), if_pos hz]

/-- Evaluation of a rounding that is not a tie, with every side condition closed. -/
theorem Float32.round_eval (x : ℚ) (e m : Int) (r : ℚ) (h1 : (2 : ℚ) ^ e ≤ |x|)
    (h2 : |x| < (2 : ℚ) ^ (e + 1)) (he : -126 ≤ e)
    (hlo : (m : ℚ) - 1 / 2 < x / 2 ^ (e - 23)) (hhi : x / 2 ^ (e - 23) < (m : ℚ) + 1 / 2)
    (hr : r = (m : ℚ) * 2 ^ (e - 23)) : Float32.round x = r := by
  rw [hr]
  exact Float32.round_eq_of x e m h1 h2 he (roundHalfEven_eq_of _ m hlo hhi)

/-- An exact result that is `m * 2^e` with `|m| ≤ 2^24`, `e ≥ -149` is not rounded. -/
theorem Float32.round_eq_self (x : ℚ) (m e : Int) (h : x = (m : ℚ) * 2 ^ e)
    (hm : |m| ≤ 2 ^ 24) (he : -149 ≤ e) : Float32.round x = x := by
  rw [h]
  exact Float32.round_dyadic m e hm he

/-- Rounding is idempotent: a rounded value is a single-precision value. -/
theorem Float32.round_round (x : ℚ) : Float32.round (Float32.round x) = Float32.round x := by
  by_cases h0 : x = 0
  · rw [h0, Float32.round_zero, Float32.round_zero]
  have hx0 : 0 < |x| := abs_pos.2 h0
  have hp : (0 : ℚ) < 2 ^ Float32.ulpExponent x := zpow_pos (by norm_num) _
  apply Float32.round_eq_self _ (roundHalfEven (x / 2 ^ Float32.ulpExponent x))
    (Float32.ulpExponent x) rfl _ (Float32.ulpExponent_ge x)
  have hlt : |x| < (2 : ℚ) ^ (Int.log 2 |x| + 1) := by
    exact_mod_cast Int.lt_zpow_succ_log_self (by norm_num : 1 < 2) |x|
  have hu : Int.log 2 |x| + 1 ≤ Float32.ulpExponent x + 24 := by
    unfold Float32.ulpExponent
    have := le_max_left (Int.log 2 |x|) (-126)
    omega
  have hlt2 : |x| < (2 : ℚ) ^ (Float32.ulpExponent x + 24) :=
    lt_of_lt_of_le hlt (zpow_le_zpow_right₀ (by norm_num) hu)
  have hy : |x / 2 ^ Float32.ulpExponent x| < 2 ^ 24 := by
    rw [abs_div, abs_of_pos hp, div_lt_iff₀ hp]
    calc |x| < (2 : ℚ) ^ (Float32.ulpExponent x + 24) := hlt2
      _ = 2 ^ 24 * 2 ^ Float32.ulpExponent x := by
        rw [zpow_add₀ (by norm_num : (2 : ℚ) ≠ 0)]
        norm_num
        ring
  have herr := roundHalfEven_error (x / 2 ^ Float32.ulpExponent x)
  have hb : |((roundHalfEven (x / 2 ^ Float32.ulpExponent x) : Int) : ℚ)| < 2 ^ 24 + 1 := by
    have := abs_sub_abs_le_abs_sub
      ((roundHalfEven (x / 2 ^ Float32.ulpExponent x) : Int) : ℚ) (x / 2 ^ Float32.ulpExponent x)
    linarith
  have hb' : ((|roundHalfEven (x / 2 ^ Float32.ulpExponent x)| : Int) : ℚ)
      < ((2 ^ 24 + 1 : Int) : ℚ) := by
    rw [Int.cast_abs]
    calc _ < (2 : ℚ) ^ 24 + 1 := hb
      _ = _ := by norm_num
  have : |roundHalfEven (x / 2 ^ Float32.ulpExponent x)| < 2 ^ 24 + 1 := by exact_mod_cast hb'
  omega

theorem Float32.mul_by_zero (a : ℚ) : Float32.mul a 0 = 0 := by
  unfold Float32.mul
  rw [MulZeroClass.mul_zero, Float32.round_zero]

theorem Float32.mul_by_one (a : ℚ) : Float32.mul (Float32.round a) 1 = Float32.round a := by
  unfold Float32.mul
  rw [MulOneClass.mul_one, Float32.round_round]

theorem Float32.ofNat_eq (n : Nat) (hn : n ≤ 2 ^ 24) : Float32.ofNat n = n :=
  Float32.round_natCast n hn

theorem Float32.ofInt_eq (z : Int) (hz : |z| ≤ 2 ^ 24) : Float32.ofInt z = z :=
  Float32.round_intCast z hz

/-- Evaluation of `lround` at a value that is not negative. -/
theorem lround_eval (x : ℚ) (z : Int) (h0 : 0 ≤ x) (h1 : (z : ℚ) - 1 / 2 ≤ x)
    (h2 : x < (z : ℚ) + 1 / 2) : lround x = z := by
  unfold lround
  rw [if_pos h0, Rat.floor_eq_intFloor, Int.floor_eq_iff]
  constructor <;> linarith

theorem lround_zero : lround 0 = 0 := by
  simpa using lround_intCast 0

/-- `getViewport` returns the four products of the pixel size, converted to `float`,
with the normalized viewport, each rounded to single precision, then to the nearest
integer, then narrowed to `int`. -/
theorem RenderTarget.getViewport_eq (rt : RenderTarget) (view : View) :
    rt.getViewport view
      = IntRect.ofLongs
          (lround (Float32.mul (Float32.ofNat rt.size.x) view.viewport.position.x))
          (lround (Float32.mul (Float32.ofNat rt.size.y) view.viewport.position.y))
          (lround (Float32.mul (Float32.ofNat rt.size.x) view.viewport.size.x))
          (lround (Float32.mul (Float32.ofNat rt.size.y) view.viewport.size.y)) :=
  rfl

@[simp]
theorem RenderTarget.initializeTarget_observed (rt : RenderTarget) (w : World) :
    (rt.initializeTarget w).2.observed = w.observed := by
  unfold RenderTarget.initializeTarget RenderTargetImpl.getUniqueId
  simp [snd_ite, GLCall.isViewportScissorOrDraw]

theorem RenderTarget.initializeTarget_size (rt : RenderTarget) (w : World) :
    (rt.initializeTarget w).1.size = rt.size := by
  unfold RenderTarget.initializeTarget
  simp [fst_ite]

theorem RenderTarget.initializeTarget_view (rt : RenderTarget) (w : World) :
    (rt.initializeTarget w).1.m_view
      = View.ofRect ⟨⟨0, 0⟩, Vector2f.ofVector2u rt.getSize⟩ := by
  unfold RenderTarget.initializeTarget
  simp [fst_ite]

/-- The pixel viewport of a view whose normalized viewport is the full unit
rectangle: the size of the target, converted to `float` and back. -/
theorem RenderTarget.getViewport_unit (rt : RenderTarget) (view : View)
    (h : view.viewport = ⟨⟨0, 0⟩, ⟨1, 1⟩⟩) :
    rt.getViewport view
      = ⟨⟨0, 0⟩, ⟨toInt32 (lround (Float32.ofNat rt.size.x)),
          toInt32 (lround (Float32.ofNat rt.size.y))⟩⟩ := by
  rw [RenderTarget.getViewport_eq, h]
  simp only [Float32.mul_by_zero, Float32.ofNat, Float32.mul_by_one, lround_zero]
  rfl

/-- The viewport call of a draw through a view with the full unit viewport. -/
theorem RenderTarget.viewportCall_unit (rt : RenderTarget)
    (h : rt.m_view.viewport = ⟨⟨0, 0⟩, ⟨1, 1⟩⟩) :
    GLCall.glViewport (rt.getViewport rt.m_view).position.x
      (toInt32 (toInt32 rt.getSize.y -
        toInt32 ((rt.getViewport rt.m_view).position.y + (rt.getViewport rt.m_view).size.y)))
      (rt.getViewport rt.m_view).size.x (rt.getViewport rt.m_view).size.y
    = GLCall.glViewport 0
        (toInt32 (toInt32 rt.size.y - toInt32 (lround (Float32.ofNat rt.size.y))))
        (toInt32 (lround (Float32.ofNat rt.size.x)))
        (toInt32 (lround (Float32.ofNat rt.size.y))) := by
  rw [RenderTarget.getViewport_unit rt rt.m_view h]
  simp only [RenderTarget.getSize, zero_add, toInt32_idem]

/-- The calls of a draw on a freshly initialized target, for any size. -/
theorem RenderTarget.draw_fresh_observed (rt0 : RenderTarget) (w0 : World)
    (vs : List Vertex) (n : Nat) (type : PrimitiveType) (states : RenderStates)
    (hn : n ≠ 0) :
    ((rt0.initializeTarget w0).1.draw (some vs) n type states
        (rt0.initializeTarget w0).2).2.observed
      = w0.observed ++
        [GLCall.glViewport 0
          (toInt32 (toInt32 rt0.size.y - toInt32 (lround (Float32.ofNat rt0.size.y))))
          (toInt32 (lround (Float32.ofNat rt0.size.x)))
          (toInt32 (lround (Float32.ofNat rt0.size.y))),
         GLCall.glDrawArrays (RenderTarget.modes type) 0 (toInt32 n)] := by
  rw [RenderTarget.draw_observed _ vs n type states _ hn,
    RenderTarget.viewportCall_unit _
      (by rw [RenderTarget.initializeTarget_view]; rfl),
    RenderTarget.initializeTarget_size, RenderTarget.initializeTarget_observed]

/-- The conversion of 2^24 + 1 to `float` is 2^24. -/
theorem Float32.ofNat_odd : Float32.ofNat 16777217 = 16777216 := by
  unfold Float32.ofNat
  have h := Float32.round_eq_of 16777217 24 8388608 (by norm_num) (by norm_num) (by norm_num)
    (by
      have e : (16777217 : ℚ) / 2 ^ ((24 : Int) - 23) = ((8388608 : Int) : ℚ) + 1 / 2 := by
        norm_num
      rw [e]
      exact roundHalfEven_tie_even 8388608 (by decide))
  rw [show ((16777217 : Nat) : ℚ) = 16777217 by norm_num, h]
  norm_num

/-! ## The draw of the example scenario -/

/-- Counterexample to C7 as stated ("any pixel size"): on a freshly initialized target
2^24 + 1 pixels wide, the only viewport call among the calls the draw issues has width
2^24 (the size passes through `float`); on one 2^31 pixels wide it has width -2^31 (the
result is narrowed to `int`). In both cases the width is not W. -/
theorem draw_fresh_target_counterexample :
    (oddTarget.size = ⟨16777217, 100⟩ ∧
      ∃ issued,
        ((oddTarget.initializeTarget sampleWorld).1.draw (some sampleQuad) 4
            PrimitiveType.TriangleStrip RenderStates.Default
            (oddTarget.initializeTarget sampleWorld).2).2.gl.trace
          = (oddTarget.initializeTarget sampleWorld).2.gl.trace ++ issued ∧
        issued.filter GLCall.isViewportScissorOrDraw
          = [GLCall.glViewport 0 0 16777216 100,
             GLCall.glDrawArrays GLenum.GL_TRIANGLE_STRIP 0 4]) ∧
    (hugeTarget.size = ⟨2147483648, 100⟩ ∧
      ∃ issued,
        ((hugeTarget.initializeTarget sampleWorld).1.draw (some sampleQuad) 4
            PrimitiveType.TriangleStrip RenderStates.Default
            (hugeTarget.initializeTarget sampleWorld).2).2.gl.trace
          = (hugeTarget.initializeTarget sampleWorld).2.gl.trace ++ issued ∧
        issued.filter GLCall.isViewportScissorOrDraw
          = [GLCall.glViewport 0 0 (-2147483648) 100,
             GLCall.glDrawArrays GLenum.GL_TRIANGLE_STRIP 0 4]) := by
  have h100 : lround (Float32.ofNat 100) = 100 := by
    rw [Float32.ofNat_eq 100 (by norm_num)]
    exact lround_natCast 100
  refine ⟨⟨rfl, World.issued_of _ _ _
    (RenderTarget.draw_trace_mono _ _ _ _ _ _ _ (List.prefix_refl _)) ?_⟩,
    ⟨rfl, World.issued_of _ _ _
    (RenderTarget.draw_trace_mono _ _ _ _ _ _ _ (List.prefix_refl _)) ?_⟩⟩
  · rw [RenderTarget.draw_fresh_observed oddTarget sampleWorld sampleQuad 4
      PrimitiveType.TriangleStrip RenderStates.Default (by decide),
      RenderTarget.initializeTarget_observed]
    have hw : lround (Float32.ofNat oddTarget.size.x) = 16777216 := by
      show lround (Float32.ofNat 16777217) = 16777216
      rw [Float32.ofNat_odd]
      exact lround_natCast 16777216
    have hh : lround (Float32.ofNat oddTarget.size.y) = 100 := h100
    rw [hw, hh]
    rfl
  · rw [RenderTarget.draw_fresh_observed hugeTarget sampleWorld sampleQuad 4
      PrimitiveType.TriangleStrip RenderStates.Default (by decide),
      RenderTarget.initializeTarget_observed]
    have hw : lround (Float32.ofNat hugeTarget.size.x) = 2147483648 := by
      show lround (Float32.ofNat 2147483648) = 2147483648
      have e : Float32.ofNat 2147483648 = ((2147483648 : Nat) : ℚ) := by
        unfold Float32.ofNat
        exact Float32.round_eq_self _ 1 31 (by norm_num) (by norm_num) (by norm_num)
      rw [e]
      exact lround_natCast 2147483648
    have hh : lround (Float32.ofNat hugeTarget.size.y) = 100 := h100
    rw [hw, hh]
    rfl

/-- C7 (amended): for a freshly initialized target of pixel size W x H with
W, H ≤ 2^24, drawn through its default view, drawing n vertices (1 <= n < 2^31) as a
triangle strip, with any render states (in particular the default shader and the
identity transform): the driver trace grows by the calls issued, and the viewport,
scissor and draw calls among them are exactly the viewport call (0, 0, W, H) followed
by one primitive draw call with mode triangle-strip, first vertex 0 and count n; no
scissor call is issued. -/
theorem draw_fresh_target (rt0 : RenderTarget) (w0 : World) (vs : List Vertex) (n : Nat)
    (states : RenderStates) (hW : rt0.size.x ≤ 2 ^ 24) (hH : rt0.size.y ≤ 2 ^ 24)
    (hn1 : 1 ≤ n) (hn : n < 2 ^ 31) :
    ∃ issued,
      ((rt0.initializeTarget w0).1.draw (some vs) n PrimitiveType.TriangleStrip states
          (rt0.initializeTarget w0).2).2.gl.trace
        = (rt0.initializeTarget w0).2.gl.trace ++ issued ∧
      issued.filter GLCall.isViewportScissorOrDraw
        = [GLCall.glViewport 0 0 rt0.size.x rt0.size.y,
           GLCall.glDrawArrays GLenum.GL_TRIANGLE_STRIP 0 n] := by
  refine World.issued_of _ _ _
    (RenderTarget.draw_trace_mono _ _ _ _ _ _ _ (List.prefix_refl _)) ?_
  rw [RenderTarget.draw_fresh_observed rt0 w0 vs n PrimitiveType.TriangleStrip states
    (by omega), RenderTarget.initializeTarget_observed]
  have hw : lround (Float32.ofNat rt0.size.x) = rt0.size.x := by
    rw [Float32.ofNat_eq _ hW]
    exact lround_natCast _
  have hh : lround (Float32.ofNat rt0.size.y) = rt0.size.y := by
    rw [Float32.ofNat_eq _ hH]
    exact lround_natCast _
  have h1 : toInt32 (rt0.size.x : Int) = rt0.size.x :=
    toInt32_of_inInt32 _ ⟨by omega, by omega⟩
  have h2 : toInt32 (rt0.size.y : Int) = rt0.size.y :=
    toInt32_of_inInt32 _ ⟨by omega, by omega⟩
  have h3 : toInt32 (n : Int) = n := toInt32_of_inInt32 _ ⟨by omega, by omega⟩
  have h4 : toInt32 0 = 0 := rfl
  rw [hw, hh, h1, h2, h3, sub_self, h4]
  rfl

/-- Witness of C7: the white 4-vertex quad drawn as a triangle strip, with the default
states, on a freshly initialized 100 x 100 target. -/
theorem draw_fresh_target_witness :
    (sampleTarget.size.x ≤ 2 ^ 24 ∧ sampleTarget.size.y ≤ 2 ^ 24 ∧ 1 ≤ 4 ∧ 4 < 2 ^ 31) ∧
    ∃ issued,
      ((sampleTarget.initializeTarget sampleWorld).1.draw (some sampleQuad) 4
          PrimitiveType.TriangleStrip RenderStates.Default
          (sampleTarget.initializeTarget sampleWorld).2).2.gl.trace
        = (sampleTarget.initializeTarget sampleWorld).2.gl.trace ++ issued ∧
      issued.filter GLCall.isViewportScissorOrDraw
        = [GLCall.glViewport 0 0 100 100, GLCall.glDrawArrays GLenum.GL_TRIANGLE_STRIP 0 4] :=
  ⟨by decide,
    draw_fresh_target sampleTarget sampleWorld sampleQuad 4 RenderStates.Default
      (by decide) (by decide) (by decide) (by decide)⟩

/-! ## Viewport rounding and vertical flip -/

/-- The product `5.0f * 0.7f` rounds to `3.5f`. -/
theorem Float32.mul_five_fraction : Float32.mul 5 (11744051 / 16777216) = 7 / 2 := by
  unfold Float32.mul
  exact Float32.round_eval _ 1 14680064 _ (by norm_num [abs_of_nonneg])
    (by norm_num [abs_of_nonneg]) (by norm_num) (by norm_num) (by norm_num) (by norm_num)

/-- Counterexample to C8 as stated. (1) On a 5 x 5 target, a view whose normalized
viewport has the width `0.7f`: the product 5 * 0.7f = 3.4999999... has the nearest
integer 3, but `getViewport` returns the width 4, because the product is first rounded
to the single-precision value 3.5. (2) On a 100 x 100 target, a view whose normalized
viewport is 30,000,000 wide has the rounded width 3,000,000,000, but `getViewport`
returns the width -1,294,967,296 (the result is an `IntRect`). -/
theorem getViewport_counterexample :
    (lround ((tinyTarget.size.x : ℚ) * fractionView.viewport.size.x) = 3 ∧
      (tinyTarget.getViewport fractionView).size.x = 4) ∧
    (lround ((sampleTarget.size.x : ℚ) * wideView.viewport.size.x) = 3000000000 ∧
      (sampleTarget.getViewport wideView).size.x = -1294967296) := by
  refine ⟨⟨?_, ?_⟩, ?_, ?_⟩
  · exact lround_eval _ 3 (by simp only [tinyTarget, fractionView]; norm_num)
      (by simp only [tinyTarget, fractionView]; norm_num)
      (by simp only [tinyTarget, fractionView]; norm_num)
  · have e : (tinyTarget.getViewport fractionView).size.x
        = toInt32 (lround (Float32.mul (Float32.ofNat 5) (11744051 / 16777216))) := rfl
    have e5 : Float32.ofNat 5 = 5 := by
      rw [Float32.ofNat_eq 5 (by norm_num)]
      norm_num
    rw [e, e5, Float32.mul_five_fraction,
      lround_eval (7 / 2) 4 (by norm_num) (by norm_num) (by norm_num)]
    decide
  · have e : (sampleTarget.size.x : ℚ) * wideView.viewport.size.x
        = ((3000000000 : Int) : ℚ) := by
      simp only [sampleTarget, wideView]
      norm_num
    rw [e, lround_intCast]
  · have e : (sampleTarget.getViewport wideView).size.x
        = toInt32 (lround (Float32.mul (Float32.ofNat 100) 30000000)) := rfl
    have e100 : Float32.ofNat 100 = 100 := by
      rw [Float32.ofNat_eq 100 (by norm_num)]
      norm_num
    have em : Float32.mul 100 30000000 = ((3000000000 : Int) : ℚ) := by
      unfold Float32.mul
      rw [Float32.round_eq_self _ 5859375 9 (by norm_num) (by norm_num) (by norm_num)]
      norm_num
    rw [e, e100, em, lround_intCast]
    decide

/-- C8 (amended): (1) each component of `getViewport(view)` is the product of the
target's pixel size, converted to `float`, and the view's normalized viewport, rounded
to single precision and then to the nearest integer with halves away from zero,
provided the four results fit a 32-bit `int`; a single-precision product is within
half a spacing of the exact one, sizes up to 2^24 convert exactly, and when the four
exact products are single-precision values the result is the rectangle of the exact
products; (2) provided `H`, `y + h` and `H - (y + h)` fit a 32-bit `int`, where
`(x, y, w, h) = getViewport(current view)`, every draw that reaches the pipeline, from
a vertex array or from a vertex buffer, issues exactly one viewport call,
`(x, H - (y + h), w, h)`, followed by its primitive draw call. -/
theorem getViewport_rounds_and_draw_flips (rt : RenderTarget) (view : View)
    (hx : InInt32 (lround (Float32.mul (Float32.ofNat rt.size.x) view.viewport.position.x)))
    (hy : InInt32 (lround (Float32.mul (Float32.ofNat rt.size.y) view.viewport.position.y)))
    (hw : InInt32 (lround (Float32.mul (Float32.ofNat rt.size.x) view.viewport.size.x)))
    (hh : InInt32 (lround (Float32.mul (Float32.ofNat rt.size.y) view.viewport.size.y)))
    (hH : InInt32 (rt.size.y : Int))
    (hsum : InInt32
      ((rt.getViewport rt.m_view).position.y + (rt.getViewport rt.m_view).size.y))
    (hdiff : InInt32 ((rt.size.y : Int) -
      ((rt.getViewport rt.m_view).position.y + (rt.getViewport rt.m_view).size.y))) :
    (rt.getViewport view
        = ⟨⟨lround (Float32.mul (Float32.ofNat rt.size.x) view.viewport.position.x),
            lround (Float32.mul (Float32.ofNat rt.size.y) view.viewport.position.y)⟩,
           ⟨lround (Float32.mul (Float32.ofNat rt.size.x) view.viewport.size.x),
            lround (Float32.mul (Float32.ofNat rt.size.y) view.viewport.size.y)⟩⟩ ∧
      IsRoundHalfAwayFromZero
        (Float32.mul (Float32.ofNat rt.size.x) view.viewport.position.x)
        (rt.getViewport view).position.x ∧
      IsRoundHalfAwayFromZero
        (Float32.mul (Float32.ofNat rt.size.y) view.viewport.position.y)
        (rt.getViewport view).position.y ∧
      IsRoundHalfAwayFromZero
        (Float32.mul (Float32.ofNat rt.size.x) view.viewport.size.x)
        (rt.getViewport view).size.x ∧
      IsRoundHalfAwayFromZero
        (Float32.mul (Float32.ofNat rt.size.y) view.viewport.size.y)
        (rt.getViewport view).size.y) ∧
    ((∀ a b : ℚ, |Float32.mul a b - a * b| ≤ 2 ^ Float32.ulpExponent (a * b) / 2) ∧
      (∀ n : Nat, n ≤ 2 ^ 24 → Float32.ofNat n = n) ∧
      (rt.size.x ≤ 2 ^ 24 → rt.size.y ≤ 2 ^ 24 →
        Float32.round ((rt.size.x : ℚ) * view.viewport.position.x)
          = (rt.size.x : ℚ) * view.viewport.position.x →
        Float32.round ((rt.size.y : ℚ) * view.viewport.position.y)
          = (rt.size.y : ℚ) * view.viewport.position.y →
        Float32.round ((rt.size.x : ℚ) * view.viewport.size.x)
          = (rt.size.x : ℚ) * view.viewport.size.x →
        Float32.round ((rt.size.y : ℚ) * view.viewport.size.y)
          = (rt.size.y : ℚ) * view.viewport.size.y →
        rt.getViewport view = rt.specViewport view)) ∧
    (∀ (vs : List Vertex) (n : Nat) (type : PrimitiveType) (states : RenderStates)
        (w : World), n ≠ 0 →
      ∃ issued, (rt.draw (some vs) n type states w).2.gl.trace = w.gl.trace ++ issued ∧
        issued.filter GLCall.isViewportScissorOrDraw =
          [GLCall.glViewport (rt.getViewport rt.m_view).position.x
            ((rt.size.y : Int) -
              ((rt.getViewport rt.m_view).position.y + (rt.getViewport rt.m_view).size.y))
            (rt.getViewport rt.m_view).size.x (rt.getViewport rt.m_view).size.y,
           GLCall.glDrawArrays (RenderTarget.modes type) 0 (toInt32 n)]) ∧
    (∀ (vb : VertexBuffer) (first count : Nat) (states : RenderStates) (w : World),
      w.config.vertexBufferAvailable = true → first ≤ vb.getVertexCount →
      min count (vb.getVertexCount - first) ≠ 0 → vb.getNativeHandle ≠ 0 →
      ∃ issued,
        (rt.drawVertexBuffer vb first count states w).2.gl.trace = w.gl.trace ++ issued ∧
        issued.filter GLCall.isViewportScissorOrDraw =
          [GLCall.glViewport (rt.getViewport rt.m_view).position.x
            ((rt.size.y : Int) -
              ((rt.getViewport rt.m_view).position.y + (rt.getViewport rt.m_view).size.y))
            (rt.getViewport rt.m_view).size.x (rt.getViewport rt.m_view).size.y,
           GLCall.glDrawArrays (RenderTarget.modes vb.getPrimitiveType) (toInt32 first)
            (toInt32 ((min count (vb.getVertexCount - first) : Nat) : Int))]) := by
  have hgv : rt.getViewport view
      = ⟨⟨lround (Float32.mul (Float32.ofNat rt.size.x) view.viewport.position.x),
          lround (Float32.mul (Float32.ofNat rt.size.y) view.viewport.position.y)⟩,
         ⟨lround (Float32.mul (Float32.ofNat rt.size.x) view.viewport.size.x),
          lround (Float32.mul (Float32.ofNat rt.size.y) view.viewport.size.y)⟩⟩ := by
    rw [RenderTarget.getViewport_eq]
    unfold IntRect.ofLongs
    rw [toInt32_of_inInt32 _ hx, toInt32_of_inInt32 _ hy, toInt32_of_inInt32 _ hw,
      toInt32_of_inInt32 _ hh]
  have hcall :
      GLCall.glViewport (rt.getViewport rt.m_view).position.x
        (toInt32 (toInt32 rt.getSize.y -
          toInt32 ((rt.getViewport rt.m_view).position.y +
            (rt.getViewport rt.m_view).size.y)))
        (rt.getViewport rt.m_view).size.x (rt.getViewport rt.m_view).size.y
      = GLCall.glViewport (rt.getViewport rt.m_view).position.x
        ((rt.size.y : Int) -
          ((rt.getViewport rt.m_view).position.y + (rt.getViewport rt.m_view).size.y))
        (rt.getViewport rt.m_view).size.x (rt.getViewport rt.m_view).size.y := by
    unfold RenderTarget.getSize
    rw [toInt32_of_inInt32 _ hsum, toInt32_of_inInt32 _ hH, toInt32_of_inInt32 _ hdiff]
  refine ⟨⟨hgv, ?_, ?_, ?_, ?_⟩, ⟨?_, ?_, ?_⟩, ?_, ?_⟩
  · rw [hgv]; exact lround_isRound _
  · rw [hgv]; exact lround_isRound _
  · rw [hgv]; exact lround_isRound _
  · rw [hgv]; exact lround_isRound _
  · intro a b
    exact Float32.round_error (a * b)
  · intro n hn
    exact Float32.ofNat_eq n hn
  · intro hW hHt e1 e2 e3 e4
    rw [hgv]
    unfold RenderTarget.specViewport Float32.mul
    rw [Float32.ofNat_eq _ hW, Float32.ofNat_eq _ hHt, e1, e2, e3, e4]
  · intro vs n type states w hn
    refine World.issued_of _ _ _
      (RenderTarget.draw_trace_mono _ _ _ _ _ _ _ (List.prefix_refl _)) ?_
    rw [RenderTarget.draw_observed rt vs n type states w hn, hcall]
  · intro vb first count states w hav hfirst hcount hhandle
    refine World.issued_of _ _ _
      (RenderTarget.drawVertexBuffer_trace_mono _ _ _ _ _ _ _ (List.prefix_refl _)) ?_
    rw [RenderTarget.drawVertexBuffer_observed rt vb first count states w hav hfirst hcount
      hhandle, hcall]

theorem cornerTarget_rounded :
    lround (Float32.mul (Float32.ofNat cornerTarget.size.x) cornerView.viewport.position.x)
      = 0 ∧
    lround (Float32.mul (Float32.ofNat cornerTarget.size.y) cornerView.viewport.position.y)
      = 0 ∧
    lround (Float32.mul (Float32.ofNat cornerTarget.size.x) cornerView.viewport.size.x)
      = 50 ∧
    lround (Float32.mul (Float32.ofNat cornerTarget.size.y) cornerView.viewport.size.y)
      = 25 := by
  have e100 : Float32.ofNat 100 = 100 := by
    rw [Float32.ofNat_eq 100 (by norm_num)]
    norm_num
  have e50 : Float32.mul 100 (1 / 2) = ((50 : Int) : ℚ) := by
    unfold Float32.mul
    rw [Float32.round_eq_self _ 50 0 (by norm_num) (by norm_num) (by norm_num)]
    norm_num
  have e25 : Float32.mul 100 (1 / 4) = ((25 : Int) : ℚ) := by
    unfold Float32.mul
    rw [Float32.round_eq_self _ 25 0 (by norm_num) (by norm_num) (by norm_num)]
    norm_num
  simp only [cornerTarget, cornerView, sampleTarget, sampleView, e100, Float32.mul_by_zero,
    lround_zero, e50, e25, lround_intCast, and_self]

theorem cornerTarget_getViewport :
    cornerTarget.getViewport cornerTarget.m_view = ⟨⟨0, 0⟩, ⟨50, 25⟩⟩ := by
  have h := cornerTarget_rounded
  have e : cornerTarget.getViewport cornerTarget.m_view
      = IntRect.ofLongs
          (lround (Float32.mul (Float32.ofNat cornerTarget.size.x)
            cornerView.viewport.position.x))
          (lround (Float32.mul (Float32.ofNat cornerTarget.size.y)
            cornerView.viewport.position.y))
          (lround (Float32.mul (Float32.ofNat cornerTarget.size.x) cornerView.viewport.size.x))
          (lround (Float32.mul (Float32.ofNat cornerTarget.size.y) cornerView.viewport.size.y)) :=
    rfl
  rw [e, h.1, h.2.1, h.2.2.1, h.2.2.2]
  decide

/-- Witness of C8: the 100 x 100 target looking through a view whose viewport is
(0, 0, 1/2, 1/4): `getViewport` is (0, 0, 50, 25) and a draw of the quad issues the
viewport call (0, 100 - (0 + 25), 50, 25) = (0, 75, 50, 25). -/
theorem getViewport_rounds_and_draw_flips_witness :
    cornerTarget.getViewport cornerView = ⟨⟨0, 0⟩, ⟨50, 25⟩⟩ ∧
    ∃ issued,
      (cornerTarget.draw (some sampleQuad) 4 PrimitiveType.TriangleStrip RenderStates.Default
          sampleWorld).2.gl.trace = sampleWorld.gl.trace ++ issued ∧
      issued.filter GLCall.isViewportScissorOrDraw
        = [GLCall.glViewport 0 75 50 25, GLCall.glDrawArrays GLenum.GL_TRIANGLE_STRIP 0 4] := by
  have hr := cornerTarget_rounded
  have hv := cornerTarget_getViewport
  have h := getViewport_rounds_and_draw_flips cornerTarget cornerView
    (by rw [hr.1]; decide) (by rw [hr.2.1]; decide) (by rw [hr.2.2.1]; decide)
    (by rw [hr.2.2.2]; decide) (by decide) (by rw [hv]; decide) (by rw [hv]; decide)
  refine ⟨hv, ?_⟩
  have hd := h.2.2.1 sampleQuad 4 PrimitiveType.TriangleStrip RenderStates.Default sampleWorld
    (by decide)
  rw [hv] at hd
  exact hd

/-! ## Pixel and world coordinates -/

theorem truncate_intCast (z : Int) : truncate (z : ℚ) = z := by
  unfold truncate
  split_ifs
  · rw [Rat.floor_eq_intFloor, Int.floor_intCast]
  · rw [Rat.floor_eq_intFloor, ← Int.cast_neg, Int.floor_intCast, neg_neg]

/-- Converting an integer-valued float inside the `int` range gives that integer. -/
theorem floatToInt_intCast (z : Int) (h : InInt32 z) : floatToInt (z : ℚ) = some z := by
  unfold floatToInt
  rw [truncate_intCast, if_pos h]

/-- Converting a float that is not negative truncates it. -/
theorem floatToInt_of_floor (x : ℚ) (z : Int) (h0 : 0 ≤ x) (h1 : (z : ℚ) ≤ x)
    (h2 : x < (z : ℚ) + 1) (hz : InInt32 z) : floatToInt x = some z := by
  have ht : truncate x = z := by
    unfold truncate
    rw [if_pos h0, Rat.floor_eq_intFloor, Int.floor_eq_iff]
    exact ⟨h1, h2⟩
  unfold floatToInt
  rw [ht, if_pos hz]

theorem Vector2i.ofVector2f_intCast (p : Vector2i) (hx : InInt32 p.x) (hy : InInt32 p.y) :
    Vector2i.ofVector2f ⟨(p.x : ℚ), (p.y : ℚ)⟩ = some p := by
  unfold Vector2i.ofVector2f
  simp only [floatToInt_intCast _ hx, floatToInt_intCast _ hy]

theorem sampleView_mutuallyInverse : sampleView.MutuallyInverse := by
  unfold View.MutuallyInverse
  simp [sampleView, View.getTransform, View.getInverseTransform, Transform.Identity,
    Transform.transformPoint]

theorem sampleTarget_getViewport :
    sampleTarget.getViewport sampleView = ⟨⟨0, 0⟩, ⟨100, 100⟩⟩ := by
  rw [RenderTarget.getViewport_unit sampleTarget sampleView rfl]
  have h : lround (Float32.ofNat sampleTarget.size.x) = 100 := by
    show lround (Float32.ofNat 100) = 100
    rw [Float32.ofNat_eq 100 (by norm_num)]
    exact lround_natCast 100
  have h' : lround (Float32.ofNat sampleTarget.size.y) = 100 := h
  rw [h, h']
  rfl

theorem gridTarget_getViewport :
    gridTarget.getViewport sampleView = ⟨⟨0, 0⟩, ⟨128, 64⟩⟩ := by
  rw [RenderTarget.getViewport_unit gridTarget sampleView rfl]
  have h : lround (Float32.ofNat gridTarget.size.x) = 128 := by
    show lround (Float32.ofNat 128) = 128
    rw [Float32.ofNat_eq 128 (by norm_num)]
    exact lround_natCast 128
  have h' : lround (Float32.ofNat gridTarget.size.y) = 64 := by
    show lround (Float32.ofNat 64) = 64
    rw [Float32.ofNat_eq 64 (by norm_num)]
    exact lround_natCast 64
  rw [h, h']
  rfl

theorem zpow_neg_natCast_two (k : Nat) : (2 : ℚ) ^ (-(k : Int)) = 1 / 2 ^ k := by
  rw [zpow_neg, zpow_natCast, one_div]

theorem zpow_one_sub_natCast_two (k : Nat) : (2 : ℚ) ^ (1 - (k : Int)) = 2 / 2 ^ k := by
  rw [zpow_sub₀ (by norm_num : (2 : ℚ) ≠ 0), zpow_one, zpow_natCast]

/-- The horizontal normalized coordinate of a pixel `d` columns into a viewport that
is `2^k` wide: no operation rounds. -/
theorem Float32.normalized_x (p x w : Int) (k : Nat) (hk : k ≤ 24) (hw : w = 2 ^ k)
    (hp1 : -2 ^ 24 ≤ p) (hp2 : p ≤ 2 ^ 24) (hx1 : -2 ^ 24 ≤ x) (hx2 : x ≤ 2 ^ 24)
    (h0 : 0 ≤ p - x) (h1 : p - x < w) :
    Float32.add (-1)
        (Float32.div (Float32.mul 2 (Float32.sub (Float32.ofInt p) (Float32.ofInt x)))
          (Float32.ofInt w))
      = ((2 * (p - x) - w : Int) : ℚ) * 2 ^ (-(k : Int)) := by
  have hw24 : w ≤ 2 ^ 24 := by
    rw [hw]
    exact pow_le_pow_right₀ (by norm_num) hk
  have hw0 : 0 < w := by
    rw [hw]
    positivity
  have hwq : (w : ℚ) = 2 ^ k := by
    rw [hw]
    push_cast
    rfl
  have h2k : (2 : ℚ) ^ k ≠ 0 := by positivity
  rw [Float32.ofInt_eq p (abs_le.2 ⟨hp1, hp2⟩), Float32.ofInt_eq x (abs_le.2 ⟨hx1, hx2⟩),
    Float32.ofInt_eq w (abs_le.2 ⟨by omega, hw24⟩)]
  have s1 : Float32.sub (p : ℚ) (x : ℚ) = ((p - x : Int) : ℚ) := by
    unfold Float32.sub
    rw [Float32.round_eq_self _ (p - x) 0 (by push_cast; ring) (abs_le.2 ⟨by omega, by omega⟩)
      (by norm_num)]
    push_cast
    ring
  have s2 : Float32.mul 2 ((p - x : Int) : ℚ) = 2 * ((p - x : Int) : ℚ) := by
    unfold Float32.mul
    exact Float32.round_eq_self _ (p - x) 1 (by rw [zpow_one]; ring)
      (abs_le.2 ⟨by omega, by omega⟩) (by norm_num)
  have s3 : Float32.div (2 * ((p - x : Int) : ℚ)) (w : ℚ) = 2 * ((p - x : Int) : ℚ) / 2 ^ k := by
    unfold Float32.div
    rw [hwq]
    exact Float32.round_eq_self _ (p - x) (1 - k)
      (by rw [zpow_one_sub_natCast_two]; ring) (abs_le.2 ⟨by omega, by omega⟩) (by omega)
  have s4 : Float32.add (-1) (2 * ((p - x : Int) : ℚ) / 2 ^ k)
      = ((2 * (p - x) - w : Int) : ℚ) * 2 ^ (-(k : Int)) := by
    unfold Float32.add
    have e : (-1 : ℚ) + 2 * ((p - x : Int) : ℚ) / 2 ^ k
        = ((2 * (p - x) - w : Int) : ℚ) * 2 ^ (-(k : Int)) := by
      rw [zpow_neg_natCast_two]
      push_cast
      rw [hwq]
      field_simp
      ring
    rw [e]
    exact Float32.round_dyadic _ _ (abs_le.2 ⟨by omega, by omega⟩) (by omega)
  rw [s1, s2, s3, s4]

/-- The vertical normalized coordinate of a pixel `d` rows into a viewport that is
`2^k` high: no operation rounds. -/
theorem Float32.normalized_y (p y h : Int) (k : Nat) (hk : k ≤ 24) (hh : h = 2 ^ k)
    (hp1 : -2 ^ 24 ≤ p) (hp2 : p ≤ 2 ^ 24) (hy1 : -2 ^ 24 ≤ y) (hy2 : y ≤ 2 ^ 24)
    (h0 : 0 ≤ p - y) (h1 : p - y < h) :
    Float32.add 1
        (Float32.div (Float32.mul (-2) (Float32.sub (Float32.ofInt p) (Float32.ofInt y)))
          (Float32.ofInt h))
      = ((h - 2 * (p - y) : Int) : ℚ) * 2 ^ (-(k : Int)) := by
  have hw24 : h ≤ 2 ^ 24 := by
    rw [hh]
    exact pow_le_pow_right₀ (by norm_num) hk
  have hw0 : 0 < h := by
    rw [hh]
    positivity
  have hwq : (h : ℚ) = 2 ^ k := by
    rw [hh]
    push_cast
    rfl
  have h2k : (2 : ℚ) ^ k ≠ 0 := by positivity
  rw [Float32.ofInt_eq p (abs_le.2 ⟨hp1, hp2⟩), Float32.ofInt_eq y (abs_le.2 ⟨hy1, hy2⟩),
    Float32.ofInt_eq h (abs_le.2 ⟨by omega, hw24⟩)]
  have s1 : Float32.sub (p : ℚ) (y : ℚ) = ((p - y : Int) : ℚ) := by
    unfold Float32.sub
    rw [Float32.round_eq_self _ (p - y) 0 (by push_cast; ring) (abs_le.2 ⟨by omega, by omega⟩)
      (by norm_num)]
    push_cast
    ring
  have s2 : Float32.mul (-2) ((p - y : Int) : ℚ) = -2 * ((p - y : Int) : ℚ) := by
    unfold Float32.mul
    exact Float32.round_eq_self _ (-(p - y)) 1 (by rw [zpow_one]; push_cast; ring)
      (abs_le.2 ⟨by omega, by omega⟩) (by norm_num)
  have s3 : Float32.div (-2 * ((p - y : Int) : ℚ)) (h : ℚ)
      = -2 * ((p - y : Int) : ℚ) / 2 ^ k := by
    unfold Float32.div
    rw [hwq]
    exact Float32.round_eq_self _ (-(p - y)) (1 - k)
      (by rw [zpow_one_sub_natCast_two]; push_cast; ring) (abs_le.2 ⟨by omega, by omega⟩)
      (by omega)
  have s4 : Float32.add 1 (-2 * ((p - y : Int) : ℚ) / 2 ^ k)
      = ((h - 2 * (p - y) : Int) : ℚ) * 2 ^ (-(k : Int)) := by
    unfold Float32.add
    have e : (1 : ℚ) + -2 * ((p - y : Int) : ℚ) / 2 ^ k
        = ((h - 2 * (p - y) : Int) : ℚ) * 2 ^ (-(k : Int)) := by
      rw [zpow_neg_natCast_two]
      push_cast
      rw [hwq]
      field_simp
      ring
    rw [e]
    exact Float32.round_dyadic _ _ (abs_le.2 ⟨by omega, by omega⟩) (by omega)
  rw [s1, s2, s3, s4]

/-- From the normalized coordinate of a pixel back to its column (`s = 1`) or row
(`s = -1`, with the coordinate mirrored): no operation rounds. -/
theorem Float32.viewport_coordinate (p x w m : Int) (s : ℚ) (k : Nat) (hk : k ≤ 24)
    (hw : w = 2 ^ k) (hp1 : -2 ^ 24 ≤ p) (hp2 : p ≤ 2 ^ 24) (hx1 : -2 ^ 24 ≤ x)
    (hx2 : x ≤ 2 ^ 24) (h0 : 0 ≤ p - x) (h1 : p - x < w)
    (hs : s * (m : ℚ) = ((2 * (p - x) - w : Int) : ℚ)) :
    Float32.add
        (Float32.mul
          (Float32.div (Float32.add (Float32.mul ((m : ℚ) * 2 ^ (-(k : Int))) s) 1) 2)
          (Float32.ofInt w))
        (Float32.ofInt x)
      = (p : ℚ) := by
  have hw24 : w ≤ 2 ^ 24 := by
    rw [hw]
    exact pow_le_pow_right₀ (by norm_num) hk
  have hw0 : 0 < w := by
    rw [hw]
    positivity
  have hwq : (w : ℚ) = 2 ^ k := by
    rw [hw]
    push_cast
    rfl
  have h2k : (2 : ℚ) ^ k ≠ 0 := by positivity
  rw [Float32.ofInt_eq x (abs_le.2 ⟨hx1, hx2⟩), Float32.ofInt_eq w (abs_le.2 ⟨by omega, hw24⟩)]
  have s1 : Float32.mul ((m : ℚ) * 2 ^ (-(k : Int))) s
      = ((2 * (p - x) - w : Int) : ℚ) * 2 ^ (-(k : Int)) := by
    unfold Float32.mul
    have e : (m : ℚ) * 2 ^ (-(k : Int)) * s
        = ((2 * (p - x) - w : Int) : ℚ) * 2 ^ (-(k : Int)) := by
      rw [← hs]
      ring
    rw [e]
    exact Float32.round_dyadic _ _ (abs_le.2 ⟨by omega, by omega⟩) (by omega)
  have s2 : Float32.add (((2 * (p - x) - w : Int) : ℚ) * 2 ^ (-(k : Int))) 1
      = 2 * ((p - x : Int) : ℚ) / 2 ^ k := by
    unfold Float32.add
    have e : ((2 * (p - x) - w : Int) : ℚ) * 2 ^ (-(k : Int)) + 1
        = 2 * ((p - x : Int) : ℚ) / 2 ^ k := by
      rw [zpow_neg_natCast_two]
      push_cast
      rw [hwq]
      field_simp
    rw [e]
    exact Float32.round_eq_self _ (p - x) (1 - k)
      (by rw [zpow_one_sub_natCast_two]; ring) (abs_le.2 ⟨by omega, by omega⟩) (by omega)
  have s3 : Float32.div (2 * ((p - x : Int) : ℚ) / 2 ^ k) 2 = ((p - x : Int) : ℚ) / 2 ^ k := by
    unfold Float32.div
    have e : 2 * ((p - x : Int) : ℚ) / 2 ^ k / 2 = ((p - x : Int) : ℚ) / 2 ^ k := by
      field_simp
      ring
    rw [e]
    exact Float32.round_eq_self _ (p - x) (-(k : Int))
      (by rw [zpow_neg_natCast_two]; ring) (abs_le.2 ⟨by omega, by omega⟩) (by omega)
  have s4 : Float32.mul (((p - x : Int) : ℚ) / 2 ^ k) (w : ℚ) = ((p - x : Int) : ℚ) := by
    unfold Float32.mul
    have e : ((p - x : Int) : ℚ) / 2 ^ k * (w : ℚ) = ((p - x : Int) : ℚ) := by
      rw [hwq]
      field_simp
    rw [e]
    exact Float32.round_intCast _ (abs_le.2 ⟨by omega, by omega⟩)
  have s5 : Float32.add ((p - x : Int) : ℚ) (x : ℚ) = (p : ℚ) := by
    unfold Float32.add
    have e : ((p - x : Int) : ℚ) + (x : ℚ) = (p : ℚ) := by
      push_cast
      ring
    rw [e]
    exact Float32.round_intCast _ (abs_le.2 ⟨hp1, hp2⟩)
  rw [s1, s2, s3, s4, s5]

theorem Float32.add_exact (a b r : ℚ) (m e : Int) (h : a + b = r) (hr : r = (m : ℚ) * 2 ^ e)
    (hm : |m| ≤ 2 ^ 24) (he : -149 ≤ e) : Float32.add a b = r := by
  unfold Float32.add
  rw [h]
  exact Float32.round_eq_self r m e hr hm he

theorem Float32.sub_exact (a b r : ℚ) (m e : Int) (h : a - b = r) (hr : r = (m : ℚ) * 2 ^ e)
    (hm : |m| ≤ 2 ^ 24) (he : -149 ≤ e) : Float32.sub a b = r := by
  unfold Float32.sub
  rw [h]
  exact Float32.round_eq_self r m e hr hm he

theorem Float32.mul_exact (a b r : ℚ) (m e : Int) (h : a * b = r) (hr : r = (m : ℚ) * 2 ^ e)
    (hm : |m| ≤ 2 ^ 24) (he : -149 ≤ e) : Float32.mul a b = r := by
  unfold Float32.mul
  rw [h]
  exact Float32.round_eq_self r m e hr hm he

theorem Float32.div_exact (a b r : ℚ) (m e : Int) (h : a / b = r) (hr : r = (m : ℚ) * 2 ^ e)
    (hm : |m| ≤ 2 ^ 24) (he : -149 ≤ e) : Float32.div a b = r := by
  unfold Float32.div
  rw [h]
  exact Float32.round_eq_self r m e hr hm he

theorem Float32.ofInt_zero : Float32.ofInt 0 = 0 := by
  rw [Float32.ofInt_eq 0 (by norm_num)]
  norm_num

theorem Float32.ofInt_one : Float32.ofInt 1 = 1 := by
  rw [Float32.ofInt_eq 1 (by norm_num)]
  norm_num

theorem Float32.ofInt_fifty : Float32.ofInt 50 = 50 := by
  rw [Float32.ofInt_eq 50 (by norm_num)]
  norm_num

theorem Float32.ofInt_hundred : Float32.ofInt 100 = 100 := by
  rw [Float32.ofInt_eq 100 (by norm_num)]
  norm_num

/-- The identity transform, evaluated in single precision, returns a point whose
coordinates are single-precision values. -/
theorem Transform.transformPointFloat_identity (p : Vector2f)
    (hx : Float32.round p.x = p.x) (hy : Float32.round p.y = p.y) :
    Transform.Identity.transformPointFloat p = p := by
  unfold Transform.transformPointFloat Transform.Identity
  simp only [Float32.mul, Float32.add, one_mul, zero_mul, Float32.round_zero, add_zero,
    zero_add, hx, hy]

theorem RenderTarget.pixelToNormalized_rounded (rt : RenderTarget) (P : Vector2i)
    (view : View) :
    Float32.round (rt.pixelToNormalized P view).x = (rt.pixelToNormalized P view).x ∧
    Float32.round (rt.pixelToNormalized P view).y = (rt.pixelToNormalized P view).y := by
  unfold RenderTarget.pixelToNormalized Vector2f.add Float32.add
  exact ⟨Float32.round_round _, Float32.round_round _⟩

/-- On a pixel viewport with power-of-two sizes, the normalized position of a pixel
inside it is computed without rounding. -/
theorem RenderTarget.pixelToNormalized_exact (rt : RenderTarget) (view : View)
    (P : Vector2i) (kx ky : Nat) (hkx : kx ≤ 24) (hky : ky ≤ 24)
    (hw : (rt.getViewport view).size.x = 2 ^ kx) (hh : (rt.getViewport view).size.y = 2 ^ ky)
    (hvx : |(rt.getViewport view).position.x| ≤ 2 ^ 24)
    (hvy : |(rt.getViewport view).position.y| ≤ 2 ^ 24)
    (hPx : |P.x| ≤ 2 ^ 24) (hPy : |P.y| ≤ 2 ^ 24)
    (hin : (rt.getViewport view).StrictlyContains P) :
    rt.pixelToNormalized P view
      = ⟨((2 * (P.x - (rt.getViewport view).position.x) - (rt.getViewport view).size.x : Int)
            : ℚ) * 2 ^ (-(kx : Int)),
         (((rt.getViewport view).size.y - 2 * (P.y - (rt.getViewport view).position.y) : Int)
            : ℚ) * 2 ^ (-(ky : Int))⟩ := by
  obtain ⟨i1, i2, i3, i4⟩ := hin
  rw [abs_le] at hvx hvy hPx hPy
  unfold RenderTarget.pixelToNormalized
  simp only [Vector2f.add, Vector2f.sub, Vector2f.componentWiseMul, Vector2f.componentWiseDiv,
    Vector2f.ofVector2i, FloatRect.ofIntRect]
  rw [Float32.normalized_x P.x _ _ kx hkx hw hPx.1 hPx.2 hvx.1 hvx.2 (by omega) (by omega),
    Float32.normalized_y P.y _ _ ky hky hh hPy.1 hPy.2 hvy.1 hvy.2 (by omega) (by omega)]

/-- On a pixel viewport with power-of-two sizes, the normalized position of a pixel
inside it is carried back to the pixel without rounding. -/
theorem RenderTarget.normalizedToViewport_pixelToNormalized (rt : RenderTarget) (view : View)
    (P : Vector2i) (kx ky : Nat) (hkx : kx ≤ 24) (hky : ky ≤ 24)
    (hw : (rt.getViewport view).size.x = 2 ^ kx) (hh : (rt.getViewport view).size.y = 2 ^ ky)
    (hvx : |(rt.getViewport view).position.x| ≤ 2 ^ 24)
    (hvy : |(rt.getViewport view).position.y| ≤ 2 ^ 24)
    (hPx : |P.x| ≤ 2 ^ 24) (hPy : |P.y| ≤ 2 ^ 24)
    (hin : (rt.getViewport view).StrictlyContains P) :
    rt.normalizedToViewport (rt.pixelToNormalized P view) view = ⟨(P.x : ℚ), (P.y : ℚ)⟩ := by
  rw [RenderTarget.pixelToNormalized_exact rt view P kx ky hkx hky hw hh hvx hvy hPx hPy hin]
  obtain ⟨i1, i2, i3, i4⟩ := hin
  rw [abs_le] at hvx hvy hPx hPy
  unfold RenderTarget.normalizedToViewport
  simp only [Vector2f.add, Vector2f.componentWiseMul, Vector2f.componentWiseDiv,
    Vector2f.ofVector2i, FloatRect.ofIntRect]
  rw [Float32.viewport_coordinate P.x _ _ _ 1 kx hkx hw hPx.1 hPx.2 hvx.1 hvx.2 (by omega)
      (by omega) (by rw [one_mul]),
    Float32.viewport_coordinate P.y _ _ _ (-1) ky hky hh hPy.1 hPy.2 hvy.1 hvy.2 (by omega)
      (by omega) (by push_cast; ring)]

/-- The round trip of a pixel, given that the two transforms cancel at its normalized
position. -/
theorem RenderTarget.mapCoordsToPixel_mapPixelToCoords (rt : RenderTarget) (view : View)
    (P : Vector2i) (kx ky : Nat) (hkx : kx ≤ 24) (hky : ky ≤ 24)
    (hw : (rt.getViewport view).size.x = 2 ^ kx) (hh : (rt.getViewport view).size.y = 2 ^ ky)
    (hvx : |(rt.getViewport view).position.x| ≤ 2 ^ 24)
    (hvy : |(rt.getViewport view).position.y| ≤ 2 ^ 24)
    (hPx : |P.x| ≤ 2 ^ 24) (hPy : |P.y| ≤ 2 ^ 24)
    (hin : (rt.getViewport view).StrictlyContains P)
    (hinv : view.getTransform.transformPointFloat
        (view.getInverseTransform.transformPointFloat (rt.pixelToNormalized P view))
      = rt.pixelToNormalized P view) :
    rt.mapCoordsToPixel (rt.mapPixelToCoords P view) view = some P := by
  unfold RenderTarget.mapCoordsToPixel RenderTarget.coordsToViewport
    RenderTarget.mapPixelToCoords
  rw [hinv, RenderTarget.normalizedToViewport_pixelToNormalized rt view P kx ky hkx hky hw hh
    hvx hvy hPx hPy hin]
  rw [abs_le] at hPx hPy
  exact Vector2i.ofVector2f_intCast P ⟨by omega, by omega⟩ ⟨by omega, by omega⟩

/-- The quotient `2.0f / 100.0f`. -/
theorem Float32.div_two_hundred : Float32.div 2 100 = 5368709 / 268435456 := by
  unfold Float32.div
  exact Float32.round_eval _ (-6) 10737418 _ (by norm_num [abs_of_nonneg])
    (by norm_num [abs_of_nonneg]) (by norm_num) (by norm_num) (by norm_num) (by norm_num)

theorem Float32.div_neg_two_hundred : Float32.div (-2) 100 = -5368709 / 268435456 := by
  unfold Float32.div
  exact Float32.round_eval _ (-6) (-10737418) _ (by norm_num [abs_of_nonneg])
    (by norm_num [abs_of_nonneg]) (by norm_num) (by norm_num) (by norm_num) (by norm_num)

/-- The sum `-1.0f + 0.02f`. -/
theorem Float32.add_neg_one_fiftieth :
    Float32.add (-1) (5368709 / 268435456) = -2055209 / 2097152 := by
  unfold Float32.add
  exact Float32.round_eval _ (-1) (-16441672) _ (by norm_num [abs_of_nonneg])
    (by norm_num [abs_of_nonneg]) (by norm_num) (by norm_num) (by norm_num) (by norm_num)

theorem Float32.add_one_neg_fiftieth :
    Float32.add 1 (-5368709 / 268435456) = 2055209 / 2097152 := by
  unfold Float32.add
  exact Float32.round_eval _ (-1) 16441672 _ (by norm_num [abs_of_nonneg])
    (by norm_num [abs_of_nonneg]) (by norm_num) (by norm_num) (by norm_num) (by norm_num)

/-- The normalized position of pixel (1, 1) in the viewport (0, 0, 100, 100). -/
theorem sampleTarget_pixelToNormalized :
    sampleTarget.pixelToNormalized ⟨1, 1⟩ sampleView
      = ⟨-2055209 / 2097152, 2055209 / 2097152⟩ := by
  unfold RenderTarget.pixelToNormalized
  rw [sampleTarget_getViewport]
  simp only [Vector2f.add, Vector2f.sub, Vector2f.componentWiseMul, Vector2f.componentWiseDiv,
    Vector2f.ofVector2i, FloatRect.ofIntRect, Float32.ofInt_zero, Float32.ofInt_one,
    Float32.ofInt_hundred]
  rw [Float32.sub_exact 1 0 1 1 0 (by norm_num) (by norm_num) (by norm_num) (by norm_num),
    Float32.mul_exact 2 1 2 1 1 (by norm_num) (by norm_num) (by norm_num) (by norm_num),
    Float32.mul_exact (-2) 1 (-2) (-1) 1 (by norm_num) (by norm_num) (by norm_num)
      (by norm_num),
    Float32.div_two_hundred, Float32.div_neg_two_hundred, Float32.add_neg_one_fiftieth,
    Float32.add_one_neg_fiftieth]

/-- The viewport coordinate that `-0.98000002` (or its mirror image) comes back to:
`0.99999905`. -/
theorem Float32.viewport_coordinate_near_one (n s : ℚ) (hn : n * s = -2055209 / 2097152) :
    Float32.add (Float32.mul (Float32.div (Float32.add (Float32.mul n s) 1) 2) 100) 0
      = 1048575 / 1048576 := by
  rw [Float32.mul_exact n s (-2055209 / 2097152) (-16441672) (-24) hn (by norm_num)
      (by norm_num) (by norm_num),
    Float32.add_exact (-2055209 / 2097152) 1 (41943 / 2097152) 41943 (-21) (by norm_num)
      (by norm_num) (by norm_num) (by norm_num),
    Float32.div_exact (41943 / 2097152) 2 (41943 / 4194304) 41943 (-22) (by norm_num)
      (by norm_num) (by norm_num) (by norm_num),
    Float32.mul_exact (41943 / 4194304) 100 (1048575 / 1048576) 1048575 (-20) (by norm_num)
      (by norm_num) (by norm_num) (by norm_num),
    Float32.add_exact (1048575 / 1048576) 0 (1048575 / 1048576) 1048575 (-20) (by norm_num)
      (by norm_num) (by norm_num) (by norm_num)]

theorem sampleTarget_coordsToViewport_near :
    sampleTarget.coordsToViewport ⟨-2055209 / 2097152, 2055209 / 2097152⟩ sampleView
      = ⟨1048575 / 1048576, 1048575 / 1048576⟩ := by
  unfold RenderTarget.coordsToViewport
  have ht : sampleView.getTransform.transformPointFloat
      ⟨-2055209 / 2097152, 2055209 / 2097152⟩ = ⟨-2055209 / 2097152, 2055209 / 2097152⟩ :=
    Transform.transformPointFloat_identity _
      (Float32.round_eq_self _ (-16441672) (-24) (by norm_num) (by norm_num) (by norm_num))
      (Float32.round_eq_self _ 16441672 (-24) (by norm_num) (by norm_num) (by norm_num))
  rw [ht]
  unfold RenderTarget.normalizedToViewport
  rw [sampleTarget_getViewport]
  simp only [Vector2f.add, Vector2f.componentWiseMul, Vector2f.componentWiseDiv,
    Vector2f.ofVector2i, FloatRect.ofIntRect, Float32.ofInt_zero, Float32.ofInt_hundred]
  rw [Float32.viewport_coordinate_near_one _ 1 (by norm_num),
    Float32.viewport_coordinate_near_one _ (-1) (by norm_num)]

theorem sampleTarget_coordsToViewport_fraction :
    sampleTarget.coordsToViewport ⟨1 / 128, 0⟩ sampleView = ⟨3225 / 64, 50⟩ := by
  unfold RenderTarget.coordsToViewport
  have ht : sampleView.getTransform.transformPointFloat ⟨1 / 128, 0⟩ = ⟨1 / 128, 0⟩ :=
    Transform.transformPointFloat_identity _
      (Float32.round_eq_self _ 1 (-7) (by norm_num) (by norm_num) (by norm_num))
      Float32.round_zero
  rw [ht]
  unfold RenderTarget.normalizedToViewport
  rw [sampleTarget_getViewport]
  simp only [Vector2f.add, Vector2f.componentWiseMul, Vector2f.componentWiseDiv,
    Vector2f.ofVector2i, FloatRect.ofIntRect, Float32.ofInt_zero, Float32.ofInt_hundred]
  rw [Float32.mul_exact (1 / 128) 1 (1 / 128) 1 (-7) (by norm_num) (by norm_num)
      (by norm_num) (by norm_num),
    Float32.add_exact (1 / 128) 1 (129 / 128) 129 (-7) (by norm_num) (by norm_num)
      (by norm_num) (by norm_num),
    Float32.div_exact (129 / 128) 2 (129 / 256) 129 (-8) (by norm_num) (by norm_num)
      (by norm_num) (by norm_num),
    Float32.mul_exact (129 / 256) 100 (3225 / 64) 3225 (-6) (by norm_num) (by norm_num)
      (by norm_num) (by norm_num),
    Float32.add_exact (3225 / 64) 0 (3225 / 64) 3225 (-6) (by norm_num) (by norm_num)
      (by norm_num) (by norm_num),
    Float32.mul_exact 0 (-1) 0 0 0 (by norm_num) (by norm_num) (by norm_num) (by norm_num),
    Float32.add_exact 0 1 1 1 0 (by norm_num) (by norm_num) (by norm_num) (by norm_num),
    Float32.div_exact 1 2 (1 / 2) 1 (-1) (by norm_num) (by norm_num) (by norm_num)
      (by norm_num),
    Float32.mul_exact (1 / 2) 100 50 50 0 (by norm_num) (by norm_num) (by norm_num)
      (by norm_num),
    Float32.add_exact 50 0 50 50 0 (by norm_num) (by norm_num) (by norm_num) (by norm_num)]

theorem sampleTarget_mapPixelToCoords_centre :
    sampleTarget.mapPixelToCoords ⟨50, 50⟩ sampleView = ⟨0, 0⟩ := by
  have hn : sampleTarget.pixelToNormalized ⟨50, 50⟩ sampleView = ⟨0, 0⟩ := by
    unfold RenderTarget.pixelToNormalized
    rw [sampleTarget_getViewport]
    simp only [Vector2f.add, Vector2f.sub, Vector2f.componentWiseMul,
      Vector2f.componentWiseDiv, Vector2f.ofVector2i, FloatRect.ofIntRect,
      Float32.ofInt_zero, Float32.ofInt_fifty, Float32.ofInt_hundred]
    rw [Float32.sub_exact 50 0 50 50 0 (by norm_num) (by norm_num) (by norm_num)
        (by norm_num),
      Float32.mul_exact 2 50 100 100 0 (by norm_num) (by norm_num) (by norm_num)
        (by norm_num),
      Float32.mul_exact (-2) 50 (-100) (-100) 0 (by norm_num) (by norm_num) (by norm_num)
        (by norm_num),
      Float32.div_exact 100 100 1 1 0 (by norm_num) (by norm_num) (by norm_num)
        (by norm_num),
      Float32.div_exact (-100) 100 (-1) (-1) 0 (by norm_num) (by norm_num) (by norm_num)
        (by norm_num),
      Float32.add_exact (-1) 1 0 0 0 (by norm_num) (by norm_num) (by norm_num) (by norm_num),
      Float32.add_exact 1 (-1) 0 0 0 (by norm_num) (by norm_num) (by norm_num) (by norm_num)]
  unfold RenderTarget.mapPixelToCoords
  rw [hn]
  exact Transform.transformPointFloat_identity _ Float32.round_zero Float32.round_zero

theorem gridTarget_pixelToNormalized :
    gridTarget.pixelToNormalized ⟨30, 40⟩ sampleView = ⟨-17 / 32, -1 / 4⟩ := by
  rw [RenderTarget.pixelToNormalized_exact gridTarget sampleView ⟨30, 40⟩ 7 6 (by decide)
    (by decide) (by rw [gridTarget_getViewport]; rfl) (by rw [gridTarget_getViewport]; rfl)
    (by rw [gridTarget_getViewport]; decide) (by rw [gridTarget_getViewport]; decide)
    (by decide) (by decide) (by rw [gridTarget_getViewport]; decide),
    gridTarget_getViewport]
  norm_num

/-- The calls `applyStencilMode` issues and the cache it leaves, for a mode other
than the default one. -/
theorem RenderTarget.applyStencilMode_of_ne (rt : RenderTarget) (mode : StencilMode)
    (w : World) (h : mode ≠ StencilMode.default) :
    (rt.applyStencilMode mode w).2.gl.trace
      = w.gl.trace ++
        ((if rt.m_cache.enable = false ∨ rt.m_cache.stencilEnabled = false then
            [GLCall.glEnable GLenum.GL_STENCIL_TEST]
          else []) ++
         [GLCall.glStencilOp GLenum.GL_KEEP
            (RenderTargetImpl.stencilOperationToGlConstant mode.stencilUpdateOperation)
            (RenderTargetImpl.stencilOperationToGlConstant mode.stencilUpdateOperation),
          GLCall.glStencilFunc
            (RenderTargetImpl.stencilFunctionToGlConstant mode.stencilComparison)
            (toInt32 mode.stencilReference) mode.stencilMask]) ∧
    (rt.applyStencilMode mode w).1
      = { rt with m_cache :=
          { rt.m_cache with stencilEnabled := true, lastStencilMode := mode } } := by
  unfold RenderTarget.applyStencilMode
  simp only [h, if_false]
  cases he : rt.m_cache.enable <;> cases hs : rt.m_cache.stencilEnabled <;>
    simp [World.call, Driver.call]

/-- The calls `applyStencilMode` issues and the cache it leaves, for the default mode. -/
theorem RenderTarget.applyStencilMode_default (rt : RenderTarget) (w : World) :
    (rt.applyStencilMode StencilMode.default w).2.gl.trace
      = w.gl.trace ++
        (if rt.m_cache.enable = false ∨ rt.m_cache.stencilEnabled = true then
          [GLCall.glDisable GLenum.GL_STENCIL_TEST, GLCall.glColorMask true true true true]
        else []) ∧
    (rt.applyStencilMode StencilMode.default w).1
      = { rt with m_cache :=
          { rt.m_cache with stencilEnabled := false, lastStencilMode := StencilMode.default } } := by
  unfold RenderTarget.applyStencilMode
  obtain ⟨size, srgb, dv, v, cache, id⟩ := rt
  cases he : cache.enable <;> cases hs : cache.stencilEnabled <;>
    simp [World.call, Driver.call, he, hs]

/-- Counterexample to C13 as stated: for the mode that replaces the stencil value
(comparison always, reference 1, mask 255), the stencil-operation call issued keeps the
stencil value when the stencil test fails; no call with the mapped operation in all
three places is issued. -/
theorem applyStencilMode_counterexample :
    stencilReplace ≠ StencilMode.default ∧
    RenderTargetImpl.stencilOperationToGlConstant stencilReplace.stencilUpdateOperation
      = GLenum.GL_REPLACE ∧
    (sampleTarget.applyStencilMode stencilReplace sampleWorld).2.gl.trace
      = [GLCall.glEnable GLenum.GL_STENCIL_TEST,
         GLCall.glStencilOp GLenum.GL_KEEP GLenum.GL_REPLACE GLenum.GL_REPLACE,
         GLCall.glStencilFunc GLenum.GL_ALWAYS 1 255] ∧
    GLCall.glStencilOp GLenum.GL_REPLACE GLenum.GL_REPLACE GLenum.GL_REPLACE
      ∉ (sampleTarget.applyStencilMode stencilReplace sampleWorld).2.gl.trace := by
  have ht : (sampleTarget.applyStencilMode stencilReplace sampleWorld).2.gl.trace
      = [GLCall.glEnable GLenum.GL_STENCIL_TEST,
         GLCall.glStencilOp GLenum.GL_KEEP GLenum.GL_REPLACE GLenum.GL_REPLACE,
         GLCall.glStencilFunc GLenum.GL_ALWAYS 1 255] := by
    rw [(RenderTarget.applyStencilMode_of_ne sampleTarget stencilReplace sampleWorld
      (by decide)).1]
    rfl
  refine ⟨by decide, rfl, ht, ?_⟩
  rw [ht]
  simp

/-- C13 (amended): `applyStencilMode` with any non-default mode issues, after the call
enabling the stencil test when the cache is untrusted or the test is off, exactly one
stencil-operation call, whose stencil-fail operation is "keep" and whose depth-fail and
pass operations are the constant mapped from `mode.stencilUpdateOperation`, followed by
one stencil-function call carrying the mapped comparison, the reference value converted
to `int`, and the mask; afterwards the cache records the mode and the test as enabled. -/
theorem applyStencilMode_nondefault (rt : RenderTarget) (mode : StencilMode) (w : World)
    (h : mode ≠ StencilMode.default) :
    (rt.applyStencilMode mode w).2.gl.trace
      = w.gl.trace ++
        ((if rt.m_cache.enable = false ∨ rt.m_cache.stencilEnabled = false then
            [GLCall.glEnable GLenum.GL_STENCIL_TEST]
          else []) ++
         [GLCall.glStencilOp GLenum.GL_KEEP
            (RenderTargetImpl.stencilOperationToGlConstant mode.stencilUpdateOperation)
            (RenderTargetImpl.stencilOperationToGlConstant mode.stencilUpdateOperation),
          GLCall.glStencilFunc
            (RenderTargetImpl.stencilFunctionToGlConstant mode.stencilComparison)
            (toInt32 mode.stencilReference) mode.stencilMask]) ∧
    (rt.applyStencilMode mode w).1.m_cache.stencilEnabled = true ∧
    (rt.applyStencilMode mode w).1.m_cache.lastStencilMode = mode := by
  have e := RenderTarget.applyStencilMode_of_ne rt mode w h
  refine ⟨e.1, ?_, ?_⟩ <;> rw [e.2]

/-- Witness of C13 (amended): the replace mode on the sample target. -/
theorem applyStencilMode_nondefault_witness :
    stencilReplace ≠ StencilMode.default ∧
    (sampleTarget.applyStencilMode stencilReplace sampleWorld).2.gl.trace
      = sampleWorld.gl.trace ++
        ((if sampleTarget.m_cache.enable = false ∨
              sampleTarget.m_cache.stencilEnabled = false then
            [GLCall.glEnable GLenum.GL_STENCIL_TEST]
          else []) ++
         [GLCall.glStencilOp GLenum.GL_KEEP
            (RenderTargetImpl.stencilOperationToGlConstant
              stencilReplace.stencilUpdateOperation)
            (RenderTargetImpl.stencilOperationToGlConstant
              stencilReplace.stencilUpdateOperation),
          GLCall.glStencilFunc
            (RenderTargetImpl.stencilFunctionToGlConstant stencilReplace.stencilComparison)
            (toInt32 stencilReplace.stencilReference) stencilReplace.stencilMask]) ∧
    (sampleTarget.applyStencilMode stencilReplace sampleWorld).1.m_cache.stencilEnabled
      = true ∧
    (sampleTarget.applyStencilMode stencilReplace sampleWorld).1.m_cache.lastStencilMode
      = stencilReplace :=
  ⟨by decide, applyStencilMode_nondefault sampleTarget stencilReplace sampleWorld (by decide)⟩

/-! ## Teardown -/

/-- The calls the destructor issues: the vertex-storage object is deleted exactly
when its handle is non-zero; a delete call for the vertex-layout object is issued
exactly when the build is not OpenGL ES and the handle is zero, so an allocated
vertex-layout object is never deleted. -/
theorem destructor_deletes (rt : RenderTarget) (w : World) :
    (rt.destructor w).gl.trace
      = w.gl.trace ++
        (if rt.m_cache.defaultBuffer ≠ 0 then [GLCall.glDeleteBuffers rt.m_cache.defaultBuffer]
          else []) ++
        (if w.config.openglES = false ∧ rt.m_cache.defaultArray = 0 then
          [GLCall.glDeleteVertexArrays 0]
        else []) := by
  unfold RenderTarget.destructor
  by_cases hb : rt.m_cache.defaultBuffer = 0 <;> by_cases ha : rt.m_cache.defaultArray = 0 <;>
    cases hes : w.config.openglES <;> simp [hb, ha, hes, World.call, Driver.call]

/-- The failing input of C19: on a desktop build, tearing down a target whose
vertex-storage object is 3 and whose vertex-layout object is 5 deletes the former only;
tearing down a target without a vertex-layout object issues a delete call for handle 0. -/
theorem destructor_counterexample :
    ({ steadyTarget with
        m_cache := { steadyCache with defaultBuffer := 3, defaultArray := 5 } }.destructor
      { sampleWorld with config := ⟨false, false, true⟩ }).gl.trace
      = [GLCall.glDeleteBuffers 3] ∧
    ({ steadyTarget with
        m_cache := { steadyCache with defaultBuffer := 3, defaultArray := 0 } }.destructor
      { sampleWorld with config := ⟨false, false, true⟩ }).gl.trace
      = [GLCall.glDeleteBuffers 3, GLCall.glDeleteVertexArrays 0] := by
  constructor <;> rfl

/-! ## Compiling without geometry-shader support -/

/-- C20: `compile` called with a non-empty geometry source while geometry shaders are
unavailable returns false and leaves the shader object (program handle,
uniform-location cache, texture map, current-texture location) and the whole driver
state (trace of calls, program in use, next object name) as they were: no driver object
is created or deleted, no driver call is issued at all. Only the error message is
written. -/
theorem compile_geometry_unavailable (s : Shader) (v g f : String) (w : World)
    (hg : g.isEmpty = false) (hav : Shader.isGeometryAvailable w = false) :
    (Shader.compile s v g f w).1 = false ∧
    (Shader.compile s v g f w).2.1 = s ∧
    (Shader.compile s v g f w).2.2.gl = w.gl ∧
    (Shader.compile s v g f w).2.2.gl.trace = w.gl.trace ∧
    (∀ r, (Shader.compile s v g f w).2.2.getShader r = w.getShader r) ∧
    (Shader.compile s v g f w).2.2.errLog
      = w.errLog ++
        ["Failed to create a shader: your system doesn't support geometry shaders"] := by
  have e : Shader.compile s v g f w
      = (false, s,
          w.err "Failed to create a shader: your system doesn't support geometry shaders") := by
    unfold Shader.compile
    simp [Shader.isAvailable, hg, hav]
  rw [e]
  refine ⟨rfl, rfl, rfl, rfl, ?_, rfl⟩
  intro r
  cases r <;> rfl

/-- Witness of C20: an already compiled shader (program 5, one cached uniform, one
texture) recompiled with a geometry source on an OpenGL ES build. -/
theorem compile_geometry_unavailable_witness :
    ("geometry source".isEmpty = false ∧ Shader.isGeometryAvailable sampleWorld = false) ∧
    (Shader.compile ⟨5, 3, [(4, paddedTexture)], [("sf_modelview", 0)]⟩ "v" "geometry source"
        "f" sampleWorld).1 = false ∧
    (Shader.compile ⟨5, 3, [(4, paddedTexture)], [("sf_modelview", 0)]⟩ "v" "geometry source"
        "f" sampleWorld).2.1 = ⟨5, 3, [(4, paddedTexture)], [("sf_modelview", 0)]⟩ ∧
    (Shader.compile ⟨5, 3, [(4, paddedTexture)], [("sf_modelview", 0)]⟩ "v" "geometry source"
        "f" sampleWorld).2.2.gl = sampleWorld.gl ∧
    (Shader.compile ⟨5, 3, [(4, paddedTexture)], [("sf_modelview", 0)]⟩ "v" "geometry source"
        "f" sampleWorld).2.2.gl.trace = sampleWorld.gl.trace ∧
    (∀ r, (Shader.compile ⟨5, 3, [(4, paddedTexture)], [("sf_modelview", 0)]⟩ "v"
        "geometry source" "f" sampleWorld).2.2.getShader r = sampleWorld.getShader r) ∧
    (Shader.compile ⟨5, 3, [(4, paddedTexture)], [("sf_modelview", 0)]⟩ "v" "geometry source"
        "f" sampleWorld).2.2.errLog
      = sampleWorld.errLog ++
        ["Failed to create a shader: your system doesn't support geometry shaders"] :=
  ⟨⟨by decide, by decide⟩,
    compile_geometry_unavailable ⟨5, 3, [(4, paddedTexture)], [("sf_modelview", 0)]⟩ "v"
      "geometry source" "f" sampleWorld (by decide) (by decide)⟩

/-! ## Calls issued, by kind -/

@[simp]
theorem World.sel_call (p : GLCall → Bool) (c : GLCall) (w : World) :
    (w.call c).sel p = w.sel p ++ (if p c then [c] else []) := by
  cases c <;> simp [World.sel, World.call, Driver.call, List.filter_append, List.filter_cons]

@[simp]
theorem World.sel_err (p : GLCall → Bool) (msg : String) (w : World) :
    (w.err msg).sel p = w.sel p :=
  rfl

@[simp]
theorem World.sel_freshHandle (p : GLCall → Bool) (w : World) :
    w.freshHandle.2.sel p = w.sel p :=
  rfl

@[simp]
theorem World.sel_setShader (p : GLCall → Bool) (r : ShaderRef) (s : Shader) (w : World) :
    (w.setShader r s).sel p = w.sel p := by
  cases r <;> rfl

@[simp]
theorem World.sel_ite (p : GLCall → Bool) (c : Prop) [Decidable c] (a b : World) :
    (if c then a else b).sel p = if c then a.sel p else b.sel p := by
  split_ifs <;> rfl

@[simp]
theorem World.sel_mk (p : GLCall → Bool) (config : BuildConfig) (env : DriverEnv)
    (gl : Driver) (ctx : Nat) (m : Nat → Option Nat) (u : Nat) (wn : Bool) (d : Shader)
    (df : Bool) (dt : Shader) (dtf : Bool) (us : Nat → Shader) (el : List String) :
    (World.mk config env gl ctx m u wn d df dt dtf us el).sel p = gl.trace.filter p :=
  rfl

@[simp]
theorem World.sel_def (p : GLCall → Bool) (w : World) : w.gl.trace.filter p = w.sel p :=
  rfl

/-- From "the trace only grew" and the equation on selected calls: the calls issued in
between, restricted to those selected by `p`, are `obs`. -/
theorem World.issued_sel (p : GLCall → Bool) (w w' : World) (obs : List GLCall)
    (hp : w.gl.trace <+: w'.gl.trace) (ho : w'.sel p = w.sel p ++ obs) :
    ∃ issued, w'.gl.trace = w.gl.trace ++ issued ∧ issued.filter p = obs := by
  obtain ⟨issued, hi⟩ := hp
  refine ⟨issued, hi.symm, ?_⟩
  unfold World.sel at ho
  rw [← hi, List.filter_append] at ho
  exact List.append_cancel_left ho

/-- The calls selected by `p` among those issued between two states of the world. -/
theorem World.sel_of_issued (p : GLCall → Bool) (w w' : World) (issued : List GLCall)
    (h : w'.gl.trace = w.gl.trace ++ issued) : w'.sel p = w.sel p ++ issued.filter p := by
  unfold World.sel
  rw [h, List.filter_append]

/-- When no call selected by `p` was issued for any `p` avoiding the class, every call
issued is of the class. -/
theorem World.issued_class (cls : GLCall → Bool) (w w' : World)
    (hp : w.gl.trace <+: w'.gl.trace)
    (hs : w'.sel (fun c => !cls c) = w.sel (fun c => !cls c)) :
    ∃ issued, w'.gl.trace = w.gl.trace ++ issued ∧ ∀ c ∈ issued, cls c = true := by
  obtain ⟨issued, hi, hf⟩ := World.issued_sel (fun c => !cls c) w w' [] hp (by simpa using hs)
  refine ⟨issued, hi, ?_⟩
  intro c hc
  have := List.filter_eq_nil_iff.mp hf c hc
  simpa using this

/-- Calls of a class avoided by `p` contribute nothing to the calls selected by `p`. -/
theorem GLCall.Avoids.filter_eq_nil (p cls : GLCall → Bool) [GLCall.Avoids p cls]
    (l : List GLCall) (h : ∀ c ∈ l, cls c = true) : l.filter p = [] := by
  rw [List.filter_eq_nil_iff]
  intro c hc
  simp [GLCall.Avoids.avoids (p := p) c (h c hc)]

/-! ### The uniform setters -/

theorem Shader.getUniformLocation_sel (p : GLCall → Bool) (s : Shader) (name : String)
    (w : World) (h : ∀ q n, p (GLCall.glGetUniformLocation q n) = false) :
    (s.getUniformLocation name w).2.2.sel p = w.sel p := by
  unfold Shader.getUniformLocation
  split
  · rfl
  · simp [h]

theorem Shader.UniformBinder.construct_sel (p : GLCall → Bool) (s : Shader) (name : String)
    (w : World) (h1 : ∀ q n, p (GLCall.glGetUniformLocation q n) = false)
    (h2 : ∀ e, p (GLCall.glGetIntegerv e) = false) (h3 : ∀ q, p (GLCall.glUseProgram q) = false) :
    (Shader.UniformBinder.construct s name w).2.2.sel p = w.sel p := by
  unfold Shader.UniformBinder.construct
  simp [snd_ite, Shader.getUniformLocation_sel p _ _ _ h1, h2, h3]

theorem Shader.UniformBinder.destruct_sel (p : GLCall → Bool) (b : Shader.UniformBinder)
    (w : World) (h3 : ∀ q, p (GLCall.glUseProgram q) = false) :
    (b.destruct w).sel p = w.sel p := by
  unfold Shader.UniformBinder.destruct
  simp [h3]

@[simp]
theorem Shader.setUniformMat4_sel (p : GLCall → Bool) (s : Shader) (name : String)
    (m : List ℚ) (w : World) [GLCall.Avoids p (GLCall.isMat4SetterCall m)] :
    (s.setUniformMat4 name m w).2.sel p = w.sel p := by
  have h1 : ∀ q n, p (GLCall.glGetUniformLocation q n) = false :=
    fun q n => GLCall.Avoids.avoids (k := GLCall.isMat4SetterCall m) _ rfl
  have h2 : ∀ e, p (GLCall.glGetIntegerv e) = false :=
    fun e => GLCall.Avoids.avoids (k := GLCall.isMat4SetterCall m) _ rfl
  have h3 : ∀ q, p (GLCall.glUseProgram q) = false :=
    fun q => GLCall.Avoids.avoids (k := GLCall.isMat4SetterCall m) _ rfl
  have h4 : ∀ l, p (GLCall.glUniformMatrix4fv l m) = false :=
    fun l => GLCall.Avoids.avoids (k := GLCall.isMat4SetterCall m) _
      (by simp [GLCall.isMat4SetterCall])
  unfold Shader.setUniformMat4
  simp [Shader.UniformBinder.destruct_sel p _ _ h3,
    Shader.UniformBinder.construct_sel p _ _ _ h1 h2 h3, h4]

@[simp]
theorem Shader.setUniformVec2_sel (p : GLCall → Bool) (s : Shader) (name : String)
    (x y : ℚ) (w : World) [GLCall.Avoids p (GLCall.isVec2SetterCall x y)] :
    (s.setUniformVec2 name x y w).2.sel p = w.sel p := by
  have h1 : ∀ q n, p (GLCall.glGetUniformLocation q n) = false :=
    fun q n => GLCall.Avoids.avoids (k := GLCall.isVec2SetterCall x y) _ rfl
  have h2 : ∀ e, p (GLCall.glGetIntegerv e) = false :=
    fun e => GLCall.Avoids.avoids (k := GLCall.isVec2SetterCall x y) _ rfl
  have h3 : ∀ q, p (GLCall.glUseProgram q) = false :=
    fun q => GLCall.Avoids.avoids (k := GLCall.isVec2SetterCall x y) _ rfl
  have h4 : ∀ l, p (GLCall.glUniform2f l x y) = false :=
    fun l => GLCall.Avoids.avoids (k := GLCall.isVec2SetterCall x y) _
      (by simp [GLCall.isVec2SetterCall])
  unfold Shader.setUniformVec2
  simp [Shader.UniformBinder.destruct_sel p _ _ h3,
    Shader.UniformBinder.construct_sel p _ _ _ h1 h2 h3, h4]

@[simp]
theorem World.setUniformMat4_ref_sel (p : GLCall → Bool) (r : ShaderRef) (name : String)
    (m : List ℚ) (w : World) [GLCall.Avoids p (GLCall.isMat4SetterCall m)] :
    (w.setUniformMat4 r name m).sel p = w.sel p := by
  unfold World.setUniformMat4
  simp

@[simp]
theorem World.setUniformVec2_ref_sel (p : GLCall → Bool) (r : ShaderRef) (name : String)
    (x y : ℚ) (w : World) [GLCall.Avoids p (GLCall.isVec2SetterCall x y)] :
    (w.setUniformVec2 r name x y).sel p = w.sel p := by
  unfold World.setUniformVec2
  simp

@[simp]
theorem RenderTarget.uploadTextureUniforms_sel (p : GLCall → Bool) (r : ShaderRef)
    (c : CoordinateType) (t : Texture) (w : World)
    [GLCall.Avoids p (GLCall.isMat4SetterCall (RenderTarget.textureMatrix c t))]
    [GLCall.Avoids p (GLCall.isVec2SetterCall
      ((t.m_size.x : ℚ) / (t.m_actualSize.x : ℚ)) ((t.m_size.y : ℚ) / (t.m_actualSize.y : ℚ)))] :
    (RenderTarget.uploadTextureUniforms r c t w).sel p = w.sel p := by
  unfold RenderTarget.uploadTextureUniforms
  simp

/-! ### Compilation -/

@[simp]
theorem Shader.createAndAttachShader_sel (p : GLCall → Bool) (program : Nat) (type : GLenum)
    (typeStr code : String) (w : World) [GLCall.Avoids p GLCall.isCompileCall] :
    (Shader.createAndAttachShader program type typeStr code w).2.sel p = w.sel p := by
  have h : ∀ c, GLCall.isCompileCall c = true → p c = false :=
    fun c hc => GLCall.Avoids.avoids c hc
  unfold Shader.createAndAttachShader
  simp [snd_ite, h, GLCall.isCompileCall]

@[simp]
theorem Shader.compile_sel (p : GLCall → Bool) (s : Shader) (v g f : String) (w : World)
    [GLCall.Avoids p GLCall.isCompileCall] :
    (Shader.compile s v g f w).2.2.sel p = w.sel p := by
  have h : ∀ c, GLCall.isCompileCall c = true → p c = false :=
    fun c hc => GLCall.Avoids.avoids c hc
  unfold Shader.compile
  simp [snd_ite, h, GLCall.isCompileCall]

@[simp]
theorem Shader.loadFromMemory_sel (p : GLCall → Bool) (s : Shader) (v f : String)
    (w : World) [GLCall.Avoids p GLCall.isCompileCall] :
    (Shader.loadFromMemory s v f w).2.2.sel p = w.sel p := by
  unfold Shader.loadFromMemory
  simp

@[simp]
theorem Shader.getDefaultShader_sel (p : GLCall → Bool) (w : World)
    [GLCall.Avoids p GLCall.isCompileCall] :
    (Shader.getDefaultShader w).2.sel p = w.sel p := by
  unfold Shader.getDefaultShader
  simp [snd_ite]

@[simp]
theorem Shader.getDefaultTexShader_sel (p : GLCall → Bool) (w : World)
    [GLCall.Avoids p GLCall.isCompileCall] :
    (Shader.getDefaultTexShader w).2.sel p = w.sel p := by
  unfold Shader.getDefaultTexShader
  simp [snd_ite]

@[simp]
theorem RenderTarget.chooseShader_sel (p : GLCall → Bool) (states : RenderStates)
    (w : World) [GLCall.Avoids p GLCall.isCompileCall] :
    (RenderTarget.chooseShader states w).2.sel p = w.sel p := by
  unfold RenderTarget.chooseShader
  split <;> simp

/-! ### Binding a shader -/

@[simp]
theorem Shader.bindTexturesLoop_sel (p : GLCall → Bool) [GLCall.Avoids p GLCall.isBindCall]
    (l : List (Int × Texture)) :
    ∀ (i : Nat) (w : World), (Shader.bindTexturesLoop i l w).sel p = w.sel p := by
  have h : ∀ c, GLCall.isBindCall c = true → p c = false :=
    fun c hc => GLCall.Avoids.avoids c hc
  induction l with
  | nil => intro i w; rfl
  | cons e rest ih =>
    intro i w
    obtain ⟨location, texture⟩ := e
    simp [Shader.bindTexturesLoop, ih, h, GLCall.isBindCall]

@[simp]
theorem Shader.bindTextures_sel (p : GLCall → Bool) (s : Shader) (w : World)
    [GLCall.Avoids p GLCall.isBindCall] : (s.bindTextures w).sel p = w.sel p := by
  have h : ∀ c, GLCall.isBindCall c = true → p c = false :=
    fun c hc => GLCall.Avoids.avoids c hc
  unfold Shader.bindTextures
  simp [h, GLCall.isBindCall]

@[simp]
theorem Shader.bind_sel (p : GLCall → Bool) (shader : Option ShaderRef) (w : World)
    [GLCall.Avoids p GLCall.isBindCall] : (Shader.bind shader w).sel p = w.sel p := by
  have h : ∀ c, GLCall.isBindCall c = true → p c = false :=
    fun c hc => GLCall.Avoids.avoids c hc
  unfold Shader.bind
  cases shader <;> simp [h, GLCall.isBindCall]

@[simp]
theorem RenderTarget.disableAttrib_sel (p : GLCall → Bool) (location : Int) (w : World)
    [GLCall.Avoids p GLCall.isBindCall] :
    (RenderTarget.disableAttrib location w).sel p = w.sel p := by
  have h : ∀ c, GLCall.isBindCall c = true → p c = false :=
    fun c hc => GLCall.Avoids.avoids c hc
  unfold RenderTarget.disableAttrib
  simp [h, GLCall.isBindCall]

@[simp]
theorem RenderTarget.enableAttrib_sel (p : GLCall → Bool) (location : Int) (w : World)
    [GLCall.Avoids p GLCall.isBindCall] :
    (RenderTarget.enableAttrib location w).sel p = w.sel p := by
  have h : ∀ c, GLCall.isBindCall c = true → p c = false :=
    fun c hc => GLCall.Avoids.avoids c hc
  unfold RenderTarget.enableAttrib
  simp [h, GLCall.isBindCall]

@[simp]
theorem RenderTarget.applyShader_sel (p : GLCall → Bool) (rt : RenderTarget)
    (shader : Option ShaderRef) (w : World) [GLCall.Avoids p GLCall.isBindCall] :
    (rt.applyShader shader w).2.sel p = w.sel p := by
  have h : ∀ c, GLCall.isBindCall c = true → p c = false :=
    fun c hc => GLCall.Avoids.avoids c hc
  unfold RenderTarget.applyShader
  cases shader <;> simp [snd_ite, h, GLCall.isBindCall]

/-! ### State changes of the render target -/

@[simp]
theorem RenderTargetImpl.equationToGlConstant_sel (p : GLCall → Bool) (b : Bool)
    (e : Equation) (w : World) :
    (RenderTargetImpl.equationToGlConstant b e w).2.sel p = w.sel p := by
  unfold RenderTargetImpl.equationToGlConstant
  cases e <;> simp [snd_ite]

@[simp]
theorem RenderTarget.setActive_sel (p : GLCall → Bool) (rt : RenderTarget) (active : Bool)
    (w : World) : (rt.setActive active w).2.2.sel p = w.sel p := by
  unfold World.sel
  rw [RenderTarget.setActive_trace]

@[simp]
theorem RenderTarget.ensureActive_sel (p : GLCall → Bool) (rt : RenderTarget) (w : World) :
    (rt.ensureActive w).2.2.sel p = w.sel p := by
  unfold World.sel
  rw [RenderTarget.ensureActive_trace]

theorem RenderTarget.attribPointer_sel (p : GLCall → Bool) (location : Int) (size : Nat)
    (type : GLenum) (normalized : Bool) (offset : Nat) (w : World)
    (h : ∀ i s t n st o, p (GLCall.glVertexAttribPointer i s t n st o) = false) :
    (RenderTarget.attribPointer location size type normalized offset w).sel p = w.sel p := by
  unfold RenderTarget.attribPointer
  simp [h]

/-! ## The texture matrix -/

/-- The texture matrix computed by `setupDraw` is the one the spec describes. -/
theorem RenderTarget.textureMatrix_eq_spec (ct : CoordinateType) (t : Texture) :
    RenderTarget.textureMatrix ct t = RenderTarget.specTextureMatrix ct t := by
  unfold RenderTarget.textureMatrix RenderTarget.specTextureMatrix RenderTarget.specTextureScale
  cases ct <;> cases hf : t.m_pixelsFlipped <;> by_cases hs : t.m_size = t.m_actualSize <;>
    simp [hf, hs, List.set, List.getD]

theorem World.getShader_setShader (r : ShaderRef) (s : Shader) (w : World) :
    (w.setShader r s).getShader r = s := by
  cases r <;> simp [World.setShader, World.getShader]

/-- The uniform uploads of a setter whose uniform name is cached at a valid location,
for a shader with a program. -/
theorem Shader.setUniformMat4_cached (p : GLCall → Bool) (s : Shader) (name : String)
    (m : List ℚ) (w : World) (loc : Int) (hp : s.m_shaderProgram ≠ 0)
    (hl : s.m_uniforms.lookup name = some loc) (hv : loc ≠ -1)
    (h2 : ∀ e, p (GLCall.glGetIntegerv e) = false) (h3 : ∀ q, p (GLCall.glUseProgram q) = false)
    (h4 : p (GLCall.glUniformMatrix4fv loc m) = true) :
    (s.setUniformMat4 name m w).1 = s ∧
    (s.setUniformMat4 name m w).2.sel p = w.sel p ++ [GLCall.glUniformMatrix4fv loc m] := by
  unfold Shader.setUniformMat4 Shader.UniformBinder.construct Shader.UniformBinder.destruct
    Shader.getUniformLocation
  simp only [hl]
  simp [hp, hv, h2, h3, h4]

theorem Shader.setUniformVec2_cached (p : GLCall → Bool) (s : Shader) (name : String)
    (x y : ℚ) (w : World) (loc : Int) (hp : s.m_shaderProgram ≠ 0)
    (hl : s.m_uniforms.lookup name = some loc) (hv : loc ≠ -1)
    (h2 : ∀ e, p (GLCall.glGetIntegerv e) = false) (h3 : ∀ q, p (GLCall.glUseProgram q) = false)
    (h4 : p (GLCall.glUniform2f loc x y) = true) :
    (s.setUniformVec2 name x y w).1 = s ∧
    (s.setUniformVec2 name x y w).2.sel p = w.sel p ++ [GLCall.glUniform2f loc x y] := by
  unfold Shader.setUniformVec2 Shader.UniformBinder.construct Shader.UniformBinder.destruct
    Shader.getUniformLocation
  simp only [hl]
  simp [hp, hv, h2, h3, h4]

/-- C16: for a texture of logical size (w, h) and non-zero backing size (aw, ah), the
texture matrix `setupDraw` computes is the matrix the spec describes (the identity
except entry 0 = sx, entry 5 = sy or -sy for flipped rows, entry 13 = h/ah for flipped
rows); every matrix upload of the block of `setupDraw` that uploads it carries this
matrix, and every two-component upload, that of `factor_npot`, carries (w/aw, h/ah);
both are uploaded when the shader has a program and knows both names at valid
locations; and a flipped texture maps the row coordinate to the mirror image, within
[0, h/ah], of what the unflipped texture maps it to, the column coordinate being
unaffected. -/
theorem textureMatrix_upload (r : ShaderRef) (ct : CoordinateType) (t : Texture) (w : World)
    (hx : t.m_actualSize.x ≠ 0) (hy : t.m_actualSize.y ≠ 0) :
    RenderTarget.textureMatrix ct t = RenderTarget.specTextureMatrix ct t ∧
    (∃ issued,
      (RenderTarget.uploadTextureUniforms r ct t w).gl.trace = w.gl.trace ++ issued ∧
      (∀ loc m, GLCall.glUniformMatrix4fv loc m ∈ issued →
        m = RenderTarget.specTextureMatrix ct t) ∧
      (∀ loc x y, GLCall.glUniform2f loc x y ∈ issued →
        x = (t.m_size.x : ℚ) / (t.m_actualSize.x : ℚ) ∧
        y = (t.m_size.y : ℚ) / (t.m_actualSize.y : ℚ)) ∧
      (∀ lt lf, (w.getShader r).m_shaderProgram ≠ 0 →
        (w.getShader r).m_uniforms.lookup "sf_texture" = some lt → lt ≠ -1 →
        (w.getShader r).m_uniforms.lookup "factor_npot" = some lf → lf ≠ -1 →
        issued.filter GLCall.isUniformUpload
          = [GLCall.glUniformMatrix4fv lt (RenderTarget.specTextureMatrix ct t),
             GLCall.glUniform2f lf ((t.m_size.x : ℚ) / (t.m_actualSize.x : ℚ))
               ((t.m_size.y : ℚ) / (t.m_actualSize.y : ℚ))])) ∧
    (∀ p : Vector2f,
      (Glsl.transformPoint
          (RenderTarget.textureMatrix ct { t with m_pixelsFlipped := true }) p).x
        = (Glsl.transformPoint
          (RenderTarget.textureMatrix ct { t with m_pixelsFlipped := false }) p).x ∧
      (Glsl.transformPoint
          (RenderTarget.textureMatrix ct { t with m_pixelsFlipped := true }) p).y
        = (t.m_size.y : ℚ) / (t.m_actualSize.y : ℚ) -
          (Glsl.transformPoint
            (RenderTarget.textureMatrix ct { t with m_pixelsFlipped := false }) p).y) := by
  refine ⟨RenderTarget.textureMatrix_eq_spec ct t, ?_, ?_⟩
  · obtain ⟨issued, hi, hc⟩ := World.issued_class
      (fun c => GLCall.isMat4SetterCall (RenderTarget.textureMatrix ct t) c ||
        GLCall.isVec2SetterCall ((t.m_size.x : ℚ) / (t.m_actualSize.x : ℚ))
          ((t.m_size.y : ℚ) / (t.m_actualSize.y : ℚ)) c)
      w (RenderTarget.uploadTextureUniforms r ct t w)
      (RenderTarget.uploadTextureUniforms_trace_mono _ _ _ _ _ (List.prefix_refl _))
      (RenderTarget.uploadTextureUniforms_sel _ _ _ _ _)
    refine ⟨issued, hi, ?_, ?_, ?_⟩
    · intro loc m hm
      have := hc _ hm
      rw [← RenderTarget.textureMatrix_eq_spec]
      simpa [GLCall.isMat4SetterCall, GLCall.isVec2SetterCall] using this
    · intro loc x y hm
      have := hc _ hm
      simpa [GLCall.isMat4SetterCall, GLCall.isVec2SetterCall] using this
    · intro lt lf hp hlt hvt hlf hvf
      have e : (RenderTarget.uploadTextureUniforms r ct t w).sel GLCall.isUniformUpload
          = w.sel GLCall.isUniformUpload ++
            [GLCall.glUniformMatrix4fv lt (RenderTarget.specTextureMatrix ct t),
             GLCall.glUniform2f lf ((t.m_size.x : ℚ) / (t.m_actualSize.x : ℚ))
               ((t.m_size.y : ℚ) / (t.m_actualSize.y : ℚ))] := by
        unfold RenderTarget.uploadTextureUniforms World.setUniformVec2 World.setUniformMat4
        have e1 := Shader.setUniformMat4_cached GLCall.isUniformUpload (w.getShader r)
          "sf_texture" (RenderTarget.textureMatrix ct t) w lt hp hlt hvt (fun _ => rfl)
          (fun _ => rfl) rfl
        simp only [hx, hy, ne_eq, not_false_eq_true, and_self, if_true, e1.1,
          World.getShader_setShader, World.sel_setShader]
        have e2 := Shader.setUniformVec2_cached GLCall.isUniformUpload (w.getShader r)
          "factor_npot" ((t.m_size.x : ℚ) / (t.m_actualSize.x : ℚ))
          ((t.m_size.y : ℚ) / (t.m_actualSize.y : ℚ))
          (((w.getShader r).setUniformMat4 "sf_texture" (RenderTarget.textureMatrix ct t)
            w).2.setShader r (w.getShader r)) lf hp hlf hvf (fun _ => rfl) (fun _ => rfl) rfl
        rw [e2.2, World.sel_setShader, e1.2, RenderTarget.textureMatrix_eq_spec]
        simp
      rw [World.sel_of_issued _ _ _ _ hi] at e
      exact List.append_cancel_left e
  · intro p
    rw [RenderTarget.textureMatrix_eq_spec, RenderTarget.textureMatrix_eq_spec]
    simp [Glsl.transformPoint, RenderTarget.specTextureMatrix, RenderTarget.specTextureScale]
    ring

/-- Witness of C16: the flipped 100 x 50 texture in its 128 x 64 backing store, drawn
with pixel coordinates through the textured default shader: the matrix and the size
ratio are uploaded. -/
theorem textureMatrix_upload_witness :
    (paddedTexture.m_actualSize.x ≠ 0 ∧ paddedTexture.m_actualSize.y ≠ 0) ∧
    RenderTarget.specTextureMatrix CoordinateType.Pixels paddedTexture
      = [1 / 128, 0, 0, 0, 0, -(1 / 64), 0, 0, 0, 0, 1, 0, 0, 50 / 64, 0, 1] ∧
    ∃ issued,
      (RenderTarget.uploadTextureUniforms ShaderRef.defaultTexShader CoordinateType.Pixels
          paddedTexture texturedWorld).gl.trace = texturedWorld.gl.trace ++ issued ∧
      issued.filter GLCall.isUniformUpload
        = [GLCall.glUniformMatrix4fv 2
            (RenderTarget.specTextureMatrix CoordinateType.Pixels paddedTexture),
           GLCall.glUniform2f 3 ((100 : ℚ) / 128) ((50 : ℚ) / 64)] := by
  refine ⟨⟨by decide, by decide⟩, ?_, ?_⟩
  · simp [RenderTarget.specTextureMatrix, RenderTarget.specTextureScale, paddedTexture]
  · obtain ⟨issued, hi, -, -, hl⟩ :=
      (textureMatrix_upload ShaderRef.defaultTexShader CoordinateType.Pixels paddedTexture
        texturedWorld (by decide) (by decide)).2.1
    refine ⟨issued, hi, ?_⟩
    have := hl 2 3 (by decide) (by decide) (by decide) (by decide) (by decide)
    simpa [paddedTexture] using this

/-! ## What no operation changes -/

@[simp]
theorem World.fixed_call (c : GLCall) (w : World) : (w.call c).fixed = w.fixed :=
  rfl

@[simp]
theorem World.fixed_err (msg : String) (w : World) : (w.err msg).fixed = w.fixed :=
  rfl

@[simp]
theorem World.fixed_freshHandle (w : World) : w.freshHandle.2.fixed = w.fixed :=
  rfl

@[simp]
theorem World.fixed_setShader (r : ShaderRef) (s : Shader) (w : World) :
    (w.setShader r s).fixed = w.fixed := by
  cases r <;> rfl

@[simp]
theorem World.fixed_ite (c : Prop) [Decidable c] (a b : World) :
    (if c then a else b).fixed = if c then a.fixed else b.fixed := by
  split_ifs <;> rfl

@[simp]
theorem World.fixed_mk (config : BuildConfig) (env : DriverEnv)
    (gl : Driver) (ctx : Nat) (m : Nat → Option Nat) (u : Nat) (wn : Bool) (d : Shader)
    (df : Bool) (dt : Shader) (dtf : Bool) (us : Nat → Shader) (el : List String) :
    (World.mk config env gl ctx m u wn d df dt dtf us el).fixed = (config, env) :=
  rfl

@[simp]
theorem World.fixed_eta (w : World) : (w.config, w.env) = w.fixed :=
  rfl

theorem World.config_of_fixed (w w' : World) (h : w'.fixed = w.fixed) : w'.config = w.config :=
  congrArg Prod.fst h

theorem World.env_of_fixed (w w' : World) (h : w'.fixed = w.fixed) : w'.env = w.env :=
  congrArg Prod.snd h

@[simp]
theorem Shader.getUniformLocation_fixed (s : Shader) (name : String) (w : World) :
    (s.getUniformLocation name w).2.2.fixed = w.fixed := by
  unfold Shader.getUniformLocation
  split
  · rfl
  · simp

@[simp]
theorem Shader.UniformBinder.construct_fixed (s : Shader) (name : String) (w : World) :
    (Shader.UniformBinder.construct s name w).2.2.fixed = w.fixed := by
  unfold Shader.UniformBinder.construct
  simp [snd_ite]

@[simp]
theorem Shader.UniformBinder.destruct_fixed (b : Shader.UniformBinder) (w : World) :
    (b.destruct w).fixed = w.fixed := by
  unfold Shader.UniformBinder.destruct
  simp

@[simp]
theorem Shader.setUniformVec2_fixed (s : Shader) (name : String) (x y : ℚ) (w : World) :
    (s.setUniformVec2 name x y w).2.fixed = w.fixed := by
  unfold Shader.setUniformVec2
  simp

@[simp]
theorem Shader.setUniformMat4_fixed (s : Shader) (name : String) (m : List ℚ)
    (w : World) : (s.setUniformMat4 name m w).2.fixed = w.fixed := by
  unfold Shader.setUniformMat4
  simp

@[simp]
theorem World.setUniformVec2_ref_fixed (r : ShaderRef) (name : String) (x y : ℚ)
    (w : World) : (w.setUniformVec2 r name x y).fixed = w.fixed := by
  unfold World.setUniformVec2
  simp

@[simp]
theorem World.setUniformMat4_ref_fixed (r : ShaderRef) (name : String) (m : List ℚ)
    (w : World) : (w.setUniformMat4 r name m).fixed = w.fixed := by
  unfold World.setUniformMat4
  simp

@[simp]
theorem Shader.bindTexturesLoop_fixed (l : List (Int × Texture)) :
    ∀ (i : Nat) (w : World), (Shader.bindTexturesLoop i l w).fixed = w.fixed := by
  induction l with
  | nil => intro i w; rfl
  | cons e rest ih =>
    intro i w
    obtain ⟨location, texture⟩ := e
    simp [Shader.bindTexturesLoop, ih]

@[simp]
theorem Shader.bindTextures_fixed (s : Shader) (w : World) :
    (s.bindTextures w).fixed = w.fixed := by
  unfold Shader.bindTextures
  simp

@[simp]
theorem Shader.bind_fixed (shader : Option ShaderRef) (w : World) :
    (Shader.bind shader w).fixed = w.fixed := by
  unfold Shader.bind
  cases shader <;> simp

@[simp]
theorem Shader.createAndAttachShader_fixed (program : Nat) (type : GLenum)
    (typeStr code : String) (w : World) :
    (Shader.createAndAttachShader program type typeStr code w).2.fixed = w.fixed := by
  unfold Shader.createAndAttachShader
  simp [snd_ite]

@[simp]
theorem Shader.compile_fixed (s : Shader) (v g f : String) (w : World) :
    (Shader.compile s v g f w).2.2.fixed = w.fixed := by
  unfold Shader.compile
  simp [snd_ite]

@[simp]
theorem Shader.loadFromMemory_fixed (s : Shader) (v f : String) (w : World) :
    (Shader.loadFromMemory s v f w).2.2.fixed = w.fixed := by
  unfold Shader.loadFromMemory
  simp

@[simp]
theorem Shader.getDefaultShader_fixed (w : World) :
    (Shader.getDefaultShader w).2.fixed = w.fixed := by
  unfold Shader.getDefaultShader
  simp [snd_ite]

@[simp]
theorem Shader.getDefaultTexShader_fixed (w : World) :
    (Shader.getDefaultTexShader w).2.fixed = w.fixed := by
  unfold Shader.getDefaultTexShader
  simp [snd_ite]

@[simp]
theorem RenderTargetImpl.equationToGlConstant_fixed (b : Bool) (e : Equation)
    (w : World) : (RenderTargetImpl.equationToGlConstant b e w).2.fixed = w.fixed := by
  unfold RenderTargetImpl.equationToGlConstant
  cases e <;> simp [snd_ite]

@[simp]
theorem RenderTarget.setActive_fixed (rt : RenderTarget) (active : Bool) (w : World) :
    (rt.setActive active w).2.2.fixed = w.fixed := by
  unfold RenderTarget.setActive
  cases active <;> cases h : w.contextRenderTargetMap w.activeContextId <;>
    simp [h, snd_ite]

@[simp]
theorem RenderTarget.ensureActive_fixed (rt : RenderTarget) (w : World) :
    (rt.ensureActive w).2.2.fixed = w.fixed := by
  unfold RenderTarget.ensureActive
  simp [snd_ite]

@[simp]
theorem RenderTarget.applyBlendMode_fixed (rt : RenderTarget) (mode : BlendMode)
    (w : World) : (rt.applyBlendMode mode w).2.fixed = w.fixed := by
  unfold RenderTarget.applyBlendMode
  simp

@[simp]
theorem RenderTarget.applyStencilMode_fixed (rt : RenderTarget) (mode : StencilMode)
    (w : World) : (rt.applyStencilMode mode w).2.fixed = w.fixed := by
  unfold RenderTarget.applyStencilMode
  simp [snd_ite]

@[simp]
theorem RenderTarget.applyTexture_fixed (rt : RenderTarget) (t : Option Texture)
    (c : CoordinateType) (w : World) : (rt.applyTexture t c w).2.fixed = w.fixed := by
  unfold RenderTarget.applyTexture
  simp

@[simp]
theorem RenderTarget.disableAttrib_fixed (location : Int) (w : World) :
    (RenderTarget.disableAttrib location w).fixed = w.fixed := by
  unfold RenderTarget.disableAttrib
  simp

@[simp]
theorem RenderTarget.enableAttrib_fixed (location : Int) (w : World) :
    (RenderTarget.enableAttrib location w).fixed = w.fixed := by
  unfold RenderTarget.enableAttrib
  simp

@[simp]
theorem RenderTarget.attribPointer_fixed (location : Int) (size : Nat) (type : GLenum)
    (normalized : Bool) (offset : Nat) (w : World) :
    (RenderTarget.attribPointer location size type normalized offset w).fixed = w.fixed := by
  unfold RenderTarget.attribPointer
  simp

@[simp]
theorem RenderTarget.applyShader_fixed (rt : RenderTarget) (shader : Option ShaderRef)
    (w : World) : (rt.applyShader shader w).2.fixed = w.fixed := by
  unfold RenderTarget.applyShader
  cases shader <;> simp [snd_ite]

@[simp]
theorem RenderTarget.resetGLStates_fixed (rt : RenderTarget) (w : World) :
    (rt.resetGLStates w).2.fixed = w.fixed := by
  unfold RenderTarget.resetGLStates
  simp [snd_ite, fst_ite, Shader.isAvailable]

@[simp]
theorem RenderTarget.chooseShader_fixed (states : RenderStates) (w : World) :
    (RenderTarget.chooseShader states w).2.fixed = w.fixed := by
  unfold RenderTarget.chooseShader
  split <;> simp

@[simp]
theorem RenderTarget.uploadTextureUniforms_fixed (r : ShaderRef) (c : CoordinateType)
    (t : Texture) (w : World) :
    (RenderTarget.uploadTextureUniforms r c t w).fixed = w.fixed := by
  unfold RenderTarget.uploadTextureUniforms
  simp

@[simp]
theorem RenderTarget.cleanupDraw_fixed (rt : RenderTarget) (states : RenderStates)
    (w : World) : (rt.cleanupDraw states w).2.fixed = w.fixed := by
  unfold RenderTarget.cleanupDraw
  simp [snd_ite]

@[simp]
theorem RenderTarget.drawPrimitives_fixed (type : PrimitiveType) (first count : Nat)
    (w : World) : (RenderTarget.drawPrimitives type first count w).fixed = w.fixed := by
  unfold RenderTarget.drawPrimitives
  simp

/-! ## Blend state -/

theorem RenderTargetImpl.equationToGlConstant_trace (b : Bool) (e : Equation) (w : World) :
    (RenderTargetImpl.equationToGlConstant b e w).2.gl.trace = w.gl.trace := by
  unfold RenderTargetImpl.equationToGlConstant
  cases e <;> cases b <;> cases hw : w.warned <;> simp [hw] <;> rfl

theorem RenderTargetImpl.equationToGlConstant_fst (b : Bool) (e : Equation) (w w' : World) :
    (RenderTargetImpl.equationToGlConstant b e w).1
      = (RenderTargetImpl.equationToGlConstant b e w').1 := by
  unfold RenderTargetImpl.equationToGlConstant
  cases e <;> cases b <;> simp

theorem RenderTarget.blendMinmax_of_fixed (w w' : World) (h : w'.fixed = w.fixed) :
    RenderTarget.blendMinmax w' = RenderTarget.blendMinmax w := by
  unfold RenderTarget.blendMinmax
  rw [World.config_of_fixed w w' h, World.env_of_fixed w w' h]

/-- The two calls `applyBlendMode` issues. -/
theorem RenderTarget.applyBlendMode_trace (rt : RenderTarget) (mode : BlendMode) (w : World) :
    (rt.applyBlendMode mode w).2.gl.trace
      = w.gl.trace ++
        [GLCall.glBlendFuncSeparate (RenderTargetImpl.factorToGlConstant mode.colorSrcFactor)
            (RenderTargetImpl.factorToGlConstant mode.colorDstFactor)
            (RenderTargetImpl.factorToGlConstant mode.alphaSrcFactor)
            (RenderTargetImpl.factorToGlConstant mode.alphaDstFactor),
         GLCall.glBlendEquationSeparate
            (RenderTargetImpl.equationToGlConstant (RenderTarget.blendMinmax w)
              mode.colorEquation w).1
            (RenderTargetImpl.equationToGlConstant (RenderTarget.blendMinmax w)
              mode.alphaEquation w).1] := by
  unfold RenderTarget.applyBlendMode
  lift_lets
  extract_lets w1 c a w2
  have h1 : w1.gl.trace = w.gl.trace ++ [GLCall.glBlendFuncSeparate
      (RenderTargetImpl.factorToGlConstant mode.colorSrcFactor)
      (RenderTargetImpl.factorToGlConstant mode.colorDstFactor)
      (RenderTargetImpl.factorToGlConstant mode.alphaSrcFactor)
      (RenderTargetImpl.factorToGlConstant mode.alphaDstFactor)] := rfl
  have hf1 : w1.fixed = w.fixed := rfl
  have hc : c.2.gl.trace = w1.gl.trace := RenderTargetImpl.equationToGlConstant_trace _ _ _
  have hcf : c.2.fixed = w.fixed := by simp [c, hf1]
  have hc1 : c.1 = (RenderTargetImpl.equationToGlConstant (RenderTarget.blendMinmax w)
      mode.colorEquation w).1 := by
    simp only [c]
    rw [RenderTarget.blendMinmax_of_fixed w w1 hf1]
    exact RenderTargetImpl.equationToGlConstant_fst _ _ _ _
  have ha : a.2.gl.trace = c.2.gl.trace := RenderTargetImpl.equationToGlConstant_trace _ _ _
  have ha1 : a.1 = (RenderTargetImpl.equationToGlConstant (RenderTarget.blendMinmax w)
      mode.alphaEquation w).1 := by
    simp only [a]
    rw [RenderTarget.blendMinmax_of_fixed w c.2 hcf]
    exact RenderTargetImpl.equationToGlConstant_fst _ _ _ _
  have h2 : w2.gl.trace = a.2.gl.trace ++ [GLCall.glBlendEquationSeparate c.1 a.1] := rfl
  show w2.gl.trace = _
  rw [h2, ha, hc, h1, hc1, ha1]
  simp

theorem RenderTarget.applyBlendMode_target (rt : RenderTarget) (mode : BlendMode) (w : World) :
    (rt.applyBlendMode mode w).1
      = { rt with m_cache := { rt.m_cache with lastBlendMode := mode } } :=
  rfl

/-- The calls `applyStencilMode` issues and the cache it leaves. -/
theorem RenderTarget.applyStencilMode_trace (rt : RenderTarget) (mode : StencilMode)
    (w : World) :
    (rt.applyStencilMode mode w).2.gl.trace
      = w.gl.trace ++
        (if mode = StencilMode.default then
          (if rt.m_cache.enable = false ∨ rt.m_cache.stencilEnabled = true then
            [GLCall.glDisable GLenum.GL_STENCIL_TEST, GLCall.glColorMask true true true true]
          else [])
        else
          ((if rt.m_cache.enable = false ∨ rt.m_cache.stencilEnabled = false then
              [GLCall.glEnable GLenum.GL_STENCIL_TEST]
            else []) ++
           [GLCall.glStencilOp GLenum.GL_KEEP
              (RenderTargetImpl.stencilOperationToGlConstant mode.stencilUpdateOperation)
              (RenderTargetImpl.stencilOperationToGlConstant mode.stencilUpdateOperation),
            GLCall.glStencilFunc
              (RenderTargetImpl.stencilFunctionToGlConstant mode.stencilComparison)
              (toInt32 mode.stencilReference) mode.stencilMask])) := by
  by_cases h : mode = StencilMode.default
  · subst h
    rw [(RenderTarget.applyStencilMode_default rt w).1]
    simp
  · rw [(RenderTarget.applyStencilMode_of_ne rt mode w h).1]
    simp [h]

theorem RenderTarget.applyStencilMode_target (rt : RenderTarget) (mode : StencilMode)
    (w : World) :
    (rt.applyStencilMode mode w).1
      = { rt with m_cache :=
          { rt.m_cache with
            stencilEnabled := decide (mode ≠ StencilMode.default)
            lastStencilMode := mode } } := by
  by_cases h : mode = StencilMode.default
  · subst h
    rw [(RenderTarget.applyStencilMode_default rt w).2]
    simp
  · rw [(RenderTarget.applyStencilMode_of_ne rt mode w h).2]
    simp [h]

theorem RenderTarget.applyTexture_trace (rt : RenderTarget) (t : Option Texture)
    (c : CoordinateType) (w : World) :
    (rt.applyTexture t c w).2.gl.trace = w.gl.trace ++ [GLCall.Texture_bind t c] :=
  rfl

theorem RenderTarget.applyTexture_target (rt : RenderTarget) (t : Option Texture)
    (c : CoordinateType) (w : World) :
    (rt.applyTexture t c w).1
      = { rt with m_cache :=
          { rt.m_cache with
            lastTextureId := RenderTarget.textureCacheId t
            lastCoordinateType := c } } := by
  cases t <;> rfl

/-- `applyShader` changes nothing of the target but the cached shader identity
and attribute locations. -/
theorem RenderTarget.applyShader_target (rt : RenderTarget) (shader : Option ShaderRef)
    (w : World) :
    ∃ (id : Nat) (pos col tex : Int),
      (rt.applyShader shader w).1
        = { rt with m_cache :=
            { rt.m_cache with
              lastShaderId := id, posAttrib := pos, colAttrib := col, texAttrib := tex } } := by
  unfold RenderTarget.applyShader
  cases shader with
  | none => exact ⟨_, _, _, _, rfl⟩
  | some r =>
    simp only []
    split_ifs
    · exact ⟨_, _, _, _, rfl⟩
    · exact ⟨_, _, _, _, rfl⟩

@[simp]
theorem RenderTarget.applyBlendMode_sel (p : GLCall → Bool) (rt : RenderTarget)
    (mode : BlendMode) (w : World) :
    (rt.applyBlendMode mode w).2.sel p
      = w.sel p ++
        [GLCall.glBlendFuncSeparate (RenderTargetImpl.factorToGlConstant mode.colorSrcFactor)
            (RenderTargetImpl.factorToGlConstant mode.colorDstFactor)
            (RenderTargetImpl.factorToGlConstant mode.alphaSrcFactor)
            (RenderTargetImpl.factorToGlConstant mode.alphaDstFactor),
         GLCall.glBlendEquationSeparate
            (RenderTargetImpl.equationToGlConstant (RenderTarget.blendMinmax w)
              mode.colorEquation w).1
            (RenderTargetImpl.equationToGlConstant (RenderTarget.blendMinmax w)
              mode.alphaEquation w).1].filter p :=
  World.sel_of_issued p _ _ _ (RenderTarget.applyBlendMode_trace rt mode w)

@[simp]
theorem RenderTarget.applyStencilMode_sel (p : GLCall → Bool) (rt : RenderTarget)
    (mode : StencilMode) (w : World) :
    (rt.applyStencilMode mode w).2.sel p
      = w.sel p ++
        (if mode = StencilMode.default then
          (if rt.m_cache.enable = false ∨ rt.m_cache.stencilEnabled = true then
            [GLCall.glDisable GLenum.GL_STENCIL_TEST, GLCall.glColorMask true true true true]
          else [])
        else
          ((if rt.m_cache.enable = false ∨ rt.m_cache.stencilEnabled = false then
              [GLCall.glEnable GLenum.GL_STENCIL_TEST]
            else []) ++
           [GLCall.glStencilOp GLenum.GL_KEEP
              (RenderTargetImpl.stencilOperationToGlConstant mode.stencilUpdateOperation)
              (RenderTargetImpl.stencilOperationToGlConstant mode.stencilUpdateOperation),
            GLCall.glStencilFunc
              (RenderTargetImpl.stencilFunctionToGlConstant mode.stencilComparison)
              (toInt32 mode.stencilReference) mode.stencilMask])).filter p :=
  World.sel_of_issued p _ _ _ (RenderTarget.applyStencilMode_trace rt mode w)

@[simp]
theorem RenderTarget.applyTexture_sel (p : GLCall → Bool) (rt : RenderTarget)
    (t : Option Texture) (c : CoordinateType) (w : World) :
    (rt.applyTexture t c w).2.sel p = w.sel p ++ [GLCall.Texture_bind t c].filter p :=
  World.sel_of_issued p _ _ _ (RenderTarget.applyTexture_trace rt t c w)

/-! ## What the pipeline leaves in the state cache -/

theorem RenderTarget.setActive_target (rt : RenderTarget) (active : Bool) (w : World) :
    ∃ e g : Bool,
      (rt.setActive active w).2.1
        = { rt with m_cache := { rt.m_cache with enable := e, glStatesSet := g } } := by
  unfold RenderTarget.setActive
  cases active
  · exact ⟨false, rt.m_cache.glStatesSet, by simp⟩
  · cases h : w.contextRenderTargetMap w.activeContextId with
    | none => exact ⟨false, false, by simp [h]⟩
    | some second =>
      by_cases hs : second = rt.m_id
      · exact ⟨rt.m_cache.enable, rt.m_cache.glStatesSet, by simp [h, hs]⟩
      · exact ⟨false, rt.m_cache.glStatesSet, by simp [h, hs]⟩

theorem RenderTarget.ensureActive_target (rt : RenderTarget) (w : World) :
    ∃ e g : Bool,
      (RenderTargetImpl.isActive rt.m_id w = true →
        e = rt.m_cache.enable ∧ g = rt.m_cache.glStatesSet) ∧
      (rt.ensureActive w).2.1
        = { rt with m_cache := { rt.m_cache with enable := e, glStatesSet := g } } := by
  unfold RenderTarget.ensureActive
  split_ifs with h
  · exact ⟨rt.m_cache.enable, rt.m_cache.glStatesSet, fun _ => ⟨rfl, rfl⟩, rfl⟩
  · obtain ⟨e, g, hh⟩ := RenderTarget.setActive_target rt true w
    exact ⟨e, g, fun h' => absurd h' h, hh⟩

/-- The cache `resetGLStates` leaves. -/
theorem RenderTarget.resetGLStates_target (rt : RenderTarget) (w : World) :
    (rt.resetGLStates w).1
      = { rt with m_cache :=
          { rt.m_cache with
            enable := true
            glStatesSet := true
            viewChanged := true
            stencilEnabled := false
            lastBlendMode := BlendAlpha
            lastStencilMode := StencilMode.default
            lastTextureId := 0
            lastCoordinateType := CoordinateType.Pixels
            texCoordsArrayEnabled := true
            useVertexCache := false } } := by
  unfold RenderTarget.resetGLStates
  lift_lets
  extract_lets shaderAvailable vertexBufferAvailable d m g rt0 w1 w2 w3 w4 w5 w6 w7 src3 rt1 b
    s t hh w8 src2 src1 rt2 rt3 src0
  have hm : ∃ e g : Bool, m.1
      = { rt with m_cache := { rt.m_cache with enable := e, glStatesSet := g } } := by
    simp only [m]
    split_ifs
    · obtain ⟨e, g, hh⟩ := RenderTarget.setActive_target rt false w
      exact ⟨e, g, hh⟩
    · obtain ⟨e, g, hh⟩ := RenderTarget.setActive_target rt false w
      exact ⟨e, g, hh⟩
    · exact ⟨rt.m_cache.enable, rt.m_cache.glStatesSet, rfl⟩
  clear_value m
  obtain ⟨e1, g1, hm⟩ := hm
  have hg : g.1 = true := by simp [g]
  have hg2 : ∃ e g : Bool, rt0
      = { rt with m_cache := { rt.m_cache with enable := e, glStatesSet := g } } := by
    obtain ⟨e, g', -, hh⟩ := RenderTarget.ensureActive_target m.1 m.2
    refine ⟨e, g', ?_⟩
    simp only [rt0, g]
    rw [hh, hm]
  clear_value g
  obtain ⟨e2, g2, hrt0⟩ := hg2
  simp only [hg, if_true]
  have ht : t.1 = { rt with m_cache :=
      { rt.m_cache with
        enable := e2
        glStatesSet := true
        stencilEnabled := false
        lastBlendMode := BlendAlpha
        lastStencilMode := StencilMode.default
        lastTextureId := 0
        lastCoordinateType := CoordinateType.Pixels } } := by
    simp only [t, s, b, rt1, src3, RenderTarget.applyTexture_target,
      RenderTarget.applyStencilMode_target, RenderTarget.applyBlendMode_target, hrt0,
      RenderTarget.applyTextureDefaultCoordinateType]
    simp [RenderTarget.textureCacheId]
  clear_value t
  have hh1 : hh.1 = t.1 := by
    simp only [hh, shaderAvailable, Shader.isAvailable, if_true]
    rfl
  clear_value hh
  simp only [rt3, rt2, src2, src1, src0, hh1, ht, RenderTarget.setView, RenderTarget.getView]

/-- The cache `setupDraw` leaves: starting from the cache `base` in force when the
states are compared (the target's cache, or the one `resetGLStates` left when the
persistent defaults had not been established), the blend mode, stencil mode, texture
identity and coordinate type recorded are those of the draw. -/
theorem RenderTarget.setupDraw_target (rt : RenderTarget) (useVertexCache : Bool)
    (states : RenderStates) (w : World) :
    ∃ (base : StatesCache) (id : Nat) (pos col tex : Int),
      (rt.m_cache.glStatesSet = true → base = rt.m_cache) ∧
      (rt.m_cache.glStatesSet = false →
        base = { rt.m_cache with
          enable := true
          glStatesSet := true
          viewChanged := true
          stencilEnabled := false
          lastBlendMode := BlendAlpha
          lastStencilMode := StencilMode.default
          lastTextureId := 0
          lastCoordinateType := CoordinateType.Pixels
          texCoordsArrayEnabled := true
          useVertexCache := false }) ∧
      (rt.setupDraw useVertexCache states w).1
        = { rt with m_cache :=
            { base with
              lastBlendMode := states.blendMode
              lastStencilMode := states.stencilMode
              stencilEnabled :=
                if base.enable = false ∨ states.stencilMode ≠ base.lastStencilMode then
                  decide (states.stencilMode ≠ StencilMode.default)
                else base.stencilEnabled
              lastTextureId := RenderTarget.textureCacheId states.texture
              lastCoordinateType := states.coordinateType
              lastShaderId := id
              posAttrib := pos
              colAttrib := col
              texAttrib := tex } } := by
  generalize hr : (rt.setupDraw useVertexCache states w).1 = r
  unfold RenderTarget.setupDraw at hr
  lift_lets at hr
  extract_lets w1 a u usedShader w2 viewport top w3 w4 b s w5 textureId shaderId t w6 at hr
  clear_value w1
  have ha : a.1 = { rt with m_cache := a.1.m_cache } ∧
      (rt.m_cache.glStatesSet = true → a.1.m_cache = rt.m_cache) ∧
      (rt.m_cache.glStatesSet = false →
        a.1.m_cache = { rt.m_cache with
          enable := true
          glStatesSet := true
          viewChanged := true
          stencilEnabled := false
          lastBlendMode := BlendAlpha
          lastStencilMode := StencilMode.default
          lastTextureId := 0
          lastCoordinateType := CoordinateType.Pixels
          texCoordsArrayEnabled := true
          useVertexCache := false }) := by
    simp only [a]
    cases hg : rt.m_cache.glStatesSet
    · simp [RenderTarget.resetGLStates_target]
    · simp
  clear_value u w2 w3 w4
  clear top viewport
  obtain ⟨ha1, ha2, ha3⟩ := ha
  have hb : b.1 = { rt with m_cache := { a.1.m_cache with lastBlendMode := states.blendMode } } := by
    simp only [b]
    split_ifs with h
    · rw [RenderTarget.applyBlendMode_target, ha1]
    · rw [ha1]
      simp only [Bool.or_eq_true, Bool.not_eq_eq_eq_not, Bool.not_true, decide_eq_true_eq,
        not_or, Bool.not_eq_false, not_not] at h
      rw [h.2]
  clear_value b
  have hs : s.1 = { rt with m_cache :=
      { a.1.m_cache with
        lastBlendMode := states.blendMode
        lastStencilMode := states.stencilMode
        stencilEnabled :=
          if a.1.m_cache.enable = false ∨ states.stencilMode ≠ a.1.m_cache.lastStencilMode then
            decide (states.stencilMode ≠ StencilMode.default)
          else a.1.m_cache.stencilEnabled } } := by
    simp only [s]
    split_ifs with h h' h'
    · rw [RenderTarget.applyStencilMode_target, hb]
    · rw [hb] at h
      simp at h h'
      simp [h'] at h
    · rw [hb] at h
      simp at h h'
      simp [h.1] at h'
      exact absurd h.2 (h' : _)
    · rw [hb] at h ⊢
      simp at h h'
      simp only [h.2]
  clear_value s w5
  have ht : t.1.1 = { rt with m_cache :=
      { a.1.m_cache with
        lastBlendMode := states.blendMode
        lastStencilMode := states.stencilMode
        stencilEnabled :=
          if a.1.m_cache.enable = false ∨ states.stencilMode ≠ a.1.m_cache.lastStencilMode then
            decide (states.stencilMode ≠ StencilMode.default)
          else a.1.m_cache.stencilEnabled
        lastTextureId := RenderTarget.textureCacheId states.texture
        lastCoordinateType := states.coordinateType } } := by
    simp only [t]
    by_cases h : (!s.1.m_cache.enable || RenderTarget.isFboAttachment states.texture) = true
    · rw [if_pos h, RenderTarget.applyTexture_target, hs]
    · rw [if_neg h]
      by_cases h' : textureId ≠ s.1.m_cache.lastTextureId ∨
          shaderId ≠ s.1.m_cache.lastShaderId ∨
          states.coordinateType ≠ s.1.m_cache.lastCoordinateType
      · rw [if_pos h', RenderTarget.applyTexture_target, hs]
      · rw [if_neg h']
        simp only [textureId, not_or, not_not] at h'
        rw [hs] at h' ⊢
        simp only at h'
        rw [h'.1, h'.2.2]
  clear_value t w6
  obtain ⟨id, pos, col, tex, hf⟩ := RenderTarget.applyShader_target t.1.1 (some usedShader) w6
  refine ⟨a.1.m_cache, id, pos, col, tex, ha2, ha3, ?_⟩
  rw [← hr, hf, ht]

/-- The blend calls `setupDraw` issues on a target whose persistent defaults are
established. -/
theorem RenderTarget.setupDraw_sel_blend (rt : RenderTarget) (useVertexCache : Bool)
    (states : RenderStates) (w : World) (hg : rt.m_cache.glStatesSet = true) :
    (rt.setupDraw useVertexCache states w).2.sel GLCall.isBlendCall
      = w.sel GLCall.isBlendCall ++
        (if rt.m_cache.enable = false ∨ states.blendMode ≠ rt.m_cache.lastBlendMode then
          [GLCall.glBlendFuncSeparate
              (RenderTargetImpl.factorToGlConstant states.blendMode.colorSrcFactor)
              (RenderTargetImpl.factorToGlConstant states.blendMode.colorDstFactor)
              (RenderTargetImpl.factorToGlConstant states.blendMode.alphaSrcFactor)
              (RenderTargetImpl.factorToGlConstant states.blendMode.alphaDstFactor),
           GLCall.glBlendEquationSeparate
              (RenderTargetImpl.equationToGlConstant (RenderTarget.blendMinmax w)
                states.blendMode.colorEquation w).1
              (RenderTargetImpl.equationToGlConstant (RenderTarget.blendMinmax w)
                states.blendMode.alphaEquation w).1]
        else []) := by
  unfold RenderTarget.setupDraw
  lift_lets
  extract_lets w1 a u usedShader w2 viewport top w3 w4 b s w5 textureId shaderId t w6
  have h1 : w1.sel GLCall.isBlendCall = w.sel GLCall.isBlendCall ∧ w1.fixed = w.fixed := by
    constructor
    · simp only [w1]
      split_ifs <;> simp [GLCall.isBlendCall]
    · simp only [w1]
      split_ifs <;> rfl
  clear_value w1
  have ha : a = (rt, w1) := by simp [a, hg]
  clear_value a
  subst ha
  have hu : u.2.sel GLCall.isBlendCall = w.sel GLCall.isBlendCall ∧ u.2.fixed = w.fixed := by
    simp [u, h1]
  clear_value u
  have h2 : w2.sel GLCall.isBlendCall = w.sel GLCall.isBlendCall ∧ w2.fixed = w.fixed := by
    constructor
    · simp only [w2]
      split_ifs <;> simp [hu]
    · simp only [w2]
      split_ifs <;> simp [hu]
  clear_value w2
  have h4 : w4.sel GLCall.isBlendCall = w.sel GLCall.isBlendCall ∧ w4.fixed = w.fixed := by
    simp [w4, w3, h2, GLCall.isBlendCall]
  clear_value w3 w4
  have hb : b.2.sel GLCall.isBlendCall = w.sel GLCall.isBlendCall ++
      (if rt.m_cache.enable = false ∨ states.blendMode ≠ rt.m_cache.lastBlendMode then
        [GLCall.glBlendFuncSeparate
            (RenderTargetImpl.factorToGlConstant states.blendMode.colorSrcFactor)
            (RenderTargetImpl.factorToGlConstant states.blendMode.colorDstFactor)
            (RenderTargetImpl.factorToGlConstant states.blendMode.alphaSrcFactor)
            (RenderTargetImpl.factorToGlConstant states.blendMode.alphaDstFactor),
         GLCall.glBlendEquationSeparate
            (RenderTargetImpl.equationToGlConstant (RenderTarget.blendMinmax w)
              states.blendMode.colorEquation w).1
            (RenderTargetImpl.equationToGlConstant (RenderTarget.blendMinmax w)
              states.blendMode.alphaEquation w).1]
      else []) := by
    simp only [b]
    by_cases hc : rt.m_cache.enable = false ∨ states.blendMode ≠ rt.m_cache.lastBlendMode
    · have hc' : (!rt.m_cache.enable || decide (states.blendMode ≠ rt.m_cache.lastBlendMode))
          = true := by simpa using hc
      rw [if_pos hc', if_pos hc, RenderTarget.applyBlendMode_sel, h4.1,
        RenderTarget.blendMinmax_of_fixed w w4 h4.2,
        RenderTargetImpl.equationToGlConstant_fst _ _ w4 w,
        RenderTargetImpl.equationToGlConstant_fst _ states.blendMode.alphaEquation w4 w]
      simp [GLCall.isBlendCall]
    · have hc' : ¬ (!rt.m_cache.enable || decide (states.blendMode ≠ rt.m_cache.lastBlendMode))
          = true := by simpa using hc
      rw [if_neg hc', if_neg hc, h4.1]
      simp
  clear_value b
  have hs : s.2.sel GLCall.isBlendCall = b.2.sel GLCall.isBlendCall := by
    simp only [s]
    split_ifs
    · rw [RenderTarget.applyStencilMode_sel]
      split_ifs <;> simp [GLCall.isBlendCall]
    · rfl
  clear_value s
  have h5 : w5.sel GLCall.isBlendCall = b.2.sel GLCall.isBlendCall := by
    simp only [w5]
    split_ifs <;> simp [hs, GLCall.isBlendCall]
  clear_value w5
  have ht : t.1.2.sel GLCall.isBlendCall = b.2.sel GLCall.isBlendCall := by
    simp only [t]
    split_ifs <;> simp [h5, GLCall.isBlendCall]
  clear_value t
  have h6 : w6.sel GLCall.isBlendCall = b.2.sel GLCall.isBlendCall := by
    simp only [w6]
    split
    · split_ifs <;> simp [ht]
    · exact ht
  clear_value w6
  rw [RenderTarget.applyShader_sel, h6, hb]

/-- C11: in `setupDraw` on a target whose persistent defaults are established, the blend
calls issued are the two calls of `applyBlendMode` (separate blend factors, separate
blend equations) when `cache.enable` is false or `states.blendMode` differs from
`cache.lastBlendMode`, and none otherwise; in every case `cache.lastBlendMode` equals
`states.blendMode` afterwards. -/
theorem setupDraw_blend (rt : RenderTarget) (useVertexCache : Bool) (states : RenderStates)
    (w : World) (hg : rt.m_cache.glStatesSet = true) :
    (∃ issued,
      (rt.setupDraw useVertexCache states w).2.gl.trace = w.gl.trace ++ issued ∧
      issued.filter GLCall.isBlendCall
        = if rt.m_cache.enable = false ∨ states.blendMode ≠ rt.m_cache.lastBlendMode then
            [GLCall.glBlendFuncSeparate
                (RenderTargetImpl.factorToGlConstant states.blendMode.colorSrcFactor)
                (RenderTargetImpl.factorToGlConstant states.blendMode.colorDstFactor)
                (RenderTargetImpl.factorToGlConstant states.blendMode.alphaSrcFactor)
                (RenderTargetImpl.factorToGlConstant states.blendMode.alphaDstFactor),
             GLCall.glBlendEquationSeparate
                (RenderTargetImpl.equationToGlConstant (RenderTarget.blendMinmax w)
                  states.blendMode.colorEquation w).1
                (RenderTargetImpl.equationToGlConstant (RenderTarget.blendMinmax w)
                  states.blendMode.alphaEquation w).1]
          else []) ∧
    (rt.setupDraw useVertexCache states w).1.m_cache.lastBlendMode = states.blendMode := by
  constructor
  · exact World.issued_sel _ _ _ _
      (RenderTarget.setupDraw_trace_mono _ _ _ _ _ (List.prefix_refl _))
      (RenderTarget.setupDraw_sel_blend rt useVertexCache states w hg)
  · obtain ⟨base, id, pos, col, tex, -, -, h⟩ :=
      RenderTarget.setupDraw_target rt useVertexCache states w
    rw [h]

theorem setupDraw_blend_witness :
    steadyTarget.m_cache.glStatesSet = true ∧
    (∃ issued,
      (steadyTarget.setupDraw true { RenderStates.Default with blendMode := additiveBlend }
          sampleWorld).2.gl.trace = sampleWorld.gl.trace ++ issued ∧
      issued.filter GLCall.isBlendCall
        = [GLCall.glBlendFuncSeparate GLenum.GL_SRC_ALPHA GLenum.GL_ONE GLenum.GL_ONE
              GLenum.GL_ONE,
            GLCall.glBlendEquationSeparate GLenum.GL_FUNC_ADD GLenum.GL_FUNC_ADD]) ∧
    (steadyTarget.setupDraw true { RenderStates.Default with blendMode := additiveBlend }
      sampleWorld).1.m_cache.lastBlendMode = additiveBlend := by
  have h := setupDraw_blend steadyTarget true
    { RenderStates.Default with blendMode := additiveBlend } sampleWorld rfl
  obtain ⟨⟨issued, h1, h2⟩, h3⟩ := h
  refine ⟨rfl, ⟨issued, h1, ?_⟩, h3⟩
  rw [h2, if_pos (Or.inr (by decide))]
  rfl

/-! ## Shader objects during a draw -/

@[simp]
theorem World.shaderCores_call (c : GLCall) (w : World) :
    (w.call c).shaderCores = w.shaderCores := by
  funext r
  cases r <;> rfl

@[simp]
theorem World.shaderCores_err (msg : String) (w : World) :
    (w.err msg).shaderCores = w.shaderCores := by
  funext r
  cases r <;> rfl

@[simp]
theorem World.shaderCores_ite (c : Prop) [Decidable c] (a b : World) :
    (if c then a else b).shaderCores = if c then a.shaderCores else b.shaderCores := by
  split_ifs <;> rfl

theorem World.shaderCores_setShader (r : ShaderRef) (s : Shader) (w : World)
    (h : s.core = (w.getShader r).core) : (w.setShader r s).shaderCores = w.shaderCores := by
  funext q
  unfold World.shaderCores
  cases r <;> cases q <;> simp [World.setShader, World.getShader] at h ⊢ <;> try exact h
  rename_i a b
  by_cases hab : b = a
  · subst hab
    simpa using h
  · simp [hab]

theorem World.getShader_core (w : World) (r : ShaderRef) :
    (w.getShader r).core = w.shaderCores r :=
  rfl

theorem Shader.getUniformLocation_core (s : Shader) (name : String) (w : World) :
    (s.getUniformLocation name w).2.1.core = s.core ∧
    (s.getUniformLocation name w).2.2.shaderCores = w.shaderCores := by
  unfold Shader.getUniformLocation
  split
  · exact ⟨rfl, rfl⟩
  · constructor
    · rfl
    · simp

theorem Shader.UniformBinder.construct_core (s : Shader) (name : String) (w : World) :
    (Shader.UniformBinder.construct s name w).2.1.core = s.core ∧
    (Shader.UniformBinder.construct s name w).2.2.shaderCores = w.shaderCores := by
  unfold Shader.UniformBinder.construct
  by_cases hp : s.m_shaderProgram = 0
  · simp [hp]
  · simp only [hp, ne_eq, not_false_eq_true, if_true]
    constructor
    · exact (Shader.getUniformLocation_core _ _ _).1
    · rw [(Shader.getUniformLocation_core _ _ _).2]
      simp

@[simp]
theorem Shader.UniformBinder.destruct_core (b : Shader.UniformBinder) (w : World) :
    (b.destruct w).shaderCores = w.shaderCores := by
  unfold Shader.UniformBinder.destruct
  simp

theorem Shader.setUniformMat4_core (s : Shader) (name : String) (m : List ℚ) (w : World) :
    (s.setUniformMat4 name m w).1.core = s.core ∧
    (s.setUniformMat4 name m w).2.shaderCores = w.shaderCores := by
  unfold Shader.setUniformMat4
  simp only []
  refine ⟨(Shader.UniformBinder.construct_core _ _ _).1, ?_⟩
  rw [Shader.UniformBinder.destruct_core]
  split_ifs
  · rw [World.shaderCores_call, (Shader.UniformBinder.construct_core _ _ _).2]
  · rw [(Shader.UniformBinder.construct_core _ _ _).2]

theorem Shader.setUniformVec2_core (s : Shader) (name : String) (x y : ℚ) (w : World) :
    (s.setUniformVec2 name x y w).1.core = s.core ∧
    (s.setUniformVec2 name x y w).2.shaderCores = w.shaderCores := by
  unfold Shader.setUniformVec2
  simp only []
  refine ⟨(Shader.UniformBinder.construct_core _ _ _).1, ?_⟩
  rw [Shader.UniformBinder.destruct_core]
  split_ifs
  · rw [World.shaderCores_call, (Shader.UniformBinder.construct_core _ _ _).2]
  · rw [(Shader.UniformBinder.construct_core _ _ _).2]

@[simp]
theorem World.setUniformMat4_ref_core (r : ShaderRef) (name : String) (m : List ℚ)
    (w : World) : (w.setUniformMat4 r name m).shaderCores = w.shaderCores := by
  unfold World.setUniformMat4
  simp only []
  rw [World.shaderCores_setShader, (Shader.setUniformMat4_core _ _ _ _).2]
  rw [(Shader.setUniformMat4_core _ _ _ _).1, World.getShader_core, World.getShader_core,
    (Shader.setUniformMat4_core _ _ _ _).2]

@[simp]
theorem World.setUniformVec2_ref_core (r : ShaderRef) (name : String) (x y : ℚ)
    (w : World) : (w.setUniformVec2 r name x y).shaderCores = w.shaderCores := by
  unfold World.setUniformVec2
  simp only []
  rw [World.shaderCores_setShader, (Shader.setUniformVec2_core _ _ _ _ _).2]
  rw [(Shader.setUniformVec2_core _ _ _ _ _).1, World.getShader_core, World.getShader_core,
    (Shader.setUniformVec2_core _ _ _ _ _).2]

@[simp]
theorem RenderTarget.uploadTextureUniforms_core (r : ShaderRef) (c : CoordinateType)
    (t : Texture) (w : World) :
    (RenderTarget.uploadTextureUniforms r c t w).shaderCores = w.shaderCores := by
  unfold RenderTarget.uploadTextureUniforms
  simp

@[simp]
theorem RenderTargetImpl.equationToGlConstant_core (b : Bool) (e : Equation) (w : World) :
    (RenderTargetImpl.equationToGlConstant b e w).2.shaderCores = w.shaderCores := by
  unfold RenderTargetImpl.equationToGlConstant
  cases e <;> cases b <;> cases hw : w.warned <;> simp [hw] <;> (funext r; cases r <;> rfl)

@[simp]
theorem RenderTarget.applyBlendMode_core (rt : RenderTarget) (mode : BlendMode) (w : World) :
    (rt.applyBlendMode mode w).2.shaderCores = w.shaderCores := by
  unfold RenderTarget.applyBlendMode
  simp

@[simp]
theorem RenderTarget.applyStencilMode_core (rt : RenderTarget) (mode : StencilMode)
    (w : World) : (rt.applyStencilMode mode w).2.shaderCores = w.shaderCores := by
  unfold RenderTarget.applyStencilMode
  simp only []
  split_ifs <;> simp

@[simp]
theorem RenderTarget.applyTexture_core (rt : RenderTarget) (t : Option Texture)
    (c : CoordinateType) (w : World) :
    (rt.applyTexture t c w).2.shaderCores = w.shaderCores := by
  unfold RenderTarget.applyTexture
  simp

/-! ## Texture binds -/

theorem Shader.bindTexturesLoop_sel_textureBind (l : List (Int × Texture)) :
    ∀ (i : Nat) (w : World),
      (Shader.bindTexturesLoop i l w).sel GLCall.isTextureBind
        = w.sel GLCall.isTextureBind ++
          l.map (fun e => GLCall.Texture_bind (some e.2) CoordinateType.Normalized) := by
  induction l with
  | nil => intro i w; simp [Shader.bindTexturesLoop]
  | cons e rest ih =>
    intro i w
    obtain ⟨location, texture⟩ := e
    simp [Shader.bindTexturesLoop, ih, GLCall.isTextureBind]

/-- The texture binds `applyShader` issues for a shader: those of `Shader::bind`. -/
theorem RenderTarget.applyShader_sel_textureBind (rt : RenderTarget) (r : ShaderRef)
    (w : World) :
    (rt.applyShader (some r) w).2.sel GLCall.isTextureBind
      = w.sel GLCall.isTextureBind ++ (w.getShader r).textureBinds := by
  have hb : (Shader.bind (some r) w).sel GLCall.isTextureBind
      = w.sel GLCall.isTextureBind ++ (w.getShader r).textureBinds := by
    unfold Shader.bind Shader.textureBinds Shader.bindTextures
    by_cases hp : (w.getShader r).m_shaderProgram = 0
    · simp [hp, GLCall.isTextureBind]
    · simp only [hp, ne_eq, not_false_eq_true, if_true]
      split_ifs <;>
        simp [Shader.bindTexturesLoop_sel_textureBind, GLCall.isTextureBind]
  unfold RenderTarget.applyShader
  simp only []
  split_ifs
  · simp [hb, GLCall.isTextureBind, RenderTarget.disableAttrib, RenderTarget.enableAttrib]
  · exact hb

theorem Shader.textureBinds_of_core (s s' : Shader) (h : s.core = s'.core) :
    s.textureBinds = s'.textureBinds := by
  unfold Shader.core at h
  simp only [Prod.mk.injEq] at h
  unfold Shader.textureBinds
  rw [h.1, h.2.2]

theorem Shader.getNativeHandle_of_core (s s' : Shader) (h : s.core = s'.core) :
    s.getNativeHandle = s'.getNativeHandle := by
  unfold Shader.core at h
  simp only [Prod.mk.injEq] at h
  exact h.1

/-- The texture binds `setupDraw` issues with a trustworthy cache: that of
`applyTexture`, when the texture is an attachment or differs from the cache, followed by
those of binding the shader. -/
theorem RenderTarget.setupDraw_sel_textureBind (rt : RenderTarget) (useVertexCache : Bool)
    (states : RenderStates) (w : World) (he : rt.m_cache.enable = true)
    (hg : rt.m_cache.glStatesSet = true) :
    (rt.setupDraw useVertexCache states w).2.sel GLCall.isTextureBind
      = w.sel GLCall.isTextureBind ++
        ((if RenderTarget.isFboAttachment states.texture = true ∨
              RenderTarget.textureCacheId states.texture ≠ rt.m_cache.lastTextureId ∨
              ((RenderTarget.chooseShader states w).2.getShader
                (RenderTarget.chooseShader states w).1).getNativeHandle
                  ≠ rt.m_cache.lastShaderId ∨
              states.coordinateType ≠ rt.m_cache.lastCoordinateType then
            [GLCall.Texture_bind states.texture states.coordinateType]
          else []) ++
         ((RenderTarget.chooseShader states w).2.getShader
            (RenderTarget.chooseShader states w).1).textureBinds) := by
  unfold RenderTarget.setupDraw
  lift_lets
  extract_lets w1 a u usedShader w2 viewport top w3 w4 b s w5 textureId shaderId t w6
  have h1 : w1 = w := by simp [w1, he]
  clear_value w1
  subst h1
  have ha : a = (rt, w1) := by simp [a, hg]
  clear_value a
  subst ha
  have h2 : w2.sel GLCall.isTextureBind = u.2.sel GLCall.isTextureBind ∧
      w2.shaderCores = u.2.shaderCores := by
    constructor
    · simp only [w2]
      split_ifs <;> simp
    · simp only [w2]
      split_ifs <;> simp
  clear_value w2
  have h4 : w4.sel GLCall.isTextureBind = u.2.sel GLCall.isTextureBind ∧
      w4.shaderCores = u.2.shaderCores := by
    simp [w4, w3, h2, GLCall.isTextureBind]
  clear_value w3 w4
  have hb : b.2.sel GLCall.isTextureBind = u.2.sel GLCall.isTextureBind ∧
      b.2.shaderCores = u.2.shaderCores ∧
      b.1 = { rt with m_cache := { rt.m_cache with lastBlendMode := states.blendMode } } := by
    simp only [b]
    split_ifs with h
    · refine ⟨?_, ?_, rfl⟩
      · simp [h4, GLCall.isTextureBind]
      · simp [h4]
    · refine ⟨h4.1, h4.2, ?_⟩
      simp only [Bool.or_eq_true, Bool.not_eq_eq_eq_not, Bool.not_true, decide_eq_true_eq,
        not_or, Bool.not_eq_false, not_not] at h
      rw [h.2]
  clear_value b
  obtain ⟨hb1, hb2, hb3⟩ := hb
  have hs : s.2.sel GLCall.isTextureBind = u.2.sel GLCall.isTextureBind ∧
      s.2.shaderCores = u.2.shaderCores ∧
      s.1.m_cache.enable = true ∧ s.1.m_cache.lastTextureId = rt.m_cache.lastTextureId ∧
      s.1.m_cache.lastShaderId = rt.m_cache.lastShaderId ∧
      s.1.m_cache.lastCoordinateType = rt.m_cache.lastCoordinateType := by
    simp only [s]
    split_ifs with h
    · rw [RenderTarget.applyStencilMode_target, RenderTarget.applyStencilMode_sel,
        RenderTarget.applyStencilMode_core, hb3]
      refine ⟨?_, hb2, he, rfl, rfl, rfl⟩
      rw [hb1]
      split_ifs <;> simp [GLCall.isTextureBind]
    · rw [hb3]
      exact ⟨hb1, hb2, he, rfl, rfl, rfl⟩
  clear_value s
  obtain ⟨hs1, hs2, hs3, hs4, hs5, hs6⟩ := hs
  have h5 : w5.sel GLCall.isTextureBind = u.2.sel GLCall.isTextureBind ∧
      w5.shaderCores = u.2.shaderCores := by
    constructor
    · simp only [w5]
      split_ifs <;> simp [hs1, GLCall.isTextureBind]
    · simp only [w5]
      split_ifs <;> simp [hs2]
  clear_value w5
  have hid : shaderId = (u.2.getShader u.1).getNativeHandle := by
    simp only [shaderId, usedShader]
    apply Shader.getNativeHandle_of_core
    rw [World.getShader_core, World.getShader_core, h5.2]
  clear_value shaderId
  have ht : t.1.2.sel GLCall.isTextureBind = u.2.sel GLCall.isTextureBind ++
      (if RenderTarget.isFboAttachment states.texture = true ∨
            RenderTarget.textureCacheId states.texture ≠ rt.m_cache.lastTextureId ∨
            (u.2.getShader u.1).getNativeHandle ≠ rt.m_cache.lastShaderId ∨
            states.coordinateType ≠ rt.m_cache.lastCoordinateType then
          [GLCall.Texture_bind states.texture states.coordinateType]
        else []) ∧
      t.1.2.shaderCores = u.2.shaderCores := by
    simp only [t, hs3, hs4, hs5, hs6, hid, textureId, Bool.not_true, Bool.false_or]
    by_cases hf : RenderTarget.isFboAttachment states.texture = true
    · simp [hf, h5, GLCall.isTextureBind]
    · by_cases h' : RenderTarget.textureCacheId states.texture ≠ rt.m_cache.lastTextureId ∨
          (u.2.getShader u.1).getNativeHandle ≠ rt.m_cache.lastShaderId ∨
          states.coordinateType ≠ rt.m_cache.lastCoordinateType
      · rw [if_neg hf, if_pos h', if_pos (Or.inr h')]
        simp [h5, GLCall.isTextureBind]
      · rw [if_neg hf, if_neg h', if_neg (fun hh => hh.elim hf h')]
        simp [h5]
  clear_value t
  have h6 : w6.sel GLCall.isTextureBind = t.1.2.sel GLCall.isTextureBind ∧
      w6.shaderCores = u.2.shaderCores := by
    simp only [w6]
    split
    · split_ifs
      · simp [ht.2]
      · exact ⟨rfl, ht.2⟩
    · exact ⟨rfl, ht.2⟩
  clear_value w6
  have hu : u.2.sel GLCall.isTextureBind = w1.sel GLCall.isTextureBind := by simp [u]
  have htb : (w6.getShader usedShader).textureBinds = (u.2.getShader u.1).textureBinds := by
    apply Shader.textureBinds_of_core
    rw [World.getShader_core, World.getShader_core, h6.2]
  rw [RenderTarget.applyShader_sel_textureBind, htb, h6.1, ht.1, hu]
  simp [List.append_assoc]

/-- C15: in `setupDraw` with a trustworthy cache (`enable` true, persistent defaults
established), the texture binds issued are: the bind of the requested texture with the
requested coordinate type, issued when the texture is a render-target attachment, or
when its cache identity (0 for none) differs from `cache.lastTextureId`, or when the
resolved shader's native handle differs from `cache.lastShaderId`, or when the
coordinate type differs from `cache.lastCoordinateType`, and not otherwise; followed by
the binds of the resolved shader's own textures. In every case `cache.lastTextureId` is
then the requested texture's cache identity and `cache.lastCoordinateType` the requested
coordinate type. -/
theorem setupDraw_texture (rt : RenderTarget) (useVertexCache : Bool) (states : RenderStates)
    (w : World) (he : rt.m_cache.enable = true) (hg : rt.m_cache.glStatesSet = true) :
    (∃ issued,
      (rt.setupDraw useVertexCache states w).2.gl.trace = w.gl.trace ++ issued ∧
      issued.filter GLCall.isTextureBind
        = (if RenderTarget.isFboAttachment states.texture = true ∨
              RenderTarget.textureCacheId states.texture ≠ rt.m_cache.lastTextureId ∨
              ((RenderTarget.chooseShader states w).2.getShader
                (RenderTarget.chooseShader states w).1).getNativeHandle
                  ≠ rt.m_cache.lastShaderId ∨
              states.coordinateType ≠ rt.m_cache.lastCoordinateType then
            [GLCall.Texture_bind states.texture states.coordinateType]
          else []) ++
          ((RenderTarget.chooseShader states w).2.getShader
            (RenderTarget.chooseShader states w).1).textureBinds) ∧
    (rt.setupDraw useVertexCache states w).1.m_cache.lastTextureId
      = RenderTarget.textureCacheId states.texture ∧
    (rt.setupDraw useVertexCache states w).1.m_cache.lastCoordinateType
      = states.coordinateType := by
  refine ⟨?_, ?_, ?_⟩
  · exact World.issued_sel _ _ _ _
      (RenderTarget.setupDraw_trace_mono _ _ _ _ _ (List.prefix_refl _))
      (RenderTarget.setupDraw_sel_textureBind rt useVertexCache states w he hg)
  · obtain ⟨base, id, pos, col, tex, -, -, h⟩ :=
      RenderTarget.setupDraw_target rt useVertexCache states w
    rw [h]
  · obtain ⟨base, id, pos, col, tex, -, -, h⟩ :=
      RenderTarget.setupDraw_target rt useVertexCache states w
    rw [h]

theorem setupDraw_texture_witness :
    steadyTarget.m_cache.enable = true ∧ steadyTarget.m_cache.glStatesSet = true ∧
    (∃ issued,
      (steadyTarget.setupDraw true { RenderStates.Default with texture := some paddedTexture }
          texturedWorld).2.gl.trace = texturedWorld.gl.trace ++ issued ∧
      issued.filter GLCall.isTextureBind
        = [GLCall.Texture_bind (some paddedTexture) CoordinateType.Pixels]) ∧
    (steadyTarget.setupDraw true { RenderStates.Default with texture := some paddedTexture }
      texturedWorld).1.m_cache.lastTextureId = 42 ∧
    (steadyTarget.setupDraw true { RenderStates.Default with texture := some paddedTexture }
      texturedWorld).1.m_cache.lastCoordinateType = CoordinateType.Pixels := by
  have h := setupDraw_texture steadyTarget true
    { RenderStates.Default with texture := some paddedTexture } texturedWorld rfl rfl
  obtain ⟨⟨issued, h1, h2⟩, h3, h4⟩ := h
  refine ⟨rfl, rfl, ⟨issued, h1, ?_⟩, h3, h4⟩
  rw [h2, if_pos (Or.inr (Or.inl (by decide)))]
  rfl

/-! ## The stages of a draw -/

theorem World.call_trace (c : GLCall) (w : World) : (w.call c).gl.trace = w.gl.trace ++ [c] := by
  cases c <;> rfl

/-- The calls `cleanupDraw` issues. -/
theorem RenderTarget.cleanupDraw_trace (rt : RenderTarget) (states : RenderStates)
    (w : World) :
    (rt.cleanupDraw states w).2.gl.trace
      = w.gl.trace ++
        ((if states.shader.isSome then [GLCall.glUseProgram 0] else []) ++
         (if RenderTarget.isFboAttachment states.texture then
            [GLCall.Texture_bind none CoordinateType.Pixels]
          else []) ++
         (if states.stencilMode.stencilOnly then [GLCall.glColorMask true true true true]
          else [])) := by
  unfold RenderTarget.cleanupDraw RenderTarget.applyShader Shader.bind RenderTarget.applyTexture
    RenderTarget.applyTextureDefaultCoordinateType
  cases states.shader.isSome <;> cases RenderTarget.isFboAttachment states.texture <;>
    cases states.stencilMode.stencilOnly <;> simp [World.call_trace]

/-- The cache `cleanupDraw` leaves and the program in use afterwards. -/
theorem RenderTarget.cleanupDraw_target (rt : RenderTarget) (states : RenderStates)
    (w : World) :
    (rt.cleanupDraw states w).1
      = { rt with m_cache :=
          { rt.m_cache with
            enable := true
            lastTextureId :=
              if RenderTarget.isFboAttachment states.texture then 0
              else rt.m_cache.lastTextureId
            lastCoordinateType :=
              if RenderTarget.isFboAttachment states.texture then CoordinateType.Pixels
              else rt.m_cache.lastCoordinateType } } ∧
    (rt.cleanupDraw states w).2.gl.currentProgram
      = (if states.shader.isSome then 0 else w.gl.currentProgram) := by
  unfold RenderTarget.cleanupDraw RenderTarget.applyShader Shader.bind RenderTarget.applyTexture
    RenderTarget.applyTextureDefaultCoordinateType
  cases states.shader.isSome <;> cases RenderTarget.isFboAttachment states.texture <;>
    cases states.stencilMode.stencilOnly <;> simp [World.call, Driver.call]

theorem RenderTarget.attribPointer_trace (location : Int) (size : Nat) (type : GLenum)
    (normalized : Bool) (offset : Nat) (w : World) :
    ∃ l, (RenderTarget.attribPointer location size type normalized offset w).gl.trace
        = w.gl.trace ++ l ∧ ∀ c ∈ l, c.isAttribPointer = true := by
  unfold RenderTarget.attribPointer
  split_ifs
  · exact ⟨[_], World.call_trace _ _, by simp [GLCall.isAttribPointer]⟩
  · exact ⟨[], by simp, by simp⟩

@[simp]
theorem RenderTarget.setupDraw_fixed (rt : RenderTarget) (useVertexCache : Bool)
    (states : RenderStates) (w : World) :
    (rt.setupDraw useVertexCache states w).2.fixed = w.fixed := by
  unfold RenderTarget.setupDraw
  lift_lets
  extract_lets w1 a u usedShader w2 viewport top w3 w4 b s w5 textureId shaderId t w6
  have h1 : w1.fixed = w.fixed := by
    simp only [w1]
    split_ifs <;> rfl
  clear_value w1
  have ha : a.2.fixed = w.fixed := by
    simp only [a]
    split_ifs <;> simp [h1]
  clear_value a
  have hu : u.2.fixed = w.fixed := by simp [u, ha]
  clear_value u
  have h2 : w2.fixed = w.fixed := by
    simp only [w2]
    split_ifs <;> simp [hu]
  clear_value w2
  have h4 : w4.fixed = w.fixed := by simp [w4, w3, h2]
  clear_value w3 w4
  have hb : b.2.fixed = w.fixed := by
    simp only [b]
    split_ifs <;> simp [h4]
  clear_value b
  have hs : s.2.fixed = w.fixed := by
    simp only [s]
    split_ifs <;> simp [hb]
  clear_value s
  have h5 : w5.fixed = w.fixed := by
    simp only [w5]
    split_ifs <;> simp [hs]
  clear_value w5
  have ht : t.1.2.fixed = w.fixed := by
    simp only [t]
    split_ifs <;> simp [h5]
  clear_value t
  have h6 : w6.fixed = w.fixed := by
    simp only [w6]
    split
    · split_ifs <;> simp [ht]
    · exact ht
  clear_value w6
  rw [RenderTarget.applyShader_fixed, h6]

/-- A draw of non-empty vertex data, stage by stage: the target is made active, the
vertices are pre-transformed when they fit the scratch buffer, the vertex-layout object
is bound (not on OpenGL ES), `setupDraw` runs, then the vertex-storage object is created
if needed, bound and filled, the attribute pointers are set, the primitives are drawn,
the objects are unbound and `cleanupDraw` runs. -/
theorem RenderTarget.draw_stages (rt : RenderTarget) (vs : List Vertex) (n : Nat)
    (type : PrimitiveType) (states : RenderStates) (w : World) (hn : n ≠ 0) :
    ∃ (rt1 : RenderTarget) (w1 : World) (e g : Bool) (buf : Nat) (G AP : List GLCall),
      (RenderTargetImpl.isActive rt.m_id w = true →
        e = rt.m_cache.enable ∧ g = rt.m_cache.glStatesSet) ∧
      rt1 = { rt with m_cache :=
        { rt.m_cache with
          enable := e
          glStatesSet := g
          vertexCache :=
            if n ≤ rt.m_cache.vertexCache.length then
              RenderTarget.preTransform states.transform vs n rt.m_cache.vertexCache
            else rt.m_cache.vertexCache } } ∧
      w1.gl.trace = w.gl.trace ++
        (if w.config.openglES then [] else [GLCall.glBindVertexArray rt.m_cache.defaultArray]) ∧
      w1.fixed = w.fixed ∧
      (G = [] ∨ G = [GLCall.glGenBuffers buf]) ∧
      (∀ c ∈ AP, c.isAttribPointer = true) ∧
      (rt.draw (some vs) n type states w).2.gl.trace
        = (rt1.setupDraw (decide (n ≤ rt.m_cache.vertexCache.length)) states w1).2.gl.trace ++
          (G ++
           [GLCall.glBindBuffer GLenum.GL_ARRAY_BUFFER buf,
            GLCall.glBufferData GLenum.GL_ARRAY_BUFFER ((RenderTarget.sizeofVertex * n) % 2 ^ 64)
              ((if n ≤ rt.m_cache.vertexCache.length then
                  (rt1.setupDraw (decide (n ≤ rt.m_cache.vertexCache.length)) states
                    w1).1.m_cache.vertexCache
                else vs).take n)
              GLenum.GL_DYNAMIC_DRAW] ++
           AP ++
           [GLCall.glDrawArrays (RenderTarget.modes type) 0 (toInt32 n),
            GLCall.glBindBuffer GLenum.GL_ARRAY_BUFFER 0] ++
           (if w.config.openglES then [] else [GLCall.glBindVertexArray 0]) ++
           ((if states.shader.isSome then [GLCall.glUseProgram 0] else []) ++
            (if RenderTarget.isFboAttachment states.texture then
               [GLCall.Texture_bind none CoordinateType.Pixels]
             else []) ++
            (if states.stencilMode.stencilOnly then [GLCall.glColorMask true true true true]
             else []))) ∧
      (states.shader.isSome = true →
        (rt.draw (some vs) n type states w).2.gl.currentProgram = 0) ∧
      (rt.draw (some vs) n type states w).1
        = { (rt1.setupDraw (decide (n ≤ rt.m_cache.vertexCache.length)) states w1).1 with
            m_cache :=
              { (rt1.setupDraw (decide (n ≤ rt.m_cache.vertexCache.length)) states
                  w1).1.m_cache with
                defaultBuffer := buf
                enable := true
                lastTextureId :=
                  if RenderTarget.isFboAttachment states.texture then 0
                  else (rt1.setupDraw (decide (n ≤ rt.m_cache.vertexCache.length)) states
                    w1).1.m_cache.lastTextureId
                lastCoordinateType :=
                  if RenderTarget.isFboAttachment states.texture then CoordinateType.Pixels
                  else (rt1.setupDraw (decide (n ≤ rt.m_cache.vertexCache.length)) states
                    w1).1.m_cache.lastCoordinateType
                useVertexCache := decide (n ≤ rt.m_cache.vertexCache.length)
                texCoordsArrayEnabled := states.texture.isSome || states.shader.isSome } } := by
  generalize hr : rt.draw (some vs) n type states w = r
  unfold RenderTarget.draw at hr
  simp -zeta only [hn, if_false] at hr
  lift_lets at hr
  extract_lets g rt0 useVertexCache src4 rt1 w1 d enableTexCoordsArray data src3 src2 gen rt2
    w2 w3 w4 w5 w6 w7 w8 w9 c src1 src0 at hr
  have hg1 : g.1 = true := by simp [g]
  simp only [hg1, if_true] at hr
  obtain ⟨e, gs, hact, hrt0⟩ := RenderTarget.ensureActive_target rt w
  have hgt : g.2.2.gl.trace = w.gl.trace := RenderTarget.ensureActive_trace rt w
  have hgf : g.2.2.fixed = w.fixed := by simp [g]
  have hrt0' : rt0 = { rt with m_cache := { rt.m_cache with enable := e, glStatesSet := gs } } :=
    hrt0
  have huvc : useVertexCache = decide (n ≤ rt.m_cache.vertexCache.length) := by
    simp only [useVertexCache, hrt0']
  have hrt1 : rt1 = { rt with m_cache :=
      { rt.m_cache with
        enable := e
        glStatesSet := gs
        vertexCache :=
          if n ≤ rt.m_cache.vertexCache.length then
            RenderTarget.preTransform states.transform vs n rt.m_cache.vertexCache
          else rt.m_cache.vertexCache } } := by
    simp only [rt1, src4, huvc, hrt0', decide_eq_true_eq]
    split_ifs <;> rfl
  have hw1 : w1.gl.trace = w.gl.trace ++
      (if w.config.openglES then [] else [GLCall.glBindVertexArray rt.m_cache.defaultArray]) ∧
      w1.fixed = w.fixed := by
    have hc : g.2.2.config = w.config := World.config_of_fixed _ _ hgf
    simp only [w1, hc, hrt1]
    cases w.config.openglES <;> simp [World.call_trace, hgt, hgf]
  have hd : d = rt1.setupDraw (decide (n ≤ rt.m_cache.vertexCache.length)) states w1 := by
    simp only [d, huvc]
  have hdf : d.2.fixed = w.fixed := by simp [d, hw1.2]
  have hgen : ∃ (buf : Nat) (G : List GLCall),
      gen.2.gl.trace = d.2.gl.trace ++ G ∧ (G = [] ∨ G = [GLCall.glGenBuffers buf]) ∧
      gen.2.fixed = w.fixed ∧
      gen.1 = { d.1 with m_cache := { d.1.m_cache with defaultBuffer := buf } } := by
    simp only [gen, src3, src2]
    split_ifs
    · exact ⟨_, [_], by rw [World.call_trace]; rfl, Or.inr rfl, hdf, rfl⟩
    · exact ⟨d.1.m_cache.defaultBuffer, [], by simp, Or.inl rfl, hdf, rfl⟩
  obtain ⟨buf, G, hgt2, hG, hgf2, hg1'⟩ := hgen
  have hrt2 : rt2 = { d.1 with m_cache := { d.1.m_cache with defaultBuffer := buf } } := hg1'
  obtain ⟨l4, h4, hl4⟩ := RenderTarget.attribPointer_trace rt2.m_cache.posAttrib 2
    GLenum.GL_FLOAT false 0 w3
  obtain ⟨l5, h5, hl5⟩ := RenderTarget.attribPointer_trace rt2.m_cache.colAttrib 4
    GLenum.GL_UNSIGNED_BYTE true 8 w4
  have h6 : ∃ l6, w6.gl.trace = w5.gl.trace ++ l6 ∧ ∀ c ∈ l6, c.isAttribPointer = true := by
    simp only [w6]
    split_ifs
    · exact RenderTarget.attribPointer_trace _ _ _ _ _ _
    · exact ⟨[], by simp, by simp⟩
  obtain ⟨l6, h6, hl6⟩ := h6
  have h8f : w8.fixed = w.fixed := by
    simp [w8, w7, w6, w5, w4, w3, w2, hgf2]
  have h3 : w3.gl.trace = gen.2.gl.trace ++
      [GLCall.glBindBuffer GLenum.GL_ARRAY_BUFFER buf,
        GLCall.glBufferData GLenum.GL_ARRAY_BUFFER ((RenderTarget.sizeofVertex * n) % 2 ^ 64)
          (data.take n) GLenum.GL_DYNAMIC_DRAW] := by
    simp only [w3, w2, World.call_trace, hrt2]
    simp
  have h4' : w4.gl.trace = w3.gl.trace ++ l4 := h4
  have h5' : w5.gl.trace = w4.gl.trace ++ l5 := h5
  have h8 : w8.gl.trace = w6.gl.trace ++
      [GLCall.glDrawArrays (RenderTarget.modes type) 0 (toInt32 n),
        GLCall.glBindBuffer GLenum.GL_ARRAY_BUFFER 0] := by
    simp only [w8, w7, RenderTarget.drawPrimitives, World.call_trace]
    simp [toInt32]
  have h9 : w9.gl.trace = w8.gl.trace ++
      (if w.config.openglES then [] else [GLCall.glBindVertexArray 0]) := by
    have hc : w8.config = w.config := World.config_of_fixed _ _ h8f
    simp only [w9, hc]
    cases w.config.openglES <;> simp [World.call_trace]
  have hct : c.2.gl.trace = _ := RenderTarget.cleanupDraw_trace rt2 states w9
  have hcg := RenderTarget.cleanupDraw_target rt2 states w9
  have hc1 : c.1 = _ := hcg.1
  have hc2 : c.2.gl.currentProgram = _ := hcg.2
  refine ⟨rt1, w1, e, gs, buf, G, l4 ++ l5 ++ l6, hact, hrt1, hw1.1, hw1.2, hG, ?_, ?_, ?_, ?_⟩
  · intro c hc
    simp only [List.mem_append] at hc
    rcases hc with (hc | hc) | hc
    · exact hl4 c hc
    · exact hl5 c hc
    · exact hl6 c hc
  · rw [← hr, ← hd]
    show c.2.gl.trace = _
    rw [hct, h9, h8, h6, h5', h4', h3, hgt2]
    simp only [data, huvc, decide_eq_true_eq, List.append_assoc]
  · intro hsh
    rw [← hr]
    show c.2.gl.currentProgram = _
    rw [hc2, hsh]
    rfl
  · rw [← hr, ← hd]
    simp only [src1, src0, enableTexCoordsArray, huvc]
    rw [hc1, hrt2]

/-! ## Stencil state across draws -/

/-- The stencil and color-mask calls `setupDraw` issues with a trustworthy cache: those
of `applyStencilMode` when the mode differs from the cached one, then the call masking
the color buffer off for a stencil-only draw. -/
theorem RenderTarget.setupDraw_sel_stencil (rt : RenderTarget) (useVertexCache : Bool)
    (states : RenderStates) (w : World) (he : rt.m_cache.enable = true)
    (hg : rt.m_cache.glStatesSet = true) :
    (rt.setupDraw useVertexCache states w).2.sel GLCall.isStencilCall
      = w.sel GLCall.isStencilCall ++
        ((if states.stencilMode ≠ rt.m_cache.lastStencilMode then
            (if states.stencilMode = StencilMode.default then
              (if rt.m_cache.stencilEnabled = true then
                [GLCall.glDisable GLenum.GL_STENCIL_TEST,
                 GLCall.glColorMask true true true true]
              else [])
            else
              ((if rt.m_cache.stencilEnabled = false then
                  [GLCall.glEnable GLenum.GL_STENCIL_TEST]
                else []) ++
               [GLCall.glStencilOp GLenum.GL_KEEP
                  (RenderTargetImpl.stencilOperationToGlConstant
                    states.stencilMode.stencilUpdateOperation)
                  (RenderTargetImpl.stencilOperationToGlConstant
                    states.stencilMode.stencilUpdateOperation),
                GLCall.glStencilFunc
                  (RenderTargetImpl.stencilFunctionToGlConstant
                    states.stencilMode.stencilComparison)
                  (toInt32 states.stencilMode.stencilReference)
                  states.stencilMode.stencilMask]))
          else []) ++
         (if states.stencilMode.stencilOnly then [GLCall.glColorMask false false false false]
          else [])) := by
  unfold RenderTarget.setupDraw
  lift_lets
  extract_lets w1 a u usedShader w2 viewport top w3 w4 b s w5 textureId shaderId t w6
  have h1 : w1 = w := by simp [w1, he]
  clear_value w1
  subst h1
  have ha : a = (rt, w1) := by simp [a, hg]
  clear_value a
  subst ha
  have hu : u.2.sel GLCall.isStencilCall = w1.sel GLCall.isStencilCall := by simp [u]
  clear_value u
  have h2 : w2.sel GLCall.isStencilCall = w1.sel GLCall.isStencilCall := by
    simp only [w2]
    split_ifs <;> simp [hu]
  clear_value w2
  have h4 : w4.sel GLCall.isStencilCall = w1.sel GLCall.isStencilCall := by
    simp [w4, w3, h2, GLCall.isStencilCall]
  clear_value w3 w4
  have hb : b.2.sel GLCall.isStencilCall = w1.sel GLCall.isStencilCall ∧
      b.1 = { rt with m_cache := { rt.m_cache with lastBlendMode := states.blendMode } } := by
    simp only [b]
    split_ifs with h
    · refine ⟨?_, rfl⟩
      simp [h4, GLCall.isStencilCall]
    · refine ⟨h4, ?_⟩
      simp only [Bool.or_eq_true, Bool.not_eq_eq_eq_not, Bool.not_true, decide_eq_true_eq,
        not_or, Bool.not_eq_false, not_not] at h
      rw [h.2]
  clear_value b
  obtain ⟨hb1, hb3⟩ := hb
  have hs : s.2.sel GLCall.isStencilCall = w1.sel GLCall.isStencilCall ++
      (if states.stencilMode ≠ rt.m_cache.lastStencilMode then
        (if states.stencilMode = StencilMode.default then
          (if rt.m_cache.stencilEnabled = true then
            [GLCall.glDisable GLenum.GL_STENCIL_TEST,
             GLCall.glColorMask true true true true]
          else [])
        else
          ((if rt.m_cache.stencilEnabled = false then
              [GLCall.glEnable GLenum.GL_STENCIL_TEST]
            else []) ++
           [GLCall.glStencilOp GLenum.GL_KEEP
              (RenderTargetImpl.stencilOperationToGlConstant
                states.stencilMode.stencilUpdateOperation)
              (RenderTargetImpl.stencilOperationToGlConstant
                states.stencilMode.stencilUpdateOperation),
            GLCall.glStencilFunc
              (RenderTargetImpl.stencilFunctionToGlConstant
                states.stencilMode.stencilComparison)
              (toInt32 states.stencilMode.stencilReference)
              states.stencilMode.stencilMask]))
      else []) := by
    simp only [s]
    by_cases hm : states.stencilMode = rt.m_cache.lastStencilMode
    · have hc : ¬ (!b.1.m_cache.enable ||
          decide (states.stencilMode ≠ b.1.m_cache.lastStencilMode)) = true := by
        rw [hb3]
        simp [he, hm]
      rw [if_neg hc, if_neg (not_not.mpr hm), hb1]
      simp
    · have hc : (!b.1.m_cache.enable ||
          decide (states.stencilMode ≠ b.1.m_cache.lastStencilMode)) = true := by
        rw [hb3]
        simp [hm]
      rw [if_pos hc, if_pos hm, RenderTarget.applyStencilMode_sel, hb1, hb3]
      simp only [he]
      by_cases hd : states.stencilMode = StencilMode.default
      · simp only [hd, if_true]
        cases rt.m_cache.stencilEnabled <;> simp [GLCall.isStencilCall]
      · simp only [hd, if_false]
        cases rt.m_cache.stencilEnabled <;> simp [GLCall.isStencilCall]
  clear_value s
  have h5 : w5.sel GLCall.isStencilCall = s.2.sel GLCall.isStencilCall ++
      (if states.stencilMode.stencilOnly then [GLCall.glColorMask false false false false]
       else []) := by
    simp only [w5]
    cases states.stencilMode.stencilOnly <;> simp [GLCall.isStencilCall]
  clear_value w5
  have ht : t.1.2.sel GLCall.isStencilCall = w5.sel GLCall.isStencilCall := by
    simp only [t]
    split_ifs <;> simp [GLCall.isStencilCall]
  clear_value t
  have h6 : w6.sel GLCall.isStencilCall = w5.sel GLCall.isStencilCall := by
    simp only [w6]
    split
    · split_ifs <;> simp [ht]
    · exact ht
  clear_value w6
  rw [RenderTarget.applyShader_sel, h6, h5, hs]
  simp only [List.append_assoc]

theorem RenderTarget.draw_id (rt : RenderTarget) (vs : List Vertex) (n : Nat)
    (type : PrimitiveType) (states : RenderStates) (w : World) (hn : n ≠ 0) :
    (rt.draw (some vs) n type states w).1.m_id = rt.m_id := by
  obtain ⟨rt1, w1, e, g, buf, G, AP, -, hrt1, -, -, -, -, -, -, hr⟩ :=
    RenderTarget.draw_stages rt vs n type states w hn
  obtain ⟨base, id, pos, col, tex, -, -, h⟩ :=
    RenderTarget.setupDraw_target rt1 (decide (n ≤ rt.m_cache.vertexCache.length)) states w1
  rw [hr, h, hrt1]

/-- The stencil state a draw of non-empty vertex data with a non-default stencil mode
leaves in the cache, when the cache it started from did not record a non-default mode
with the stencil test off. -/
theorem RenderTarget.draw_stencil_cache (rt : RenderTarget) (vs : List Vertex) (n : Nat)
    (type : PrimitiveType) (states : RenderStates) (w : World) (hn : n ≠ 0)
    (hcoh : rt.m_cache.lastStencilMode ≠ StencilMode.default →
      rt.m_cache.stencilEnabled = true)
    (hm : states.stencilMode ≠ StencilMode.default) :
    (rt.draw (some vs) n type states w).1.m_cache.enable = true ∧
    (rt.draw (some vs) n type states w).1.m_cache.glStatesSet = true ∧
    (rt.draw (some vs) n type states w).1.m_cache.stencilEnabled = true ∧
    (rt.draw (some vs) n type states w).1.m_cache.lastStencilMode = states.stencilMode := by
  obtain ⟨rt1, w1, e, g, buf, G, AP, -, hrt1, -, -, -, -, -, -, hr⟩ :=
    RenderTarget.draw_stages rt vs n type states w hn
  obtain ⟨base, id, pos, col, tex, hb1, hb2, h⟩ :=
    RenderTarget.setupDraw_target rt1 (decide (n ≤ rt.m_cache.vertexCache.length)) states w1
  rw [hr, h]
  refine ⟨rfl, ?_, ?_, rfl⟩
  · show base.glStatesSet = true
    cases hgs : rt1.m_cache.glStatesSet
    · rw [hb2 hgs]
    · rw [hb1 hgs]
      exact hgs
  · show (if base.enable = false ∨ states.stencilMode ≠ base.lastStencilMode then
        decide (states.stencilMode ≠ StencilMode.default) else base.stencilEnabled) = true
    split_ifs with hc
    · simpa using hm
    · simp only [not_or, not_not] at hc
      cases hgs : rt1.m_cache.glStatesSet
      · rw [hb2 hgs] at hc
        exact absurd hc.2 hm
      · rw [hb1 hgs] at hc ⊢
        rw [hrt1] at hc ⊢
        exact hcoh (hc.2 ▸ hm)

/-- C12: a draw with a non-default stencil mode, followed on the same target, still
active, by a draw requesting the default stencil mode (both of non-empty vertex data;
the cache before the first draw does not record a non-default mode with the stencil
test off, which no operation ever produces): the stencil and color-mask calls the
second draw issues are exactly the call disabling the stencil test followed by the
color-mask call with all four channels true, and it ends with `cache.stencilEnabled`
false and `cache.lastStencilMode` the default mode. -/
theorem draw_default_stencil_after_stencil (rt : RenderTarget) (vs1 vs2 : List Vertex)
    (n1 n2 : Nat) (type1 type2 : PrimitiveType) (states1 states2 : RenderStates)
    (w w2 : World) (hn1 : n1 ≠ 0) (hn2 : n2 ≠ 0)
    (hcoh : rt.m_cache.lastStencilMode ≠ StencilMode.default →
      rt.m_cache.stencilEnabled = true)
    (hm1 : states1.stencilMode ≠ StencilMode.default)
    (hm2 : states2.stencilMode = StencilMode.default)
    (hact : RenderTargetImpl.isActive (rt.draw (some vs1) n1 type1 states1 w).1.m_id w2 = true) :
    (∃ issued,
      ((rt.draw (some vs1) n1 type1 states1 w).1.draw (some vs2) n2 type2 states2 w2).2.gl.trace
        = w2.gl.trace ++ issued ∧
      issued.filter GLCall.isStencilCall
        = [GLCall.glDisable GLenum.GL_STENCIL_TEST, GLCall.glColorMask true true true true]) ∧
    ((rt.draw (some vs1) n1 type1 states1 w).1.draw (some vs2) n2 type2 states2
      w2).1.m_cache.stencilEnabled = false ∧
    ((rt.draw (some vs1) n1 type1 states1 w).1.draw (some vs2) n2 type2 states2
      w2).1.m_cache.lastStencilMode = StencilMode.default := by
  obtain ⟨hA1, hA2, hA3, hA4⟩ :=
    RenderTarget.draw_stencil_cache rt vs1 n1 type1 states1 w hn1 hcoh hm1
  generalize (rt.draw (some vs1) n1 type1 states1 w).1 = rtA at hact hA1 hA2 hA3 hA4 ⊢
  obtain ⟨rt1, w1, e, g, buf, G, AP, heg, hrt1, hw1, -, hG, hAP, ht, -, hr⟩ :=
    RenderTarget.draw_stages rtA vs2 n2 type2 states2 w2 hn2
  obtain ⟨he, hg⟩ := heg hact
  rw [hA1] at he
  rw [hA2] at hg
  subst he hg
  have h1e : rt1.m_cache.enable = true := by rw [hrt1]
  have h1g : rt1.m_cache.glStatesSet = true := by rw [hrt1]
  have h1s : rt1.m_cache.stencilEnabled = true := by rw [hrt1]; exact hA3
  have h1l : rt1.m_cache.lastStencilMode = states1.stencilMode := by rw [hrt1]; exact hA4
  have hso : states2.stencilMode.stencilOnly = false := by rw [hm2]; rfl
  have hne : states2.stencilMode ≠ rt1.m_cache.lastStencilMode := by
    rw [h1l, hm2]
    exact fun h => hm1 h.symm
  refine ⟨?_, ?_, ?_⟩
  · refine World.issued_sel _ _ _ _
      (RenderTarget.draw_trace_mono _ _ _ _ _ _ _ (List.prefix_refl _)) ?_
    have hs := RenderTarget.setupDraw_sel_stencil rt1
      (decide (n2 ≤ rtA.m_cache.vertexCache.length)) states2 w1 h1e h1g
    rw [if_pos hne, if_pos hm2, if_pos h1s, hso] at hs
    have hw1s : w1.sel GLCall.isStencilCall = w2.sel GLCall.isStencilCall := by
      rw [World.sel_of_issued _ _ _ _ hw1]
      cases w2.config.openglES <;> simp [GLCall.isStencilCall]
    rw [World.sel_of_issued _ _ _ _ ht, hs, hw1s, hso]
    have hGf : G.filter GLCall.isStencilCall = [] := by
      rcases hG with h | h <;> rw [h] <;> simp [GLCall.isStencilCall]
    have hAPf : AP.filter GLCall.isStencilCall = [] :=
      GLCall.Avoids.filter_eq_nil _ GLCall.isAttribPointer _ hAP
    simp only [List.filter_append, hGf, hAPf]
    cases w2.config.openglES <;> cases states2.shader.isSome <;>
      cases RenderTarget.isFboAttachment states2.texture <;> simp [GLCall.isStencilCall]
  · obtain ⟨base, id, pos, col, tex, hb1, -, h⟩ :=
      RenderTarget.setupDraw_target rt1 (decide (n2 ≤ rtA.m_cache.vertexCache.length))
        states2 w1
    rw [hr, h, hb1 h1g]
    show (if rt1.m_cache.enable = false ∨ states2.stencilMode ≠ rt1.m_cache.lastStencilMode then
        decide (states2.stencilMode ≠ StencilMode.default) else rt1.m_cache.stencilEnabled)
      = false
    rw [if_pos (Or.inr hne)]
    simpa using hm2
  · obtain ⟨base, id, pos, col, tex, -, -, h⟩ :=
      RenderTarget.setupDraw_target rt1 (decide (n2 ≤ rtA.m_cache.vertexCache.length))
        states2 w1
    rw [hr, h]
    exact hm2

theorem draw_default_stencil_after_stencil_witness :
    4 ≠ 0 ∧
    (steadyTarget.m_cache.lastStencilMode ≠ StencilMode.default →
      steadyTarget.m_cache.stencilEnabled = true) ∧
    stencilReplace ≠ StencilMode.default ∧
    RenderStates.Default.stencilMode = StencilMode.default ∧
    RenderTargetImpl.isActive
      (steadyTarget.draw (some sampleQuad) 4 PrimitiveType.TriangleStrip
        { RenderStates.Default with stencilMode := stencilReplace } activeWorld).1.m_id
      (steadyTarget.draw (some sampleQuad) 4 PrimitiveType.TriangleStrip
        { RenderStates.Default with stencilMode := stencilReplace } activeWorld).2 = true ∧
    (∃ issued,
      ((steadyTarget.draw (some sampleQuad) 4 PrimitiveType.TriangleStrip
          { RenderStates.Default with stencilMode := stencilReplace } activeWorld).1.draw
        (some sampleQuad) 4 PrimitiveType.TriangleStrip RenderStates.Default
        (steadyTarget.draw (some sampleQuad) 4 PrimitiveType.TriangleStrip
          { RenderStates.Default with stencilMode := stencilReplace } activeWorld).2).2.gl.trace
        = (steadyTarget.draw (some sampleQuad) 4 PrimitiveType.TriangleStrip
          { RenderStates.Default with stencilMode := stencilReplace }
          activeWorld).2.gl.trace ++ issued ∧
      issued.filter GLCall.isStencilCall
        = [GLCall.glDisable GLenum.GL_STENCIL_TEST, GLCall.glColorMask true true true true]) ∧
    ((steadyTarget.draw (some sampleQuad) 4 PrimitiveType.TriangleStrip
        { RenderStates.Default with stencilMode := stencilReplace } activeWorld).1.draw
      (some sampleQuad) 4 PrimitiveType.TriangleStrip RenderStates.Default
      (steadyTarget.draw (some sampleQuad) 4 PrimitiveType.TriangleStrip
        { RenderStates.Default with stencilMode := stencilReplace }
        activeWorld).2).1.m_cache.stencilEnabled = false ∧
    ((steadyTarget.draw (some sampleQuad) 4 PrimitiveType.TriangleStrip
        { RenderStates.Default with stencilMode := stencilReplace } activeWorld).1.draw
      (some sampleQuad) 4 PrimitiveType.TriangleStrip RenderStates.Default
      (steadyTarget.draw (some sampleQuad) 4 PrimitiveType.TriangleStrip
        { RenderStates.Default with stencilMode := stencilReplace }
        activeWorld).2).1.m_cache.lastStencilMode = StencilMode.default :=
  have hact : RenderTargetImpl.isActive
      (steadyTarget.draw (some sampleQuad) 4 PrimitiveType.TriangleStrip
        { RenderStates.Default with stencilMode := stencilReplace } activeWorld).1.m_id
      (steadyTarget.draw (some sampleQuad) 4 PrimitiveType.TriangleStrip
        { RenderStates.Default with stencilMode := stencilReplace } activeWorld).2 = true := by
    set_option maxRecDepth 100000 in decide
  ⟨by decide, fun h => absurd rfl h, by decide, rfl, hact,
    draw_default_stencil_after_stencil steadyTarget sampleQuad sampleQuad 4 4
      PrimitiveType.TriangleStrip PrimitiveType.TriangleStrip
      { RenderStates.Default with stencilMode := stencilReplace } RenderStates.Default
      activeWorld _ (by decide) (by decide) (fun h => absurd rfl h) (by decide) rfl hact⟩

/-! ## Calls that a whole stage never issues -/

@[simp]
theorem RenderTarget.applyShader_none_sel (p : GLCall → Bool) (rt : RenderTarget) (w : World) :
    (rt.applyShader none w).2.sel p = w.sel p ++ [GLCall.glUseProgram 0].filter p := by
  unfold RenderTarget.applyShader Shader.bind
  simp [List.filter_cons]

/-- `resetGLStates` issues none of the calls selected by a selection that avoids
its class of calls. -/
theorem RenderTarget.resetGLStates_sel (p : GLCall → Bool) (rt : RenderTarget) (w : World)
    [GLCall.Avoids p GLCall.isResetCall] : (rt.resetGLStates w).2.sel p = w.sel p := by
  have h : ∀ c, GLCall.isResetCall c = true → p c = false :=
    fun c hc => GLCall.Avoids.avoids c hc
  have hd : ∀ i, p (GLCall.glDisableVertexAttribArray i) = false := fun i => h _ rfl
  have hda : ∀ (l : Int) (x : World), (RenderTarget.disableAttrib l x).sel p = x.sel p := by
    intro l x
    unfold RenderTarget.disableAttrib
    simp [hd]
  unfold RenderTarget.resetGLStates
  lift_lets
  extract_lets shaderAvailable vertexBufferAvailable d m g rt0 w1 w2 w3 w4 w5 w6 w7 src3 rt1 b
    s t hh w8 src2 src1 rt2 rt3 src0
  have hm : m.2.sel p = w.sel p := by
    simp only [m, d]
    split_ifs <;> simp
  clear_value m d
  have hg : g.2.2.sel p = w.sel p := by simp [g, hm]
  have hg1 : g.1 = true := by simp [g]
  clear_value g
  simp only [hg1, if_true]
  have h7 : w7.sel p = w.sel p := by
    simp only [w7, w6, w5, hda, w4, w3, w2, w1, World.sel_call, hg]
    simp [h, GLCall.isResetCall]
  clear_value w1 w2 w3 w4 w5 w6 w7
  have hb : b.2.sel p = w.sel p := by
    simp only [b, RenderTarget.applyBlendMode_sel, h7]
    simp [List.filter_cons, h, GLCall.isResetCall]
  clear_value b
  have hs : s.2.sel p = w.sel p := by
    simp only [s, RenderTarget.applyStencilMode_sel, hb]
    simp only [if_true]
    split_ifs <;> simp [List.filter_cons, h, GLCall.isResetCall]
  clear_value s
  have ht : t.2.sel p = w.sel p := by
    simp only [t, RenderTarget.applyTexture_sel, hs]
    simp [List.filter_cons, h, GLCall.isResetCall]
  clear_value t
  have hh2 : hh.2.sel p = w.sel p := by
    simp only [hh, shaderAvailable, Shader.isAvailable, if_true,
      RenderTarget.applyShader_none_sel, ht]
    simp [List.filter_cons, h, GLCall.isResetCall]
  clear_value hh
  show w8.sel p = w.sel p
  simp only [w8]
  split_ifs
  · simp [hh2, h, GLCall.isResetCall]
  · exact hh2

/-- `setupDraw` issues none of the calls selected by a selection that avoids every class
of calls it can issue. -/
theorem RenderTarget.setupDraw_sel_frame (p : GLCall → Bool) (rt : RenderTarget)
    (useVertexCache : Bool) (states : RenderStates) (w : World)
    [GLCall.Avoids p GLCall.isResetCall] [GLCall.Avoids p GLCall.isCompileCall]
    [GLCall.Avoids p GLCall.isBindCall] [∀ m, GLCall.Avoids p (GLCall.isMat4SetterCall m)]
    [∀ x y, GLCall.Avoids p (GLCall.isVec2SetterCall x y)]
    (hv : ∀ x y a b, p (GLCall.glViewport x y a b) = false)
    (ho : ∀ x y z, p (GLCall.glStencilOp x y z) = false)
    (hf : ∀ x y z, p (GLCall.glStencilFunc x y z) = false)
    (hc : states.stencilMode.stencilOnly = true →
      p (GLCall.glColorMask false false false false) = false) :
    (rt.setupDraw useVertexCache states w).2.sel p = w.sel p := by
  have h : ∀ c, GLCall.isResetCall c = true → p c = false :=
    fun c hc => GLCall.Avoids.avoids c hc
  unfold RenderTarget.setupDraw
  lift_lets
  extract_lets w1 a u usedShader w2 viewport top w3 w4 b s w5 textureId shaderId t w6
  have h1 : w1.sel p = w.sel p := by
    simp only [w1]
    split_ifs <;> simp [h, GLCall.isResetCall]
  clear_value w1
  have ha : a.2.sel p = w.sel p := by
    simp only [a]
    split_ifs
    · rw [RenderTarget.resetGLStates_sel, h1]
    · exact h1
  clear_value a
  have hu : u.2.sel p = w.sel p := by simp [u, ha]
  clear_value u
  have h2 : w2.sel p = w.sel p := by
    simp only [w2]
    split_ifs <;> simp [hu]
  clear_value w2
  have h4 : w4.sel p = w.sel p := by simp [w4, w3, h2, hv]
  clear_value w3 w4
  have hb : b.2.sel p = w.sel p := by
    simp only [b]
    split_ifs
    · rw [RenderTarget.applyBlendMode_sel, h4]
      simp [List.filter_cons, h, GLCall.isResetCall]
    · exact h4
  clear_value b
  have hs : s.2.sel p = w.sel p := by
    simp only [s]
    split_ifs
    · rw [RenderTarget.applyStencilMode_sel, hb]
      split_ifs <;> simp [List.filter_cons, h, GLCall.isResetCall, ho, hf]
    · exact hb
  clear_value s
  have h5 : w5.sel p = w.sel p := by
    simp only [w5]
    split_ifs with hso
    · simp [hs, hc hso]
    · exact hs
  clear_value w5
  have ht : t.1.2.sel p = w.sel p := by
    simp only [t]
    split_ifs <;> simp [h5, List.filter_cons, h, GLCall.isResetCall]
  clear_value t
  have h6 : w6.sel p = w.sel p := by
    simp only [w6]
    split
    · split_ifs <;> simp [ht]
    · exact ht
  clear_value w6
  rw [RenderTarget.applyShader_sel, h6]

/-! ## The color-mask calls of `setupDraw` -/

/-- In `setupDraw` for a stencil-only draw, the last color-mask call issued is the one
masking all channels off; no primitive draw call is issued. -/
theorem RenderTarget.setupDraw_sel_colorMask (rt : RenderTarget) (useVertexCache : Bool)
    (states : RenderStates) (w : World) (hso : states.stencilMode.stencilOnly = true) :
    ∃ pre, (rt.setupDraw useVertexCache states w).2.sel GLCall.isColorMaskOrDraw
      = w.sel GLCall.isColorMaskOrDraw ++ pre ++ [GLCall.glColorMask false false false false] := by
  unfold RenderTarget.setupDraw
  lift_lets
  extract_lets w1 a u usedShader w2 viewport top w3 w4 b s w5 textureId shaderId t w6
  have h1 : w.gl.trace <+: w1.gl.trace := by
    simp only [w1]
    apply_rules [World.ite_trace_mono, World.call_trace_mono, List.prefix_refl]
  clear_value w1
  have ha : w.gl.trace <+: a.2.gl.trace := by
    simp only [a]
    apply World.ite_snd_trace_mono
    · exact RenderTarget.resetGLStates_trace_mono _ _ _ h1
    · exact h1
  clear_value a
  have hu : w.gl.trace <+: u.2.gl.trace := RenderTarget.chooseShader_trace_mono _ _ _ ha
  clear_value u
  have h2 : w.gl.trace <+: w2.gl.trace := by
    simp only [w2]
    apply World.ite_trace_mono
    · exact World.setUniformMat4_ref_trace_mono _ _ _ _ _ hu
    · exact World.setUniformMat4_ref_trace_mono _ _ _ _ _ hu
  clear_value w2
  have h4 : w.gl.trace <+: w4.gl.trace :=
    World.setUniformMat4_ref_trace_mono _ _ _ _ _ (World.call_trace_mono _ _ _ h2)
  clear_value w3 w4
  have hb : w.gl.trace <+: b.2.gl.trace := by
    simp only [b]
    apply World.ite_snd_trace_mono
    · exact RenderTarget.applyBlendMode_trace_mono _ _ _ _ h4
    · exact h4
  clear_value b
  have hs : w.gl.trace <+: s.2.gl.trace := by
    simp only [s]
    apply World.ite_snd_trace_mono
    · exact RenderTarget.applyStencilMode_trace_mono _ _ _ _ hb
    · exact hb
  clear_value s
  obtain ⟨i, hi⟩ := hs
  have h5 : w5.sel GLCall.isColorMaskOrDraw = s.2.sel GLCall.isColorMaskOrDraw ++
      [GLCall.glColorMask false false false false] := by
    simp [w5, hso, GLCall.isColorMaskOrDraw]
  clear_value w5
  have ht : t.1.2.sel GLCall.isColorMaskOrDraw = w5.sel GLCall.isColorMaskOrDraw := by
    simp only [t]
    split_ifs <;> simp [GLCall.isColorMaskOrDraw]
  clear_value t
  have h6 : w6.sel GLCall.isColorMaskOrDraw = w5.sel GLCall.isColorMaskOrDraw := by
    simp only [w6]
    split
    · split_ifs <;> simp [ht]
    · exact ht
  clear_value w6
  refine ⟨i.filter GLCall.isColorMaskOrDraw, ?_⟩
  rw [RenderTarget.applyShader_sel, h6, h5, World.sel_of_issued _ w s.2 i hi.symm]

theorem List.filter_colorMask_of_filter (l : List GLCall) :
    l.filter GLCall.isColorMask
      = (l.filter GLCall.isColorMaskOrDraw).filter GLCall.isColorMask := by
  rw [List.filter_filter]
  congr 1
  funext c
  cases c <;> simp [GLCall.isColorMask, GLCall.isColorMaskOrDraw]

/-! ## Pre-transformed and pass-through vertices -/

theorem RenderTarget.preTransform_succ (T : Transform) (vs : List Vertex) (n : Nat)
    (cache : List Vertex) :
    RenderTarget.preTransform T vs (n + 1) cache
      = (RenderTarget.preTransform T vs n cache).set n
          ⟨T.transformPoint (vs.getD n default).position, (vs.getD n default).color,
            (vs.getD n default).texCoords⟩ := by
  unfold RenderTarget.preTransform
  rw [List.range_succ, List.foldl_append]
  rfl

theorem RenderTarget.preTransform_length (T : Transform) (vs : List Vertex) (n : Nat)
    (cache : List Vertex) : (RenderTarget.preTransform T vs n cache).length = cache.length := by
  induction n with
  | zero => rfl
  | succ k ih => rw [RenderTarget.preTransform_succ, List.length_set, ih]

/-- Entry `i` of the scratch buffer after pre-transforming `n` vertices. -/
theorem RenderTarget.preTransform_getD (T : Transform) (vs : List Vertex) (cache : List Vertex)
    (n : Nat) (hn : n ≤ cache.length) (i : Nat) (hi : i < n) :
    (RenderTarget.preTransform T vs n cache).getD i default
      = ⟨T.transformPoint (vs.getD i default).position, (vs.getD i default).color,
          (vs.getD i default).texCoords⟩ := by
  induction n with
  | zero => omega
  | succ k ih =>
    rw [RenderTarget.preTransform_succ]
    by_cases hik : i = k
    · subst hik
      rw [List.getD_eq_getElem?_getD, List.getElem?_set_self]
      · rfl
      · rw [RenderTarget.preTransform_length]
        omega
    · rw [List.getD_eq_getElem?_getD, List.getElem?_set_ne (Ne.symm hik),
        ← List.getD_eq_getElem?_getD]
      exact ih (by omega) (by omega)

theorem List.getD_take_of_lt {α : Type} (l : List α) (n i : Nat) (d : α) (h : i < n) :
    (l.take n).getD i d = l.getD i d := by
  rw [List.getD_eq_getElem?_getD, List.getD_eq_getElem?_getD, List.getElem?_take_of_lt h]

theorem Glsl.transformPoint_identity (p : Vector2f) :
    Glsl.transformPoint Transform.Identity.getMatrix p = p := by
  simp [Glsl.transformPoint, Transform.Identity, Transform.getMatrix]

theorem Glsl.transformPoint_getMatrix (T : Transform) (p : Vector2f) :
    Glsl.transformPoint T.getMatrix p = T.transformPoint p := by
  simp [Glsl.transformPoint, Transform.getMatrix, Transform.transformPoint]

/-- The model-view stage of `setupDraw`: everything up to the viewport call is the trace of
setting the uniform `sf_modelview` (identity on the pre-transformed path, the transform of
the draw otherwise) in a world reached without any viewport call or matrix upload. -/
theorem RenderTarget.setupDraw_modelview (rt : RenderTarget) (useVertexCache : Bool)
    (states : RenderStates) (w : World) :
    ∃ (r : ShaderRef) (wa : World) (B : List GLCall),
      w.gl.trace <+: wa.gl.trace ∧
      wa.sel GLCall.isViewport = w.sel GLCall.isViewport ∧
      wa.sel GLCall.isMatrixUpload = w.sel GLCall.isMatrixUpload ∧
      (rt.setupDraw useVertexCache states w).2.gl.trace
        = (wa.setUniformMat4 r "sf_modelview"
            (if useVertexCache = true then Transform.Identity.getMatrix
              else states.transform.getMatrix)).gl.trace ++
          [GLCall.glViewport (rt.getViewport rt.m_view).position.x
            (toInt32 (toInt32 rt.getSize.y -
              toInt32 ((rt.getViewport rt.m_view).position.y +
                (rt.getViewport rt.m_view).size.y)))
            (rt.getViewport rt.m_view).size.x (rt.getViewport rt.m_view).size.y] ++ B := by
  unfold RenderTarget.setupDraw
  lift_lets
  extract_lets w1 a u usedShader w2 viewport top w3 w4 b s w5 textureId shaderId t w6
  have h1 : w.gl.trace <+: w1.gl.trace ∧ w1.sel GLCall.isViewport = w.sel GLCall.isViewport ∧
      w1.sel GLCall.isMatrixUpload = w.sel GLCall.isMatrixUpload := by
    refine ⟨?_, ?_, ?_⟩
    · simp only [w1]
      apply_rules [World.ite_trace_mono, World.call_trace_mono, List.prefix_rfl]
    · simp only [w1]
      split_ifs <;> simp [GLCall.isViewport]
    · simp only [w1]
      split_ifs <;> simp [GLCall.isMatrixUpload]
  clear_value w1
  have ha : w.gl.trace <+: a.2.gl.trace ∧ a.2.sel GLCall.isViewport = w.sel GLCall.isViewport ∧
      a.2.sel GLCall.isMatrixUpload = w.sel GLCall.isMatrixUpload := by
    refine ⟨?_, ?_, ?_⟩
    · simp only [a]
      apply World.ite_snd_trace_mono
      · exact RenderTarget.resetGLStates_trace_mono _ _ _ h1.1
      · exact h1.1
    · simp only [a]
      split_ifs
      · rw [RenderTarget.resetGLStates_sel, h1.2.1]
      · exact h1.2.1
    · simp only [a]
      split_ifs
      · rw [RenderTarget.resetGLStates_sel, h1.2.2]
      · exact h1.2.2
  have ha1 : a.1.size = rt.size ∧ a.1.m_view = rt.m_view := by
    simp only [a]
    split_ifs
    · rw [RenderTarget.resetGLStates_target]
      exact ⟨rfl, rfl⟩
    · exact ⟨rfl, rfl⟩
  have hvp : viewport = rt.getViewport rt.m_view := by
    simp only [viewport, RenderTarget.getViewport, RenderTarget.getSize, ha1.1, ha1.2]
  have htop : top = toInt32 (toInt32 rt.getSize.y -
      toInt32 ((rt.getViewport rt.m_view).position.y + (rt.getViewport rt.m_view).size.y)) := by
    simp only [top, hvp, RenderTarget.getSize, ha1.1]
  have hu : w.gl.trace <+: u.2.gl.trace ∧ u.2.sel GLCall.isViewport = w.sel GLCall.isViewport ∧
      u.2.sel GLCall.isMatrixUpload = w.sel GLCall.isMatrixUpload := by
    refine ⟨RenderTarget.chooseShader_trace_mono _ _ _ ha.1, ?_, ?_⟩
    · simp [u, ha.2.1]
    · simp [u, ha.2.2]
  have h2 : w2 = u.2.setUniformMat4 usedShader "sf_modelview"
      (if useVertexCache = true then Transform.Identity.getMatrix
        else states.transform.getMatrix) := by
    simp only [w2]
    split_ifs <;> rfl
  have h3 : w3.gl.trace = w2.gl.trace ++ [GLCall.glViewport (rt.getViewport rt.m_view).position.x
      (toInt32 (toInt32 rt.getSize.y -
        toInt32 ((rt.getViewport rt.m_view).position.y + (rt.getViewport rt.m_view).size.y)))
      (rt.getViewport rt.m_view).size.x (rt.getViewport rt.m_view).size.y] := by
    simp only [w3, htop, hvp]
    rfl
  have h4 : w3.gl.trace <+: w4.gl.trace :=
    World.setUniformMat4_ref_trace_mono _ _ _ _ _ List.prefix_rfl
  clear_value w4 top viewport
  have hb : w3.gl.trace <+: b.2.gl.trace := by
    simp only [b]
    apply World.ite_snd_trace_mono
    · exact RenderTarget.applyBlendMode_trace_mono _ _ _ _ h4
    · exact h4
  clear_value b
  have hs : w3.gl.trace <+: s.2.gl.trace := by
    simp only [s]
    apply World.ite_snd_trace_mono
    · exact RenderTarget.applyStencilMode_trace_mono _ _ _ _ hb
    · exact hb
  clear_value s
  have h5 : w3.gl.trace <+: w5.gl.trace := by
    simp only [w5]
    apply World.ite_trace_mono
    · exact World.call_trace_mono _ _ _ hs
    · exact hs
  clear_value w5
  have ht : w3.gl.trace <+: t.1.2.gl.trace := by
    simp only [t]
    split_ifs
    · exact RenderTarget.applyTexture_trace_mono _ _ _ _ _ h5
    · exact RenderTarget.applyTexture_trace_mono _ _ _ _ _ h5
    · exact h5
  clear_value t
  have h6 : w3.gl.trace <+: w6.gl.trace := by
    simp only [w6]
    split
    · apply World.ite_trace_mono
      · exact RenderTarget.uploadTextureUniforms_trace_mono _ _ _ _ _ ht
      · exact ht
    · exact ht
  clear_value w6
  obtain ⟨B, hB⟩ := RenderTarget.applyShader_trace_mono t.1.1 (some usedShader) w6 _ h6
  refine ⟨usedShader, u.2, B, hu.1, hu.2.1, hu.2.2, ?_⟩
  rw [← hB, h3, h2]

theorem GLCall.filter_otherMatrixUpload_of_matrixUpload (m : List ℚ) (l : List GLCall)
    (h : l.filter GLCall.isMatrixUpload = []) :
    l.filter (GLCall.isOtherMatrixUpload m) = [] := by
  rw [List.filter_eq_nil_iff] at h ⊢
  intro c hc
  have := h c hc
  revert this
  cases c <;> simp [GLCall.isMatrixUpload, GLCall.isOtherMatrixUpload]

theorem GLCall.matrix_of_filter_otherMatrixUpload (m : List ℚ) (l : List GLCall)
    (h : l.filter (GLCall.isOtherMatrixUpload m) = []) (loc : Int) (v : List ℚ)
    (hv : GLCall.glUniformMatrix4fv loc v ∈ l) : v = m := by
  rw [List.filter_eq_nil_iff] at h
  have := h _ hv
  simpa [GLCall.isOtherMatrixUpload] using this

/-- The calls of a draw of non-empty vertex data, split at its first viewport call: the
calls before it end with setting the uniform `sf_modelview`, and the only vertex data
uploaded is the draw's. -/
theorem RenderTarget.draw_modelview (rt : RenderTarget) (vs : List Vertex) (n : Nat)
    (type : PrimitiveType) (states : RenderStates) (w : World) (hn : n ≠ 0) :
    ∃ (before after : List GLCall) (r : ShaderRef) (wa : World),
      (rt.draw (some vs) n type states w).2.gl.trace
        = w.gl.trace ++ (before ++
          [GLCall.glViewport (rt.getViewport rt.m_view).position.x
            (toInt32 (toInt32 rt.getSize.y -
              toInt32 ((rt.getViewport rt.m_view).position.y +
                (rt.getViewport rt.m_view).size.y)))
            (rt.getViewport rt.m_view).size.x (rt.getViewport rt.m_view).size.y] ++ after) ∧
      before.filter GLCall.isViewport = [] ∧
      w.gl.trace <+: wa.gl.trace ∧
      wa.sel GLCall.isMatrixUpload = w.sel GLCall.isMatrixUpload ∧
      (wa.setUniformMat4 r "sf_modelview"
          (if n ≤ rt.m_cache.vertexCache.length then Transform.Identity.getMatrix
            else states.transform.getMatrix)).gl.trace = w.gl.trace ++ before ∧
      before.filter (GLCall.isOtherMatrixUpload
          (if n ≤ rt.m_cache.vertexCache.length then Transform.Identity.getMatrix
            else states.transform.getMatrix)) = [] ∧
      (before ++
          [GLCall.glViewport (rt.getViewport rt.m_view).position.x
            (toInt32 (toInt32 rt.getSize.y -
              toInt32 ((rt.getViewport rt.m_view).position.y +
                (rt.getViewport rt.m_view).size.y)))
            (rt.getViewport rt.m_view).size.x (rt.getViewport rt.m_view).size.y] ++
          after).filter GLCall.isBufferData
        = [GLCall.glBufferData GLenum.GL_ARRAY_BUFFER ((RenderTarget.sizeofVertex * n) % 2 ^ 64)
            ((if n ≤ rt.m_cache.vertexCache.length then
                RenderTarget.preTransform states.transform vs n rt.m_cache.vertexCache
              else vs).take n)
            GLenum.GL_DYNAMIC_DRAW] := by
  obtain ⟨rt1, w1, e, g, buf, G, AP, -, hrt1, hw1, -, hG, hAP, ht, -, -⟩ :=
    RenderTarget.draw_stages rt vs n type states w hn
  obtain ⟨r, wa, B, hpa, hva, hma, hsd⟩ := RenderTarget.setupDraw_modelview rt1
    (decide (n ≤ rt.m_cache.vertexCache.length)) states w1
  have hview : rt1.getViewport rt1.m_view = rt.getViewport rt.m_view := by rw [hrt1]; rfl
  have hsize : rt1.getSize = rt.getSize := by rw [hrt1]; rfl
  rw [hview, hsize] at hsd
  simp only [decide_eq_true_eq] at hsd
  -- the vertex cache of the target after `setupDraw`
  have hvc : (rt1.setupDraw (decide (n ≤ rt.m_cache.vertexCache.length)) states
      w1).1.m_cache.vertexCache
        = if n ≤ rt.m_cache.vertexCache.length then
            RenderTarget.preTransform states.transform vs n rt.m_cache.vertexCache
          else rt.m_cache.vertexCache := by
    obtain ⟨base, id, pos, col, tex, hb1, hb2, hres⟩ := RenderTarget.setupDraw_target rt1
      (decide (n ≤ rt.m_cache.vertexCache.length)) states w1
    rw [hres]
    have hbase : base.vertexCache = rt1.m_cache.vertexCache := by
      cases hgs : rt1.m_cache.glStatesSet
      · rw [hb2 hgs]
      · rw [hb1 hgs]
    show base.vertexCache = _
    rw [hbase, hrt1]
  have hup : (if n ≤ rt.m_cache.vertexCache.length then
        (rt1.setupDraw (decide (n ≤ rt.m_cache.vertexCache.length)) states
          w1).1.m_cache.vertexCache
      else vs)
      = if n ≤ rt.m_cache.vertexCache.length then
          RenderTarget.preTransform states.transform vs n rt.m_cache.vertexCache
        else vs := by
    rw [hvc]
    split_ifs <;> rfl
  rw [hup] at ht
  have hGf : G.filter GLCall.isBufferData = [] := by
    rcases hG with h | h <;> rw [h] <;> simp [GLCall.isBufferData]
  have hAPf : AP.filter GLCall.isBufferData = [] :=
    GLCall.Avoids.filter_eq_nil _ GLCall.isAttribPointer _ hAP
  obtain ⟨tail, ht, htail⟩ : ∃ tail,
      (rt.draw (some vs) n type states w).2.gl.trace
        = (rt1.setupDraw (decide (n ≤ rt.m_cache.vertexCache.length)) states w1).2.gl.trace ++
          tail ∧
      tail.filter GLCall.isBufferData
        = [GLCall.glBufferData GLenum.GL_ARRAY_BUFFER ((RenderTarget.sizeofVertex * n) % 2 ^ 64)
            ((if n ≤ rt.m_cache.vertexCache.length then
                RenderTarget.preTransform states.transform vs n rt.m_cache.vertexCache
              else vs).take n)
            GLenum.GL_DYNAMIC_DRAW] := by
    refine ⟨_, ht, ?_⟩
    simp only [List.filter_append, hGf, hAPf]
    cases w.config.openglES <;> cases states.shader.isSome <;>
      cases RenderTarget.isFboAttachment states.texture <;>
      cases states.stencilMode.stencilOnly <;>
      simp [GLCall.isBufferData]
  -- the calls up to the uniform setter
  obtain ⟨A, hA⟩ := hpa
  obtain ⟨S, hS⟩ := World.setUniformMat4_ref_trace_mono r "sf_modelview"
    (if n ≤ rt.m_cache.vertexCache.length then Transform.Identity.getMatrix
      else states.transform.getMatrix) wa wa.gl.trace List.prefix_rfl
  have hP : (wa.setUniformMat4 r "sf_modelview"
      (if n ≤ rt.m_cache.vertexCache.length then Transform.Identity.getMatrix
        else states.transform.getMatrix)).gl.trace
      = w.gl.trace ++ ((if w.config.openglES then [] else
          [GLCall.glBindVertexArray rt.m_cache.defaultArray]) ++ A ++ S) := by
    rw [← hS, ← hA, hw1]
    simp only [List.append_assoc]
  have hselP : ∀ (p : GLCall → Bool) [GLCall.Avoids p (GLCall.isMat4SetterCall
      (if n ≤ rt.m_cache.vertexCache.length then Transform.Identity.getMatrix
        else states.transform.getMatrix))],
      p (GLCall.glBindVertexArray rt.m_cache.defaultArray) = false →
      wa.sel p = w1.sel p →
      ((if w.config.openglES then [] else
          [GLCall.glBindVertexArray rt.m_cache.defaultArray]) ++ A ++ S).filter p = [] := by
    intro p _ hvao hwa
    have h1 := World.sel_of_issued p _ _ _ hP
    rw [World.setUniformMat4_ref_sel, hwa, World.sel_of_issued p _ _ _ hw1] at h1
    have h2 : (if w.config.openglES then [] else
        [GLCall.glBindVertexArray rt.m_cache.defaultArray]).filter p = [] := by
      split_ifs <;> simp [hvao]
    rw [h2, List.append_nil] at h1
    exact (List.self_eq_append_right.mp h1)
  have hw1m : w1.sel GLCall.isMatrixUpload = w.sel GLCall.isMatrixUpload := by
    rw [World.sel_of_issued _ _ _ _ hw1]
    split_ifs <;> simp [GLCall.isMatrixUpload]
  refine ⟨(if w.config.openglES then [] else
      [GLCall.glBindVertexArray rt.m_cache.defaultArray]) ++ A ++ S, B ++ tail, r, wa,
    ?_, ?_, ?_, ?_, hP, ?_, ?_⟩
  · rw [ht, hsd, hP]
    simp only [List.append_assoc]
  · exact hselP GLCall.isViewport rfl hva
  · rw [hw1] at hA
    exact ⟨_, by rw [← hA, List.append_assoc]⟩
  · rw [hma, hw1m]
  · have hA' : A.filter GLCall.isMatrixUpload = [] := by
      have h1 := World.sel_of_issued GLCall.isMatrixUpload _ _ _ hA.symm
      rw [hma] at h1
      exact List.self_eq_append_right.mp h1
    have hS' : S.filter (GLCall.isOtherMatrixUpload
        (if n ≤ rt.m_cache.vertexCache.length then Transform.Identity.getMatrix
          else states.transform.getMatrix)) = [] := by
      have h1 := World.sel_of_issued (GLCall.isOtherMatrixUpload
        (if n ≤ rt.m_cache.vertexCache.length then Transform.Identity.getMatrix
          else states.transform.getMatrix)) _ _ _ hS.symm
      rw [World.setUniformMat4_ref_sel] at h1
      exact List.self_eq_append_right.mp h1
    rw [List.filter_append, List.filter_append, hS',
      GLCall.filter_otherMatrixUpload_of_matrixUpload _ _ hA']
    split_ifs <;> simp [GLCall.isOtherMatrixUpload]
  · have hf := RenderTarget.setupDraw_sel_frame GLCall.isBufferData rt1
      (decide (n ≤ rt.m_cache.vertexCache.length)) states w1 (fun _ _ _ _ => rfl)
      (fun _ _ _ => rfl) (fun _ _ _ => rfl) (fun _ => rfl)
    have hfull : (rt1.setupDraw (decide (n ≤ rt.m_cache.vertexCache.length)) states
        w1).2.gl.trace
        = w.gl.trace ++ ((if w.config.openglES then [] else
            [GLCall.glBindVertexArray rt.m_cache.defaultArray]) ++ A ++ S ++
          [GLCall.glViewport (rt.getViewport rt.m_view).position.x
            (toInt32 (toInt32 rt.getSize.y -
              toInt32 ((rt.getViewport rt.m_view).position.y +
                (rt.getViewport rt.m_view).size.y)))
            (rt.getViewport rt.m_view).size.x (rt.getViewport rt.m_view).size.y] ++ B) := by
      rw [hsd, hP]
      simp only [List.append_assoc]
    have hsel := World.sel_of_issued GLCall.isBufferData _ _ _ hfull
    have hw1b : w1.sel GLCall.isBufferData = w.sel GLCall.isBufferData := by
      rw [World.sel_of_issued _ _ _ _ hw1]
      split_ifs <;> simp [GLCall.isBufferData]
    rw [hf, hw1b] at hsel
    have hsd' := List.self_eq_append_right.mp hsel
    rw [← List.append_assoc, List.filter_append, hsd', htail, List.nil_append]

/-- The vertex data of a draw of `n ≥ 1` vertices with transform `T`: exactly one block
of vertex data is uploaded. On the pre-transformed path (`n` at most the capacity of the
scratch buffer) uploaded vertex `i` is input vertex `i` with `T` applied to its position,
color and texture coordinates unchanged; otherwise the uploaded vertices are the first
`n` input vertices. Every matrix uploaded before the viewport call of the draw is the
identity on the first path and `T` on the second. On both paths that matrix applied to an
uploaded position is `T` applied to the input position. -/
theorem RenderTarget.draw_vertex_data (rt : RenderTarget) (vs : List Vertex) (n : Nat)
    (type : PrimitiveType) (states : RenderStates) (w : World) (hn : 1 ≤ n) :
    ∃ (issued before after : List GLCall) (uploaded : List Vertex),
      (rt.draw (some vs) n type states w).2.gl.trace = w.gl.trace ++ issued ∧
      issued = before ++
        [GLCall.glViewport (rt.getViewport rt.m_view).position.x
          (toInt32 (toInt32 rt.getSize.y -
            toInt32 ((rt.getViewport rt.m_view).position.y +
              (rt.getViewport rt.m_view).size.y)))
          (rt.getViewport rt.m_view).size.x (rt.getViewport rt.m_view).size.y] ++ after ∧
      before.filter GLCall.isViewport = [] ∧
      issued.filter GLCall.isBufferData
        = [GLCall.glBufferData GLenum.GL_ARRAY_BUFFER ((RenderTarget.sizeofVertex * n) % 2 ^ 64)
            uploaded GLenum.GL_DYNAMIC_DRAW] ∧
      (n ≤ rt.m_cache.vertexCache.length →
        uploaded.length = n ∧
        (∀ i, i < n → uploaded.getD i default
          = ⟨states.transform.transformPoint (vs.getD i default).position,
              (vs.getD i default).color, (vs.getD i default).texCoords⟩) ∧
        ∀ loc m, GLCall.glUniformMatrix4fv loc m ∈ before →
          m = Transform.Identity.getMatrix) ∧
      (rt.m_cache.vertexCache.length < n →
        uploaded = vs.take n ∧
        ∀ loc m, GLCall.glUniformMatrix4fv loc m ∈ before → m = states.transform.getMatrix) ∧
      (∀ i, i < n →
        Glsl.transformPoint
            (if n ≤ rt.m_cache.vertexCache.length then Transform.Identity.getMatrix
              else states.transform.getMatrix)
            (uploaded.getD i default).position
          = states.transform.transformPoint (vs.getD i default).position) := by
  obtain ⟨before, after, r, wa, htr, hvp, hpa, hma, hset, hother, hdata⟩ :=
    RenderTarget.draw_modelview rt vs n type states w (by omega)
  have hcached : n ≤ rt.m_cache.vertexCache.length → ∀ i, i < n →
      ((if n ≤ rt.m_cache.vertexCache.length then
          RenderTarget.preTransform states.transform vs n rt.m_cache.vertexCache
        else vs).take n).getD i default
        = ⟨states.transform.transformPoint (vs.getD i default).position,
            (vs.getD i default).color, (vs.getD i default).texCoords⟩ := by
    intro hc i hi
    rw [if_pos hc, List.getD_take_of_lt _ _ _ _ hi]
    exact RenderTarget.preTransform_getD _ _ _ _ hc i hi
  refine ⟨_, before, after, _, htr, rfl, hvp, hdata, ?_, ?_, ?_⟩
  · intro hc
    refine ⟨?_, hcached hc, ?_⟩
    · rw [if_pos hc, List.length_take, RenderTarget.preTransform_length]
      omega
    · intro loc m hm
      rw [if_pos hc] at hother
      exact GLCall.matrix_of_filter_otherMatrixUpload _ _ hother loc m hm
  · intro hc
    have hc' : ¬ n ≤ rt.m_cache.vertexCache.length := by omega
    refine ⟨by rw [if_neg hc'], ?_⟩
    intro loc m hm
    rw [if_neg hc'] at hother
    exact GLCall.matrix_of_filter_otherMatrixUpload _ _ hother loc m hm
  · intro i hi
    by_cases hc : n ≤ rt.m_cache.vertexCache.length
    · rw [hcached hc i hi, if_pos hc, Glsl.transformPoint_identity]
    · rw [if_neg hc, if_neg hc, List.getD_take_of_lt _ _ _ _ hi,
        Glsl.transformPoint_getMatrix]

/-! ## Draws from a vertex buffer -/

theorem RenderTarget.enableAttrib_trace (location : Int) (w : World) :
    ∃ l, (RenderTarget.enableAttrib location w).gl.trace = w.gl.trace ++ l ∧
      (l = [] ∨ l = [GLCall.glEnableVertexAttribArray (location.toNat % 2 ^ 32)]) := by
  unfold RenderTarget.enableAttrib
  split_ifs
  · exact ⟨[_], World.call_trace _ _, Or.inr rfl⟩
  · exact ⟨[], by simp, Or.inl rfl⟩

theorem RenderTarget.drawVertexBuffer_stages (rt : RenderTarget) (vb : VertexBuffer)
    (first count : Nat) (states : RenderStates) (w : World)
    (hav : w.config.vertexBufferAvailable = true) (hf : first ≤ vb.getVertexCount)
    (hc : min count (vb.getVertexCount - first) ≠ 0) (hh : vb.getNativeHandle ≠ 0) :
    ∃ (rt1 : RenderTarget) (w1 : World) (e g : Bool) (loc : Nat) (EA AP : List GLCall),
      (RenderTargetImpl.isActive rt.m_id w = true →
        e = rt.m_cache.enable ∧ g = rt.m_cache.glStatesSet) ∧
      rt1 = { rt with m_cache := { rt.m_cache with enable := e, glStatesSet := g } } ∧
      w1.gl.trace = w.gl.trace ++
        (if w.config.openglES then [] else [GLCall.glBindVertexArray rt.m_cache.defaultArray]) ∧
      w1.fixed = w.fixed ∧
      (EA = [] ∨ EA = [GLCall.glEnableVertexAttribArray loc]) ∧
      (∀ c ∈ AP, c.isAttribPointer = true) ∧
      (rt.drawVertexBuffer vb first count states w).2.gl.trace
        = (rt1.setupDraw false states w1).2.gl.trace ++
          ([GLCall.VertexBuffer_bind (some vb.getNativeHandle)] ++ EA ++ AP ++
           [GLCall.glDrawArrays (RenderTarget.modes vb.getPrimitiveType) (toInt32 first)
              (toInt32 ((min count (vb.getVertexCount - first) : Nat) : Int)),
            GLCall.VertexBuffer_bind none] ++
           (if w.config.openglES then [] else [GLCall.glBindVertexArray 0]) ++
           ((if states.shader.isSome then [GLCall.glUseProgram 0] else []) ++
            (if RenderTarget.isFboAttachment states.texture then
               [GLCall.Texture_bind none CoordinateType.Pixels]
             else []) ++
            (if states.stencilMode.stencilOnly then [GLCall.glColorMask true true true true]
             else []))) ∧
      (states.shader.isSome = true →
        (rt.drawVertexBuffer vb first count states w).2.gl.currentProgram = 0) ∧
      (rt.drawVertexBuffer vb first count states w).1
        = { (rt1.setupDraw false states w1).1 with
            m_cache :=
              { (rt1.setupDraw false states w1).1.m_cache with
                enable := true
                lastTextureId :=
                  if RenderTarget.isFboAttachment states.texture then 0
                  else (rt1.setupDraw false states w1).1.m_cache.lastTextureId
                lastCoordinateType :=
                  if RenderTarget.isFboAttachment states.texture then CoordinateType.Pixels
                  else (rt1.setupDraw false states w1).1.m_cache.lastCoordinateType
                useVertexCache := false
                texCoordsArrayEnabled := true } } := by
  generalize hr : rt.drawVertexBuffer vb first count states w = r
  unfold RenderTarget.drawVertexBuffer at hr
  have hf' : ¬ first > vb.getVertexCount := by omega
  have hn : ¬ (min count (vb.getVertexCount - first) = 0 ∨ vb.getNativeHandle = 0) := by
    intro h
    rcases h with h | h
    · exact hc h
    · exact hh h
  simp -zeta only [hav, Bool.not_true, Bool.false_eq_true, if_false, hf', hn] at hr
  lift_lets at hr
  extract_lets cnt g w1 d w2 w3 w4 w5 w6 w7 w8 w9 c src1 src0 at hr
  have hcnt : ¬ (cnt = 0 ∨ vb.getNativeHandle = 0) := hn
  have hg1 : g.1 = true := by simp [g]
  simp only [hcnt, hg1, if_false, if_true] at hr
  obtain ⟨e, gs, hact, hrt0⟩ := RenderTarget.ensureActive_target rt w
  have hgt : g.2.2.gl.trace = w.gl.trace := RenderTarget.ensureActive_trace rt w
  have hgf : g.2.2.fixed = w.fixed := by simp [g]
  have hrt0' : g.2.1
      = { rt with m_cache := { rt.m_cache with enable := e, glStatesSet := gs } } := hrt0
  have hw1 : w1.gl.trace = w.gl.trace ++
      (if w.config.openglES then [] else [GLCall.glBindVertexArray rt.m_cache.defaultArray]) ∧
      w1.fixed = w.fixed := by
    have hc : g.2.2.config = w.config := World.config_of_fixed _ _ hgf
    simp only [w1, hc, hrt0']
    cases w.config.openglES <;> simp [World.call_trace, hgt, hgf]
  have hd : d = g.2.1.setupDraw false states w1 := rfl
  have hdf : d.2.fixed = w.fixed := by simp [d, hw1.2]
  have h2 : w2.gl.trace = d.2.gl.trace ++ [GLCall.VertexBuffer_bind (some vb.getNativeHandle)] :=
    World.call_trace _ _
  have h3 : ∃ l3, w3.gl.trace = w2.gl.trace ++ l3 ∧
      (l3 = [] ∨ l3 = [GLCall.glEnableVertexAttribArray (d.1.m_cache.texAttrib.toNat % 2 ^ 32)]) := by
    simp only [w3]
    split_ifs
    · exact RenderTarget.enableAttrib_trace _ _
    · exact ⟨[], by simp, Or.inl rfl⟩
  obtain ⟨l3, h3, hl3⟩ := h3
  obtain ⟨l4, h4, hl4⟩ := RenderTarget.attribPointer_trace d.1.m_cache.posAttrib 2
    GLenum.GL_FLOAT false 0 w3
  obtain ⟨l5, h5, hl5⟩ := RenderTarget.attribPointer_trace d.1.m_cache.colAttrib 4
    GLenum.GL_UNSIGNED_BYTE true 8 w4
  obtain ⟨l6, h6, hl6⟩ := RenderTarget.attribPointer_trace d.1.m_cache.texAttrib 2
    GLenum.GL_FLOAT false 12 w5
  have h4' : w4.gl.trace = w3.gl.trace ++ l4 := h4
  have h5' : w5.gl.trace = w4.gl.trace ++ l5 := h5
  have h6' : w6.gl.trace = w5.gl.trace ++ l6 := h6
  have h8f : w8.fixed = w.fixed := by
    simp only [w8, w7, w6, w5, w4, w3, w2]
    split_ifs <;> simp [hdf]
  have h8 : w8.gl.trace = w6.gl.trace ++
      [GLCall.glDrawArrays (RenderTarget.modes vb.getPrimitiveType) (toInt32 first)
          (toInt32 ((min count (vb.getVertexCount - first) : Nat) : Int)),
        GLCall.VertexBuffer_bind none] := by
    simp only [w8, w7, RenderTarget.drawPrimitives, World.call_trace, cnt]
    simp
  have h9 : w9.gl.trace = w8.gl.trace ++
      (if w.config.openglES then [] else [GLCall.glBindVertexArray 0]) := by
    have hc : w8.config = w.config := World.config_of_fixed _ _ h8f
    simp only [w9, hc]
    cases w.config.openglES <;> simp [World.call_trace]
  have hct : c.2.gl.trace = _ := RenderTarget.cleanupDraw_trace d.1 states w9
  have hcg := RenderTarget.cleanupDraw_target d.1 states w9
  have hc1 : c.1 = _ := hcg.1
  have hc2 : c.2.gl.currentProgram = _ := hcg.2
  refine ⟨g.2.1, w1, e, gs, d.1.m_cache.texAttrib.toNat % 2 ^ 32, l3, l4 ++ l5 ++ l6, hact,
    hrt0', hw1.1, hw1.2, hl3, ?_, ?_, ?_, ?_⟩
  · intro c hc
    simp only [List.mem_append] at hc
    rcases hc with (hc | hc) | hc
    · exact hl4 c hc
    · exact hl5 c hc
    · exact hl6 c hc
  · rw [← hr, ← hd]
    show c.2.gl.trace = _
    rw [hct, h9, h8, h6', h5', h4', h3, h2]
    simp only [List.append_assoc]
  · intro hsh
    rw [← hr]
    show c.2.gl.currentProgram = _
    rw [hc2, hsh]
    rfl
  · rw [← hr, ← hd]
    simp only [src1, src0]
    rw [hc1]

/-! ## After the primitive draw call -/

/-- C18: after a draw that reaches the pipeline (non-empty vertex data, from a vertex array
or from a vertex buffer), the calls issued end with the primitive draw call, the unbinding
of the vertex-storage object (and of the vertex-layout object outside OpenGL ES), and then
the calls of `cleanupDraw`: the null program is bound if `states.shader` was supplied, the
texture is unbound if it was a render-target attachment, the color write mask is restored
if it had been zeroed. Afterwards `cache.enable` is true; if a shader was supplied the
program in use is the null program; if the texture was a render-target attachment
`cache.lastTextureId` is 0. -/
theorem draw_cleanup (rt : RenderTarget) (vs : List Vertex) (n : Nat) (type : PrimitiveType)
    (states : RenderStates) (w : World) (hn : n ≠ 0) :
    ((∃ before,
      (rt.draw (some vs) n type states w).2.gl.trace
        = w.gl.trace ++ before ++
          [GLCall.glDrawArrays (RenderTarget.modes type) 0 (toInt32 n),
           GLCall.glBindBuffer GLenum.GL_ARRAY_BUFFER 0] ++
          (if w.config.openglES then [] else [GLCall.glBindVertexArray 0]) ++
          ((if states.shader.isSome then [GLCall.glUseProgram 0] else []) ++
           (if RenderTarget.isFboAttachment states.texture then
              [GLCall.Texture_bind none CoordinateType.Pixels]
            else []) ++
           (if states.stencilMode.stencilOnly then [GLCall.glColorMask true true true true]
            else []))) ∧
    (rt.draw (some vs) n type states w).1.m_cache.enable = true ∧
    (states.shader.isSome = true →
      (rt.draw (some vs) n type states w).2.gl.currentProgram = 0) ∧
    (RenderTarget.isFboAttachment states.texture = true →
      (rt.draw (some vs) n type states w).1.m_cache.lastTextureId = 0)) ∧
    (∀ (vb : VertexBuffer) (first count : Nat),
      w.config.vertexBufferAvailable = true → first ≤ vb.getVertexCount →
      min count (vb.getVertexCount - first) ≠ 0 → vb.getNativeHandle ≠ 0 →
      (∃ before,
        (rt.drawVertexBuffer vb first count states w).2.gl.trace
          = w.gl.trace ++ before ++
            [GLCall.glDrawArrays (RenderTarget.modes vb.getPrimitiveType) (toInt32 first)
               (toInt32 ((min count (vb.getVertexCount - first) : Nat) : Int)),
             GLCall.VertexBuffer_bind none] ++
            (if w.config.openglES then [] else [GLCall.glBindVertexArray 0]) ++
            ((if states.shader.isSome then [GLCall.glUseProgram 0] else []) ++
             (if RenderTarget.isFboAttachment states.texture then
                [GLCall.Texture_bind none CoordinateType.Pixels]
              else []) ++
             (if states.stencilMode.stencilOnly then [GLCall.glColorMask true true true true]
              else []))) ∧
      (rt.drawVertexBuffer vb first count states w).1.m_cache.enable = true ∧
      (states.shader.isSome = true →
        (rt.drawVertexBuffer vb first count states w).2.gl.currentProgram = 0) ∧
      (RenderTarget.isFboAttachment states.texture = true →
        (rt.drawVertexBuffer vb first count states w).1.m_cache.lastTextureId = 0)) := by
  constructor
  · obtain ⟨rt1, w1, e, g, buf, G, AP, -, -, hw1, -, -, -, ht, hp, hr⟩ :=
      RenderTarget.draw_stages rt vs n type states w hn
    refine ⟨?_, ?_, hp, ?_⟩
    · obtain ⟨i, hi⟩ := RenderTarget.setupDraw_trace_mono rt1
        (decide (n ≤ rt.m_cache.vertexCache.length)) states w1 w1.gl.trace (List.prefix_refl _)
      refine ⟨(if w.config.openglES then [] else
        [GLCall.glBindVertexArray rt.m_cache.defaultArray])
        ++ i ++ G ++ [GLCall.glBindBuffer GLenum.GL_ARRAY_BUFFER buf,
          GLCall.glBufferData GLenum.GL_ARRAY_BUFFER ((RenderTarget.sizeofVertex * n) % 2 ^ 64)
            ((if n ≤ rt.m_cache.vertexCache.length then
                (rt1.setupDraw (decide (n ≤ rt.m_cache.vertexCache.length)) states
                  w1).1.m_cache.vertexCache
              else vs).take n)
            GLenum.GL_DYNAMIC_DRAW] ++ AP, ?_⟩
      rw [ht, ← hi, hw1]
      simp only [List.append_assoc]
    · rw [hr]
    · intro hf
      rw [hr]
      simp [hf]
  · intro vb first count hav hfirst hcount hhandle
    obtain ⟨rt1, w1, e, g, loc, EA, AP, -, -, hw1, -, -, -, ht, hp, hr⟩ :=
      RenderTarget.drawVertexBuffer_stages rt vb first count states w hav hfirst hcount hhandle
    refine ⟨?_, ?_, hp, ?_⟩
    · obtain ⟨i, hi⟩ := RenderTarget.setupDraw_trace_mono rt1 false states w1 w1.gl.trace
        (List.prefix_refl _)
      refine ⟨(if w.config.openglES then [] else
        [GLCall.glBindVertexArray rt.m_cache.defaultArray])
        ++ i ++ [GLCall.VertexBuffer_bind (some vb.getNativeHandle)] ++ EA ++ AP, ?_⟩
      rw [ht, ← hi, hw1]
      simp only [List.append_assoc]
    · rw [hr]
    · intro hf
      rw [hr]
      simp [hf]

/-- Witness of C18: the sample quad, from a vertex array and from the sample vertex buffer,
drawn with the attachment texture through the caller's shader at address 3. -/
theorem draw_cleanup_witness :
    (4 ≠ 0) ∧
    ((∃ before,
      (steadyTarget.draw (some sampleQuad) 4 PrimitiveType.TriangleStrip attachmentStates
          activeWorld).2.gl.trace
        = activeWorld.gl.trace ++ before ++
          [GLCall.glDrawArrays GLenum.GL_TRIANGLE_STRIP 0 4,
           GLCall.glBindBuffer GLenum.GL_ARRAY_BUFFER 0,
           GLCall.glUseProgram 0,
           GLCall.Texture_bind none CoordinateType.Pixels]) ∧
    (steadyTarget.draw (some sampleQuad) 4 PrimitiveType.TriangleStrip attachmentStates
      activeWorld).1.m_cache.enable = true ∧
    (steadyTarget.draw (some sampleQuad) 4 PrimitiveType.TriangleStrip attachmentStates
      activeWorld).2.gl.currentProgram = 0 ∧
    (steadyTarget.draw (some sampleQuad) 4 PrimitiveType.TriangleStrip attachmentStates
      activeWorld).1.m_cache.lastTextureId = 0) ∧
    ((∃ before,
      (steadyTarget.drawVertexBuffer sampleBuffer 1 10 attachmentStates
          activeWorld).2.gl.trace
        = activeWorld.gl.trace ++ before ++
          [GLCall.glDrawArrays GLenum.GL_TRIANGLE_STRIP 1 3,
           GLCall.VertexBuffer_bind none,
           GLCall.glUseProgram 0,
           GLCall.Texture_bind none CoordinateType.Pixels]) ∧
    (steadyTarget.drawVertexBuffer sampleBuffer 1 10 attachmentStates
      activeWorld).1.m_cache.enable = true ∧
    (steadyTarget.drawVertexBuffer sampleBuffer 1 10 attachmentStates
      activeWorld).2.gl.currentProgram = 0 ∧
    (steadyTarget.drawVertexBuffer sampleBuffer 1 10 attachmentStates
      activeWorld).1.m_cache.lastTextureId = 0) := by
  obtain ⟨⟨⟨before, hb⟩, h1, h2, h3⟩, hvb⟩ :=
    draw_cleanup steadyTarget sampleQuad 4 PrimitiveType.TriangleStrip attachmentStates
      activeWorld (by decide)
  obtain ⟨⟨before2, hb2⟩, k1, k2, k3⟩ := hvb sampleBuffer 1 10 rfl (by decide) (by decide)
    (by decide)
  have e1 : activeWorld.config.openglES = true := rfl
  have e2 : attachmentStates.shader.isSome = true := rfl
  have e3 : RenderTarget.isFboAttachment attachmentStates.texture = true := rfl
  have e4 : attachmentStates.stencilMode.stencilOnly = false := rfl
  refine ⟨by decide, ⟨⟨before, ?_⟩, h1, h2 rfl, h3 rfl⟩, ⟨⟨before2, ?_⟩, k1, k2 rfl, k3 rfl⟩⟩
  · rw [hb, e1, e2, e3, e4]
    simp [RenderTarget.modes, toInt32]
  · have e5 : ((min 10 (sampleBuffer.getVertexCount - 1) : Nat) : Int) = 3 := by decide
    rw [hb2, e1, e2, e3, e4, e5]
    simp [RenderTarget.modes, toInt32, sampleBuffer, VertexBuffer.getPrimitiveType]

/-! ## The color write mask around a draw -/

/-- C14: for a draw of non-empty vertex data, from a vertex array or from a vertex
buffer, whose stencil mode has `stencilOnly` set, the color-mask and primitive draw calls
issued end with the color-mask call with all channels false, the primitive draw call, and
the color-mask call with all channels true, in this order and with no other color-mask
call in between; so the last color-mask call issued has all channels true. A draw whose
stencil mode has not `stencilOnly` set issues no color-mask call that masks a channel
off. Hence whenever a draw returns, the color write mask is all-true if it was before or
was set during the draw. -/
theorem draw_stencilOnly_color_mask (rt : RenderTarget) (vs : List Vertex) (n : Nat)
    (type : PrimitiveType) (states : RenderStates) (w : World) (hn : n ≠ 0) :
    (∃ issued,
      (rt.draw (some vs) n type states w).2.gl.trace = w.gl.trace ++ issued ∧
      (states.stencilMode.stencilOnly = true →
        (∃ pre, issued.filter GLCall.isColorMaskOrDraw
          = pre ++ [GLCall.glColorMask false false false false,
              GLCall.glDrawArrays (RenderTarget.modes type) 0 (toInt32 n),
              GLCall.glColorMask true true true true]) ∧
        (issued.filter GLCall.isColorMask).getLast?
          = some (GLCall.glColorMask true true true true)) ∧
      (states.stencilMode.stencilOnly = false → issued.filter GLCall.isColorMaskOff = [])) ∧
    (∀ (vb : VertexBuffer) (first count : Nat),
      w.config.vertexBufferAvailable = true → first ≤ vb.getVertexCount →
      min count (vb.getVertexCount - first) ≠ 0 → vb.getNativeHandle ≠ 0 →
      ∃ issued,
        (rt.drawVertexBuffer vb first count states w).2.gl.trace = w.gl.trace ++ issued ∧
        (states.stencilMode.stencilOnly = true →
          (∃ pre, issued.filter GLCall.isColorMaskOrDraw
            = pre ++ [GLCall.glColorMask false false false false,
                GLCall.glDrawArrays (RenderTarget.modes vb.getPrimitiveType) (toInt32 first)
                  (toInt32 ((min count (vb.getVertexCount - first) : Nat) : Int)),
                GLCall.glColorMask true true true true]) ∧
          (issued.filter GLCall.isColorMask).getLast?
            = some (GLCall.glColorMask true true true true)) ∧
        (states.stencilMode.stencilOnly = false →
          issued.filter GLCall.isColorMaskOff = [])) := by
  constructor
  · obtain ⟨issued, hi⟩ := RenderTarget.draw_trace_mono rt (some vs) n type states w w.gl.trace
      (List.prefix_refl _)
    obtain ⟨rt1, w1, e, g, buf, G, AP, -, -, hw1, -, hG, hAP, ht, -, -⟩ :=
      RenderTarget.draw_stages rt vs n type states w hn
    refine ⟨issued, hi.symm, ?_, ?_⟩
    · intro hso
      obtain ⟨pre, hpre⟩ := RenderTarget.setupDraw_sel_colorMask rt1
        (decide (n ≤ rt.m_cache.vertexCache.length)) states w1 hso
      have hGf : G.filter GLCall.isColorMaskOrDraw = [] := by
        rcases hG with h | h <;> rw [h] <;> simp [GLCall.isColorMaskOrDraw]
      have hAPf : AP.filter GLCall.isColorMaskOrDraw = [] :=
        GLCall.Avoids.filter_eq_nil _ GLCall.isAttribPointer _ hAP
      have hsel := World.sel_of_issued GLCall.isColorMaskOrDraw _ _ _ ht
      rw [hpre, World.sel_of_issued GLCall.isColorMaskOrDraw _ _ _ hw1,
        World.sel_of_issued GLCall.isColorMaskOrDraw _ _ _ hi.symm] at hsel
      simp only [List.filter_append, hGf, hAPf, hso, List.append_assoc] at hsel
      have hfin : issued.filter GLCall.isColorMaskOrDraw
          = ((if w.config.openglES then [] else
                [GLCall.glBindVertexArray rt.m_cache.defaultArray]).filter
              GLCall.isColorMaskOrDraw ++ pre) ++
            [GLCall.glColorMask false false false false,
              GLCall.glDrawArrays (RenderTarget.modes type) 0 (toInt32 n),
              GLCall.glColorMask true true true true] := by
        have := List.append_cancel_left hsel
        rw [this]
        cases w.config.openglES <;> cases states.shader.isSome <;>
          cases RenderTarget.isFboAttachment states.texture <;>
          simp [GLCall.isColorMaskOrDraw]
      refine ⟨⟨_, hfin⟩, ?_⟩
      rw [List.filter_colorMask_of_filter, hfin]
      simp [List.filter_append, GLCall.isColorMask, List.getLast?_append]
    · intro hso
      have hf := RenderTarget.setupDraw_sel_frame GLCall.isColorMaskOff rt1
        (decide (n ≤ rt.m_cache.vertexCache.length)) states w1 (fun _ _ _ _ => rfl)
        (fun _ _ _ => rfl) (fun _ _ _ => rfl) (fun h => by rw [hso] at h; cases h)
      have hGf : G.filter GLCall.isColorMaskOff = [] := by
        rcases hG with h | h <;> rw [h] <;> simp [GLCall.isColorMaskOff]
      have hAPf : AP.filter GLCall.isColorMaskOff = [] :=
        GLCall.Avoids.filter_eq_nil _ GLCall.isAttribPointer _ hAP
      have hsel := World.sel_of_issued GLCall.isColorMaskOff _ _ _ ht
      rw [hf, World.sel_of_issued GLCall.isColorMaskOff _ _ _ hw1,
        World.sel_of_issued GLCall.isColorMaskOff _ _ _ hi.symm] at hsel
      simp only [List.filter_append, hGf, hAPf, hso, List.append_assoc] at hsel
      have := List.append_cancel_left hsel
      rw [this]
      cases w.config.openglES <;> cases states.shader.isSome <;>
        cases RenderTarget.isFboAttachment states.texture <;>
        simp [GLCall.isColorMaskOff]
  · intro vb first count hav hfirst hcount hhandle
    obtain ⟨issued, hi⟩ := RenderTarget.drawVertexBuffer_trace_mono rt vb first count states w
      w.gl.trace (List.prefix_refl _)
    obtain ⟨rt1, w1, e, g, loc, EA, AP, -, -, hw1, -, hEA, hAP, ht, -, -⟩ :=
      RenderTarget.drawVertexBuffer_stages rt vb first count states w hav hfirst hcount hhandle
    refine ⟨issued, hi.symm, ?_, ?_⟩
    · intro hso
      obtain ⟨pre, hpre⟩ := RenderTarget.setupDraw_sel_colorMask rt1 false states w1 hso
      have hEAf : EA.filter GLCall.isColorMaskOrDraw = [] := by
        rcases hEA with h | h <;> rw [h] <;> simp [GLCall.isColorMaskOrDraw]
      have hAPf : AP.filter GLCall.isColorMaskOrDraw = [] :=
        GLCall.Avoids.filter_eq_nil _ GLCall.isAttribPointer _ hAP
      have hsel := World.sel_of_issued GLCall.isColorMaskOrDraw _ _ _ ht
      rw [hpre, World.sel_of_issued GLCall.isColorMaskOrDraw _ _ _ hw1,
        World.sel_of_issued GLCall.isColorMaskOrDraw _ _ _ hi.symm] at hsel
      simp only [List.filter_append, hEAf, hAPf, hso, List.append_assoc] at hsel
      have hfin : issued.filter GLCall.isColorMaskOrDraw
          = ((if w.config.openglES then [] else
                [GLCall.glBindVertexArray rt.m_cache.defaultArray]).filter
              GLCall.isColorMaskOrDraw ++ pre) ++
            [GLCall.glColorMask false false false false,
              GLCall.glDrawArrays (RenderTarget.modes vb.getPrimitiveType) (toInt32 first)
                (toInt32 ((min count (vb.getVertexCount - first) : Nat) : Int)),
              GLCall.glColorMask true true true true] := by
        have := List.append_cancel_left hsel
        rw [this]
        cases w.config.openglES <;> cases states.shader.isSome <;>
          cases RenderTarget.isFboAttachment states.texture <;>
          simp [GLCall.isColorMaskOrDraw]
      refine ⟨⟨_, hfin⟩, ?_⟩
      rw [List.filter_colorMask_of_filter, hfin]
      simp [List.filter_append, GLCall.isColorMask, List.getLast?_append]
    · intro hso
      have hf := RenderTarget.setupDraw_sel_frame GLCall.isColorMaskOff rt1 false states w1
        (fun _ _ _ _ => rfl) (fun _ _ _ => rfl) (fun _ _ _ => rfl)
        (fun h => by rw [hso] at h; cases h)
      have hEAf : EA.filter GLCall.isColorMaskOff = [] := by
        rcases hEA with h | h <;> rw [h] <;> simp [GLCall.isColorMaskOff]
      have hAPf : AP.filter GLCall.isColorMaskOff = [] :=
        GLCall.Avoids.filter_eq_nil _ GLCall.isAttribPointer _ hAP
      have hsel := World.sel_of_issued GLCall.isColorMaskOff _ _ _ ht
      rw [hf, World.sel_of_issued GLCall.isColorMaskOff _ _ _ hw1,
        World.sel_of_issued GLCall.isColorMaskOff _ _ _ hi.symm] at hsel
      simp only [List.filter_append, hEAf, hAPf, hso, List.append_assoc] at hsel
      have := List.append_cancel_left hsel
      rw [this]
      cases w.config.openglES <;> cases states.shader.isSome <;>
        cases RenderTarget.isFboAttachment states.texture <;>
        simp [GLCall.isColorMaskOff]

/-- Witness of C14: the sample quad, from a vertex array and from the sample vertex buffer,
drawn to the stencil buffer only. -/
theorem draw_stencilOnly_color_mask_witness :
    4 ≠ 0 ∧
    (∃ issued,
      (steadyTarget.draw (some sampleQuad) 4 PrimitiveType.TriangleStrip
          { RenderStates.Default with stencilMode := stencilReplaceOnly }
          activeWorld).2.gl.trace = activeWorld.gl.trace ++ issued ∧
      (∃ pre, issued.filter GLCall.isColorMaskOrDraw
        = pre ++ [GLCall.glColorMask false false false false,
            GLCall.glDrawArrays GLenum.GL_TRIANGLE_STRIP 0 4,
            GLCall.glColorMask true true true true]) ∧
      (issued.filter GLCall.isColorMask).getLast?
        = some (GLCall.glColorMask true true true true)) ∧
    (∃ issued,
      (steadyTarget.drawVertexBuffer sampleBuffer 1 10
          { RenderStates.Default with stencilMode := stencilReplaceOnly }
          activeWorld).2.gl.trace = activeWorld.gl.trace ++ issued ∧
      (∃ pre, issued.filter GLCall.isColorMaskOrDraw
        = pre ++ [GLCall.glColorMask false false false false,
            GLCall.glDrawArrays GLenum.GL_TRIANGLE_STRIP 1 3,
            GLCall.glColorMask true true true true]) ∧
      (issued.filter GLCall.isColorMask).getLast?
        = some (GLCall.glColorMask true true true true)) := by
  obtain ⟨⟨issued, h1, h2, -⟩, hvb⟩ := draw_stencilOnly_color_mask steadyTarget sampleQuad 4
    PrimitiveType.TriangleStrip { RenderStates.Default with stencilMode := stencilReplaceOnly }
    activeWorld (by decide)
  obtain ⟨issued2, k1, k2, -⟩ := hvb sampleBuffer 1 10 rfl (by decide) (by decide) (by decide)
  exact ⟨by decide, ⟨issued, h1, (h2 rfl).1, (h2 rfl).2⟩, ⟨issued2, k1, (k2 rfl).1, (k2 rfl).2⟩⟩

/-! ## Compiling a shader program -/

/-- What `createAndAttachShader` does: the stage object gets the next object name; its
calls end with attaching and deleting it, or, when the driver rejects the stage, with
deleting it and the program. -/
theorem Shader.createAndAttachShader_result (program : Nat) (type : GLenum)
    (typeStr code : String) (w : World) :
    (Shader.createAndAttachShader program type typeStr code w).1
      = w.env.compileStatus w.gl.nextHandle ∧
    (Shader.createAndAttachShader program type typeStr code w).2.gl.trace
      = w.gl.trace ++
        Shader.stageCalls program w.gl.nextHandle type code
          (w.env.compileStatus w.gl.nextHandle) ∧
    (Shader.createAndAttachShader program type typeStr code w).2.gl.nextHandle
      = w.gl.nextHandle + 1 ∧
    (Shader.createAndAttachShader program type typeStr code w).2.env = w.env := by
  unfold Shader.createAndAttachShader Shader.stageCalls
  cases h : w.env.compileStatus w.gl.nextHandle <;>
    simp [h, World.call, World.err, World.freshHandle, Driver.call]

/-- One optional stage of `compile`. -/
theorem Shader.optionalStage_result (present : Bool) (program : Nat) (type : GLenum)
    (typeStr code : String) (w : World) :
    (if present then Shader.createAndAttachShader program type typeStr code w
      else (true, w)).1
      = (Shader.stagesRun w.env program w.gl.nextHandle
          (if present then [(type, typeStr, code)] else [])).2 ∧
    (if present then Shader.createAndAttachShader program type typeStr code w
      else (true, w)).2.gl.trace
      = w.gl.trace ++ (Shader.stagesRun w.env program w.gl.nextHandle
          (if present then [(type, typeStr, code)] else [])).1 ∧
    (if present then Shader.createAndAttachShader program type typeStr code w
      else (true, w)).2.gl.nextHandle
      = w.gl.nextHandle + (if present then 1 else 0) ∧
    (if present then Shader.createAndAttachShader program type typeStr code w
      else (true, w)).2.env = w.env := by
  obtain ⟨h1, h2, h3, h4⟩ := Shader.createAndAttachShader_result program type typeStr code w
  cases present
  · simp [Shader.stagesRun]
  · simp only [if_true, h1, h2, h3, h4, Shader.stagesRun]
    cases w.env.compileStatus w.gl.nextHandle <;> simp [Shader.stagesRun]

/-- Building stages one list after another. -/
theorem Shader.stagesRun_append (env : DriverEnv) (program : Nat)
    (a b : List (GLenum × String × String)) (shader : Nat) :
    Shader.stagesRun env program shader (a ++ b)
      = if (Shader.stagesRun env program shader a).2 then
          ((Shader.stagesRun env program shader a).1 ++
            (Shader.stagesRun env program (shader + a.length) b).1,
           (Shader.stagesRun env program (shader + a.length) b).2)
        else Shader.stagesRun env program shader a := by
  induction a generalizing shader with
  | nil => simp [Shader.stagesRun]
  | cons x rest ih =>
    obtain ⟨t, n, c⟩ := x
    simp only [List.cons_append, Shader.stagesRun, List.length_cons]
    cases hs : env.compileStatus shader
    · simp
    · simp only [if_true]
      have e : shader + 1 + rest.length = shader + (rest.length + 1) := by omega
      have ih' := ih (shader + 1)
      rw [e] at ih'
      show (_ ++ (Shader.stagesRun env program (shader + 1) (rest ++ b)).1,
        (Shader.stagesRun env program (shader + 1) (rest ++ b)).2) = _
      rw [ih']
      split_ifs <;> simp

/-- The run of `compile` past its two availability checks: the previous program is
deleted, the new program object gets the next object name, the stages are built one
after the other, and the program is linked when every stage was accepted. The object
keeps the new program only when linking succeeded; otherwise it is left without one. -/
theorem Shader.compile_run (s : Shader) (v g f : String) (w : World)
    (hgeo : g.isEmpty = true ∨ Shader.isGeometryAvailable w = true) :
    (Shader.compile s v g f w).2.2.gl.trace
      = w.gl.trace ++
        ((if s.m_shaderProgram ≠ 0 then [GLCall.glDeleteProgram s.m_shaderProgram] else []) ++
         [GLCall.glCreateProgram w.gl.nextHandle] ++
         (Shader.stagesRun w.env w.gl.nextHandle (w.gl.nextHandle + 1)
            (Shader.stagesOf w.config.openglES v g f)).1 ++
         (if (Shader.stagesRun w.env w.gl.nextHandle (w.gl.nextHandle + 1)
              (Shader.stagesOf w.config.openglES v g f)).2 = true then
            [GLCall.glLinkProgram w.gl.nextHandle,
             GLCall.glGetProgramiv w.gl.nextHandle GLenum.GL_LINK_STATUS] ++
            (if w.env.linkStatus w.gl.nextHandle = true then [GLCall.glFlush]
             else [GLCall.glGetProgramInfoLog w.gl.nextHandle,
               GLCall.glDeleteProgram w.gl.nextHandle])
          else [])) ∧
    (Shader.compile s v g f w).1
      = ((Shader.stagesRun w.env w.gl.nextHandle (w.gl.nextHandle + 1)
            (Shader.stagesOf w.config.openglES v g f)).2 &&
          w.env.linkStatus w.gl.nextHandle) ∧
    (Shader.compile s v g f w).2.1
      = (if (Shader.compile s v g f w).1 = true then ⟨w.gl.nextHandle, -1, [], []⟩
          else ⟨0, -1, [], []⟩) := by
  generalize hr : Shader.compile s v g f w = r
  unfold Shader.compile at hr
  have hg0 : (!g.isEmpty && !Shader.isGeometryAvailable w) = false := by
    rcases hgeo with h | h <;> simp [h]
  simp -zeta only [Shader.isAvailable, Bool.not_true, Bool.false_eq_true, if_false, hg0] at hr
  lift_lets at hr
  extract_lets w1 s1 shaderProgram w2 rv rg rf w3 w4 w5 w6 w7 s2 at hr
  have hp : shaderProgram = w.gl.nextHandle := by
    simp only [shaderProgram, w1]
    split_ifs <;> rfl
  have h2 : w2.gl.trace = w.gl.trace ++
      ((if s.m_shaderProgram ≠ 0 then [GLCall.glDeleteProgram s.m_shaderProgram] else []) ++
        [GLCall.glCreateProgram w.gl.nextHandle]) ∧
      w2.gl.nextHandle = w.gl.nextHandle + 1 ∧ w2.env = w.env := by
    simp only [w2, hp, w1]
    split_ifs <;> simp [World.call, World.freshHandle, Driver.call]
  clear_value w2 shaderProgram w1
  subst hp
  obtain ⟨h2t, h2n, h2e⟩ := h2
  obtain ⟨v1, v2, v3, v4⟩ := Shader.optionalStage_result (!v.isEmpty) w.gl.nextHandle
    GLenum.GL_VERTEX_SHADER "vertex" v w2
  simp only [h2n, h2e] at v1 v2 v3 v4
  have hv1 : rv.1 = _ := v1
  have hv2 : rv.2.gl.trace = _ := v2
  have hv3 : rv.2.gl.nextHandle = _ := v3
  have hv4 : rv.2.env = _ := v4
  clear_value rv
  obtain ⟨g1, g2, g3, g4⟩ := Shader.optionalStage_result (!w.config.openglES && !g.isEmpty)
    w.gl.nextHandle GLenum.GL_GEOMETRY_SHADER "geometry" g rv.2
  simp only [hv3, hv4] at g1 g2 g3 g4
  have hg1 : rg.1 = _ := g1
  have hg2 : rg.2.gl.trace = _ := g2
  have hg3 : rg.2.gl.nextHandle = _ := g3
  have hg4 : rg.2.env = _ := g4
  clear_value rg
  obtain ⟨f1, f2, f3, f4⟩ := Shader.optionalStage_result (!f.isEmpty) w.gl.nextHandle
    GLenum.GL_FRAGMENT_SHADER "fragment" f rg.2
  simp only [hg3, hg4] at f1 f2 f3 f4
  have hf1 : rf.1 = _ := f1
  have hf2 : rf.2.gl.trace = _ := f2
  have hf4 : rf.2.env = _ := f4
  clear_value rf
  have h4e : w4.env = w.env := by simp only [w4, w3]; exact hf4
  have h4t : w4.gl.trace = rf.2.gl.trace ++
      [GLCall.glLinkProgram w.gl.nextHandle,
        GLCall.glGetProgramiv w.gl.nextHandle GLenum.GL_LINK_STATUS] := by
    simp [w4, w3, World.call_trace]
  have h6t : (World.call (GLCall.glDeleteProgram w.gl.nextHandle) w6).gl.trace
      = w4.gl.trace ++ [GLCall.glGetProgramInfoLog w.gl.nextHandle,
          GLCall.glDeleteProgram w.gl.nextHandle] := by
    simp [w6, w5, World.call_trace, World.err]
  have h7t : (World.call GLCall.glFlush w7).gl.trace = w4.gl.trace ++ [GLCall.glFlush] := by
    simp [w7, s1, World.call_trace]
  clear_value w3 w5 w6 w7
  -- the three stages as one list
  have hlen1 : (if (!v.isEmpty) = true then
      [(GLenum.GL_VERTEX_SHADER, "vertex", v)] else []).length
        = if (!v.isEmpty) = true then 1 else 0 := by split_ifs <;> rfl
  have hlen2 : (if (!w.config.openglES && !g.isEmpty) = true then
      [(GLenum.GL_GEOMETRY_SHADER, "geometry", g)] else []).length
        = if (!w.config.openglES && !g.isEmpty) = true then 1 else 0 := by split_ifs <;> rfl
  unfold Shader.stagesOf
  rw [Shader.stagesRun_append, Shader.stagesRun_append, hlen1, List.length_append, hlen1,
    hlen2, ← Nat.add_assoc]
  rw [← hr, h4e]
  cases hrv : rv.1
  · rw [hrv] at hv1
    simp only [Bool.not_false, if_true, ← hv1, Bool.false_eq_true, if_false, Bool.false_and]
    exact ⟨by rw [hv2, h2t, List.append_assoc, List.append_nil], trivial, trivial⟩
  · rw [hrv] at hv1
    cases hrg : rg.1
    · rw [hrg] at hg1
      simp only [Bool.not_true, Bool.false_eq_true, if_false, Bool.not_false, if_true, ← hv1,
        ← hg1, Bool.false_and]
      refine ⟨?_, trivial, trivial⟩
      rw [hg2, hv2, h2t]
      simp only [List.append_assoc, List.append_nil]
    · rw [hrg] at hg1
      cases hrf : rf.1
      · rw [hrf] at hf1
        simp only [Bool.not_true, Bool.false_eq_true, if_false, Bool.not_false, if_true, ← hv1,
          ← hg1, ← hf1, Bool.false_and]
        refine ⟨?_, trivial, trivial⟩
        rw [hf2, hg2, hv2, h2t]
        simp only [List.append_assoc, List.append_nil]
      · rw [hrf] at hf1
        cases hl : w.env.linkStatus w.gl.nextHandle
        · simp only [Bool.not_true, Bool.false_eq_true, if_false, if_true, ← hv1, ← hg1, ← hf1,
            Bool.and_false]
          refine ⟨?_, trivial, trivial⟩
          rw [h6t, h4t, hf2, hg2, hv2, h2t]
          simp only [List.append_assoc]
        · simp only [Bool.not_true, Bool.false_eq_true, if_false, if_true, ← hv1, ← hg1, ← hf1,
            Bool.and_true, Bool.true_eq_false]
          refine ⟨?_, trivial, trivial⟩
          rw [h7t, h4t, hf2, hg2, hv2, h2t]
          simp only [List.append_assoc]

/-- Program deletions while building stages: none when every stage is accepted, that of
the program under construction when one is rejected. -/
theorem Shader.stagesRun_deleteProgram (env : DriverEnv) (program : Nat)
    (stages : List (GLenum × String × String)) (shader : Nat) :
    (Shader.stagesRun env program shader stages).1.filter GLCall.isDeleteProgram
      = if (Shader.stagesRun env program shader stages).2 = true then []
        else [GLCall.glDeleteProgram program] := by
  induction stages generalizing shader with
  | nil => simp [Shader.stagesRun]
  | cons x rest ih =>
    obtain ⟨t, n, c⟩ := x
    simp only [Shader.stagesRun]
    by_cases hs : env.compileStatus shader = true
    · simp only [hs, if_true, List.filter_append, ih (shader + 1)]
      simp [Shader.stageCalls, GLCall.isDeleteProgram]
    · simp only [hs, if_false]
      simp [Shader.stageCalls, GLCall.isDeleteProgram]

/-- Stage objects created while building stages are deleted, each right after its
creation, whether accepted or not. -/
theorem Shader.stagesRun_createOrDelete (env : DriverEnv) (program : Nat)
    (stages : List (GLenum × String × String)) (shader : Nat) :
    ∃ k, k ≤ stages.length ∧
      ((Shader.stagesRun env program shader stages).2 = true → k = stages.length) ∧
      (Shader.stagesRun env program shader stages).1.filter GLCall.isStageCreateOrDelete
        = Shader.createdAndDeleted shader ((stages.take k).map (fun e => e.1)) := by
  induction stages generalizing shader with
  | nil => exact ⟨0, by simp, by simp, by simp [Shader.stagesRun, Shader.createdAndDeleted]⟩
  | cons x rest ih =>
    obtain ⟨t, n, c⟩ := x
    simp only [Shader.stagesRun]
    by_cases hs : env.compileStatus shader = true
    · obtain ⟨k, hk, hall, hf⟩ := ih (shader + 1)
      refine ⟨k + 1, by simp [hk], ?_, ?_⟩
      · intro h
        simp only [hs, if_true] at h
        simp [hall h]
      · simp only [hs, if_true, List.filter_append, hf]
        simp [Shader.stageCalls, GLCall.isStageCreateOrDelete, Shader.createdAndDeleted]
    · refine ⟨1, by simp, by simp [hs], ?_⟩
      simp only [hs, if_false]
      simp [Shader.stageCalls, GLCall.isStageCreateOrDelete, Shader.createdAndDeleted]

/-- When every stage is accepted, each stage object is created, attached and deleted,
one after the other. -/
theorem Shader.stagesRun_lifetime (env : DriverEnv) (program : Nat)
    (stages : List (GLenum × String × String)) (shader : Nat)
    (h : (Shader.stagesRun env program shader stages).2 = true) :
    (Shader.stagesRun env program shader stages).1.filter GLCall.isStageLifetime
      = Shader.attachedAndDeleted program shader (stages.map (fun e => e.1)) := by
  induction stages generalizing shader with
  | nil => simp [Shader.stagesRun, Shader.attachedAndDeleted]
  | cons x rest ih =>
    obtain ⟨t, n, c⟩ := x
    simp only [Shader.stagesRun] at h ⊢
    by_cases hs : env.compileStatus shader = true
    · simp only [hs, if_true] at h
      simp only [hs, if_true, List.filter_append, ih (shader + 1) h]
      simp [Shader.stageCalls, GLCall.isStageLifetime, Shader.attachedAndDeleted]
    · simp [hs] at h

theorem Shader.stagesRun_ne_nil (env : DriverEnv) (program : Nat)
    (stages : List (GLenum × String × String)) (shader : Nat)
    (h : (Shader.stagesRun env program shader stages).2 = false) :
    (Shader.stagesRun env program shader stages).1 ≠ [] := by
  induction stages generalizing shader with
  | nil => simp [Shader.stagesRun] at h
  | cons x rest ih =>
    obtain ⟨t, n, c⟩ := x
    simp only [Shader.stagesRun]
    by_cases hs : env.compileStatus shader = true <;> simp [hs, Shader.stageCalls]

/-- A successful `compile` passed the geometry check. -/
theorem Shader.compile_passed (s : Shader) (v g f : String) (w : World)
    (h : (Shader.compile s v g f w).1 = true) :
    g.isEmpty = true ∨ Shader.isGeometryAvailable w = true := by
  by_contra hc
  simp only [not_or, Bool.not_eq_true] at hc
  unfold Shader.compile at h
  simp [Shader.isAvailable, hc.1, hc.2] at h

/-! ### A failed compilation -/

/-- C21 (amended): when `compile` fails after its availability checks, because a stage
is rejected or the program does not link, the program the object held before has been
deleted, by the first call issued, and the object no longer stores its handle: it is left
with handle 0, current-texture location -1 and empty uniform and texture tables. -/
theorem compile_failure_drops_program (s : Shader) (v g f : String) (w : World)
    (hgeo : g.isEmpty = true ∨ Shader.isGeometryAvailable w = true)
    (hfail : (Shader.compile s v g f w).1 = false) (hold : s.m_shaderProgram ≠ 0) :
    (Shader.compile s v g f w).2.1 = ⟨0, -1, [], []⟩ ∧
    ∃ rest, (Shader.compile s v g f w).2.2.gl.trace
      = w.gl.trace ++ [GLCall.glDeleteProgram s.m_shaderProgram] ++ rest := by
  obtain ⟨ht, -, hs⟩ := Shader.compile_run s v g f w hgeo
  refine ⟨by rw [hs, hfail]; rfl, ?_⟩
  rw [ht, if_pos hold]
  simp only [List.append_assoc]
  exact ⟨_, rfl⟩

/-- Witness of C21 (amended): the object holding the linked program 5, recompiled on a
driver that rejects every stage. -/
theorem compile_failure_drops_program_witness :
    ("".isEmpty = true ∨
      Shader.isGeometryAvailable { sampleWorld with env := rejectingEnv } = true) ∧
    (Shader.compile linkedShader "v" "" "f" { sampleWorld with env := rejectingEnv }).1
      = false ∧
    linkedShader.m_shaderProgram ≠ 0 ∧
    (Shader.compile linkedShader "v" "" "f" { sampleWorld with env := rejectingEnv }).2.1
      = ⟨0, -1, [], []⟩ ∧
    ∃ rest,
      (Shader.compile linkedShader "v" "" "f"
          { sampleWorld with env := rejectingEnv }).2.2.gl.trace
        = ({ sampleWorld with env := rejectingEnv } : World).gl.trace ++
          [GLCall.glDeleteProgram linkedShader.m_shaderProgram] ++ rest :=
  ⟨Or.inl rfl, by decide, by decide,
    compile_failure_drops_program linkedShader "v" "" "f"
      { sampleWorld with env := rejectingEnv } (Or.inl rfl) (by decide) (by decide)⟩

/-- Counterexample to C21 as stated: the object holds the linked program 5; recompiling it with a
vertex source the driver rejects returns false, deletes program 5 first, and leaves the
object with handle 0 and empty tables. -/
theorem compile_failure_counterexample :
    linkedShader.m_shaderProgram = 5 ∧
    (Shader.compile linkedShader "v" "" "f" { sampleWorld with env := rejectingEnv }).1
      = false ∧
    (Shader.compile linkedShader "v" "" "f" { sampleWorld with env := rejectingEnv }).2.1
      = ⟨0, -1, [], []⟩ ∧
    (Shader.compile linkedShader "v" "" "f"
        { sampleWorld with env := rejectingEnv }).2.2.gl.trace
      = [GLCall.glDeleteProgram 5, GLCall.glCreateProgram 1,
         GLCall.glCreateShader GLenum.GL_VERTEX_SHADER 2, GLCall.glShaderSource 2 "v",
         GLCall.glCompileShader 2, GLCall.glGetShaderiv 2 GLenum.GL_COMPILE_STATUS,
         GLCall.glGetShaderInfoLog 2, GLCall.glDeleteShader 2, GLCall.glDeleteProgram 1] := by
  refine ⟨rfl, by decide, by decide, ?_⟩
  rfl

/-- C22: whenever `compile` returns false after creating driver objects (a stage is
rejected, or the program does not link), the calls issued after the previous program was
released start with the creation of the program object, named by the next object name;
after it, exactly one program is deleted, that one, once; every stage object created (one
per stage reached, named consecutively after the program) is deleted right after its
creation, once; and the object is left with handle 0, which is not the name of the
deleted program when the driver hands out non-zero names. -/
theorem compile_failure_releases (s : Shader) (v g f : String) (w : World)
    (hgeo : g.isEmpty = true ∨ Shader.isGeometryAvailable w = true)
    (hfail : (Shader.compile s v g f w).1 = false) :
    (Shader.compile s v g f w).2.1.m_shaderProgram = 0 ∧
    (w.gl.nextHandle ≠ 0 →
      (Shader.compile s v g f w).2.1.m_shaderProgram ≠ w.gl.nextHandle) ∧
    ∃ rest k,
      (Shader.compile s v g f w).2.2.gl.trace
        = w.gl.trace ++
          (if s.m_shaderProgram ≠ 0 then [GLCall.glDeleteProgram s.m_shaderProgram] else []) ++
          [GLCall.glCreateProgram w.gl.nextHandle] ++ rest ∧
      rest.filter GLCall.isDeleteProgram = [GLCall.glDeleteProgram w.gl.nextHandle] ∧
      k ≤ (Shader.stagesOf w.config.openglES v g f).length ∧
      rest.filter GLCall.isStageCreateOrDelete
        = Shader.createdAndDeleted (w.gl.nextHandle + 1)
            (((Shader.stagesOf w.config.openglES v g f).take k).map (fun e => e.1)) := by
  obtain ⟨ht, h1, hs⟩ := Shader.compile_run s v g f w hgeo
  have h0 : (Shader.compile s v g f w).2.1.m_shaderProgram = 0 := by rw [hs, hfail]; rfl
  refine ⟨h0, fun hne => by rw [h0]; exact fun h => hne h.symm, ?_⟩
  obtain ⟨k, hk, -, hcd⟩ := Shader.stagesRun_createOrDelete w.env w.gl.nextHandle
    (Shader.stagesOf w.config.openglES v g f) (w.gl.nextHandle + 1)
  have hdp := Shader.stagesRun_deleteProgram w.env w.gl.nextHandle
    (Shader.stagesOf w.config.openglES v g f) (w.gl.nextHandle + 1)
  rw [hfail] at h1
  refine ⟨_, k, by rw [ht]; simp only [List.append_assoc]; rfl, ?_, hk, ?_⟩
  · rw [List.filter_append, hdp]
    by_cases hr : (Shader.stagesRun w.env w.gl.nextHandle (w.gl.nextHandle + 1)
        (Shader.stagesOf w.config.openglES v g f)).2 = true
    · rw [hr, Bool.true_and] at h1
      simp [hr, ← h1, GLCall.isDeleteProgram]
    · simp [hr]
  · rw [List.filter_append, hcd]
    split_ifs <;> simp [GLCall.isStageCreateOrDelete]

/-- Witness of C22: recompiling the sample shader with a driver that links no program. -/
theorem compile_failure_releases_witness :
    ("".isEmpty = true ∨
      Shader.isGeometryAvailable { sampleWorld with env := unlinkingEnv } = true) ∧
    (Shader.compile linkedShader "v" "" "f" { sampleWorld with env := unlinkingEnv }).1
      = false ∧
    (Shader.compile linkedShader "v" "" "f"
      { sampleWorld with env := unlinkingEnv }).2.1.m_shaderProgram = 0 ∧
    ∃ rest,
      (Shader.compile linkedShader "v" "" "f"
          { sampleWorld with env := unlinkingEnv }).2.2.gl.trace
        = [GLCall.glDeleteProgram 5, GLCall.glCreateProgram 1] ++ rest ∧
      rest.filter GLCall.isDeleteProgram = [GLCall.glDeleteProgram 1] ∧
      rest.filter GLCall.isStageCreateOrDelete
        = [GLCall.glCreateShader GLenum.GL_VERTEX_SHADER 2, GLCall.glDeleteShader 2,
           GLCall.glCreateShader GLenum.GL_FRAGMENT_SHADER 3, GLCall.glDeleteShader 3] := by
  obtain ⟨h0, -, rest, k, ht, hd, hk, hc⟩ :=
    compile_failure_releases linkedShader "v" "" "f" { sampleWorld with env := unlinkingEnv }
      (Or.inl rfl) (by decide)
  refine ⟨Or.inl rfl, by decide, h0, rest, ht, hd, ?_⟩
  have hlast : rest.filter GLCall.isStageCreateOrDelete
      = [GLCall.glCreateShader GLenum.GL_VERTEX_SHADER 2, GLCall.glDeleteShader 2,
         GLCall.glCreateShader GLenum.GL_FRAGMENT_SHADER 3, GLCall.glDeleteShader 3] := by
    have e : (Shader.compile linkedShader "v" "" "f"
        { sampleWorld with env := unlinkingEnv }).2.2.gl.trace
        = [GLCall.glDeleteProgram 5, GLCall.glCreateProgram 1] ++
          [GLCall.glCreateShader GLenum.GL_VERTEX_SHADER 2, GLCall.glShaderSource 2 "v",
           GLCall.glCompileShader 2, GLCall.glGetShaderiv 2 GLenum.GL_COMPILE_STATUS,
           GLCall.glAttachShader 1 2, GLCall.glDeleteShader 2,
           GLCall.glCreateShader GLenum.GL_FRAGMENT_SHADER 3, GLCall.glShaderSource 3 "f",
           GLCall.glCompileShader 3, GLCall.glGetShaderiv 3 GLenum.GL_COMPILE_STATUS,
           GLCall.glAttachShader 1 3, GLCall.glDeleteShader 3,
           GLCall.glLinkProgram 1, GLCall.glGetProgramiv 1 GLenum.GL_LINK_STATUS,
           GLCall.glGetProgramInfoLog 1, GLCall.glDeleteProgram 1] := rfl
    rw [e] at ht
    have hrest := List.append_cancel_left ht
    rw [← hrest]
    simp [GLCall.isStageCreateOrDelete]
  exact hlast

/-- C23: when `compile` succeeds (it returns true), the object stores the newly created
and linked program, named by the next object name, with empty uniform-location and
texture tables and current-texture location -1; among the calls issued, the only program
deletion is that of the previously stored program (if any), once; every stage of a
non-empty source got its own stage object, created, attached to the new program and then
deleted, once each; and the last call issued is the flush. -/
theorem compile_success (s : Shader) (v g f : String) (w : World)
    (hok : (Shader.compile s v g f w).1 = true) :
    (Shader.compile s v g f w).2.1 = ⟨w.gl.nextHandle, -1, [], []⟩ ∧
    ∃ issued,
      (Shader.compile s v g f w).2.2.gl.trace = w.gl.trace ++ issued ∧
      issued.filter GLCall.isDeleteProgram
        = (if s.m_shaderProgram ≠ 0 then [GLCall.glDeleteProgram s.m_shaderProgram] else []) ∧
      GLCall.glCreateProgram w.gl.nextHandle ∈ issued ∧
      GLCall.glLinkProgram w.gl.nextHandle ∈ issued ∧
      issued.filter GLCall.isStageLifetime
        = Shader.attachedAndDeleted w.gl.nextHandle (w.gl.nextHandle + 1)
            ((Shader.stagesOf w.config.openglES v g f).map (fun e => e.1)) ∧
      issued.getLast? = some GLCall.glFlush := by
  have hgeo := Shader.compile_passed s v g f w hok
  obtain ⟨ht, h1, hs⟩ := Shader.compile_run s v g f w hgeo
  rw [hok] at h1
  have hr : (Shader.stagesRun w.env w.gl.nextHandle (w.gl.nextHandle + 1)
      (Shader.stagesOf w.config.openglES v g f)).2 = true := by
    revert h1
    cases (Shader.stagesRun w.env w.gl.nextHandle (w.gl.nextHandle + 1)
      (Shader.stagesOf w.config.openglES v g f)).2 <;> simp
  have hl : w.env.linkStatus w.gl.nextHandle = true := by
    rw [hr, Bool.true_and] at h1
    exact h1.symm
  rw [if_pos hr, if_pos hl] at ht
  refine ⟨by rw [hs, hok]; rfl, _, ht, ?_, ?_, ?_, ?_, ?_⟩
  · simp only [List.filter_append, Shader.stagesRun_deleteProgram, hr, if_true]
    split_ifs <;> simp [GLCall.isDeleteProgram]
  · simp
  · simp
  · simp only [List.filter_append, Shader.stagesRun_lifetime _ _ _ _ hr]
    split_ifs <;> simp [GLCall.isStageLifetime]
  · rw [← List.append_assoc, List.getLast?_append]
    rfl

/-- Witness of C23: recompiling the sample shader on the sample driver. -/
theorem compile_success_witness :
    (Shader.compile linkedShader "v" "" "f" sampleWorld).1 = true ∧
    (Shader.compile linkedShader "v" "" "f" sampleWorld).2.1 = ⟨1, -1, [], []⟩ ∧
    ∃ issued,
      (Shader.compile linkedShader "v" "" "f" sampleWorld).2.2.gl.trace
        = sampleWorld.gl.trace ++ issued ∧
      issued.filter GLCall.isDeleteProgram = [GLCall.glDeleteProgram 5] ∧
      GLCall.glCreateProgram 1 ∈ issued ∧
      GLCall.glLinkProgram 1 ∈ issued ∧
      issued.filter GLCall.isStageLifetime
        = [GLCall.glCreateShader GLenum.GL_VERTEX_SHADER 2, GLCall.glAttachShader 1 2,
           GLCall.glDeleteShader 2,
           GLCall.glCreateShader GLenum.GL_FRAGMENT_SHADER 3, GLCall.glAttachShader 1 3,
           GLCall.glDeleteShader 3] ∧
      issued.getLast? = some GLCall.glFlush :=
  ⟨by decide, compile_success linkedShader "v" "" "f" sampleWorld (by decide)⟩

/-! ## Uniform locations and texture uniforms -/

theorem List.lookup_append_self {α β : Type} [BEq α] [LawfulBEq α] (l : List (α × β)) (a : α)
    (b : β) (h : l.lookup a = none) : (l ++ [(a, b)]).lookup a = some b := by
  induction l with
  | nil => simp [List.lookup]
  | cons x rest ih =>
    obtain ⟨k, v⟩ := x
    simp only [List.lookup, List.cons_append] at h ⊢
    cases hk : a == k
    · simp only [hk] at h ⊢
      exact ih h
    · simp [hk] at h

/-- After `getUniformLocation` the name is in the cache, with the location returned. -/
theorem Shader.getUniformLocation_cached (s : Shader) (name : String) (w : World) :
    (s.getUniformLocation name w).2.1.m_uniforms.lookup name
      = some (s.getUniformLocation name w).1 := by
  unfold Shader.getUniformLocation
  cases h : s.m_uniforms.lookup name with
  | some l => simp [h]
  | none => simp [List.lookup_append_self _ _ _ h]

/-- A cached name is answered from the cache: nothing changes. -/
theorem Shader.getUniformLocation_hit (s : Shader) (name : String) (w : World) (l : Int)
    (h : s.m_uniforms.lookup name = some l) : s.getUniformLocation name w = (l, s, w) := by
  unfold Shader.getUniformLocation
  simp [h]

/-- The texture table and the program of the object are left alone by
`getUniformLocation`. -/
theorem Shader.getUniformLocation_textures (s : Shader) (name : String) (w : World) :
    (s.getUniformLocation name w).2.1.m_textures = s.m_textures ∧
    (s.getUniformLocation name w).2.1.m_shaderProgram = s.m_shaderProgram := by
  unfold Shader.getUniformLocation
  cases h : s.m_uniforms.lookup name <;> simp

theorem Shader.getMaxTextureUnits_value (m : Option Int) (w : World) :
    (Shader.getMaxTextureUnits m w).1 = toSizeT (m.getD w.env.maxCombinedTextureImageUnits) ∧
    (Shader.getMaxTextureUnits m w).2.1 = some (m.getD w.env.maxCombinedTextureImageUnits) ∧
    (Shader.getMaxTextureUnits m w).2.2.env = w.env ∧
    (m.isSome = true → (Shader.getMaxTextureUnits m w).2.2 = w) := by
  cases m <;> simp [Shader.getMaxTextureUnits, World.call]

/-- The table `setUniformTexture` leaves: unchanged when the name has no location; the
texture replaced when the location is recorded; the entry appended when it is not and a
unit is left; unchanged when no unit is left. The uniform cache is the one
`getUniformLocation` leaves. -/
theorem Shader.setUniformTexture_table (s : Shader) (name : String) (t : Texture)
    (m : Option Int) (w : World) (hp : s.m_shaderProgram ≠ 0) :
    (s.setUniformTexture name t m w).1.m_textures
      = (if (s.getUniformLocation name w).1 = -1 then s.m_textures
         else if (s.m_textures.lookup (s.getUniformLocation name w).1).isSome = true then
           s.m_textures.map (fun e =>
             if e.1 = (s.getUniformLocation name w).1 then
               ((s.getUniformLocation name w).1, t) else e)
         else if (s.m_textures.length + 1) % 2 ^ 64
             < toSizeT (m.getD w.env.maxCombinedTextureImageUnits) then
           s.m_textures ++ [((s.getUniformLocation name w).1, t)]
         else s.m_textures) ∧
    (s.setUniformTexture name t m w).1.m_uniforms
      = (s.getUniformLocation name w).2.1.m_uniforms ∧
    (s.setUniformTexture name t m w).1.m_shaderProgram = s.m_shaderProgram := by
  obtain ⟨ht, hprog⟩ := Shader.getUniformLocation_textures s name w
  have henv : (s.getUniformLocation name w).2.2.env = w.env := by
    unfold Shader.getUniformLocation
    cases h : s.m_uniforms.lookup name <;> simp [World.call, World.err, apply_ite]
  unfold Shader.setUniformTexture
  simp only [hp, if_false]
  by_cases hl : (s.getUniformLocation name w).1 = -1
  · simp [hl, ht, hprog]
  · simp only [hl, ne_eq, not_false_eq_true, if_true, if_false, ht]
    cases hk : s.m_textures.lookup (s.getUniformLocation name w).1 with
    | some x => simp [hprog]
    | none =>
      obtain ⟨hv, -, -, -⟩ := Shader.getMaxTextureUnits_value m (s.getUniformLocation name w).2.2
      simp only [Option.isSome_none, Bool.false_eq_true, if_false, hv, henv, ge_iff_le]
      split_ifs with h1 h2 h2
      · exact absurd h2 (Nat.not_lt.mpr h1)
      · simp [ht, hprog]
      · simp [ht, hprog]
      · exact absurd (Nat.lt_of_not_le h1) h2

/-! ### Association lists with distinct keys -/

theorem List.keys_replace (l : List (Int × Texture)) (k : Int) (t : Texture) :
    (l.map (fun e => if e.1 = k then (k, t) else e)).map Prod.fst = l.map Prod.fst := by
  induction l with
  | nil => rfl
  | cons x rest ih =>
    simp only [List.map_cons, ih]
    by_cases h : x.1 = k <;> simp [h]

theorem List.lookup_eq_none_iff_keys (l : List (Int × Texture)) (k : Int) :
    l.lookup k = none ↔ k ∉ l.map Prod.fst := by
  induction l with
  | nil => simp [List.lookup]
  | cons x rest ih =>
    obtain ⟨a, v⟩ := x
    simp only [List.lookup, List.map_cons, List.mem_cons, not_or]
    by_cases h : k = a
    · subst h
      simp
    · have hb : (k == a) = false := by simpa using h
      simp [hb, ih, h]

theorem List.filter_key_nil (l : List (Int × Texture)) (k : Int) (h : k ∉ l.map Prod.fst) :
    l.filter (fun e => e.1 = k) = [] := by
  rw [List.filter_eq_nil_iff]
  intro e he
  have : e.1 ∈ l.map Prod.fst := List.mem_map_of_mem _ he
  simp only [decide_eq_true_eq]
  intro hk
  exact h (hk ▸ this)

theorem List.filter_key_length_le (l : List (Int × Texture)) (k : Int)
    (h : (l.map Prod.fst).Nodup) : (l.filter (fun e => e.1 = k)).length ≤ 1 := by
  induction l with
  | nil => simp
  | cons x rest ih =>
    simp only [List.map_cons, List.nodup_cons] at h
    by_cases hx : x.1 = k
    · have hn : k ∉ rest.map Prod.fst := hx ▸ h.1
      simp [List.filter_cons, hx, List.filter_key_nil rest k hn]
    · simp only [List.filter_cons, hx, decide_False, Bool.false_eq_true, if_false]
      exact ih h.2

theorem List.filter_key_replace (l : List (Int × Texture)) (k : Int) (t : Texture)
    (h : (l.map Prod.fst).Nodup) (hk : k ∈ l.map Prod.fst) :
    (l.map (fun e => if e.1 = k then (k, t) else e)).filter (fun e => e.1 = k) = [(k, t)] := by
  induction l with
  | nil => simp at hk
  | cons x rest ih =>
    simp only [List.map_cons, List.nodup_cons, List.mem_cons] at h hk
    by_cases hx : x.1 = k
    · have hn : k ∉ rest.map Prod.fst := hx ▸ h.1
      have hn' : k ∉ (rest.map (fun e => if e.1 = k then (k, t) else e)).map Prod.fst := by
        rw [List.keys_replace]
        exact hn
      simp [List.filter_cons, hx, List.filter_key_nil _ k hn']
    · have hk' : k ∈ rest.map Prod.fst := by
        rcases hk with hk | hk
        · exact absurd hk.symm hx
        · exact hk
      simp only [List.map_cons, hx, if_false, List.filter_cons, decide_False,
        Bool.false_eq_true]
      exact ih h.2 hk'

theorem List.filter_key_append (l : List (Int × Texture)) (k : Int) (t : Texture)
    (hk : k ∉ l.map Prod.fst) :
    (l ++ [(k, t)]).filter (fun e => e.1 = k) = [(k, t)] := by
  simp [List.filter_append, List.filter_key_nil l k hk]

/-- The static of `getMaxTextureUnits` after `setUniformTexture`: it is set once the
limit was needed, for a new location. -/
theorem Shader.setUniformTexture_static (s : Shader) (name : String) (t : Texture)
    (m : Option Int) (w : World) (hp : s.m_shaderProgram ≠ 0)
    (hl : (s.getUniformLocation name w).1 ≠ -1)
    (hk : s.m_textures.lookup (s.getUniformLocation name w).1 = none) :
    ((s.setUniformTexture name t m w).2.1).isSome = true := by
  obtain ⟨ht, -⟩ := Shader.getUniformLocation_textures s name w
  unfold Shader.setUniformTexture
  simp only [hp, if_false, hl, ne_eq, not_false_eq_true, if_true, ht, hk]
  obtain ⟨-, hs, -, -⟩ := Shader.getMaxTextureUnits_value m (s.getUniformLocation name w).2.2
  split_ifs <;> simp [hs]

/-- A call of `setUniformTexture` that needs neither the driver's answer for the name
nor the driver's limit issues no driver call. -/
theorem Shader.setUniformTexture_quiet (s : Shader) (name : String) (t : Texture)
    (m : Option Int) (w : World) (l : Int) (hc : s.m_uniforms.lookup name = some l)
    (h : l = -1 ∨ (s.m_textures.lookup l).isSome = true ∨ m.isSome = true) :
    (s.setUniformTexture name t m w).2.2.gl = w.gl := by
  unfold Shader.setUniformTexture
  by_cases hp : s.m_shaderProgram = 0
  · simp [hp]
  · simp only [hp, if_false, Shader.getUniformLocation_hit s name w l hc]
    by_cases hl : l = -1
    · simp [hl]
    · simp only [hl, ne_eq, not_false_eq_true, if_true]
      cases hk : s.m_textures.lookup l with
      | some x => simp
      | none =>
        have hm : m.isSome = true := by
          rcases h with h | h | h
          · exact absurd h hl
          · simp [hk] at h
          · exact h
        obtain ⟨-, -, -, hw⟩ := Shader.getMaxTextureUnits_value m w
        simp only [hw hm]
        split_ifs <;> simp [World.err]

theorem List.lookup_isSome_iff_keys (l : List (Int × Texture)) (k : Int) :
    (l.lookup k).isSome = true ↔ k ∈ l.map Prod.fst := by
  rw [← not_iff_not, ← List.lookup_eq_none_iff_keys]
  cases l.lookup k <;> simp

theorem List.nodup_keys_append (l : List (Int × Texture)) (k : Int) (t : Texture)
    (h : (l.map Prod.fst).Nodup) (hn : (l.lookup k).isSome ≠ true) :
    ((l ++ [(k, t)]).map Prod.fst).Nodup := by
  have hn' : k ∉ l.map Prod.fst := by
    rw [← List.lookup_isSome_iff_keys]
    exact hn
  rw [List.map_append, List.nodup_append]
  refine ⟨h, by simp, ?_⟩
  intro a ha hb
  simp only [List.map_cons, List.map_nil, List.mem_singleton] at hb
  exact hn' (hb ▸ ha)

/-- C24: `getUniformLocation` is idempotent: called again with the same name, on the
object and world the first call left, it returns the same location and changes nothing
(no driver query, no message). Consequently, when a texture uniform is set under a name
and then set again under the same name with another texture, the second call issues no
driver call, the location-to-texture table (with distinct locations before) holds at
most one entry for the location of the name, and that entry holds the second texture
whenever the first call had a location to record (the name has a location, which was
already recorded or for which a unit was left). -/
theorem getUniformLocation_idempotent (s : Shader) (name : String) (t1 t2 : Texture)
    (m : Option Int) (w : World) (hk : (s.m_textures.map Prod.fst).Nodup) :
    (s.getUniformLocation name w).2.1.getUniformLocation name (s.getUniformLocation name w).2.2
      = s.getUniformLocation name w ∧
    ((s.setUniformTexture name t1 m w).1.setUniformTexture name t2
        (s.setUniformTexture name t1 m w).2.1 (s.setUniformTexture name t1 m w).2.2).2.2.gl
      = (s.setUniformTexture name t1 m w).2.2.gl ∧
    (((s.setUniformTexture name t1 m w).1.setUniformTexture name t2
        (s.setUniformTexture name t1 m w).2.1
        (s.setUniformTexture name t1 m w).2.2).1.m_textures.filter
          (fun e => e.1 = (s.getUniformLocation name w).1)).length ≤ 1 ∧
    (s.m_shaderProgram ≠ 0 → (s.getUniformLocation name w).1 ≠ -1 →
      ((s.m_textures.lookup (s.getUniformLocation name w).1).isSome = true ∨
        (s.m_textures.length + 1) % 2 ^ 64
          < toSizeT (m.getD w.env.maxCombinedTextureImageUnits)) →
      ((s.setUniformTexture name t1 m w).1.setUniformTexture name t2
          (s.setUniformTexture name t1 m w).2.1
          (s.setUniformTexture name t1 m w).2.2).1.m_textures.filter
            (fun e => e.1 = (s.getUniformLocation name w).1)
        = [((s.getUniformLocation name w).1, t2)]) := by
  have hidem : (s.getUniformLocation name w).2.1.getUniformLocation name
      (s.getUniformLocation name w).2.2 = s.getUniformLocation name w :=
    Shader.getUniformLocation_hit _ _ _ _ (Shader.getUniformLocation_cached s name w)
  refine ⟨hidem, ?_⟩
  by_cases hp : s.m_shaderProgram = 0
  · have e1 : ∀ t m w, s.setUniformTexture name t m w = (s, m, w) := by
      intro t m w
      unfold Shader.setUniformTexture
      simp [hp]
    simp only [e1]
    exact ⟨trivial, List.filter_key_length_le _ _ hk, fun h => absurd hp h⟩
  · obtain ⟨hA, hAu, hAp⟩ := Shader.setUniformTexture_table s name t1 m w hp
    generalize hloc : (s.getUniformLocation name w).1 = loc at hA hAu hAp ⊢
    have hcache : (s.setUniformTexture name t1 m w).1.m_uniforms.lookup name = some loc := by
      rw [hAu, Shader.getUniformLocation_cached, hloc]
    have hp' : (s.setUniformTexture name t1 m w).1.m_shaderProgram ≠ 0 := by rw [hAp]; exact hp
    -- the second call resolves the name from the cache
    have hloc2 : ∀ w', ((s.setUniformTexture name t1 m w).1.getUniformLocation name w').1
        = loc := by
      intro w'
      rw [Shader.getUniformLocation_hit _ _ _ _ hcache]
    obtain ⟨hB, -, -⟩ := Shader.setUniformTexture_table (s.setUniformTexture name t1 m w).1 name
      t2 (s.setUniformTexture name t1 m w).2.1 (s.setUniformTexture name t1 m w).2.2 hp'
    rw [hloc2] at hB
    -- the keys after the first call are distinct
    have hkA : ((s.setUniformTexture name t1 m w).1.m_textures.map Prod.fst).Nodup := by
      rw [hA]
      split_ifs with h1 h2 h3
      · exact hk
      · rw [List.keys_replace]
        exact hk
      · exact List.nodup_keys_append _ _ _ hk h2
      · exact hk
    have hkB : (((s.setUniformTexture name t1 m w).1.setUniformTexture name t2
        (s.setUniformTexture name t1 m w).2.1
        (s.setUniformTexture name t1 m w).2.2).1.m_textures.map Prod.fst).Nodup := by
      rw [hB]
      split_ifs with h1 h2 h3
      · exact hkA
      · rw [List.keys_replace]
        exact hkA
      · exact List.nodup_keys_append _ _ _ hkA h2
      · exact hkA
    refine ⟨?_, List.filter_key_length_le _ _ hkB, ?_⟩
    · -- the second call is quiet
      apply Shader.setUniformTexture_quiet _ _ _ _ _ loc hcache
      by_cases hl : loc = -1
      · exact Or.inl hl
      · right
        cases hks : s.m_textures.lookup loc with
        | some x =>
          left
          rw [List.lookup_isSome_iff_keys, hA, if_neg hl, hks]
          simp only [Option.isSome_some, if_true, List.keys_replace]
          rw [← List.lookup_isSome_iff_keys, hks]
          rfl
        | none =>
          right
          exact Shader.setUniformTexture_static s name t1 m w hp (by rw [hloc]; exact hl)
            (by rw [hloc]; exact hks)
    · intro _ hl hrec
      -- after the first call the location is recorded
      have hmem : loc ∈ (s.setUniformTexture name t1 m w).1.m_textures.map Prod.fst := by
        rw [hA, if_neg hl]
        by_cases hs : (s.m_textures.lookup loc).isSome = true
        · rw [if_pos hs, List.keys_replace, ← List.lookup_isSome_iff_keys]
          exact hs
        · have hu := hrec.resolve_left hs
          rw [if_neg hs, if_pos hu]
          simp
      rw [hB, if_neg hl, if_pos ((List.lookup_isSome_iff_keys _ _).mpr hmem)]
      exact List.filter_key_replace _ _ _ hkA hmem

/-- Witness of C24: the uniform `"mask"` of a freshly linked shader set to one texture,
then to another: the table holds one entry, with the second texture. -/
theorem getUniformLocation_idempotent_witness :
    (plainShader.m_textures.map Prod.fst).Nodup ∧
    (plainShader.getUniformLocation "mask" sampleWorld).2.1.getUniformLocation "mask"
        (plainShader.getUniformLocation "mask" sampleWorld).2.2
      = plainShader.getUniformLocation "mask" sampleWorld ∧
    ((plainShader.setUniformTexture "mask" paddedTexture none sampleWorld).1.setUniformTexture
        "mask" attachmentTexture
        (plainShader.setUniformTexture "mask" paddedTexture none sampleWorld).2.1
        (plainShader.setUniformTexture "mask" paddedTexture none sampleWorld).2.2).2.2.gl
      = (plainShader.setUniformTexture "mask" paddedTexture none sampleWorld).2.2.gl ∧
    ((plainShader.setUniformTexture "mask" paddedTexture none
        sampleWorld).1.setUniformTexture "mask" attachmentTexture
        (plainShader.setUniformTexture "mask" paddedTexture none sampleWorld).2.1
        (plainShader.setUniformTexture "mask" paddedTexture none
          sampleWorld).2.2).1.m_textures.filter (fun e => e.1 = 0)
      = [(0, attachmentTexture)] := by
  obtain ⟨h1, h2, -, h4⟩ := getUniformLocation_idempotent plainShader "mask" paddedTexture
    attachmentTexture none sampleWorld (by decide)
  exact ⟨by decide, h1, h2, h4 (by decide) (by decide) (Or.inr (by decide))⟩

/-! ### Texture units -/

theorem List.lookup_replace (l : List (Int × Texture)) (k : Int) (t : Texture)
    (h : (l.lookup k).isSome = true) :
    (l.map (fun e => if e.1 = k then (k, t) else e)).lookup k = some t := by
  induction l with
  | nil => simp [List.lookup] at h
  | cons x rest ih =>
    obtain ⟨a, v⟩ := x
    by_cases hk : a = k
    · subst hk
      rw [List.map_cons, if_pos rfl]
      simp [List.lookup]
    · have hb : (k == a) = false := by simpa using fun h' => hk h'.symm
      simp only [List.lookup, hb] at h
      rw [List.map_cons, if_neg hk]
      simp only [List.lookup, hb]
      exact ih h

/-- The loop of `bindTextures` on fewer recorded textures than an `int` can count: entry
number `i` goes to unit `i + 1`. -/
theorem Shader.bindTexturesLoop_trace (l : List (Int × Texture)) (i : Nat) (w : World)
    (h : i + l.length < 2 ^ 31) :
    (Shader.bindTexturesLoop i l w).gl.trace
      = w.gl.trace ++ Shader.unitAssignments (i + 1) l := by
  induction l generalizing i w with
  | nil => simp [Shader.bindTexturesLoop, Shader.unitAssignments]
  | cons x rest ih =>
    obtain ⟨loc, t⟩ := x
    simp only [List.length_cons] at h
    simp only [Shader.bindTexturesLoop, Shader.unitAssignments]
    rw [ih (i + 1) _ (by omega)]
    have e1 : toInt32 ((i : Int) + 1) = ((i + 1 : Nat) : Int) := by
      unfold toInt32
      omega
    have e2 : (i + 1) % 2 ^ 32 = i + 1 := Nat.mod_eq_of_lt (by omega)
    simp only [World.call_trace, e1, e2, List.append_assoc, List.singleton_append,
      List.cons_append, List.nil_append]

theorem Shader.unitAssignments_activeTexture (l : List (Int × Texture)) (u : Nat) :
    (Shader.unitAssignments u l).filter GLCall.isActiveTexture
      = (List.range l.length).map (fun j => GLCall.glActiveTexture (u + j)) := by
  induction l generalizing u with
  | nil => simp [Shader.unitAssignments]
  | cons x rest ih =>
    obtain ⟨loc, t⟩ := x
    simp only [Shader.unitAssignments, List.filter_append, ih (u + 1), List.length_cons,
      List.range_succ_eq_map, List.map_cons, List.map_map]
    simp only [List.filter_cons, GLCall.isActiveTexture, List.filter_nil]
    simp only [Bool.false_eq_true, if_false, if_true, Nat.add_zero, List.singleton_append,
      List.cons.injEq, true_and]
    apply List.map_congr_left
    intro j _
    simp only [Function.comp]
    congr 1
    omega

/-- C25: for a driver limit of `units` combined texture units (at most `2^31`, the
limit being an `int`) and a table of at most `units - 1` entries, `setUniform(name,
texture)` on a shader with a program: for a location not yet recorded, appends the entry
when (entry count + 1) < `units` and leaves the table unchanged otherwise; for a
recorded location, replaces the texture, whatever the count; for a name without
location, leaves the table unchanged. The table still has at most `units - 1` entries.
`bindTextures` then gives entry number `i` (from 0) the unit `i + 1`: the units made
active are 1, 2, ... up to the entry count, pairwise distinct and within
[1, `units` - 1], and unit 0 is made active last. -/
theorem setUniformTexture_units (s : Shader) (name : String) (t : Texture) (m : Option Int)
    (w : World) (units : Nat)
    (hu : units = toSizeT (m.getD w.env.maxCombinedTextureImageUnits))
    (hp : s.m_shaderProgram ≠ 0) (hint : units ≤ 2 ^ 31)
    (hlen : s.m_textures.length ≤ units - 1) :
    ((s.getUniformLocation name w).1 ≠ -1 →
      (s.m_textures.lookup (s.getUniformLocation name w).1).isSome = false →
      (s.setUniformTexture name t m w).1.m_textures
        = if s.m_textures.length + 1 < units then
            s.m_textures ++ [((s.getUniformLocation name w).1, t)]
          else s.m_textures) ∧
    ((s.getUniformLocation name w).1 ≠ -1 →
      (s.m_textures.lookup (s.getUniformLocation name w).1).isSome = true →
      (s.setUniformTexture name t m w).1.m_textures
        = s.m_textures.map (fun e =>
            if e.1 = (s.getUniformLocation name w).1 then
              ((s.getUniformLocation name w).1, t) else e) ∧
      (s.setUniformTexture name t m w).1.m_textures.length = s.m_textures.length ∧
      (s.setUniformTexture name t m w).1.m_textures.lookup (s.getUniformLocation name w).1
        = some t) ∧
    ((s.getUniformLocation name w).1 = -1 →
      (s.setUniformTexture name t m w).1.m_textures = s.m_textures) ∧
    (s.setUniformTexture name t m w).1.m_textures.length ≤ units - 1 ∧
    (∀ w' : World,
      ((s.setUniformTexture name t m w).1.bindTextures w').gl.trace
        = w'.gl.trace ++
          (Shader.unitAssignments 1 (s.setUniformTexture name t m w).1.m_textures ++
            [GLCall.glActiveTexture 0]) ∧
      (Shader.unitAssignments 1 (s.setUniformTexture name t m w).1.m_textures ++
          [GLCall.glActiveTexture 0]).filter GLCall.isActiveTexture
        = (List.range (s.setUniformTexture name t m w).1.m_textures.length).map
            (fun j => GLCall.glActiveTexture (1 + j)) ++ [GLCall.glActiveTexture 0]) ∧
    (∀ j, j < (s.setUniformTexture name t m w).1.m_textures.length →
      1 ≤ 1 + j ∧ 1 + j ≤ units - 1) := by
  obtain ⟨hT, -, -⟩ := Shader.setUniformTexture_table s name t m w hp
  rw [← hu] at hT
  have hmod : (s.m_textures.length + 1) % 2 ^ 64 = s.m_textures.length + 1 :=
    Nat.mod_eq_of_lt (by omega)
  rw [hmod] at hT
  have hD : (s.setUniformTexture name t m w).1.m_textures.length ≤ units - 1 := by
    rw [hT]
    split_ifs with h1 h2 h3
    · exact hlen
    · rw [List.length_map]
      exact hlen
    · rw [List.length_append]
      simp only [List.length_singleton]
      omega
    · exact hlen
  refine ⟨?_, ?_, ?_, hD, ?_, ?_⟩
  · intro hl hk
    rw [hT, if_neg hl, hk]
    simp
  · intro hl hk
    have e : (s.setUniformTexture name t m w).1.m_textures
        = s.m_textures.map (fun e =>
            if e.1 = (s.getUniformLocation name w).1 then
              ((s.getUniformLocation name w).1, t) else e) := by
      rw [hT, if_neg hl, if_pos hk]
    refine ⟨e, by rw [e, List.length_map], ?_⟩
    rw [e]
    exact List.lookup_replace _ _ _ hk
  · intro hl
    rw [hT, if_pos hl]
  · intro w'
    refine ⟨?_, ?_⟩
    · unfold Shader.bindTextures
      rw [World.call_trace, Shader.bindTexturesLoop_trace _ _ _ (by omega)]
      simp only [List.append_assoc, Nat.zero_add]
    · rw [List.filter_append, Shader.unitAssignments_activeTexture]
      simp [GLCall.isActiveTexture]
  · intro j hj
    omega

/-- Witness of C25: on the sample driver (16 units) the uniform `"mask"` of a freshly
linked shader is recorded and bound to unit 1. -/
theorem setUniformTexture_units_witness :
    16 = toSizeT ((none : Option Int).getD sampleWorld.env.maxCombinedTextureImageUnits) ∧
    plainShader.m_shaderProgram ≠ 0 ∧ 16 ≤ 2 ^ 31 ∧ plainShader.m_textures.length ≤ 16 - 1 ∧
    (plainShader.setUniformTexture "mask" paddedTexture none sampleWorld).1.m_textures
      = [(0, paddedTexture)] ∧
    ((plainShader.setUniformTexture "mask" paddedTexture none sampleWorld).1.bindTextures
        sampleWorld).gl.trace
      = [GLCall.glUniform1i 0 1, GLCall.glActiveTexture 1,
         GLCall.Texture_bind (some paddedTexture) CoordinateType.Normalized,
         GLCall.glActiveTexture 0] := by
  obtain ⟨h1, -, -, -, h5, -⟩ := setUniformTexture_units plainShader "mask" paddedTexture none
    sampleWorld 16 (by decide) (by decide) (by decide) (by decide)
  have e := h1 (by decide) (by decide)
  refine ⟨by decide, by decide, by decide, by decide, e, ?_⟩
  rw [(h5 sampleWorld).1, e]
  rfl

/-! ## The program in use around a uniform setter -/

theorem World.call_currentProgram (c : GLCall) (w : World)
    (h : GLCall.isUseProgram c = false) :
    (w.call c).gl.currentProgram = w.gl.currentProgram := by
  cases c <;> first | rfl | simp [GLCall.isUseProgram] at h

theorem World.call_useProgram (p : Nat) (w : World) :
    (w.call (GLCall.glUseProgram p)).gl.currentProgram = p := rfl

theorem Shader.getUniformLocation_currentProgram (s : Shader) (name : String) (w : World) :
    (s.getUniformLocation name w).2.2.gl.currentProgram = w.gl.currentProgram ∧
    ∃ issued, (s.getUniformLocation name w).2.2.gl.trace = w.gl.trace ++ issued ∧
      issued.filter GLCall.isUseProgram = [] := by
  unfold Shader.getUniformLocation
  cases s.m_uniforms.lookup name with
  | some l => exact ⟨rfl, [], by simp, rfl⟩
  | none =>
    dsimp only
    split_ifs
    · exact ⟨rfl, [_], rfl, rfl⟩
    · exact ⟨rfl, [_], rfl, rfl⟩

/-- The common shape of the scalar, vector and matrix setters: a `UniformBinder`, one
upload call at the resolved location when it is not -1, and the binder's destructor.
With no program nothing happens; with a program the program in use is the same
afterwards, and `glUseProgram` is issued (twice: to the shader's program and back)
exactly when the shader's program was not the one in use. -/
theorem Shader.UniformBinder.bracket (s : Shader) (name : String) (c : Int → GLCall)
    (w : World) (hc : ∀ l, GLCall.isUseProgram (c l) = false) :
    (s.m_shaderProgram = 0 →
      (Shader.UniformBinder.construct s name w).2.1 = s ∧
      (Shader.UniformBinder.construct s name w).1.destruct
        (if (Shader.UniformBinder.construct s name w).1.location ≠ -1 then
          (Shader.UniformBinder.construct s name w).2.2.call
            (c (Shader.UniformBinder.construct s name w).1.location)
        else (Shader.UniformBinder.construct s name w).2.2) = w) ∧
    (s.m_shaderProgram ≠ 0 →
      ((Shader.UniformBinder.construct s name w).1.destruct
        (if (Shader.UniformBinder.construct s name w).1.location ≠ -1 then
          (Shader.UniformBinder.construct s name w).2.2.call
            (c (Shader.UniformBinder.construct s name w).1.location)
        else (Shader.UniformBinder.construct s name w).2.2)).gl.currentProgram
        = w.gl.currentProgram ∧
      ∃ issued,
        ((Shader.UniformBinder.construct s name w).1.destruct
          (if (Shader.UniformBinder.construct s name w).1.location ≠ -1 then
            (Shader.UniformBinder.construct s name w).2.2.call
              (c (Shader.UniformBinder.construct s name w).1.location)
          else (Shader.UniformBinder.construct s name w).2.2)).gl.trace
          = w.gl.trace ++ issued ∧
        issued.filter GLCall.isUseProgram
          = if s.m_shaderProgram = w.gl.currentProgram then []
            else [GLCall.glUseProgram s.m_shaderProgram,
                  GLCall.glUseProgram w.gl.currentProgram]) := by
  refine ⟨?_, ?_⟩
  · intro h0
    unfold Shader.UniformBinder.construct Shader.UniformBinder.destruct
    simp [h0]
  · intro hp
    have g1 : GLCall.isUseProgram (GLCall.glGetIntegerv GLenum.GL_CURRENT_PROGRAM) = false :=
      rfl
    have g2 : ∀ p, GLCall.isUseProgram (GLCall.glUseProgram p) = true := fun _ => rfl
    unfold Shader.UniformBinder.construct Shader.UniformBinder.destruct
    simp only [hp, ne_eq, not_false_eq_true, if_true, true_and]
    have hq : (w.call (GLCall.glGetIntegerv GLenum.GL_CURRENT_PROGRAM)).gl.currentProgram
        = w.gl.currentProgram := rfl
    rw [hq]
    by_cases heq : s.m_shaderProgram = w.gl.currentProgram
    · simp only [heq, not_true_eq_false, if_false]
      obtain ⟨hL, iss, hT, hF⟩ := Shader.getUniformLocation_currentProgram s name
        (w.call (GLCall.glGetIntegerv GLenum.GL_CURRENT_PROGRAM))
      generalize s.getUniformLocation name
        (w.call (GLCall.glGetIntegerv GLenum.GL_CURRENT_PROGRAM)) = r at hL hT ⊢
      split_ifs with hl
      · refine ⟨by rw [hL, hq],
          [GLCall.glGetIntegerv GLenum.GL_CURRENT_PROGRAM] ++ iss, ?_, ?_⟩
        · rw [hT, World.call_trace]
          simp only [List.append_assoc]
        · simp [List.filter_append, List.filter_cons, hF, g1, g2]
      · refine ⟨by rw [World.call_currentProgram _ _ (hc _), hL, hq],
          [GLCall.glGetIntegerv GLenum.GL_CURRENT_PROGRAM] ++ iss ++ [c r.1], ?_, ?_⟩
        · rw [World.call_trace, hT, World.call_trace]
          simp only [List.append_assoc]
        · simp [List.filter_append, List.filter_cons, hF, hc, g1, g2]
    · simp only [heq, not_false_eq_true, if_true, if_false]
      obtain ⟨hL, iss, hT, hF⟩ := Shader.getUniformLocation_currentProgram s name
        ((w.call (GLCall.glGetIntegerv GLenum.GL_CURRENT_PROGRAM)).call
          (GLCall.glUseProgram s.m_shaderProgram))
      generalize s.getUniformLocation name
        ((w.call (GLCall.glGetIntegerv GLenum.GL_CURRENT_PROGRAM)).call
          (GLCall.glUseProgram s.m_shaderProgram)) = r at hL hT ⊢
      refine ⟨rfl, ?_⟩
      split_ifs with hl
      · refine ⟨[GLCall.glGetIntegerv GLenum.GL_CURRENT_PROGRAM,
            GLCall.glUseProgram s.m_shaderProgram] ++ iss ++
            [GLCall.glUseProgram w.gl.currentProgram], ?_, ?_⟩
        · rw [World.call_trace, hT, World.call_trace, World.call_trace]
          simp only [List.append_assoc, List.singleton_append, List.cons_append,
            List.nil_append]
        · simp [List.filter_append, List.filter_cons, hF, g1, g2]
      · refine ⟨[GLCall.glGetIntegerv GLenum.GL_CURRENT_PROGRAM,
            GLCall.glUseProgram s.m_shaderProgram] ++ iss ++ [c r.1,
            GLCall.glUseProgram w.gl.currentProgram], ?_, ?_⟩
        · rw [World.call_trace, World.call_trace, hT, World.call_trace, World.call_trace]
          simp only [List.append_assoc, List.singleton_append, List.cons_append,
            List.nil_append]
        · simp [List.filter_append, List.filter_cons, hF, hc, g1, g2]

/-- C26: for the scalar (`float`), vector (`Glsl::Vec2`) and matrix (`Glsl::Mat4`)
overloads of `setUniform` on a shader with a program: the program in use after the
call is the one in use before it, and the `glUseProgram` calls issued are none when
the shader's program was already in use, and otherwise exactly two, to the shader's
program and back to the previous one. On a shader without program (handle 0) the
shader and the whole state, driver calls included, are unchanged. -/
theorem setUniform_restores_program (s : Shader) (name : String) (x y : ℚ)
    (matrix : List ℚ) (w : World) :
    (s.m_shaderProgram = 0 →
      s.setUniformFloat name x w = (s, w) ∧
      s.setUniformVec2 name x y w = (s, w) ∧
      s.setUniformMat4 name matrix w = (s, w)) ∧
    (s.m_shaderProgram ≠ 0 →
      ∀ after : World,
        after = (s.setUniformFloat name x w).2 ∨
        after = (s.setUniformVec2 name x y w).2 ∨
        after = (s.setUniformMat4 name matrix w).2 →
        after.gl.currentProgram = w.gl.currentProgram ∧
        ∃ issued, after.gl.trace = w.gl.trace ++ issued ∧
          issued.filter GLCall.isUseProgram
            = if s.m_shaderProgram = w.gl.currentProgram then []
              else [GLCall.glUseProgram s.m_shaderProgram,
                    GLCall.glUseProgram w.gl.currentProgram]) := by
  have b1 := Shader.UniformBinder.bracket s name (fun l => GLCall.glUniform1f l x) w
    (fun _ => rfl)
  have b2 := Shader.UniformBinder.bracket s name (fun l => GLCall.glUniform2f l x y) w
    (fun _ => rfl)
  have b3 := Shader.UniformBinder.bracket s name
    (fun l => GLCall.glUniformMatrix4fv l matrix) w (fun _ => rfl)
  refine ⟨?_, ?_⟩
  · intro h0
    exact ⟨Prod.ext (b1.1 h0).1 (b1.1 h0).2, Prod.ext (b2.1 h0).1 (b2.1 h0).2,
      Prod.ext (b3.1 h0).1 (b3.1 h0).2⟩
  · intro hp after h
    rcases h with h | h | h
    · rw [h]
      exact b1.2 hp
    · rw [h]
      exact b2.2 hp
    · rw [h]
      exact b3.2 hp

/-- Witness of C26: a shader whose program 5 is not in use (program 0 is) uploads a
float between two program switches; a shader without program does nothing. -/
theorem setUniform_restores_program_witness :
    plainShader.m_shaderProgram ≠ 0 ∧
    (plainShader.setUniformFloat "u" 1 sampleWorld).2.gl.currentProgram
      = sampleWorld.gl.currentProgram ∧
    (plainShader.setUniformFloat "u" 1 sampleWorld).2.gl.trace
      = [GLCall.glGetIntegerv GLenum.GL_CURRENT_PROGRAM, GLCall.glUseProgram 5,
         GLCall.glGetUniformLocation 5 "u", GLCall.glUniform1f 0 1, GLCall.glUseProgram 0] ∧
    Shader.empty.setUniformFloat "u" 1 sampleWorld = (Shader.empty, sampleWorld) :=
  ⟨by decide,
    ((setUniform_restores_program plainShader "u" 1 0 [] sampleWorld).2 (by decide) _
      (Or.inl rfl)).1,
    rfl,
    ((setUniform_restores_program Shader.empty "u" 1 0 [] sampleWorld).1 rfl).1⟩

/-! ## The draw call of a vertex-buffer draw -/

theorem List.filter_of_filter {α : Type} (p q : α → Bool) (l r : List α)
    (hpq : ∀ a, p a = true → q a = true) (h : l.filter q = r) :
    l.filter p = r.filter p := by
  rw [← h, List.filter_filter]
  apply List.filter_congr
  intro a _
  cases hp : p a
  · rfl
  · simp [hpq a hp]

theorem GLCall.isDrawCall_observed (c : GLCall) (h : GLCall.isDrawCall c = true) :
    GLCall.isViewportScissorOrDraw c = true := by
  cases c <;> first | rfl | simp [GLCall.isDrawCall] at h

theorem GLCall.isScissorCall_observed (c : GLCall) (h : GLCall.isScissorCall c = true) :
    GLCall.isViewportScissorOrDraw c = true := by
  cases c <;> first | rfl | exact h

/-- The draw calls of `draw(const VertexBuffer&, ...)` when it reaches the pipeline. -/
theorem RenderTarget.drawVertexBuffer_drawCalls (rt : RenderTarget) (vb : VertexBuffer)
    (first count : Nat) (states : RenderStates) (w : World)
    (hav : w.config.vertexBufferAvailable = true) (hfirst : first ≤ vb.getVertexCount)
    (hcount : min count (vb.getVertexCount - first) ≠ 0) (hhandle : vb.getNativeHandle ≠ 0) :
    ∃ issued,
      (rt.drawVertexBuffer vb first count states w).2.gl.trace = w.gl.trace ++ issued ∧
      issued.filter GLCall.isDrawCall
        = [GLCall.glDrawArrays (RenderTarget.modes vb.getPrimitiveType) (toInt32 first)
            (toInt32 ((min count (vb.getVertexCount - first) : Nat) : Int))] := by
  obtain ⟨issued, hi, hf⟩ := World.issued_of _ _ _
    (RenderTarget.drawVertexBuffer_trace_mono rt vb first count states w _
      (List.prefix_refl _))
    (RenderTarget.drawVertexBuffer_observed rt vb first count states w hav hfirst hcount
      hhandle)
  refine ⟨issued, hi, ?_⟩
  rw [List.filter_of_filter _ _ _ _ GLCall.isDrawCall_observed hf]
  rfl

/-- Counterexample to C27 as stated: (1) where vertex buffers are unavailable the sample
buffer (4 vertices, handle 6) drawn from vertex 1 with count 10 meets none of the three
skip conditions, yet no driver call is issued (a message is logged instead); (2) on a
buffer of 2^31 + 1 vertices drawn from vertex 2^31, the draw call carries the first
vertex -2^31, the value of the `GLint` cast, not 2^31. -/
theorem drawVertexBuffer_counterexample :
    (¬ (1 > sampleBuffer.getVertexCount) ∧ min 10 (sampleBuffer.getVertexCount - 1) ≠ 0 ∧
      sampleBuffer.getNativeHandle ≠ 0 ∧
      (steadyTarget.drawVertexBuffer sampleBuffer 1 10 RenderStates.Default
        unavailableWorld).2.gl.trace = unavailableWorld.gl.trace ∧
      (steadyTarget.drawVertexBuffer sampleBuffer 1 10 RenderStates.Default
        unavailableWorld).2.errLog
        = ["sf::VertexBuffer is not available, drawing skipped"]) ∧
    (¬ (2147483648 > hugeBuffer.getVertexCount) ∧
      min 1 (hugeBuffer.getVertexCount - 2147483648) ≠ 0 ∧
      hugeBuffer.getNativeHandle ≠ 0 ∧
      ∃ issued,
        (steadyTarget.drawVertexBuffer hugeBuffer 2147483648 1 RenderStates.Default
          activeWorld).2.gl.trace = activeWorld.gl.trace ++ issued ∧
        issued.filter GLCall.isDrawCall
          = [GLCall.glDrawArrays GLenum.GL_TRIANGLE_STRIP (-2147483648) 1]) := by
  refine ⟨⟨by decide, by decide, by decide, rfl, rfl⟩, by decide, by decide, by decide, ?_⟩
  obtain ⟨issued, hi, hf⟩ := RenderTarget.drawVertexBuffer_drawCalls steadyTarget hugeBuffer
    2147483648 1 RenderStates.Default activeWorld rfl (by decide) (by decide) (by decide)
  exact ⟨issued, hi, by rw [hf]; rfl⟩

/-- C27, amended: `draw(vertexBuffer, firstVertex, vertexCount, states)` on a buffer of
N < 2^31 vertices. If vertex buffers are unavailable, the target and the whole state are
unchanged but for one logged message. Otherwise, if firstVertex > N, or
min(vertexCount, N - firstVertex) = 0, or the buffer has no native handle, the target
and the whole state are unchanged. Otherwise exactly one primitive draw call is issued,
with first vertex firstVertex and count min(vertexCount, N - firstVertex), and
firstVertex + count ≤ N with firstVertex ≤ N (the subtraction does not underflow). -/
theorem drawVertexBuffer_clamped (rt : RenderTarget) (vb : VertexBuffer)
    (first count : Nat) (states : RenderStates) (w : World)
    (hN : vb.getVertexCount < 2 ^ 31) :
    (w.config.vertexBufferAvailable = false →
      rt.drawVertexBuffer vb first count states w
        = (rt, w.err "sf::VertexBuffer is not available, drawing skipped")) ∧
    (w.config.vertexBufferAvailable = true →
      (first > vb.getVertexCount ∨ min count (vb.getVertexCount - first) = 0 ∨
        vb.getNativeHandle = 0) →
      rt.drawVertexBuffer vb first count states w = (rt, w)) ∧
    (w.config.vertexBufferAvailable = true →
      ¬ (first > vb.getVertexCount ∨ min count (vb.getVertexCount - first) = 0 ∨
        vb.getNativeHandle = 0) →
      (∃ issued,
        (rt.drawVertexBuffer vb first count states w).2.gl.trace = w.gl.trace ++ issued ∧
        issued.filter GLCall.isDrawCall
          = [GLCall.glDrawArrays (RenderTarget.modes vb.getPrimitiveType) (first : Int)
              ((min count (vb.getVertexCount - first) : Nat) : Int)]) ∧
      first ≤ vb.getVertexCount ∧
      first + min count (vb.getVertexCount - first) ≤ vb.getVertexCount) := by
  refine ⟨?_, ?_, ?_⟩
  · intro hav
    unfold RenderTarget.drawVertexBuffer
    simp [hav]
  · intro hav h
    unfold RenderTarget.drawVertexBuffer
    by_cases hf : first > vb.getVertexCount
    · simp [hav, hf]
    · have hn : min count (vb.getVertexCount - first) = 0 ∨ vb.getNativeHandle = 0 := by
        rcases h with h | h | h
        · exact absurd h hf
        · exact Or.inl h
        · exact Or.inr h
      simp only [hav, Bool.not_true, Bool.false_eq_true, if_false, hf]
      rw [if_pos hn]
  · intro hav h
    have hfirst : first ≤ vb.getVertexCount := by
      by_contra hc
      exact h (Or.inl (by omega))
    have hcount : min count (vb.getVertexCount - first) ≠ 0 := fun hc => h (Or.inr (Or.inl hc))
    have hhandle : vb.getNativeHandle ≠ 0 := fun hc => h (Or.inr (Or.inr hc))
    obtain ⟨issued, hi, hf⟩ := RenderTarget.drawVertexBuffer_drawCalls rt vb first count states
      w hav hfirst hcount hhandle
    have hle : min count (vb.getVertexCount - first) ≤ vb.getVertexCount - first :=
      Nat.min_le_right _ _
    refine ⟨⟨issued, hi, ?_⟩, hfirst, by omega⟩
    rw [hf, toInt32_of_inInt32 (first : Int) (by unfold InInt32; omega),
      toInt32_of_inInt32 _ (by unfold InInt32; omega)]

/-- Witness of C27: the sample buffer (4 vertices) drawn from vertex 1 with count 10
issues one draw call for the 3 vertices from vertex 1. -/
theorem drawVertexBuffer_clamped_witness :
    sampleBuffer.getVertexCount < 2 ^ 31 ∧
    ∃ issued,
      (steadyTarget.drawVertexBuffer sampleBuffer 1 10 RenderStates.Default
        activeWorld).2.gl.trace = activeWorld.gl.trace ++ issued ∧
      issued.filter GLCall.isDrawCall = [GLCall.glDrawArrays GLenum.GL_TRIANGLE_STRIP 1 3] :=
  ⟨by decide,
    ((drawVertexBuffer_clamped steadyTarget sampleBuffer 1 10 RenderStates.Default activeWorld
      (by decide)).2.2 rfl (by decide)).1⟩

/-! ## Scissor state and the view across draws -/

/-- What `setupDraw` leaves of the view and its cache flags. -/
theorem RenderTarget.setupDraw_view_cache (rt : RenderTarget) (useVertexCache : Bool)
    (states : RenderStates) (w : World) :
    (rt.setupDraw useVertexCache states w).1.m_cache.scissorEnabled
      = rt.m_cache.scissorEnabled ∧
    (rt.m_cache.viewChanged = true →
      (rt.setupDraw useVertexCache states w).1.m_cache.viewChanged = true) ∧
    (rt.setupDraw useVertexCache states w).1.m_view = rt.m_view := by
  obtain ⟨base, id, pos, col, tex, h1, h2, h3⟩ :=
    RenderTarget.setupDraw_target rt useVertexCache states w
  rw [h3]
  cases hg : rt.m_cache.glStatesSet
  · rw [h2 hg]
    exact ⟨rfl, fun _ => rfl, rfl⟩
  · rw [h1 hg]
    exact ⟨rfl, fun h => h, rfl⟩

/-- What a vertex-array draw leaves of the view and its cache flags, and its scissor
calls: none. -/
theorem RenderTarget.draw_view_cache (rt : RenderTarget) (vertices : Option (List Vertex))
    (n : Nat) (type : PrimitiveType) (states : RenderStates) (w : World) :
    (∃ issued, (rt.draw vertices n type states w).2.gl.trace = w.gl.trace ++ issued ∧
      issued.filter GLCall.isScissorCall = []) ∧
    (rt.draw vertices n type states w).1.m_cache.scissorEnabled = rt.m_cache.scissorEnabled ∧
    (rt.m_cache.viewChanged = true →
      (rt.draw vertices n type states w).1.m_cache.viewChanged = true) ∧
    (rt.draw vertices n type states w).1.m_view = rt.m_view := by
  cases vertices with
  | none => exact ⟨⟨[], by simp [RenderTarget.draw], rfl⟩, rfl, fun h => h, rfl⟩
  | some vs =>
    by_cases hn : n = 0
    · subst hn
      exact ⟨⟨[], by simp [RenderTarget.draw], rfl⟩, rfl, fun h => h, rfl⟩
    · obtain ⟨issued, hi, hf⟩ := World.issued_of _ _ _
        (RenderTarget.draw_trace_mono rt (some vs) n type states w _ (List.prefix_refl _))
        (RenderTarget.draw_observed rt vs n type states w hn)
      obtain ⟨rt1, w1, e, g, buf, G, AP, -, hrt1, -, -, -, -, -, -, hres⟩ :=
        RenderTarget.draw_stages rt vs n type states w hn
      obtain ⟨k1, k2, k3⟩ := RenderTarget.setupDraw_view_cache rt1
        (decide (n ≤ rt.m_cache.vertexCache.length)) states w1
      refine ⟨⟨issued, hi, ?_⟩, ?_, ?_, ?_⟩
      · rw [List.filter_of_filter _ _ _ _ GLCall.isScissorCall_observed hf]
        rfl
      · rw [hres]
        show (rt1.setupDraw _ states w1).1.m_cache.scissorEnabled = _
        rw [k1, hrt1]
      · intro hv
        rw [hres]
        exact k2 (by rw [hrt1]; exact hv)
      · rw [hres]
        show (rt1.setupDraw _ states w1).1.m_view = _
        rw [k3, hrt1]

/-- What a vertex-buffer draw leaves of the view and its cache flags, and its scissor
calls: none. -/
theorem RenderTarget.drawVertexBuffer_view_cache (rt : RenderTarget) (vb : VertexBuffer)
    (first count : Nat) (states : RenderStates) (w : World) :
    (∃ issued, (rt.drawVertexBuffer vb first count states w).2.gl.trace
        = w.gl.trace ++ issued ∧
      issued.filter GLCall.isScissorCall = []) ∧
    (rt.drawVertexBuffer vb first count states w).1.m_cache.scissorEnabled
      = rt.m_cache.scissorEnabled ∧
    (rt.m_cache.viewChanged = true →
      (rt.drawVertexBuffer vb first count states w).1.m_cache.viewChanged = true) ∧
    (rt.drawVertexBuffer vb first count states w).1.m_view = rt.m_view := by
  by_cases hskip : w.config.vertexBufferAvailable = false ∨ vb.getVertexCount < first ∨
      min count (vb.getVertexCount - first) = 0 ∨ vb.getNativeHandle = 0
  · obtain ⟨h1, h2⟩ := RenderTarget.drawVertexBuffer_skipped rt vb first count states w hskip
    rw [h1, h2]
    exact ⟨⟨[], by simp, rfl⟩, rfl, fun h => h, rfl⟩
  · have hav : w.config.vertexBufferAvailable = true := by
      by_contra hc
      exact hskip (Or.inl (by simpa using hc))
    have hfirst : first ≤ vb.getVertexCount := by
      by_contra hc
      exact hskip (Or.inr (Or.inl (by omega)))
    have hcount : min count (vb.getVertexCount - first) ≠ 0 :=
      fun hc => hskip (Or.inr (Or.inr (Or.inl hc)))
    have hhandle : vb.getNativeHandle ≠ 0 := fun hc => hskip (Or.inr (Or.inr (Or.inr hc)))
    obtain ⟨issued, hi, hf⟩ := World.issued_of _ _ _
      (RenderTarget.drawVertexBuffer_trace_mono rt vb first count states w _
        (List.prefix_refl _))
      (RenderTarget.drawVertexBuffer_observed rt vb first count states w hav hfirst hcount
        hhandle)
    obtain ⟨rt1, w1, e, g, loc, EA, AP, -, hrt1, -, -, -, -, -, -, hres⟩ :=
      RenderTarget.drawVertexBuffer_stages rt vb first count states w hav hfirst hcount hhandle
    obtain ⟨k1, k2, k3⟩ := RenderTarget.setupDraw_view_cache rt1 false states w1
    refine ⟨⟨issued, hi, ?_⟩, ?_, ?_, ?_⟩
    · rw [List.filter_of_filter _ _ _ _ GLCall.isScissorCall_observed hf]
      rfl
    · rw [hres]
      show (rt1.setupDraw _ states w1).1.m_cache.scissorEnabled = _
      rw [k1, hrt1]
    · intro hv
      rw [hres]
      exact k2 (by rw [hrt1]; exact hv)
    · rw [hres]
      show (rt1.setupDraw _ states w1).1.m_view = _
      rw [k3, hrt1]

/-- What `applyCurrentView` does: the viewport call, then its scissor calls; the cached
scissor flag follows the view and the `viewChanged` flag is cleared. -/
theorem RenderTarget.applyCurrentView_scissor (rt : RenderTarget) (w : World) :
    (rt.applyCurrentView w).1.m_cache.viewChanged = false ∧
    (rt.applyCurrentView w).1.m_cache.scissorEnabled
      = decide (rt.m_view.getScissor ≠ ⟨⟨0, 0⟩, ⟨1, 1⟩⟩) ∧
    (rt.applyCurrentView w).2.gl.trace = w.gl.trace ++
      ([GLCall.glViewport (rt.getViewport rt.m_view).position.x
          (toInt32 (toInt32 rt.getSize.y -
            toInt32 ((rt.getViewport rt.m_view).position.y +
              (rt.getViewport rt.m_view).size.y)))
          (rt.getViewport rt.m_view).size.x (rt.getViewport rt.m_view).size.y] ++
        (if rt.m_view.getScissor = ⟨⟨0, 0⟩, ⟨1, 1⟩⟩ then
          (if (!rt.m_cache.enable || rt.m_cache.scissorEnabled) = true then
            [GLCall.glDisable GLenum.GL_SCISSOR_TEST] else [])
        else
          [GLCall.glScissor (rt.getScissor rt.m_view).position.x
            (toInt32 (toInt32 rt.getSize.y -
              toInt32 ((rt.getScissor rt.m_view).position.y +
                (rt.getScissor rt.m_view).size.y)))
            (rt.getScissor rt.m_view).size.x (rt.getScissor rt.m_view).size.y] ++
          (if (!rt.m_cache.enable || !rt.m_cache.scissorEnabled) = true then
            [GLCall.glEnable GLenum.GL_SCISSOR_TEST] else []))) := by
  unfold RenderTarget.applyCurrentView
  by_cases hu : rt.m_view.getScissor = ⟨⟨0, 0⟩, ⟨1, 1⟩⟩
  · cases he : rt.m_cache.enable <;> cases hs : rt.m_cache.scissorEnabled <;>
      simp [hu, he, hs, World.call_trace]
  · cases he : rt.m_cache.enable <;> cases hs : rt.m_cache.scissorEnabled <;>
      simp [hu, he, hs, World.call_trace]

/-- What `resetGLStates` leaves of the view and its cache flags, and its scissor calls:
none. -/
theorem RenderTarget.resetGLStates_view_cache (rt : RenderTarget) (w : World) :
    (∃ issued, (rt.resetGLStates w).2.gl.trace = w.gl.trace ++ issued ∧
      issued.filter GLCall.isScissorCall = []) ∧
    (rt.resetGLStates w).1.m_cache.scissorEnabled = rt.m_cache.scissorEnabled ∧
    (rt.resetGLStates w).1.m_cache.viewChanged = true ∧
    (rt.resetGLStates w).1.m_view = rt.m_view := by
  obtain ⟨issued, hi, hf⟩ := World.issued_of _ _ []
    (RenderTarget.resetGLStates_trace_mono rt w _ (List.prefix_refl _))
    (by rw [RenderTarget.resetGLStates_observed, List.append_nil])
  refine ⟨⟨issued, hi, ?_⟩, ?_, ?_, ?_⟩
  · rw [List.filter_of_filter _ _ _ _ GLCall.isScissorCall_observed hf]
    rfl
  · rw [RenderTarget.resetGLStates_target]
  · rw [RenderTarget.resetGLStates_target]
  · rw [RenderTarget.resetGLStates_target]

/-! ## Vertex attribute arrays across resets -/

theorem GLCall.arraysAfter_filter (l : List GLCall) :
    ∀ enabled, GLCall.arraysAfter enabled l
      = GLCall.arraysAfter enabled (l.filter GLCall.isAttribArray) := by
  induction l with
  | nil => intro enabled; rfl
  | cons c rest ih =>
    intro enabled
    cases c <;> simp only [GLCall.arraysAfter, List.filter_cons, GLCall.isAttribArray, if_true,
      Bool.false_eq_true, if_false] <;> exact ih _

theorem GLCall.arraysAfter_append (a b : List GLCall) :
    ∀ enabled, GLCall.arraysAfter enabled (a ++ b)
      = GLCall.arraysAfter (GLCall.arraysAfter enabled a) b := by
  induction a with
  | nil => intro enabled; rfl
  | cons c rest ih =>
    intro enabled
    cases c <;> simp only [GLCall.arraysAfter, List.cons_append] <;> exact ih _

theorem GLCall.arraysAfter_disableCalls (location : Int) (enabled : List Nat)
    (h : location ≥ 0) :
    location.toNat % 2 ^ 32 ∉ GLCall.arraysAfter enabled (RenderTarget.disableCalls location) := by
  unfold RenderTarget.disableCalls
  simp [h, GLCall.arraysAfter]

/-- Disabling other arrays afterwards does not enable an array. -/
theorem GLCall.arraysAfter_disableCalls_subset (location : Int) (enabled : List Nat) (i : Nat)
    (h : i ∈ GLCall.arraysAfter enabled (RenderTarget.disableCalls location)) :
    i ∈ enabled := by
  unfold RenderTarget.disableCalls at h
  split_ifs at h
  · simp only [GLCall.arraysAfter, List.mem_filter] at h
    exact h.1
  · exact h

theorem RenderTarget.disableAttrib_sel_attribArray (location : Int) (w : World) :
    (RenderTarget.disableAttrib location w).sel GLCall.isAttribArray
      = w.sel GLCall.isAttribArray ++ RenderTarget.disableCalls location := by
  unfold RenderTarget.disableAttrib RenderTarget.disableCalls
  split_ifs <;> simp [GLCall.isAttribArray]

/-- The attribute-array calls of `resetGLStates`: it disables the arrays at the cached
locations that are valid, and enables none. -/
theorem RenderTarget.resetGLStates_sel_attribArray (rt : RenderTarget) (w : World) :
    (rt.resetGLStates w).2.sel GLCall.isAttribArray
      = w.sel GLCall.isAttribArray ++
        (RenderTarget.disableCalls rt.m_cache.posAttrib ++
          RenderTarget.disableCalls rt.m_cache.colAttrib ++
          RenderTarget.disableCalls rt.m_cache.texAttrib) := by
  unfold RenderTarget.resetGLStates
  lift_lets
  extract_lets shaderAvailable vertexBufferAvailable d m g rt0 w1 w2 w3 w4 w5 w6 w7 src3 rt1 b
    s t hh w8 src2 src1 rt2 rt3 src0
  have hm : m.2.sel GLCall.isAttribArray = w.sel GLCall.isAttribArray ∧
      m.1.m_cache.posAttrib = rt.m_cache.posAttrib ∧
      m.1.m_cache.colAttrib = rt.m_cache.colAttrib ∧
      m.1.m_cache.texAttrib = rt.m_cache.texAttrib := by
    obtain ⟨e, gg, hh⟩ := RenderTarget.setActive_target rt false w
    simp only [m, d]
    split_ifs
    · refine ⟨by simp, ?_, ?_, ?_⟩ <;> rw [hh]
    · refine ⟨by simp, ?_, ?_, ?_⟩ <;> rw [hh]
    · exact ⟨rfl, rfl, rfl, rfl⟩
  clear_value m d
  have hg : g.2.2.sel GLCall.isAttribArray = w.sel GLCall.isAttribArray ∧
      rt0.m_cache.posAttrib = rt.m_cache.posAttrib ∧
      rt0.m_cache.colAttrib = rt.m_cache.colAttrib ∧
      rt0.m_cache.texAttrib = rt.m_cache.texAttrib := by
    obtain ⟨e, gg, -, hh⟩ := RenderTarget.ensureActive_target m.1 m.2
    refine ⟨by simp [g, hm.1], ?_, ?_, ?_⟩
    · simp only [rt0, g]; rw [hh]; exact hm.2.1
    · simp only [rt0, g]; rw [hh]; exact hm.2.2.1
    · simp only [rt0, g]; rw [hh]; exact hm.2.2.2
  have hg1 : g.1 = true := by simp [g]
  clear_value g
  simp only [hg1, if_true]
  have h7 : w7.sel GLCall.isAttribArray = w.sel GLCall.isAttribArray ++
      (RenderTarget.disableCalls rt.m_cache.posAttrib ++
        RenderTarget.disableCalls rt.m_cache.colAttrib ++
        RenderTarget.disableCalls rt.m_cache.texAttrib) := by
    simp only [w7, w6, w5, RenderTarget.disableAttrib_sel_attribArray, w4, w3, w2, w1,
      World.sel_call, hg.1, hg.2.1, hg.2.2.1, hg.2.2.2]
    simp [GLCall.isAttribArray]
  clear_value w1 w2 w3 w4 w5 w6 w7
  have hb : b.2.sel GLCall.isAttribArray = w7.sel GLCall.isAttribArray := by
    simp only [b, RenderTarget.applyBlendMode_sel]
    simp [List.filter_cons, GLCall.isAttribArray]
  clear_value b
  have hs : s.2.sel GLCall.isAttribArray = w7.sel GLCall.isAttribArray := by
    simp only [s, RenderTarget.applyStencilMode_sel, hb]
    simp only [if_true]
    split_ifs <;> simp [List.filter_cons, GLCall.isAttribArray]
  clear_value s
  have ht : t.2.sel GLCall.isAttribArray = w7.sel GLCall.isAttribArray := by
    simp only [t, RenderTarget.applyTexture_sel, hs]
    simp [List.filter_cons, GLCall.isAttribArray]
  clear_value t
  have hh2 : hh.2.sel GLCall.isAttribArray = w7.sel GLCall.isAttribArray := by
    simp only [hh, shaderAvailable, Shader.isAvailable, if_true,
      RenderTarget.applyShader_none_sel, ht]
    simp [List.filter_cons, GLCall.isAttribArray]
  clear_value hh
  show w8.sel GLCall.isAttribArray = _
  rw [← h7]
  simp only [w8]
  split_ifs
  · simp [hh2, GLCall.isAttribArray]
  · exact hh2

theorem Shader.bindTexturesLoop_attribArray (l : List (Int × Texture)) :
    ∀ (i : Nat) (w : World) (r : ShaderRef),
      (Shader.bindTexturesLoop i l w).sel GLCall.isAttribArray = w.sel GLCall.isAttribArray ∧
      (Shader.bindTexturesLoop i l w).getShader r = w.getShader r := by
  induction l with
  | nil => intro i w r; exact ⟨rfl, rfl⟩
  | cons e rest ih =>
    intro i w r
    obtain ⟨location, texture⟩ := e
    unfold Shader.bindTexturesLoop
    obtain ⟨h1, h2⟩ := ih (i + 1)
      (((w.call (GLCall.glUniform1i location (toInt32 ((i : Int) + 1)))).call
        (GLCall.glActiveTexture ((i + 1) % 2 ^ 32))).call
        (GLCall.Texture_bind (some texture) CoordinateType.Normalized)) r
    refine ⟨?_, ?_⟩
    · rw [h1]
      simp [GLCall.isAttribArray]
    · rw [h2]
      cases r <;> rfl

/-- Binding a shader touches no vertex attribute array and no shader object. -/
theorem Shader.bind_attribArray (shader : Option ShaderRef) (w : World) (r : ShaderRef) :
    (Shader.bind shader w).sel GLCall.isAttribArray = w.sel GLCall.isAttribArray ∧
    (Shader.bind shader w).getShader r = w.getShader r := by
  unfold Shader.bind
  cases shader with
  | none =>
    refine ⟨by simp [GLCall.isAttribArray], ?_⟩
    cases r <;> rfl
  | some q =>
    simp only []
    by_cases hp : (w.getShader q).m_shaderProgram = 0
    · simp only [hp, ne_eq, not_true_eq_false, if_false]
      refine ⟨by simp [GLCall.isAttribArray], ?_⟩
      cases r <;> rfl
    · simp only [hp, ne_eq, not_false_eq_true, if_true]
      unfold Shader.bindTextures
      obtain ⟨h1, h2⟩ := Shader.bindTexturesLoop_attribArray (w.getShader q).m_textures 0
        (w.call (GLCall.glUseProgram (w.getShader q).m_shaderProgram)) r
      have h3 : (w.call (GLCall.glUseProgram (w.getShader q).m_shaderProgram)).getShader r
          = w.getShader r := by
        cases r <;> rfl
      split_ifs
      · refine ⟨?_, ?_⟩
        · simp [h1, GLCall.isAttribArray]
        · rw [← h3, ← h2]
          cases r <;> rfl
      · refine ⟨?_, ?_⟩
        · simp [h1, GLCall.isAttribArray]
        · rw [← h3, ← h2]
          cases r <;> rfl

/-- Applying a shader whose handle is the cached `lastShaderId` enables no vertex attribute
array (and disables none), and leaves the cache as it is. -/
theorem RenderTarget.applyShader_same (rt : RenderTarget) (r : ShaderRef) (w : World)
    (h : (w.getShader r).getNativeHandle = rt.m_cache.lastShaderId) :
    (rt.applyShader (some r) w).1 = rt ∧
    (rt.applyShader (some r) w).2.sel GLCall.isAttribArray = w.sel GLCall.isAttribArray := by
  unfold RenderTarget.applyShader
  simp only []
  rw [(Shader.bind_attribArray (some r) w r).2, h]
  simp only [ne_eq, not_true_eq_false, if_false]
  exact ⟨trivial, (Shader.bind_attribArray (some r) w r).1⟩

/-- Counterexample to C28, on an OpenGL ES build (no vertex-array objects): the fresh
sample target draws the sample quad with the default shader, then `resetGLStates` (or
`pushGLStates`, or `setActive(false)`) is called, then the same quad is drawn with the
same shader. At the first primitive draw call the arrays 0, 1, 2 (position, color,
texture coordinates) are enabled; at the second one no array is enabled, although the
cached position and color locations are still 0 and 1. -/
theorem draw_after_reset_counterexample :
    GLCall.arraysAtDraws []
      (RenderTarget.runAll
        [RenderTarget.Op.draw sampleQuad 4 PrimitiveType.TriangleStrip RenderStates.Default,
         RenderTarget.Op.resetGLStates,
         RenderTarget.Op.draw sampleQuad 4 PrimitiveType.TriangleStrip RenderStates.Default]
        (sampleTarget, sampleWorld)).2.gl.trace = [[0, 1, 2], []] ∧
    (RenderTarget.runAll
        [RenderTarget.Op.draw sampleQuad 4 PrimitiveType.TriangleStrip RenderStates.Default,
         RenderTarget.Op.resetGLStates,
         RenderTarget.Op.draw sampleQuad 4 PrimitiveType.TriangleStrip RenderStates.Default]
        (sampleTarget, sampleWorld)).1.m_cache.posAttrib = 0 ∧
    (RenderTarget.runAll
        [RenderTarget.Op.draw sampleQuad 4 PrimitiveType.TriangleStrip RenderStates.Default,
         RenderTarget.Op.resetGLStates,
         RenderTarget.Op.draw sampleQuad 4 PrimitiveType.TriangleStrip RenderStates.Default]
        (sampleTarget, sampleWorld)).1.m_cache.colAttrib = 1 ∧
    GLCall.arraysAtDraws []
      (RenderTarget.runAll
        [RenderTarget.Op.draw sampleQuad 4 PrimitiveType.TriangleStrip RenderStates.Default,
         RenderTarget.Op.pushGLStates,
         RenderTarget.Op.draw sampleQuad 4 PrimitiveType.TriangleStrip RenderStates.Default]
        (sampleTarget, sampleWorld)).2.gl.trace = [[0, 1, 2], []] ∧
    GLCall.arraysAtDraws []
      (RenderTarget.runAll
        [RenderTarget.Op.draw sampleQuad 4 PrimitiveType.TriangleStrip RenderStates.Default,
         RenderTarget.Op.setActive false,
         RenderTarget.Op.draw sampleQuad 4 PrimitiveType.TriangleStrip RenderStates.Default]
        (sampleTarget, sampleWorld)).2.gl.trace = [[0, 1, 2], []] ∧
    (RenderTarget.runAll
        [RenderTarget.Op.draw sampleQuad 4 PrimitiveType.TriangleStrip RenderStates.Default,
         RenderTarget.Op.setActive false,
         RenderTarget.Op.draw sampleQuad 4 PrimitiveType.TriangleStrip RenderStates.Default]
        (sampleTarget, sampleWorld)).1.m_cache.posAttrib = 0 := by
  set_option maxRecDepth 1000000 in exact ⟨rfl, rfl, rfl, rfl, rfl, rfl⟩

/-- C28, what the code does: `resetGLStates` disables the vertex attribute arrays at the
cached position, color and texture-coordinate locations (those that are valid) and
enables none, so whatever was enabled before, none of the three is enabled afterwards;
it keeps `lastShaderId` and the three cached locations; and `applyShader`, the only
place where `setupDraw` enables arrays, enables none when the handle of the shader is the
cached `lastShaderId`. -/
theorem resetGLStates_leaves_arrays_disabled (rt : RenderTarget) (w : World) :
    (∃ issued, (rt.resetGLStates w).2.gl.trace = w.gl.trace ++ issued ∧
      issued.filter GLCall.isAttribArray
        = RenderTarget.disableCalls rt.m_cache.posAttrib ++
          RenderTarget.disableCalls rt.m_cache.colAttrib ++
          RenderTarget.disableCalls rt.m_cache.texAttrib ∧
      ∀ enabled : List Nat,
        (rt.m_cache.posAttrib ≥ 0 →
          rt.m_cache.posAttrib.toNat % 2 ^ 32 ∉ GLCall.arraysAfter enabled issued) ∧
        (rt.m_cache.colAttrib ≥ 0 →
          rt.m_cache.colAttrib.toNat % 2 ^ 32 ∉ GLCall.arraysAfter enabled issued) ∧
        (rt.m_cache.texAttrib ≥ 0 →
          rt.m_cache.texAttrib.toNat % 2 ^ 32 ∉ GLCall.arraysAfter enabled issued)) ∧
    (rt.resetGLStates w).1.m_cache.lastShaderId = rt.m_cache.lastShaderId ∧
    (rt.resetGLStates w).1.m_cache.posAttrib = rt.m_cache.posAttrib ∧
    (rt.resetGLStates w).1.m_cache.colAttrib = rt.m_cache.colAttrib ∧
    (rt.resetGLStates w).1.m_cache.texAttrib = rt.m_cache.texAttrib ∧
    (∀ (r : ShaderRef) (w' : World),
      (w'.getShader r).getNativeHandle = rt.m_cache.lastShaderId →
      ((rt.resetGLStates w).1.applyShader (some r) w').1 = (rt.resetGLStates w).1 ∧
      ∃ issued, ((rt.resetGLStates w).1.applyShader (some r) w').2.gl.trace
          = w'.gl.trace ++ issued ∧
        issued.filter GLCall.isAttribArray = []) := by
  have hL : (rt.resetGLStates w).1.m_cache.lastShaderId = rt.m_cache.lastShaderId := by
    rw [RenderTarget.resetGLStates_target]
  refine ⟨?_, hL, by rw [RenderTarget.resetGLStates_target],
    by rw [RenderTarget.resetGLStates_target], by rw [RenderTarget.resetGLStates_target], ?_⟩
  · obtain ⟨issued, hi, hf⟩ := World.issued_sel GLCall.isAttribArray w (rt.resetGLStates w).2 _
      (RenderTarget.resetGLStates_trace_mono rt w _ (List.prefix_refl _))
      (RenderTarget.resetGLStates_sel_attribArray rt w)
    refine ⟨issued, hi, hf, ?_⟩
    intro enabled
    rw [GLCall.arraysAfter_filter, hf, GLCall.arraysAfter_append, GLCall.arraysAfter_append]
    refine ⟨?_, ?_, ?_⟩
    · intro h hm
      exact GLCall.arraysAfter_disableCalls _ enabled h
        (GLCall.arraysAfter_disableCalls_subset _ _ _
          (GLCall.arraysAfter_disableCalls_subset _ _ _ hm))
    · intro h hm
      exact GLCall.arraysAfter_disableCalls _ _ h
        (GLCall.arraysAfter_disableCalls_subset _ _ _ hm)
    · intro h hm
      exact GLCall.arraysAfter_disableCalls _ _ h hm
  · intro r w' h
    obtain ⟨h1, h2⟩ := RenderTarget.applyShader_same (rt.resetGLStates w).1 r w' (by rw [hL, h])
    refine ⟨h1, ?_⟩
    exact World.issued_sel GLCall.isAttribArray w' _ []
      (RenderTarget.applyShader_trace_mono _ _ _ _ (List.prefix_refl _))
      (by rw [h2, List.append_nil])

/-! ## Tracking the program in use -/

theorem UniformState.run_append (g : UniformState) (a b : List GLCall) :
    g.run (a ++ b) = (g.run a).run b := by
  unfold UniformState.run
  rw [List.foldl_append]

theorem World.ghost_of_issued (w0 w : World) (issued : List GLCall)
    (h : w.gl.trace = w0.gl.trace ++ issued) :
    w.ghost w0 = UniformState.run ⟨w0.gl.currentProgram, []⟩ issued := by
  unfold World.ghost
  rw [h, List.drop_left]

/-- The uniform state after more calls. -/
theorem World.ghost_step (w0 w w' : World) (issued : List GLCall)
    (hp : w0.gl.trace <+: w.gl.trace) (h : w'.gl.trace = w.gl.trace ++ issued) :
    w'.ghost w0 = (w.ghost w0).run issued := by
  obtain ⟨before, hb⟩ := hp
  rw [World.ghost_of_issued w0 w before hb.symm,
    World.ghost_of_issued w0 w' (before ++ issued) (by rw [h, ← hb, List.append_assoc]),
    UniformState.run_append]

theorem World.ghost_call (w0 w : World) (c : GLCall) (hp : w0.gl.trace <+: w.gl.trace) :
    (w.call c).ghost w0 = GLCall.applyUniform (w.ghost w0) c := by
  rw [World.ghost_step w0 w (w.call c) [c] hp (World.call_trace c w)]
  rfl

theorem World.getShader_call (c : GLCall) (w : World) (r : ShaderRef) :
    (w.call c).getShader r = w.getShader r := by
  cases r <;> rfl

theorem World.getShader_setShader_ne (r q : ShaderRef) (s : Shader) (w : World)
    (h : q ≠ r) : (w.setShader r s).getShader q = w.getShader q := by
  cases r <;> cases q <;> simp [World.setShader, World.getShader] at h ⊢
  intro hh
  exact absurd hh h

/-- A world that differs only in parts the invariant does not read. -/
theorem World.Inv.congr {w0 w : World} (h : World.Inv w0 w) (w' : World)
    (ht : w'.gl.trace = w.gl.trace) (hc : w'.gl.currentProgram = w.gl.currentProgram)
    (hf : w'.fixed = w.fixed) (h1 : w'.defaultShaderFirst = w.defaultShaderFirst)
    (h2 : w'.defaultTexShaderFirst = w.defaultTexShaderFirst)
    (hs : ∀ r, w'.getShader r = w.getShader r) : World.Inv w0 w' where
  fixed := by rw [hf, h.fixed]
  loaded := by rw [h1, h.loaded]
  loadedTex := by rw [h2, h.loadedTex]
  core := fun r => by rw [hs r, h.core r]
  coherent := fun r => by rw [hs r]; exact h.coherent r
  grows := by rw [ht]; exact h.grows
  program := by
    rw [hc, h.program]
    unfold World.ghost
    rw [ht]

theorem World.Inv.refl (w0 : World) (h1 : w0.defaultShaderFirst = false)
    (h2 : w0.defaultTexShaderFirst = false) (hc : ∀ r, (w0.getShader r).Coherent w0.env) :
    World.Inv w0 w0 where
  fixed := rfl
  loaded := h1
  loadedTex := h2
  core := fun _ => rfl
  coherent := hc
  grows := List.prefix_refl _
  program := by
    unfold World.ghost
    rw [List.drop_length]
    rfl

theorem World.Inv.call {w0 w : World} (h : World.Inv w0 w) (c : GLCall) :
    World.Inv w0 (w.call c) where
  fixed := h.fixed
  loaded := h.loaded
  loadedTex := h.loadedTex
  core := fun r => by rw [World.getShader_call, h.core r]
  coherent := fun r => by rw [World.getShader_call]; exact h.coherent r
  grows := World.call_trace_mono c w _ h.grows
  program := by
    rw [World.ghost_call w0 w c h.grows]
    cases c <;> first | exact h.program | rfl

theorem World.Inv.err {w0 w : World} (h : World.Inv w0 w) (msg : String) :
    World.Inv w0 (w.err msg) :=
  h.congr _ rfl rfl rfl rfl rfl (fun r => by cases r <;> rfl)

theorem World.Inv.freshHandle {w0 w : World} (h : World.Inv w0 w) :
    World.Inv w0 w.freshHandle.2 :=
  h.congr _ rfl rfl rfl rfl rfl (fun r => by cases r <;> rfl)

theorem World.Inv.ite {w0 : World} (c : Prop) [Decidable c] (a b : World)
    (ha : World.Inv w0 a) (hb : World.Inv w0 b) : World.Inv w0 (if c then a else b) := by
  split_ifs <;> assumption

theorem World.Inv.ite_snd {w0 : World} {α : Type} (c : Prop) [Decidable c] (a b : α × World)
    (ha : World.Inv w0 a.2) (hb : World.Inv w0 b.2) :
    World.Inv w0 (if c then a else b).2 := by
  split_ifs <;> assumption

theorem World.Inv.ite_snd_snd {w0 : World} {α β : Type} (c : Prop) [Decidable c]
    (a b : α × β × World) (ha : World.Inv w0 a.2.2) (hb : World.Inv w0 b.2.2) :
    World.Inv w0 (if c then a else b).2.2 := by
  split_ifs <;> assumption

/-- Storing back a shader object that has the same program and a coherent cache. -/
theorem World.Inv.setShader {w0 w : World} (h : World.Inv w0 w) (r : ShaderRef) (s : Shader)
    (hcore : s.core = (w0.getShader r).core) (hcoh : s.Coherent w0.env) :
    World.Inv w0 (w.setShader r s) where
  fixed := by
    rw [← h.fixed]
    cases r <;> rfl
  loaded := by
    rw [← h.loaded]
    cases r <;> rfl
  loadedTex := by
    rw [← h.loadedTex]
    cases r <;> rfl
  core := fun q => by
    by_cases hq : q = r
    · subst hq
      rw [World.getShader_setShader, hcore]
    · rw [World.getShader_setShader_ne r q s w hq, h.core q]
  coherent := fun q => by
    by_cases hq : q = r
    · subst hq
      rw [World.getShader_setShader]
      exact hcoh
    · rw [World.getShader_setShader_ne r q s w hq]
      exact h.coherent q
  grows := World.setShader_trace_mono r s w _ h.grows
  program := by
    have e : (w.setShader r s).gl = w.gl := by cases r <;> rfl
    unfold World.ghost
    rw [e]
    exact h.program

/-! ## What the uniform setters preserve and upload -/

theorem World.call_inv {w0 : World} (c : GLCall) (w : World) (h : World.Inv w0 w) :
    World.Inv w0 (w.call c) :=
  h.call c

theorem List.lookup_append_some {α β : Type} [BEq α] [LawfulBEq α] (l : List (α × β))
    (a k : α) (b v : β) (h : (l ++ [(a, b)]).lookup k = some v) :
    l.lookup k = some v ∨ (k = a ∧ v = b) := by
  induction l with
  | nil =>
    simp only [List.nil_append, List.lookup] at h
    cases hk : k == a
    · simp [hk] at h
    · simp only [hk, Option.some.injEq] at h
      exact Or.inr ⟨by simpa using hk, h.symm⟩
  | cons x rest ih =>
    obtain ⟨k', v'⟩ := x
    simp only [List.lookup, List.cons_append] at h ⊢
    cases hk : k == k'
    · simp only [hk] at h ⊢
      exact ih h
    · simp only [hk] at h ⊢
      exact Or.inl h

theorem Shader.getUniformLocation_inv {w0 : World} (s : Shader) (name : String) (w : World)
    (h : World.Inv w0 w) : World.Inv w0 (s.getUniformLocation name w).2.2 := by
  unfold Shader.getUniformLocation
  split
  · exact h
  · apply World.Inv.ite
    · exact (h.call _).err _
    · exact h.call _

/-- On a coherent object `getUniformLocation` answers what the driver answers for the
program, and leaves the object coherent, with the same program. -/
theorem Shader.getUniformLocation_coherent (env : DriverEnv) (s : Shader) (name : String)
    (w : World) (he : w.env = env) (hs : s.Coherent env) :
    (s.getUniformLocation name w).1 = env.uniformLocation s.m_shaderProgram name ∧
    (s.getUniformLocation name w).2.1.Coherent env ∧
    (s.getUniformLocation name w).2.1.core = s.core := by
  unfold Shader.getUniformLocation
  cases hl : s.m_uniforms.lookup name with
  | some l => exact ⟨hs name l hl, hs, rfl⟩
  | none =>
    refine ⟨by rw [← he], ?_, rfl⟩
    intro name' l' hl'
    rcases List.lookup_append_some _ _ _ _ _ hl' with h1 | ⟨h1, h2⟩
    · exact hs name' l' h1
    · rw [h1, h2, ← he]

theorem Shader.getUniformLocation_ghost {w0 : World} (s : Shader) (name : String) (w : World)
    (h : World.Inv w0 w) :
    (s.getUniformLocation name w).2.2.ghost w0 = w.ghost w0 := by
  unfold Shader.getUniformLocation
  split
  · rfl
  · have e : (w.call (GLCall.glGetUniformLocation s.m_shaderProgram name)).ghost w0
        = w.ghost w0 := by
      rw [World.ghost_call w0 w _ h.grows]
      rfl
    simp only []
    split_ifs
    · exact e
    · exact e

/-- The state the constructor of `UniformBinder` leaves for a shader with a program: the
program is in use, the location is the driver's, the saved program is the one that was in
use. -/
theorem Shader.UniformBinder.construct_ghost {w0 : World} (s : Shader) (name : String)
    (w : World) (h : World.Inv w0 w) (hs : s.Coherent w0.env) (hp : s.m_shaderProgram ≠ 0) :
    World.Inv w0 (Shader.UniformBinder.construct s name w).2.2 ∧
    (Shader.UniformBinder.construct s name w).2.2.ghost w0
      = ⟨s.m_shaderProgram, (w.ghost w0).matrices⟩ ∧
    (Shader.UniformBinder.construct s name w).1
      = ⟨w.gl.currentProgram, s.m_shaderProgram,
          w0.env.uniformLocation s.m_shaderProgram name⟩ ∧
    (Shader.UniformBinder.construct s name w).2.1.Coherent w0.env ∧
    (Shader.UniformBinder.construct s name w).2.1.core = s.core := by
  unfold Shader.UniformBinder.construct
  simp only [hp, ne_eq, not_false_eq_true, if_true]
  have h1 : World.Inv w0 (w.call (GLCall.glGetIntegerv GLenum.GL_CURRENT_PROGRAM)) := h.call _
  have g1 : (w.call (GLCall.glGetIntegerv GLenum.GL_CURRENT_PROGRAM)).ghost w0 = w.ghost w0 := by
    rw [World.ghost_call w0 w _ h.grows]
    rfl
  have hq : (w.call (GLCall.glGetIntegerv GLenum.GL_CURRENT_PROGRAM)).gl.currentProgram
      = w.gl.currentProgram := rfl
  rw [hq]
  have he : ∀ x : World, World.Inv w0 x → x.env = w0.env := fun x hx =>
    World.env_of_fixed _ _ hx.fixed
  by_cases heq : s.m_shaderProgram = w.gl.currentProgram
  · simp only [heq, not_true_eq_false, if_false]
    obtain ⟨c1, c2, c3⟩ := Shader.getUniformLocation_coherent w0.env s name
      (w.call (GLCall.glGetIntegerv GLenum.GL_CURRENT_PROGRAM)) (he _ h1) hs
    refine ⟨Shader.getUniformLocation_inv _ _ _ h1, ?_, ?_, c2, c3⟩
    · rw [Shader.getUniformLocation_ghost _ _ _ h1, g1, ← heq, heq, h.program]
    · rw [c1, heq]
  · simp only [heq, not_false_eq_true, if_true]
    have h2 : World.Inv w0 ((w.call (GLCall.glGetIntegerv GLenum.GL_CURRENT_PROGRAM)).call
        (GLCall.glUseProgram s.m_shaderProgram)) := h1.call _
    obtain ⟨c1, c2, c3⟩ := Shader.getUniformLocation_coherent w0.env s name
      ((w.call (GLCall.glGetIntegerv GLenum.GL_CURRENT_PROGRAM)).call
        (GLCall.glUseProgram s.m_shaderProgram)) (he _ h2) hs
    refine ⟨Shader.getUniformLocation_inv _ _ _ h2, ?_, ?_, c2, c3⟩
    · rw [Shader.getUniformLocation_ghost _ _ _ h2, World.ghost_call w0 _ _ h1.grows, g1]
      rfl
    · rw [c1]

theorem Shader.UniformBinder.construct_none (s : Shader) (name : String) (w : World)
    (hp : s.m_shaderProgram = 0) :
    Shader.UniformBinder.construct s name w = (⟨0, 0, -1⟩, s, w) := by
  unfold Shader.UniformBinder.construct
  simp [hp]

/-- The destructor of `UniformBinder` puts the saved program back in use. -/
theorem Shader.UniformBinder.destruct_ghost {w0 : World} (saved program : Nat) (location : Int)
    (w : World) (h : World.Inv w0 w) (hp : program ≠ 0)
    (hc : (w.ghost w0).current = program) :
    World.Inv w0 ((⟨saved, program, location⟩ : Shader.UniformBinder).destruct w) ∧
    ((⟨saved, program, location⟩ : Shader.UniformBinder).destruct w).ghost w0
      = ⟨saved, (w.ghost w0).matrices⟩ := by
  unfold Shader.UniformBinder.destruct
  by_cases heq : program = saved
  · simp only [heq, ne_eq, not_true_eq_false, and_false, if_false]
    refine ⟨h, ?_⟩
    rw [← heq, ← hc]
  · simp only [hp, heq, ne_eq, not_false_eq_true, and_self, if_true]
    refine ⟨h.call _, ?_⟩
    rw [World.ghost_call w0 w _ h.grows]
    rfl

/-- The effect of the matrix setter on a coherent shader object: with a program and a
valid location the matrix is stored at that location of that program; the program in use
is unchanged; the object stays coherent with the same program. -/
theorem Shader.setUniformMat4_ghost {w0 : World} (s : Shader) (name : String)
    (matrix : List ℚ) (w : World) (h : World.Inv w0 w) (hs : s.Coherent w0.env) :
    World.Inv w0 (s.setUniformMat4 name matrix w).2 ∧
    (s.setUniformMat4 name matrix w).2.ghost w0
      = ⟨(w.ghost w0).current,
          if s.m_shaderProgram ≠ 0 ∧ w0.env.uniformLocation s.m_shaderProgram name ≠ -1 then
            ((s.m_shaderProgram, w0.env.uniformLocation s.m_shaderProgram name), matrix) ::
              (w.ghost w0).matrices
          else (w.ghost w0).matrices⟩ ∧
    (s.setUniformMat4 name matrix w).1.Coherent w0.env ∧
    (s.setUniformMat4 name matrix w).1.core = s.core := by
  unfold Shader.setUniformMat4
  by_cases hp : s.m_shaderProgram = 0
  · rw [Shader.UniformBinder.construct_none s name w hp]
    simp only [ne_eq, not_true_eq_false, if_false, hp, false_and]
    unfold Shader.UniformBinder.destruct
    simp only [ne_eq, not_true_eq_false, false_and, if_false]
    exact ⟨h, trivial, hs, trivial⟩
  · obtain ⟨c1, c2, c3, c4, c5⟩ := Shader.UniformBinder.construct_ghost s name w h hs hp
    simp only []
    rw [c3]
    simp only [hp, ne_eq, not_false_eq_true, true_and]
    refine ⟨?_, ?_, c4, c5⟩
    · split_ifs
      · exact (Shader.UniformBinder.destruct_ghost _ _ _ _ c1 hp (by rw [c2])).1
      · exact (Shader.UniformBinder.destruct_ghost _ _ _ _ (c1.call _) hp
          (by rw [World.ghost_call w0 _ _ c1.grows, c2]; rfl)).1
    · split_ifs with hl
      · rw [(Shader.UniformBinder.destruct_ghost _ _ _ _ c1 hp (by rw [c2])).2, c2, h.program]
      · rw [(Shader.UniformBinder.destruct_ghost _ _ _ _ (c1.call _) hp
          (by rw [World.ghost_call w0 _ _ c1.grows, c2]; rfl)).2,
          World.ghost_call w0 _ _ c1.grows, c2, h.program]
        rfl

/-- The two-component setter uploads no matrix and leaves the program in use. -/
theorem Shader.setUniformVec2_ghost {w0 : World} (s : Shader) (name : String)
    (x y : ℚ) (w : World) (h : World.Inv w0 w) (hs : s.Coherent w0.env) :
    World.Inv w0 (s.setUniformVec2 name x y w).2 ∧
    (s.setUniformVec2 name x y w).2.ghost w0 = w.ghost w0 ∧
    (s.setUniformVec2 name x y w).1.Coherent w0.env ∧
    (s.setUniformVec2 name x y w).1.core = s.core := by
  unfold Shader.setUniformVec2
  by_cases hp : s.m_shaderProgram = 0
  · rw [Shader.UniformBinder.construct_none s name w hp]
    simp only [ne_eq, not_true_eq_false, if_false]
    unfold Shader.UniformBinder.destruct
    simp only [ne_eq, not_true_eq_false, false_and, if_false]
    exact ⟨h, trivial, hs, trivial⟩
  · obtain ⟨c1, c2, c3, c4, c5⟩ := Shader.UniformBinder.construct_ghost s name w h hs hp
    simp only []
    rw [c3]
    simp only []
    refine ⟨?_, ?_, c4, c5⟩
    · split_ifs
      · exact (Shader.UniformBinder.destruct_ghost _ _ _ _ (c1.call _) hp
          (by rw [World.ghost_call w0 _ _ c1.grows, c2]; rfl)).1
      · exact (Shader.UniformBinder.destruct_ghost _ _ _ _ c1 hp (by rw [c2])).1
    · split_ifs with hl
      · rw [(Shader.UniformBinder.destruct_ghost _ _ _ _ (c1.call _) hp
          (by rw [World.ghost_call w0 _ _ c1.grows, c2]; rfl)).2,
          World.ghost_call w0 _ _ c1.grows, c2, h.program]
        rfl
      · rw [(Shader.UniformBinder.destruct_ghost _ _ _ _ c1 hp (by rw [c2])).2, c2, h.program]

theorem World.ghost_setShader (w0 w : World) (r : ShaderRef) (s : Shader) :
    (w.setShader r s).ghost w0 = w.ghost w0 := by
  cases r <;> rfl

/-- The matrix setter through a shader pointer. -/
theorem World.setUniformMat4_ref_ghost {w0 : World} (r : ShaderRef) (name : String)
    (matrix : List ℚ) (w : World) (h : World.Inv w0 w) :
    World.Inv w0 (w.setUniformMat4 r name matrix) ∧
    (w.setUniformMat4 r name matrix).ghost w0
      = ⟨(w.ghost w0).current,
          if (w0.getShader r).m_shaderProgram ≠ 0 ∧
              w0.env.uniformLocation (w0.getShader r).m_shaderProgram name ≠ -1 then
            (((w0.getShader r).m_shaderProgram,
                w0.env.uniformLocation (w0.getShader r).m_shaderProgram name), matrix) ::
              (w.ghost w0).matrices
          else (w.ghost w0).matrices⟩ := by
  unfold World.setUniformMat4
  obtain ⟨c1, c2, c3, c4⟩ :=
    Shader.setUniformMat4_ghost (w.getShader r) name matrix w h (h.coherent r)
  have hp : (w.getShader r).m_shaderProgram = (w0.getShader r).m_shaderProgram :=
    congrArg Prod.fst (h.core r)
  simp only []
  refine ⟨c1.setShader r _ (by rw [c4, h.core r]) c3, ?_⟩
  rw [World.ghost_setShader, c2, hp]

theorem World.setUniformMat4_ref_inv {w0 : World} (r : ShaderRef) (name : String)
    (matrix : List ℚ) (w : World) (h : World.Inv w0 w) :
    World.Inv w0 (w.setUniformMat4 r name matrix) :=
  (World.setUniformMat4_ref_ghost r name matrix w h).1

/-- The two-component setter through a shader pointer. -/
theorem World.setUniformVec2_ref_ghost {w0 : World} (r : ShaderRef) (name : String)
    (x y : ℚ) (w : World) (h : World.Inv w0 w) :
    World.Inv w0 (w.setUniformVec2 r name x y) ∧
    (w.setUniformVec2 r name x y).ghost w0 = w.ghost w0 := by
  unfold World.setUniformVec2
  obtain ⟨c1, c2, c3, c4⟩ :=
    Shader.setUniformVec2_ghost (w.getShader r) name x y w h (h.coherent r)
  simp only []
  refine ⟨c1.setShader r _ (by rw [c4, h.core r]) c3, ?_⟩
  rw [World.ghost_setShader, c2]

theorem World.setUniformVec2_ref_inv {w0 : World} (r : ShaderRef) (name : String)
    (x y : ℚ) (w : World) (h : World.Inv w0 w) :
    World.Inv w0 (w.setUniformVec2 r name x y) :=
  (World.setUniformVec2_ref_ghost r name x y w h).1

/-! ## The invariant through the pipeline -/

theorem World.Inv.same {w0 w : World} (h : World.Inv w0 w) (w' : World)
    (hg : w'.gl = w.gl) (hf : w'.fixed = w.fixed)
    (h1 : w'.defaultShaderFirst = w.defaultShaderFirst)
    (h2 : w'.defaultTexShaderFirst = w.defaultTexShaderFirst)
    (hs : ∀ r, w'.getShader r = w.getShader r) : World.Inv w0 w' :=
  h.congr w' (by rw [hg]) (by rw [hg]) hf h1 h2 hs

theorem RenderTargetImpl.equationToGlConstant_inv {w0 : World} (b : Bool) (e : Equation)
    (w : World) (h : World.Inv w0 w) :
    World.Inv w0 (RenderTargetImpl.equationToGlConstant b e w).2 := by
  have hf : World.Inv w0 (if w.warned = true then w
      else { w.err RenderTargetImpl.blendWarning with warned := true }) := by
    split_ifs
    · exact h
    · exact h.same _ rfl rfl rfl rfl (fun r => by cases r <;> rfl)
  unfold RenderTargetImpl.equationToGlConstant
  cases e <;> cases b <;> first | exact h | exact hf

theorem RenderTarget.setActive_inv {w0 : World} (rt : RenderTarget) (active : Bool)
    (w : World) (h : World.Inv w0 w) : World.Inv w0 (rt.setActive active w).2.2 := by
  unfold RenderTarget.setActive
  cases active
  · cases hm : w.contextRenderTargetMap w.activeContextId
    · simp only [hm, Bool.false_eq_true, if_false]
      exact h
    · simp only [hm, Bool.false_eq_true, if_false]
      exact h.same _ rfl rfl rfl rfl (fun r => by cases r <;> rfl)
  · cases hm : w.contextRenderTargetMap w.activeContextId
    · simp only [hm, if_true]
      exact h.same _ rfl rfl rfl rfl (fun r => by cases r <;> rfl)
    · simp only [hm, if_true]
      split_ifs
      · exact h.same _ rfl rfl rfl rfl (fun r => by cases r <;> rfl)
      · exact h

theorem RenderTarget.ensureActive_inv {w0 : World} (rt : RenderTarget) (w : World)
    (h : World.Inv w0 w) : World.Inv w0 (rt.ensureActive w).2.2 := by
  unfold RenderTarget.ensureActive
  split_ifs
  · exact h
  · exact RenderTarget.setActive_inv rt true w h

/-- Once the default shaders are compiled, the shader of a draw is chosen without any
effect: the caller's shader, else the default shader for its texture or lack of one. -/
theorem RenderTarget.chooseShader_loaded {w0 : World} (states : RenderStates) (w : World)
    (h : World.Inv w0 w) :
    RenderTarget.chooseShader states w
      = (match states.shader, states.texture with
          | some address, _ => ShaderRef.user address
          | none, none => ShaderRef.defaultShader
          | none, some _ => ShaderRef.defaultTexShader, w) := by
  unfold RenderTarget.chooseShader Shader.getDefaultShader Shader.getDefaultTexShader
  cases states.shader <;> cases states.texture <;>
    simp [h.loaded, h.loadedTex]

theorem RenderTarget.chooseShader_inv {w0 : World} (states : RenderStates) (w : World)
    (h : World.Inv w0 w) : World.Inv w0 (RenderTarget.chooseShader states w).2 := by
  rw [RenderTarget.chooseShader_loaded states w h]
  exact h

theorem RenderTarget.uploadTextureUniforms_inv {w0 : World} (r : ShaderRef)
    (c : CoordinateType) (t : Texture) (w : World) (h : World.Inv w0 w) :
    World.Inv w0 (RenderTarget.uploadTextureUniforms r c t w) := by
  unfold RenderTarget.uploadTextureUniforms
  apply World.Inv.ite
  · exact World.setUniformVec2_ref_inv _ _ _ _ _ (World.setUniformMat4_ref_inv _ _ _ _ h)
  · exact World.setUniformMat4_ref_inv _ _ _ _ h

theorem Shader.bindTexturesLoop_inv {w0 : World} (ts : List (Int × Texture)) :
    ∀ (i : Nat) (w : World), World.Inv w0 w →
      World.Inv w0 (Shader.bindTexturesLoop i ts w) := by
  induction ts with
  | nil => intro i w h; exact h
  | cons e rest ih =>
    intro i w h
    obtain ⟨location, texture⟩ := e
    unfold Shader.bindTexturesLoop
    apply ih
    exact ((h.call _).call _).call _

theorem Shader.bindTextures_inv {w0 : World} (s : Shader) (w : World) (h : World.Inv w0 w) : World.Inv w0 (s.bindTextures w) := by
  unfold Shader.bindTextures
  apply_rules [World.call_inv, Shader.bindTexturesLoop_inv]

theorem Shader.bind_inv {w0 : World} (shader : Option ShaderRef) (w : World) (h : World.Inv w0 w) : World.Inv w0 (Shader.bind shader w) := by
  unfold Shader.bind
  cases shader <;>
    apply_rules [Shader.bindTextures_inv, Shader.bindTexturesLoop_inv,
      World.Inv.ite, World.call_inv]

theorem RenderTarget.applyBlendMode_inv {w0 : World} (rt : RenderTarget) (mode : BlendMode)
    (w : World) (h : World.Inv w0 w) :
    World.Inv w0 (rt.applyBlendMode mode w).2 := by
  unfold RenderTarget.applyBlendMode
  apply_rules [World.call_inv, RenderTargetImpl.equationToGlConstant_inv]

theorem RenderTarget.applyStencilMode_inv {w0 : World} (rt : RenderTarget) (mode : StencilMode)
    (w : World) (h : World.Inv w0 w) :
    World.Inv w0 (rt.applyStencilMode mode w).2 := by
  unfold RenderTarget.applyStencilMode
  apply_rules [World.Inv.ite_snd, World.Inv.ite, World.call_inv]

theorem RenderTarget.applyTexture_inv {w0 : World} (rt : RenderTarget) (t : Option Texture)
    (c : CoordinateType) (w : World) (h : World.Inv w0 w) :
    World.Inv w0 (rt.applyTexture t c w).2 := by
  unfold RenderTarget.applyTexture
  apply_rules [World.call_inv]

theorem RenderTarget.disableAttrib_inv {w0 : World} (location : Int) (w : World)
    (h : World.Inv w0 w) :
    World.Inv w0 (RenderTarget.disableAttrib location w) := by
  unfold RenderTarget.disableAttrib
  apply_rules [World.Inv.ite, World.call_inv]

theorem RenderTarget.enableAttrib_inv {w0 : World} (location : Int) (w : World)
    (h : World.Inv w0 w) :
    World.Inv w0 (RenderTarget.enableAttrib location w) := by
  unfold RenderTarget.enableAttrib
  apply_rules [World.Inv.ite, World.call_inv]

theorem RenderTarget.attribPointer_inv {w0 : World} (location : Int) (size : Nat) (type : GLenum)
    (normalized : Bool) (offset : Nat) (w : World) (h : World.Inv w0 w) :
    World.Inv w0 (RenderTarget.attribPointer location size type normalized offset w) := by
  unfold RenderTarget.attribPointer
  apply_rules [World.Inv.ite, World.call_inv]

theorem RenderTarget.applyShader_inv {w0 : World} (rt : RenderTarget) (shader : Option ShaderRef)
    (w : World) (h : World.Inv w0 w) :
    World.Inv w0 (rt.applyShader shader w).2 := by
  unfold RenderTarget.applyShader
  cases shader with
  | none =>
    show World.Inv w0 (Shader.bind none w)
    exact Shader.bind_inv _ _ h
  | some r =>
    have hb : World.Inv w0 (Shader.bind (some r) w) := Shader.bind_inv _ _ h
    simp only []
    apply World.Inv.ite_snd
    · apply_rules [RenderTarget.enableAttrib_inv, RenderTarget.disableAttrib_inv,
        World.call_inv]
    · exact hb

theorem RenderTarget.resetGLStates_inv {w0 : World} (rt : RenderTarget) (w : World)
    (h : World.Inv w0 w) : World.Inv w0 (rt.resetGLStates w).2 := by
  unfold RenderTarget.resetGLStates
  lift_lets
  extract_lets shaderAvailable vertexBufferAvailable d m g rt0 w1 w2 w3 w4 w5 w6 w7 src3 rt1 b
    s t hh w8 src2 src1 rt2 rt3 src0
  have hd : World.Inv w0 d.2.2 := by
    simp only [d]
    exact RenderTarget.setActive_inv _ _ _ h
  clear_value d
  have hm : World.Inv w0 m.2 := by
    simp only [m]
    apply World.Inv.ite_snd
    · apply World.Inv.ite_snd
      · exact hd.err _
      · exact hd
    · exact h
  clear_value m
  have hg : World.Inv w0 g.2.2 := RenderTarget.ensureActive_inv _ _ hm
  clear_value g
  have h7 : World.Inv w0 w7 := by
    simp only [w7, w6, w5, w4, w3, w2, w1]
    apply_rules [RenderTarget.disableAttrib_inv, World.call_inv]
  clear_value w1 w2 w3 w4 w5 w6 w7
  have hb : World.Inv w0 b.2 := RenderTarget.applyBlendMode_inv _ _ _ h7
  clear_value b
  have hs : World.Inv w0 s.2 := RenderTarget.applyStencilMode_inv _ _ _ hb
  clear_value s
  have ht : World.Inv w0 t.2 := RenderTarget.applyTexture_inv _ _ _ _ hs
  clear_value t
  have hh2 : World.Inv w0 hh.2 := by
    simp only [hh]
    apply World.Inv.ite_snd
    · exact RenderTarget.applyShader_inv _ _ _ ht
    · exact ht
  clear_value hh
  have h8 : World.Inv w0 w8 := by
    simp only [w8]
    apply World.Inv.ite
    · exact World.call_inv _ _ hh2
    · exact hh2
  clear_value w8
  apply World.Inv.ite_snd
  · exact h8
  · exact hg

theorem RenderTarget.cleanupDraw_inv {w0 : World} (rt : RenderTarget) (states : RenderStates)
    (w : World) (h : World.Inv w0 w) :
    World.Inv w0 (rt.cleanupDraw states w).2 := by
  unfold RenderTarget.cleanupDraw
  lift_lets
  extract_lets a b w1 src1 src0
  have ha : World.Inv w0 a.2 := by
    simp only [a]
    apply World.Inv.ite_snd
    · exact RenderTarget.applyShader_inv _ _ _ h
    · exact h
  clear_value a
  have hb : World.Inv w0 b.2 := by
    simp only [b]
    apply World.Inv.ite_snd
    · exact RenderTarget.applyTexture_inv _ _ _ _ ha
    · exact ha
  clear_value b
  have h1 : World.Inv w0 w1 := by
    simp only [w1]
    apply World.Inv.ite
    · exact World.call_inv _ _ hb
    · exact hb
  exact h1

theorem RenderTarget.drawPrimitives_inv {w0 : World} (type : PrimitiveType) (first count : Nat)
    (w : World) (h : World.Inv w0 w) :
    World.Inv w0 (RenderTarget.drawPrimitives type first count w) :=
  World.call_inv _ _ h

theorem RenderTarget.setupDraw_inv {w0 : World} (rt : RenderTarget) (useVertexCache : Bool)
    (states : RenderStates) (w : World) (h : World.Inv w0 w) :
    World.Inv w0 (rt.setupDraw useVertexCache states w).2 := by
  unfold RenderTarget.setupDraw
  lift_lets
  extract_lets w1 a u usedShader w2 viewport top w3 w4 b s w5 textureId shaderId t w6
  have h1 : World.Inv w0 w1 := by
    simp only [w1]
    apply_rules [World.Inv.ite, World.call_inv]
  clear_value w1
  have ha : World.Inv w0 a.2 := by
    simp only [a]
    apply World.Inv.ite_snd
    · exact RenderTarget.resetGLStates_inv _ _ h1
    · exact h1
  clear_value a
  have hu : World.Inv w0 u.2 := RenderTarget.chooseShader_inv _ _ ha
  clear_value u
  have h2 : World.Inv w0 w2 := by
    simp only [w2]
    apply World.Inv.ite
    · exact World.setUniformMat4_ref_inv _ _ _ _ hu
    · exact World.setUniformMat4_ref_inv _ _ _ _ hu
  clear_value w2
  have h4 : World.Inv w0 w4 :=
    World.setUniformMat4_ref_inv _ _ _ _ (World.call_inv _ _ h2)
  clear_value w3 w4
  have hb : World.Inv w0 b.2 := by
    simp only [b]
    apply World.Inv.ite_snd
    · exact RenderTarget.applyBlendMode_inv _ _ _ h4
    · exact h4
  clear_value b
  have hs : World.Inv w0 s.2 := by
    simp only [s]
    apply World.Inv.ite_snd
    · exact RenderTarget.applyStencilMode_inv _ _ _ hb
    · exact hb
  clear_value s
  have h5 : World.Inv w0 w5 := by
    simp only [w5]
    apply World.Inv.ite
    · exact World.call_inv _ _ hs
    · exact hs
  clear_value w5
  have ht : World.Inv w0 t.1.2 := by
    simp only [t]
    split_ifs
    · exact RenderTarget.applyTexture_inv _ _ _ _ h5
    · exact RenderTarget.applyTexture_inv _ _ _ _ h5
    · exact h5
  clear_value t
  have h6 : World.Inv w0 w6 := by
    simp only [w6]
    split
    · apply World.Inv.ite
      · exact RenderTarget.uploadTextureUniforms_inv _ _ _ _ ht
      · exact ht
    · exact ht
  clear_value w6
  exact RenderTarget.applyShader_inv _ _ _ h6

theorem RenderTarget.draw_inv {w0 : World} (rt : RenderTarget) (vertices : Option (List Vertex))
    (n : Nat) (type : PrimitiveType) (states : RenderStates) (w : World) (h : World.Inv w0 w) : World.Inv w0 (rt.draw vertices n type states w).2 := by
  unfold RenderTarget.draw
  cases vertices with
  | none => exact h
  | some vs =>
    simp -zeta only []
    apply World.Inv.ite_snd
    · exact h
    lift_lets
    extract_lets g rt0 useVertexCache src4 rt1 w1 d enableTexCoordsArray data src3 src2 gen rt2
      w2 w3 w4 w5 w6 w7 w8 w9 c src1 src0
    have hg : World.Inv w0 g.2.2 := RenderTarget.ensureActive_inv _ _ h
    clear_value g
    have h1 : World.Inv w0 w1 := by
      simp only [w1]
      apply World.Inv.ite
      · exact World.call_inv _ _ hg
      · exact hg
    clear_value w1
    have hd : World.Inv w0 d.2 := RenderTarget.setupDraw_inv _ _ _ _ h1
    clear_value d
    have hgen : World.Inv w0 gen.2 := by
      simp only [gen]
      apply World.Inv.ite_snd
      · exact World.call_inv _ _ hd.freshHandle
      · exact hd
    clear_value gen
    have h9 : World.Inv w0 w9 := by
      simp only [w9, w8, w7, w6, w5, w4, w3, w2]
      apply_rules [RenderTarget.drawPrimitives_inv, RenderTarget.attribPointer_inv,
        World.Inv.ite, World.call_inv]
    clear_value w2 w3 w4 w5 w6 w7 w8 w9
    have hc : World.Inv w0 c.2 := RenderTarget.cleanupDraw_inv _ _ _ h9
    clear_value c
    apply World.Inv.ite_snd
    · exact hc
    · exact hg

theorem RenderTarget.drawVertexBuffer_inv {w0 : World} (rt : RenderTarget) (vb : VertexBuffer)
    (first count : Nat) (states : RenderStates) (w : World) (h : World.Inv w0 w) :
    World.Inv w0 (rt.drawVertexBuffer vb first count states w).2 := by
  unfold RenderTarget.drawVertexBuffer
  apply World.Inv.ite_snd
  · exact h.err _
  apply World.Inv.ite_snd
  · exact h
  lift_lets
  extract_lets n g w1 d w2 w3 w4 w5 w6 w7 w8 w9 c src1 src0
  apply World.Inv.ite_snd
  · exact h
  have hg : World.Inv w0 g.2.2 := RenderTarget.ensureActive_inv _ _ h
  clear_value g
  have h1 : World.Inv w0 w1 := by
    simp only [w1]
    apply World.Inv.ite
    · exact World.call_inv _ _ hg
    · exact hg
  clear_value w1
  have hd : World.Inv w0 d.2 := RenderTarget.setupDraw_inv _ _ _ _ h1
  clear_value d
  have h9 : World.Inv w0 w9 := by
    simp only [w9, w8, w7, w6, w5, w4, w3, w2]
    apply_rules [RenderTarget.drawPrimitives_inv, RenderTarget.attribPointer_inv,
      RenderTarget.enableAttrib_inv, World.Inv.ite, World.call_inv]
  clear_value w2 w3 w4 w5 w6 w7 w8 w9
  have hc : World.Inv w0 c.2 := RenderTarget.cleanupDraw_inv _ _ _ h9
  clear_value c
  apply World.Inv.ite_snd
  · exact hc
  · exact hg

theorem RenderTarget.pushGLStates_inv {w0 : World} (rt : RenderTarget) (w : World)
    (h : World.Inv w0 w) : World.Inv w0 (rt.pushGLStates w).2 := by
  unfold RenderTarget.pushGLStates
  exact RenderTarget.resetGLStates_inv _ _ (RenderTarget.ensureActive_inv _ _ h)

/-! ## The texture matrix held by the shader in use -/

theorem RenderTarget.textureMatrix_congr (c : CoordinateType) (t t' : Texture)
    (h : t.dims = t'.dims) :
    RenderTarget.textureMatrix c t = RenderTarget.textureMatrix c t' := by
  unfold Texture.dims at h
  simp only [Prod.mk.injEq] at h
  unfold RenderTarget.textureMatrix
  rw [h.1, h.2.1, h.2.2]

theorem UniformState.run_matrices (l : List GLCall) :
    ∀ g : UniformState, l.filter GLCall.isMatrixUpload = [] →
      (g.run l).matrices = g.matrices := by
  induction l with
  | nil => intro g _; rfl
  | cons c rest ih =>
    intro g h
    have hc : GLCall.isMatrixUpload c = false := by
      by_contra hc
      simp only [Bool.not_eq_false] at hc
      simp [List.filter_cons, hc] at h
    have hr : rest.filter GLCall.isMatrixUpload = [] := by
      simpa [List.filter_cons, hc] using h
    have e : (g.run (c :: rest)) = (GLCall.applyUniform g c).run rest := rfl
    rw [e, ih _ hr]
    cases c <;> first | rfl | simp [GLCall.isMatrixUpload] at hc

/-- A stage that uploads no matrix leaves every stored matrix. -/
theorem World.ghost_matrices_of_sel {w0 : World} (x x' : World) (hx : w0.gl.trace <+: x.gl.trace)
    (hp : x.gl.trace <+: x'.gl.trace)
    (hs : x'.sel GLCall.isMatrixUpload = x.sel GLCall.isMatrixUpload) :
    (x'.ghost w0).matrices = (x.ghost w0).matrices := by
  obtain ⟨issued, hi, hf⟩ := World.issued_sel GLCall.isMatrixUpload x x' [] hp
    (by rw [hs, List.append_nil])
  rw [World.ghost_step w0 x x' issued hx hi]
  exact UniformState.run_matrices issued _ hf

theorem UniformState.lastMatrix_cons_ne (g : UniformState) (p p' : Nat) (l l' : Int)
    (m : List ℚ) (h : ¬ (p = p' ∧ l = l')) :
    (⟨g.current, ((p', l'), m) :: g.matrices⟩ : UniformState).lastMatrix p l
      = g.lastMatrix p l := by
  unfold UniformState.lastMatrix
  simp only [List.lookup]
  have : ((p, l) == (p', l')) = false := by
    simp only [beq_eq_false_iff_ne, ne_eq, Prod.mk.injEq]
    exact h
  rw [this]

theorem UniformState.lastMatrix_cons_self (g : UniformState) (p : Nat) (l : Int)
    (m : List ℚ) :
    (⟨g.current, ((p, l), m) :: g.matrices⟩ : UniformState).lastMatrix p l = some m := by
  unfold UniformState.lastMatrix
  simp [List.lookup]

/-- The matrix setter through a shader pointer changes the stored matrix of no other
location. -/
theorem World.setUniformMat4_ref_other {w0 : World} (r : ShaderRef) (name : String)
    (matrix : List ℚ) (w : World) (h : World.Inv w0 w) (p : Nat) (l : Int)
    (hne : ¬ (p = (w0.getShader r).m_shaderProgram ∧
      l = w0.env.uniformLocation (w0.getShader r).m_shaderProgram name)) :
    ((w.setUniformMat4 r name matrix).ghost w0).lastMatrix p l
      = (w.ghost w0).lastMatrix p l := by
  rw [(World.setUniformMat4_ref_ghost r name matrix w h).2]
  split_ifs
  · exact UniformState.lastMatrix_cons_ne _ _ _ _ _ _ hne
  · rfl

/-- The matrix setter through a shader pointer stores the matrix at the location of the
name, for a shader with a program that knows the name. -/
theorem World.setUniformMat4_ref_self {w0 : World} (r : ShaderRef) (name : String)
    (matrix : List ℚ) (w : World) (h : World.Inv w0 w)
    (hp : (w0.getShader r).m_shaderProgram ≠ 0)
    (hl : w0.env.uniformLocation (w0.getShader r).m_shaderProgram name ≠ -1) :
    ((w.setUniformMat4 r name matrix).ghost w0).lastMatrix (w0.getShader r).m_shaderProgram
        (w0.env.uniformLocation (w0.getShader r).m_shaderProgram name)
      = some matrix := by
  rw [(World.setUniformMat4_ref_ghost r name matrix w h).2]
  rw [if_pos ⟨hp, hl⟩]
  exact UniformState.lastMatrix_cons_self _ _ _ _

theorem RenderTarget.chooseShader_used {w0 : World} (states : RenderStates) (w : World)
    (h : World.Inv w0 w) :
    RenderTarget.chooseShader states w = (RenderTarget.usedShader states, w) := by
  rw [RenderTarget.chooseShader_loaded states w h]
  rfl

theorem World.Inv.handle {w0 w : World} (h : World.Inv w0 w) (r : ShaderRef) :
    (w.getShader r).getNativeHandle = (w0.getShader r).m_shaderProgram :=
  congrArg Prod.fst (h.core r)

theorem World.ghost_call_other {w0 : World} (w : World) (c : GLCall) (h : World.Inv w0 w)
    (h1 : GLCall.isMatrixUpload c = false) (h2 : GLCall.isUseProgram c = false) :
    (w.call c).ghost w0 = w.ghost w0 := by
  rw [World.ghost_call w0 w c h.grows]
  cases c
  case glUseProgram p => simp [GLCall.isUseProgram] at h2
  case glUniformMatrix4fv l m => simp [GLCall.isMatrixUpload] at h1
  all_goals rfl

/-- Everything of `setupDraw` before the final `applyShader`, for a draw with a
registered texture, once both default shaders are compiled: the invariant holds in the
world `applyShader` starts from, and there the `sf_texture` location of the program of
the shader used holds the matrix computed from the texture and coordinate type of the
draw, whether it was uploaded in this call or the upload was skipped on a cache hit. -/
theorem RenderTarget.setupDraw_split {w0 : World} (texOf : Nat → Vector2u × Vector2u × Bool)
    (rt : RenderTarget) (useVertexCache : Bool) (states : RenderStates) (w : World)
    (h : World.Inv w0 w) (hprog : ∀ r, (w0.getShader r).m_shaderProgram ≠ 0)
    (hloc : ∀ p, w0.env.uniformLocation p "sf_texture" ≠ -1 →
      w0.env.uniformLocation p "sf_texture" ≠ w0.env.uniformLocation p "sf_modelview" ∧
      w0.env.uniformLocation p "sf_texture" ≠ w0.env.uniformLocation p "sf_projection")
    (hv : rt.CacheValid texOf w0.env (w.ghost w0))
    (t : Texture) (ht : states.texture = some t) (hreg : t.Registered texOf) :
    ∃ (rt6 : RenderTarget) (w6 : World),
      World.Inv w0 w6 ∧
      rt.setupDraw useVertexCache states w
        = rt6.applyShader (some (RenderTarget.usedShader states)) w6 ∧
      (w0.env.uniformLocation (w0.getShader (RenderTarget.usedShader states)).m_shaderProgram
          "sf_texture" ≠ -1 →
        (w6.ghost w0).lastMatrix (w0.getShader (RenderTarget.usedShader states)).m_shaderProgram
            (w0.env.uniformLocation
              (w0.getShader (RenderTarget.usedShader states)).m_shaderProgram "sf_texture")
          = some (RenderTarget.textureMatrix states.coordinateType t)) := by
  generalize hr : rt.setupDraw useVertexCache states w = res
  unfold RenderTarget.setupDraw at hr
  lift_lets at hr
  extract_lets w1 a u usedShader w2 viewport top w3 w4 b s w5 textureId shaderId t' w6 at hr
  -- the invariant, stage by stage
  have i1 : World.Inv w0 w1 := by
    simp only [w1]
    apply_rules [World.Inv.ite, World.call_inv]
  have g1 : w1.ghost w0 = w.ghost w0 := by
    simp only [w1]
    split_ifs
    · exact World.ghost_call_other w _ h rfl rfl
    · exact World.ghost_call_other w _ h rfl rfl
    · rfl
  have ia : World.Inv w0 a.2 := by
    simp only [a]
    apply World.Inv.ite_snd
    · exact RenderTarget.resetGLStates_inv _ _ i1
    · exact i1
  have ga : (a.2.ghost w0).matrices = (w.ghost w0).matrices := by
    rw [← g1]
    simp only [a]
    split_ifs
    · exact World.ghost_matrices_of_sel w1 _ i1.grows
        (RenderTarget.resetGLStates_trace_mono _ _ _ List.prefix_rfl)
        (RenderTarget.resetGLStates_sel _ _ _)
    · rfl
  have ha1 : (rt.m_cache.glStatesSet = true → a.1 = rt) ∧
      (rt.m_cache.glStatesSet = false → a.1.m_cache.lastTextureId = 0) := by
    simp only [a]
    constructor
    · intro hg
      simp [hg]
    · intro hg
      simp only [hg, Bool.not_false, if_true]
      rw [RenderTarget.resetGLStates_target]
  clear_value w1
  clear_value a
  have hu : u = (RenderTarget.usedShader states, a.2) :=
    RenderTarget.chooseShader_used states a.2 ia
  have hus : usedShader = RenderTarget.usedShader states := by
    simp only [usedShader, hu]
  clear_value usedShader
  subst hus
  have hu2 : u.2 = a.2 := by rw [hu]
  clear_value u
  have i2 : World.Inv w0 w2 := by
    simp only [w2, hu2]
    split_ifs
    · exact World.setUniformMat4_ref_inv _ _ _ _ ia
    · exact World.setUniformMat4_ref_inv _ _ _ _ ia
  have i3 : World.Inv w0 w3 := i2.call _
  have i4 : World.Inv w0 w4 := World.setUniformMat4_ref_inv _ _ _ _ i3
  have ib : World.Inv w0 b.2 := by
    simp only [b]
    apply World.Inv.ite_snd
    · exact RenderTarget.applyBlendMode_inv _ _ _ i4
    · exact i4
  have hb1 : b.1.m_cache.enable = a.1.m_cache.enable ∧
      b.1.m_cache.lastTextureId = a.1.m_cache.lastTextureId ∧
      b.1.m_cache.lastShaderId = a.1.m_cache.lastShaderId ∧
      b.1.m_cache.lastCoordinateType = a.1.m_cache.lastCoordinateType := by
    simp only [b]
    split_ifs
    · exact ⟨rfl, rfl, rfl, rfl⟩
    · exact ⟨rfl, rfl, rfl, rfl⟩
  have is : World.Inv w0 s.2 := by
    simp only [s]
    apply World.Inv.ite_snd
    · exact RenderTarget.applyStencilMode_inv _ _ _ ib
    · exact ib
  have hs1 : s.1.m_cache.enable = a.1.m_cache.enable ∧
      s.1.m_cache.lastTextureId = a.1.m_cache.lastTextureId ∧
      s.1.m_cache.lastShaderId = a.1.m_cache.lastShaderId ∧
      s.1.m_cache.lastCoordinateType = a.1.m_cache.lastCoordinateType := by
    simp only [s]
    split_ifs
    · rw [RenderTarget.applyStencilMode_target]
      exact hb1
    · exact hb1
  have i5 : World.Inv w0 w5 := by
    simp only [w5]
    apply World.Inv.ite
    · exact is.call _
    · exact is
  have it : World.Inv w0 t'.1.2 := by
    simp only [t']
    split_ifs
    · exact RenderTarget.applyTexture_inv _ _ _ _ i5
    · exact RenderTarget.applyTexture_inv _ _ _ _ i5
    · exact i5
  have i6 : World.Inv w0 w6 := by
    simp only [w6, ht]
    apply World.Inv.ite
    · exact RenderTarget.uploadTextureUniforms_inv _ _ _ _ it
    · exact it
  refine ⟨t'.1.1, w6, i6, hr.symm, ?_⟩
  intro hlt
  obtain ⟨hne1, hne2⟩ := hloc _ hlt
  -- the matrix at the key, stage by stage
  have k2 : (w2.ghost w0).lastMatrix (w0.getShader (RenderTarget.usedShader states)).m_shaderProgram
      (w0.env.uniformLocation (w0.getShader (RenderTarget.usedShader states)).m_shaderProgram
        "sf_texture")
      = (w.ghost w0).lastMatrix (w0.getShader (RenderTarget.usedShader states)).m_shaderProgram
        (w0.env.uniformLocation (w0.getShader (RenderTarget.usedShader states)).m_shaderProgram
          "sf_texture") := by
    have e : ∀ m, ((a.2.setUniformMat4 (RenderTarget.usedShader states) "sf_modelview" m).ghost
          w0).lastMatrix (w0.getShader (RenderTarget.usedShader states)).m_shaderProgram
        (w0.env.uniformLocation (w0.getShader (RenderTarget.usedShader states)).m_shaderProgram
          "sf_texture")
        = (w.ghost w0).lastMatrix (w0.getShader (RenderTarget.usedShader states)).m_shaderProgram
          (w0.env.uniformLocation (w0.getShader (RenderTarget.usedShader states)).m_shaderProgram
            "sf_texture") := by
      intro m
      rw [World.setUniformMat4_ref_other _ _ _ _ ia _ _ (fun hh => hne1 hh.2)]
      unfold UniformState.lastMatrix
      rw [ga]
    simp only [w2, hu2]
    split_ifs
    · exact e _
    · exact e _
  have k3 : w3.ghost w0 = w2.ghost w0 := World.ghost_call_other w2 _ i2 rfl rfl
  have k4 : (w4.ghost w0).lastMatrix (w0.getShader (RenderTarget.usedShader states)).m_shaderProgram
      (w0.env.uniformLocation (w0.getShader (RenderTarget.usedShader states)).m_shaderProgram
        "sf_texture")
      = (w.ghost w0).lastMatrix (w0.getShader (RenderTarget.usedShader states)).m_shaderProgram
        (w0.env.uniformLocation (w0.getShader (RenderTarget.usedShader states)).m_shaderProgram
          "sf_texture") := by
    simp only [w4]
    rw [World.setUniformMat4_ref_other _ _ _ _ i3 _ _ (fun hh => hne2 hh.2), k3, k2]
  have kb : (b.2.ghost w0).matrices = (w4.ghost w0).matrices := by
    simp only [b]
    split_ifs
    · exact World.ghost_matrices_of_sel w4 _ i4.grows
        (RenderTarget.applyBlendMode_trace_mono _ _ _ _ List.prefix_rfl)
        (by simp [List.filter_cons, GLCall.isMatrixUpload])
    · rfl
  have ks : (s.2.ghost w0).matrices = (w4.ghost w0).matrices := by
    rw [← kb]
    simp only [s]
    split_ifs
    · exact World.ghost_matrices_of_sel b.2 _ ib.grows
        (RenderTarget.applyStencilMode_trace_mono _ _ _ _ List.prefix_rfl)
        (by
          rw [RenderTarget.applyStencilMode_sel]
          split_ifs <;> simp [List.filter_cons, GLCall.isMatrixUpload])
    · rfl
  have k5 : (w5.ghost w0).matrices = (w4.ghost w0).matrices := by
    rw [← ks]
    simp only [w5]
    split_ifs
    · rw [World.ghost_call_other s.2 (GLCall.glColorMask false false false false) is rfl rfl]
    · rfl
  have happly : ∀ x : RenderTarget,
      ((x.applyTexture states.texture states.coordinateType w5).2.ghost w0).matrices
        = (w5.ghost w0).matrices := by
    intro x
    exact World.ghost_matrices_of_sel w5 _ i5.grows
      (RenderTarget.applyTexture_trace_mono _ _ _ _ _ List.prefix_rfl)
      (by simp [List.filter_cons, GLCall.isMatrixUpload])
  have kt : (t'.1.2.ghost w0).matrices = (w4.ghost w0).matrices := by
    rw [← k5]
    simp only [t']
    split_ifs
    · exact happly _
    · exact happly _
    · rfl
  have hsome : states.texture.isSome = true := by rw [ht]; rfl
  by_cases hset : t'.2 = true
  · -- the matrix is uploaded in this call
    have e6 : w6 = RenderTarget.uploadTextureUniforms (RenderTarget.usedShader states)
        states.coordinateType t t'.1.2 := by
      simp only [w6, ht, hset, if_true]
    rw [e6]
    unfold RenderTarget.uploadTextureUniforms
    simp only []
    split_ifs
    · rw [(World.setUniformVec2_ref_ghost _ _ _ _ _
        (World.setUniformMat4_ref_inv _ _ _ _ it)).2]
      exact World.setUniformMat4_ref_self _ _ _ _ it (hprog _) hlt
    · exact World.setUniformMat4_ref_self _ _ _ _ it (hprog _) hlt
  · -- the upload is skipped: the cache named this texture, shader and coordinate type
    have e6 : w6 = t'.1.2 := by
      simp only [w6, ht]
      simp only [Bool.not_eq_true] at hset
      simp [hset]
    have hcond : s.1.m_cache.enable = true ∧
        t.m_cacheId = s.1.m_cache.lastTextureId ∧
        (w5.getShader (RenderTarget.usedShader states)).getNativeHandle
          = s.1.m_cache.lastShaderId ∧
        states.coordinateType = s.1.m_cache.lastCoordinateType := by
      by_contra hc
      apply hset
      simp only [t', textureId, shaderId, ht, RenderTarget.textureCacheId]
      split_ifs with c1 c2
      · rfl
      · rfl
      · exfalso
        apply hc
        simp only [Bool.or_eq_true, Bool.not_eq_eq_eq_not, Bool.not_true, not_or,
          Bool.not_eq_false] at c1
        simp only [ne_eq, not_or, not_not] at c2
        exact ⟨c1.1, c2.1, c2.2.1, c2.2.2⟩
    obtain ⟨c1, c2, c3, c4⟩ := hcond
    rw [hs1.1] at c1
    rw [hs1.2.1] at c2
    rw [hs1.2.2.1, i5.handle] at c3
    rw [hs1.2.2.2] at c4
    have hg : rt.m_cache.glStatesSet = true := by
      by_contra hg
      simp only [Bool.not_eq_true] at hg
      rw [ha1.2 hg] at c2
      exact hreg.1 c2
    rw [ha1.1 hg] at c1 c2 c3 c4
    have := hv c1 hg t hreg c2 (by rw [← c3]; exact hlt)
    rw [← c3, ← c4] at this
    rw [e6]
    unfold UniformState.lastMatrix at this k4 ⊢
    rw [kt, k4]
    exact this

/-! ## The draw overloads, with the world `setupDraw` starts from -/

/-- The decomposition `draw_stages` with the world in which `setupDraw` starts made
explicit: the world `ensureActive` leaves, after binding the vertex array object on
desktop builds. -/
theorem RenderTarget.draw_world (rt : RenderTarget) (vs : List Vertex) (n : Nat)
    (type : PrimitiveType) (states : RenderStates) (w : World) (hn : n ≠ 0) :
    ∃ (rt1 : RenderTarget) (w1 : World) (e g : Bool) (buf : Nat) (G AP : List GLCall),
      (rt.ensureActive w).2.1
        = { rt with m_cache := { rt.m_cache with enable := e, glStatesSet := g } } ∧
      w1 = (if w.config.openglES then (rt.ensureActive w).2.2
        else (rt.ensureActive w).2.2.call (GLCall.glBindVertexArray rt.m_cache.defaultArray)) ∧
      (RenderTargetImpl.isActive rt.m_id w = true →
        e = rt.m_cache.enable ∧ g = rt.m_cache.glStatesSet) ∧
      rt1 = { rt with m_cache :=
        { rt.m_cache with
          enable := e
          glStatesSet := g
          vertexCache :=
            if n ≤ rt.m_cache.vertexCache.length then
              RenderTarget.preTransform states.transform vs n rt.m_cache.vertexCache
            else rt.m_cache.vertexCache } } ∧
      w1.gl.trace = w.gl.trace ++
        (if w.config.openglES then [] else [GLCall.glBindVertexArray rt.m_cache.defaultArray]) ∧
      w1.fixed = w.fixed ∧
      (G = [] ∨ G = [GLCall.glGenBuffers buf]) ∧
      (∀ c ∈ AP, c.isAttribPointer = true) ∧
      (rt.draw (some vs) n type states w).2.gl.trace
        = (rt1.setupDraw (decide (n ≤ rt.m_cache.vertexCache.length)) states w1).2.gl.trace ++
          (G ++
           [GLCall.glBindBuffer GLenum.GL_ARRAY_BUFFER buf,
            GLCall.glBufferData GLenum.GL_ARRAY_BUFFER ((RenderTarget.sizeofVertex * n) % 2 ^ 64)
              ((if n ≤ rt.m_cache.vertexCache.length then
                  (rt1.setupDraw (decide (n ≤ rt.m_cache.vertexCache.length)) states
                    w1).1.m_cache.vertexCache
                else vs).take n)
              GLenum.GL_DYNAMIC_DRAW] ++
           AP ++
           [GLCall.glDrawArrays (RenderTarget.modes type) 0 (toInt32 n),
            GLCall.glBindBuffer GLenum.GL_ARRAY_BUFFER 0] ++
           (if w.config.openglES then [] else [GLCall.glBindVertexArray 0]) ++
           ((if states.shader.isSome then [GLCall.glUseProgram 0] else []) ++
            (if RenderTarget.isFboAttachment states.texture then
               [GLCall.Texture_bind none CoordinateType.Pixels]
             else []) ++
            (if states.stencilMode.stencilOnly then [GLCall.glColorMask true true true true]
             else []))) ∧
      (states.shader.isSome = true →
        (rt.draw (some vs) n type states w).2.gl.currentProgram = 0) ∧
      (rt.draw (some vs) n type states w).1
        = { (rt1.setupDraw (decide (n ≤ rt.m_cache.vertexCache.length)) states w1).1 with
            m_cache :=
              { (rt1.setupDraw (decide (n ≤ rt.m_cache.vertexCache.length)) states
                  w1).1.m_cache with
                defaultBuffer := buf
                enable := true
                lastTextureId :=
                  if RenderTarget.isFboAttachment states.texture then 0
                  else (rt1.setupDraw (decide (n ≤ rt.m_cache.vertexCache.length)) states
                    w1).1.m_cache.lastTextureId
                lastCoordinateType :=
                  if RenderTarget.isFboAttachment states.texture then CoordinateType.Pixels
                  else (rt1.setupDraw (decide (n ≤ rt.m_cache.vertexCache.length)) states
                    w1).1.m_cache.lastCoordinateType
                useVertexCache := decide (n ≤ rt.m_cache.vertexCache.length)
                texCoordsArrayEnabled := states.texture.isSome || states.shader.isSome } } := by
  generalize hr : rt.draw (some vs) n type states w = r
  unfold RenderTarget.draw at hr
  simp -zeta only [hn, if_false] at hr
  lift_lets at hr
  extract_lets g rt0 useVertexCache src4 rt1 w1 d enableTexCoordsArray data src3 src2 gen rt2
    w2 w3 w4 w5 w6 w7 w8 w9 c src1 src0 at hr
  have hg1 : g.1 = true := by simp [g]
  simp only [hg1, if_true] at hr
  obtain ⟨e, gs, hact, hrt0⟩ := RenderTarget.ensureActive_target rt w
  have hgt : g.2.2.gl.trace = w.gl.trace := RenderTarget.ensureActive_trace rt w
  have hgf : g.2.2.fixed = w.fixed := by simp [g]
  have hrt0' : rt0 = { rt with m_cache := { rt.m_cache with enable := e, glStatesSet := gs } } :=
    hrt0
  have huvc : useVertexCache = decide (n ≤ rt.m_cache.vertexCache.length) := by
    simp only [useVertexCache, hrt0']
  have hrt1 : rt1 = { rt with m_cache :=
      { rt.m_cache with
        enable := e
        glStatesSet := gs
        vertexCache :=
          if n ≤ rt.m_cache.vertexCache.length then
            RenderTarget.preTransform states.transform vs n rt.m_cache.vertexCache
          else rt.m_cache.vertexCache } } := by
    simp only [rt1, src4, huvc, hrt0', decide_eq_true_eq]
    split_ifs <;> rfl
  have hw1 : w1.gl.trace = w.gl.trace ++
      (if w.config.openglES then [] else [GLCall.glBindVertexArray rt.m_cache.defaultArray]) ∧
      w1.fixed = w.fixed := by
    have hc : g.2.2.config = w.config := World.config_of_fixed _ _ hgf
    simp only [w1, hc, hrt1]
    cases w.config.openglES <;> simp [World.call_trace, hgt, hgf]
  have hw1e : w1 = (if w.config.openglES then (rt.ensureActive w).2.2
      else (rt.ensureActive w).2.2.call (GLCall.glBindVertexArray rt.m_cache.defaultArray)) := by
    have hc : g.2.2.config = w.config := World.config_of_fixed _ _ hgf
    simp only [w1, hc, hrt1]
    cases w.config.openglES <;> rfl
  have hd : d = rt1.setupDraw (decide (n ≤ rt.m_cache.vertexCache.length)) states w1 := by
    simp only [d, huvc]
  have hdf : d.2.fixed = w.fixed := by simp [d, hw1.2]
  have hgen : ∃ (buf : Nat) (G : List GLCall),
      gen.2.gl.trace = d.2.gl.trace ++ G ∧ (G = [] ∨ G = [GLCall.glGenBuffers buf]) ∧
      gen.2.fixed = w.fixed ∧
      gen.1 = { d.1 with m_cache := { d.1.m_cache with defaultBuffer := buf } } := by
    simp only [gen, src3, src2]
    split_ifs
    · exact ⟨_, [_], by rw [World.call_trace]; rfl, Or.inr rfl, hdf, rfl⟩
    · exact ⟨d.1.m_cache.defaultBuffer, [], by simp, Or.inl rfl, hdf, rfl⟩
  obtain ⟨buf, G, hgt2, hG, hgf2, hg1'⟩ := hgen
  have hrt2 : rt2 = { d.1 with m_cache := { d.1.m_cache with defaultBuffer := buf } } := hg1'
  obtain ⟨l4, h4, hl4⟩ := RenderTarget.attribPointer_trace rt2.m_cache.posAttrib 2
    GLenum.GL_FLOAT false 0 w3
  obtain ⟨l5, h5, hl5⟩ := RenderTarget.attribPointer_trace rt2.m_cache.colAttrib 4
    GLenum.GL_UNSIGNED_BYTE true 8 w4
  have h6 : ∃ l6, w6.gl.trace = w5.gl.trace ++ l6 ∧ ∀ c ∈ l6, c.isAttribPointer = true := by
    simp only [w6]
    split_ifs
    · exact RenderTarget.attribPointer_trace _ _ _ _ _ _
    · exact ⟨[], by simp, by simp⟩
  obtain ⟨l6, h6, hl6⟩ := h6
  have h8f : w8.fixed = w.fixed := by
    simp [w8, w7, w6, w5, w4, w3, w2, hgf2]
  have h3 : w3.gl.trace = gen.2.gl.trace ++
      [GLCall.glBindBuffer GLenum.GL_ARRAY_BUFFER buf,
        GLCall.glBufferData GLenum.GL_ARRAY_BUFFER ((RenderTarget.sizeofVertex * n) % 2 ^ 64)
          (data.take n) GLenum.GL_DYNAMIC_DRAW] := by
    simp only [w3, w2, World.call_trace, hrt2]
    simp
  have h4' : w4.gl.trace = w3.gl.trace ++ l4 := h4
  have h5' : w5.gl.trace = w4.gl.trace ++ l5 := h5
  have h8 : w8.gl.trace = w6.gl.trace ++
      [GLCall.glDrawArrays (RenderTarget.modes type) 0 (toInt32 n),
        GLCall.glBindBuffer GLenum.GL_ARRAY_BUFFER 0] := by
    simp only [w8, w7, RenderTarget.drawPrimitives, World.call_trace]
    simp [toInt32]
  have h9 : w9.gl.trace = w8.gl.trace ++
      (if w.config.openglES then [] else [GLCall.glBindVertexArray 0]) := by
    have hc : w8.config = w.config := World.config_of_fixed _ _ h8f
    simp only [w9, hc]
    cases w.config.openglES <;> simp [World.call_trace]
  have hct : c.2.gl.trace = _ := RenderTarget.cleanupDraw_trace rt2 states w9
  have hcg := RenderTarget.cleanupDraw_target rt2 states w9
  have hc1 : c.1 = _ := hcg.1
  have hc2 : c.2.gl.currentProgram = _ := hcg.2
  refine ⟨rt1, w1, e, gs, buf, G, l4 ++ l5 ++ l6, hrt0, hw1e, hact, hrt1, hw1.1, hw1.2, hG, ?_, ?_, ?_, ?_⟩
  · intro c hc
    simp only [List.mem_append] at hc
    rcases hc with (hc | hc) | hc
    · exact hl4 c hc
    · exact hl5 c hc
    · exact hl6 c hc
  · rw [← hr, ← hd]
    show c.2.gl.trace = _
    rw [hct, h9, h8, h6, h5', h4', h3, hgt2]
    simp only [data, huvc, decide_eq_true_eq, List.append_assoc]
  · intro hsh
    rw [← hr]
    show c.2.gl.currentProgram = _
    rw [hc2, hsh]
    rfl
  · rw [← hr, ← hd]
    simp only [src1, src0, enableTexCoordsArray, huvc]
    rw [hc1, hrt2]

/-- The decomposition `drawVertexBuffer_stages` with the world in which `setupDraw` starts
made explicit. -/
theorem RenderTarget.drawVertexBuffer_world (rt : RenderTarget) (vb : VertexBuffer)
    (first count : Nat) (states : RenderStates) (w : World)
    (hav : w.config.vertexBufferAvailable = true) (hf : first ≤ vb.getVertexCount)
    (hc : min count (vb.getVertexCount - first) ≠ 0) (hh : vb.getNativeHandle ≠ 0) :
    ∃ (rt1 : RenderTarget) (w1 : World) (e g : Bool) (loc : Nat) (EA AP : List GLCall),
      (rt.ensureActive w).2.1
        = { rt with m_cache := { rt.m_cache with enable := e, glStatesSet := g } } ∧
      w1 = (if w.config.openglES then (rt.ensureActive w).2.2
        else (rt.ensureActive w).2.2.call (GLCall.glBindVertexArray rt.m_cache.defaultArray)) ∧
      (RenderTargetImpl.isActive rt.m_id w = true →
        e = rt.m_cache.enable ∧ g = rt.m_cache.glStatesSet) ∧
      rt1 = { rt with m_cache := { rt.m_cache with enable := e, glStatesSet := g } } ∧
      w1.gl.trace = w.gl.trace ++
        (if w.config.openglES then [] else [GLCall.glBindVertexArray rt.m_cache.defaultArray]) ∧
      w1.fixed = w.fixed ∧
      (EA = [] ∨ EA = [GLCall.glEnableVertexAttribArray loc]) ∧
      (∀ c ∈ AP, c.isAttribPointer = true) ∧
      (rt.drawVertexBuffer vb first count states w).2.gl.trace
        = (rt1.setupDraw false states w1).2.gl.trace ++
          ([GLCall.VertexBuffer_bind (some vb.getNativeHandle)] ++ EA ++ AP ++
           [GLCall.glDrawArrays (RenderTarget.modes vb.getPrimitiveType) (toInt32 first)
              (toInt32 ((min count (vb.getVertexCount - first) : Nat) : Int)),
            GLCall.VertexBuffer_bind none] ++
           (if w.config.openglES then [] else [GLCall.glBindVertexArray 0]) ++
           ((if states.shader.isSome then [GLCall.glUseProgram 0] else []) ++
            (if RenderTarget.isFboAttachment states.texture then
               [GLCall.Texture_bind none CoordinateType.Pixels]
             else []) ++
            (if states.stencilMode.stencilOnly then [GLCall.glColorMask true true true true]
             else []))) ∧
      (states.shader.isSome = true →
        (rt.drawVertexBuffer vb first count states w).2.gl.currentProgram = 0) ∧
      (rt.drawVertexBuffer vb first count states w).1
        = { (rt1.setupDraw false states w1).1 with
            m_cache :=
              { (rt1.setupDraw false states w1).1.m_cache with
                enable := true
                lastTextureId :=
                  if RenderTarget.isFboAttachment states.texture then 0
                  else (rt1.setupDraw false states w1).1.m_cache.lastTextureId
                lastCoordinateType :=
                  if RenderTarget.isFboAttachment states.texture then CoordinateType.Pixels
                  else (rt1.setupDraw false states w1).1.m_cache.lastCoordinateType
                useVertexCache := false
                texCoordsArrayEnabled := true } } := by
  generalize hr : rt.drawVertexBuffer vb first count states w = r
  unfold RenderTarget.drawVertexBuffer at hr
  have hf' : ¬ first > vb.getVertexCount := by omega
  have hn : ¬ (min count (vb.getVertexCount - first) = 0 ∨ vb.getNativeHandle = 0) := by
    intro h
    rcases h with h | h
    · exact hc h
    · exact hh h
  simp -zeta only [hav, Bool.not_true, Bool.false_eq_true, if_false, hf', hn] at hr
  lift_lets at hr
  extract_lets cnt g w1 d w2 w3 w4 w5 w6 w7 w8 w9 c src1 src0 at hr
  have hcnt : ¬ (cnt = 0 ∨ vb.getNativeHandle = 0) := hn
  have hg1 : g.1 = true := by simp [g]
  simp only [hcnt, hg1, if_false, if_true] at hr
  obtain ⟨e, gs, hact, hrt0⟩ := RenderTarget.ensureActive_target rt w
  have hgt : g.2.2.gl.trace = w.gl.trace := RenderTarget.ensureActive_trace rt w
  have hgf : g.2.2.fixed = w.fixed := by simp [g]
  have hrt0' : g.2.1
      = { rt with m_cache := { rt.m_cache with enable := e, glStatesSet := gs } } := hrt0
  have hw1 : w1.gl.trace = w.gl.trace ++
      (if w.config.openglES then [] else [GLCall.glBindVertexArray rt.m_cache.defaultArray]) ∧
      w1.fixed = w.fixed := by
    have hc : g.2.2.config = w.config := World.config_of_fixed _ _ hgf
    simp only [w1, hc, hrt0']
    cases w.config.openglES <;> simp [World.call_trace, hgt, hgf]
  have hw1e : w1 = (if w.config.openglES then (rt.ensureActive w).2.2
      else (rt.ensureActive w).2.2.call (GLCall.glBindVertexArray rt.m_cache.defaultArray)) := by
    have hc : g.2.2.config = w.config := World.config_of_fixed _ _ hgf
    simp only [w1, hc, hrt0']
    cases w.config.openglES <;> rfl
  have hd : d = g.2.1.setupDraw false states w1 := rfl
  have hdf : d.2.fixed = w.fixed := by simp [d, hw1.2]
  have h2 : w2.gl.trace = d.2.gl.trace ++ [GLCall.VertexBuffer_bind (some vb.getNativeHandle)] :=
    World.call_trace _ _
  have h3 : ∃ l3, w3.gl.trace = w2.gl.trace ++ l3 ∧
      (l3 = [] ∨ l3 = [GLCall.glEnableVertexAttribArray (d.1.m_cache.texAttrib.toNat % 2 ^ 32)]) := by
    simp only [w3]
    split_ifs
    · exact RenderTarget.enableAttrib_trace _ _
    · exact ⟨[], by simp, Or.inl rfl⟩
  obtain ⟨l3, h3, hl3⟩ := h3
  obtain ⟨l4, h4, hl4⟩ := RenderTarget.attribPointer_trace d.1.m_cache.posAttrib 2
    GLenum.GL_FLOAT false 0 w3
  obtain ⟨l5, h5, hl5⟩ := RenderTarget.attribPointer_trace d.1.m_cache.colAttrib 4
    GLenum.GL_UNSIGNED_BYTE true 8 w4
  obtain ⟨l6, h6, hl6⟩ := RenderTarget.attribPointer_trace d.1.m_cache.texAttrib 2
    GLenum.GL_FLOAT false 12 w5
  have h4' : w4.gl.trace = w3.gl.trace ++ l4 := h4
  have h5' : w5.gl.trace = w4.gl.trace ++ l5 := h5
  have h6' : w6.gl.trace = w5.gl.trace ++ l6 := h6
  have h8f : w8.fixed = w.fixed := by
    simp only [w8, w7, w6, w5, w4, w3, w2]
    split_ifs <;> simp [hdf]
  have h8 : w8.gl.trace = w6.gl.trace ++
      [GLCall.glDrawArrays (RenderTarget.modes vb.getPrimitiveType) (toInt32 first)
          (toInt32 ((min count (vb.getVertexCount - first) : Nat) : Int)),
        GLCall.VertexBuffer_bind none] := by
    simp only [w8, w7, RenderTarget.drawPrimitives, World.call_trace, cnt]
    simp
  have h9 : w9.gl.trace = w8.gl.trace ++
      (if w.config.openglES then [] else [GLCall.glBindVertexArray 0]) := by
    have hc : w8.config = w.config := World.config_of_fixed _ _ h8f
    simp only [w9, hc]
    cases w.config.openglES <;> simp [World.call_trace]
  have hct : c.2.gl.trace = _ := RenderTarget.cleanupDraw_trace d.1 states w9
  have hcg := RenderTarget.cleanupDraw_target d.1 states w9
  have hc1 : c.1 = _ := hcg.1
  have hc2 : c.2.gl.currentProgram = _ := hcg.2
  refine ⟨g.2.1, w1, e, gs, d.1.m_cache.texAttrib.toNat % 2 ^ 32, l3, l4 ++ l5 ++ l6, hrt0, hw1e, hact,
    hrt0', hw1.1, hw1.2, hl3, ?_, ?_, ?_, ?_⟩
  · intro c hc
    simp only [List.mem_append] at hc
    rcases hc with (hc | hc) | hc
    · exact hl4 c hc
    · exact hl5 c hc
    · exact hl6 c hc
  · rw [← hr, ← hd]
    show c.2.gl.trace = _
    rw [hct, h9, h8, h6', h5', h4', h3, h2]
    simp only [List.append_assoc]
  · intro hsh
    rw [← hr]
    show c.2.gl.currentProgram = _
    rw [hc2, hsh]
    rfl
  · rw [← hr, ← hd]
    simp only [src1, src0]
    rw [hc1]

/-! ## The texture cache stays trustworthy -/

/-- After `setupDraw` for a draw with a registered texture: the cached shader identity is
the program of the shader used, and the `sf_texture` location of that program holds the
matrix computed from the texture and coordinate type of the draw. -/
theorem RenderTarget.setupDraw_textured {w0 : World}
    (texOf : Nat → Vector2u × Vector2u × Bool)
    (rt : RenderTarget) (useVertexCache : Bool) (states : RenderStates) (w : World)
    (h : World.Inv w0 w) (hprog : ∀ r, (w0.getShader r).m_shaderProgram ≠ 0)
    (hloc : ∀ p, w0.env.uniformLocation p "sf_texture" ≠ -1 →
      w0.env.uniformLocation p "sf_texture" ≠ w0.env.uniformLocation p "sf_modelview" ∧
      w0.env.uniformLocation p "sf_texture" ≠ w0.env.uniformLocation p "sf_projection")
    (hv : rt.CacheValid texOf w0.env (w.ghost w0))
    (t : Texture) (ht : states.texture = some t) (hreg : t.Registered texOf) :
    (rt.setupDraw useVertexCache states w).1.m_cache.lastShaderId
      = (w0.getShader (RenderTarget.usedShader states)).m_shaderProgram ∧
    (w0.env.uniformLocation (w0.getShader (RenderTarget.usedShader states)).m_shaderProgram
        "sf_texture" ≠ -1 →
      ((rt.setupDraw useVertexCache states w).2.ghost w0).lastMatrix
          (w0.getShader (RenderTarget.usedShader states)).m_shaderProgram
          (w0.env.uniformLocation
            (w0.getShader (RenderTarget.usedShader states)).m_shaderProgram "sf_texture")
        = some (RenderTarget.textureMatrix states.coordinateType t)) := by
  obtain ⟨rt6, w6, i6, heq, hm⟩ :=
    RenderTarget.setupDraw_split texOf rt useVertexCache states w h hprog hloc hv t ht hreg
  rw [heq]
  refine ⟨?_, ?_⟩
  · unfold RenderTarget.applyShader
    simp only []
    rw [(Shader.bind_attribArray (some (RenderTarget.usedShader states)) w6 _).2, i6.handle]
    split_ifs with hne
    · rfl
    · simp only [ne_eq, not_not] at hne
      exact hne
  · intro hlt
    have e := @World.ghost_matrices_of_sel w0 w6
      (rt6.applyShader (some (RenderTarget.usedShader states)) w6).2 i6.grows
      (RenderTarget.applyShader_trace_mono _ _ _ _ List.prefix_rfl)
      (RenderTarget.applyShader_sel _ _ _ _)
    have := hm hlt
    unfold UniformState.lastMatrix at this ⊢
    rw [e]
    exact this

theorem World.ghost_of_trace (w0 x y : World) (h : x.gl.trace = y.gl.trace) :
    x.ghost w0 = y.ghost w0 := by
  unfold World.ghost
  rw [h]

theorem RenderTarget.setActive_cache (rt : RenderTarget) (active : Bool) (w : World) :
    (rt.setActive active w).2.1 = rt ∨ (rt.setActive active w).2.1.m_cache.enable = false := by
  unfold RenderTarget.setActive
  cases active
  · exact Or.inr rfl
  · cases hm : w.contextRenderTargetMap w.activeContextId with
    | none =>
      simp only [hm, if_true]
      exact Or.inr trivial
    | some second =>
      simp only [hm, if_true]
      split_ifs
      · exact Or.inr rfl
      · exact Or.inl rfl

/-- The guard `isActive || setActive(true)` either leaves the target as it is or leaves
its cache disabled. -/
theorem RenderTarget.ensureActive_cache (rt : RenderTarget) (w : World) :
    (rt.ensureActive w).2.1 = rt ∨ (rt.ensureActive w).2.1.m_cache.enable = false := by
  unfold RenderTarget.ensureActive
  split_ifs with h
  · exact Or.inl rfl
  · exact RenderTarget.setActive_cache rt true w

theorem RenderTarget.CacheValid.of_disabled (texOf : Nat → Vector2u × Vector2u × Bool)
    (env : DriverEnv) (rt : RenderTarget) (g : UniformState)
    (h : rt.m_cache.enable = false) : rt.CacheValid texOf env g := by
  intro he
  rw [h] at he
  cases he

theorem RenderTarget.CacheValid.of_none (texOf : Nat → Vector2u × Vector2u × Bool)
    (env : DriverEnv) (rt : RenderTarget) (g : UniformState)
    (h : rt.m_cache.lastTextureId = 0) : rt.CacheValid texOf env g := by
  intro _ _ t hreg hid
  rw [h] at hid
  exact absurd hid hreg.1

/-- Validity reads the target through five cache members and the uniform state through
its matrices. -/
theorem RenderTarget.CacheValid.of_cache_eq (texOf : Nat → Vector2u × Vector2u × Bool)
    (env : DriverEnv) (rt rt' : RenderTarget) (g g' : UniformState)
    (h : rt.CacheValid texOf env g)
    (h1 : rt'.m_cache.enable = true → rt.m_cache.enable = true)
    (h2 : rt'.m_cache.enable = true → rt'.m_cache.glStatesSet = true →
      rt.m_cache.glStatesSet = true)
    (h3 : rt'.m_cache.lastTextureId = rt.m_cache.lastTextureId)
    (h4 : rt'.m_cache.lastShaderId = rt.m_cache.lastShaderId)
    (h5 : rt'.m_cache.lastCoordinateType = rt.m_cache.lastCoordinateType)
    (hg : g'.matrices = g.matrices) : rt'.CacheValid texOf env g' := by
  intro he hgs t hreg hid hl
  rw [h4] at hl ⊢
  rw [h5]
  have := h (h1 he) (h2 he hgs) t hreg (by rw [hid, h3]) hl
  unfold UniformState.lastMatrix at this ⊢
  rw [hg]
  exact this

theorem RenderTarget.setupDraw_lastTexture (rt : RenderTarget) (useVertexCache : Bool)
    (states : RenderStates) (w : World) :
    (rt.setupDraw useVertexCache states w).1.m_cache.lastTextureId
      = RenderTarget.textureCacheId states.texture ∧
    (rt.setupDraw useVertexCache states w).1.m_cache.lastCoordinateType
      = states.coordinateType := by
  obtain ⟨base, id, pos, col, tex, -, -, h3⟩ :=
    RenderTarget.setupDraw_target rt useVertexCache states w
  rw [h3]
  exact ⟨rfl, rfl⟩

/-- What follows `setupDraw` in both draw overloads: calls that upload no matrix, and a
cache update that keeps the shader identity and keeps or clears the texture identity.
The texture cache is trustworthy afterwards, and when the primitive draw call is issued
the `sf_texture` location of the program of the shader used holds the matrix of the
draw. -/
theorem RenderTarget.after_setupDraw {w0 : World} (texOf : Nat → Vector2u × Vector2u × Bool)
    (rt1 : RenderTarget) (useVertexCache : Bool) (states : RenderStates) (w1 : World)
    (res : RenderTarget × World) (tail1 tail2 : List GLCall)
    (h : World.Inv w0 w1) (hprog : ∀ r, (w0.getShader r).m_shaderProgram ≠ 0)
    (hloc : ∀ p, w0.env.uniformLocation p "sf_texture" ≠ -1 →
      w0.env.uniformLocation p "sf_texture" ≠ w0.env.uniformLocation p "sf_modelview" ∧
      w0.env.uniformLocation p "sf_texture" ≠ w0.env.uniformLocation p "sf_projection")
    (hv : rt1.CacheValid texOf w0.env (w1.ghost w0))
    (htex : ∀ t, states.texture = some t → t.Registered texOf)
    (htr : res.2.gl.trace
      = (rt1.setupDraw useVertexCache states w1).2.gl.trace ++ (tail1 ++ tail2))
    (hm1 : tail1.filter GLCall.isMatrixUpload = [])
    (hm2 : tail2.filter GLCall.isMatrixUpload = [])
    (hs : res.1.m_cache.lastShaderId
      = (rt1.setupDraw useVertexCache states w1).1.m_cache.lastShaderId)
    (ht : res.1.m_cache.lastTextureId
      = if RenderTarget.isFboAttachment states.texture then 0
        else (rt1.setupDraw useVertexCache states w1).1.m_cache.lastTextureId)
    (hc : res.1.m_cache.lastCoordinateType
      = if RenderTarget.isFboAttachment states.texture then CoordinateType.Pixels
        else (rt1.setupDraw useVertexCache states w1).1.m_cache.lastCoordinateType) :
    res.1.CacheValid texOf w0.env (res.2.ghost w0) ∧
    (∀ t, states.texture = some t →
      w0.env.uniformLocation (w0.getShader (RenderTarget.usedShader states)).m_shaderProgram
        "sf_texture" ≠ -1 →
      (((rt1.setupDraw useVertexCache states w1).2.ghost w0).run tail1).lastMatrix
          (w0.getShader (RenderTarget.usedShader states)).m_shaderProgram
          (w0.env.uniformLocation
            (w0.getShader (RenderTarget.usedShader states)).m_shaderProgram "sf_texture")
        = some (RenderTarget.textureMatrix states.coordinateType t)) := by
  have hId : World.Inv w0 (rt1.setupDraw useVertexCache states w1).2 :=
    RenderTarget.setupDraw_inv _ _ _ _ h
  obtain ⟨hlt, hlc⟩ := RenderTarget.setupDraw_lastTexture rt1 useVertexCache states w1
  have hres : (res.2.ghost w0).matrices
      = ((rt1.setupDraw useVertexCache states w1).2.ghost w0).matrices := by
    rw [World.ghost_step w0 _ res.2 (tail1 ++ tail2) hId.grows htr]
    exact UniformState.run_matrices _ _ (by rw [List.filter_append, hm1, hm2]; rfl)
  have hT : res.1.m_cache.lastTextureId
      = if RenderTarget.isFboAttachment states.texture then 0
        else RenderTarget.textureCacheId states.texture := by rw [ht, hlt]
  have hC : res.1.m_cache.lastCoordinateType
      = if RenderTarget.isFboAttachment states.texture then CoordinateType.Pixels
        else states.coordinateType := by rw [hc, hlc]
  clear ht hc hlt hlc
  cases hts : states.texture with
  | none =>
    refine ⟨RenderTarget.CacheValid.of_none _ _ _ _ ?_, ?_⟩
    · rw [hT, hts]
      simp [RenderTarget.textureCacheId]
    · intro t hh
      cases hh
  | some t =>
    have hreg := htex t hts
    obtain ⟨hsid, hmat⟩ := RenderTarget.setupDraw_textured texOf rt1 useVertexCache states w1
      h hprog hloc hv t hts hreg
    refine ⟨?_, ?_⟩
    · intro he hg t' hreg' hid hl
      rw [hs, hsid] at hl ⊢
      by_cases hf : RenderTarget.isFboAttachment states.texture = true
      · rw [hT, if_pos hf] at hid
        exact absurd hid hreg'.1
      · rw [hT, if_neg hf, hts] at hid
        rw [hC, if_neg hf]
        have hid' : t'.m_cacheId = t.m_cacheId := hid
        have hd : t'.dims = t.dims := by
          rw [hreg'.2, hreg.2, hid']
        rw [RenderTarget.textureMatrix_congr _ t' t hd]
        have := hmat hl
        unfold UniformState.lastMatrix at this ⊢
        rw [hres]
        exact this
    · intro t2 hh hl
      cases hh
      have := hmat hl
      unfold UniformState.lastMatrix at this ⊢
      rw [UniformState.run_matrices _ _ hm1]
      exact this

/-- `setupDraw` issues no primitive draw call. -/
theorem RenderTarget.setupDraw_no_draw (rt : RenderTarget) (useVertexCache : Bool)
    (states : RenderStates) (w : World) :
    ∃ issued, (rt.setupDraw useVertexCache states w).2.gl.trace = w.gl.trace ++ issued ∧
      issued.filter GLCall.isDrawCall = [] := by
  obtain ⟨issued, hi, hf⟩ := World.issued_of _ _ _
    (RenderTarget.setupDraw_trace_mono rt useVertexCache states w _ (List.prefix_refl _))
    (RenderTarget.setupDraw_observed rt useVertexCache states w)
  refine ⟨issued, hi, ?_⟩
  rw [List.filter_of_filter _ _ _ _ GLCall.isDrawCall_observed hf]
  rfl

/-- The world in which `setupDraw` starts in a draw overload: the invariant holds, no
matrix or program call was issued since the draw began, and the cache of the target
`setupDraw` starts from is trustworthy. -/
theorem RenderTarget.draw_entry {w0 : World} (texOf : Nat → Vector2u × Vector2u × Bool)
    (rt rt1 : RenderTarget) (w w1 : World) (e g : Bool)
    (h : World.Inv w0 w) (hv : rt.CacheValid texOf w0.env (w.ghost w0))
    (hrt0 : (rt.ensureActive w).2.1
      = { rt with m_cache := { rt.m_cache with enable := e, glStatesSet := g } })
    (hw1e : w1 = (if w.config.openglES then (rt.ensureActive w).2.2
      else (rt.ensureActive w).2.2.call (GLCall.glBindVertexArray rt.m_cache.defaultArray)))
    (h1 : rt1.m_cache.enable = e) (h2 : rt1.m_cache.glStatesSet = g)
    (h3 : rt1.m_cache.lastTextureId = rt.m_cache.lastTextureId)
    (h4 : rt1.m_cache.lastShaderId = rt.m_cache.lastShaderId)
    (h5 : rt1.m_cache.lastCoordinateType = rt.m_cache.lastCoordinateType) :
    World.Inv w0 w1 ∧ w1.ghost w0 = w.ghost w0 ∧ rt1.CacheValid texOf w0.env (w1.ghost w0) := by
  have hi : World.Inv w0 (rt.ensureActive w).2.2 := RenderTarget.ensureActive_inv rt w h
  have hg : (rt.ensureActive w).2.2.ghost w0 = w.ghost w0 :=
    World.ghost_of_trace _ _ _ (RenderTarget.ensureActive_trace rt w)
  have hI1 : World.Inv w0 w1 := by
    rw [hw1e]
    split_ifs
    · exact hi
    · exact hi.call _
  have hG1 : w1.ghost w0 = w.ghost w0 := by
    rw [hw1e]
    split_ifs
    · exact hg
    · rw [World.ghost_call_other _ (GLCall.glBindVertexArray rt.m_cache.defaultArray) hi rfl rfl,
        hg]
  refine ⟨hI1, hG1, ?_⟩
  rw [hG1]
  rcases RenderTarget.ensureActive_cache rt w with hc | hc
  · rw [hrt0] at hc
    have he : e = rt.m_cache.enable := by
      have := congrArg (fun x => x.m_cache.enable) hc
      exact this
    have hgs : g = rt.m_cache.glStatesSet := by
      have := congrArg (fun x => x.m_cache.glStatesSet) hc
      exact this
    exact RenderTarget.CacheValid.of_cache_eq texOf w0.env rt rt1 _ _ hv
      (fun hh => by rw [← he, ← h1]; exact hh)
      (fun _ hh => by rw [← hgs, ← h2]; exact hh) h3 h4 h5 rfl
  · rw [hrt0] at hc
    have he : e = false := hc
    exact RenderTarget.CacheValid.of_disabled _ _ _ _ (by rw [h1, he])

/-- A vertex-array draw keeps the texture cache trustworthy, and when it issues its
primitive draw call for a registered texture, the `sf_texture` location of the program of
the shader used holds the matrix computed from the texture and coordinate type of the
draw. -/
theorem RenderTarget.draw_valid {w0 : World} (texOf : Nat → Vector2u × Vector2u × Bool)
    (rt : RenderTarget) (vs : List Vertex) (n : Nat) (type : PrimitiveType)
    (states : RenderStates) (w : World)
    (h : World.Inv w0 w) (hprog : ∀ r, (w0.getShader r).m_shaderProgram ≠ 0)
    (hloc : ∀ p, w0.env.uniformLocation p "sf_texture" ≠ -1 →
      w0.env.uniformLocation p "sf_texture" ≠ w0.env.uniformLocation p "sf_modelview" ∧
      w0.env.uniformLocation p "sf_texture" ≠ w0.env.uniformLocation p "sf_projection")
    (hv : rt.CacheValid texOf w0.env (w.ghost w0))
    (htex : ∀ t, states.texture = some t → t.Registered texOf) :
    (rt.draw (some vs) n type states w).1.CacheValid texOf w0.env
      ((rt.draw (some vs) n type states w).2.ghost w0) ∧
    (n ≠ 0 → ∀ t, states.texture = some t →
      w0.env.uniformLocation (w0.getShader (RenderTarget.usedShader states)).m_shaderProgram
        "sf_texture" ≠ -1 →
      ∃ before after,
        (rt.draw (some vs) n type states w).2.gl.trace
          = w.gl.trace ++
            (before ++ GLCall.glDrawArrays (RenderTarget.modes type) 0 (toInt32 n) :: after) ∧
        before.filter GLCall.isDrawCall = [] ∧ after.filter GLCall.isDrawCall = [] ∧
        ((w.ghost w0).run before).lastMatrix
            (w0.getShader (RenderTarget.usedShader states)).m_shaderProgram
            (w0.env.uniformLocation
              (w0.getShader (RenderTarget.usedShader states)).m_shaderProgram "sf_texture")
          = some (RenderTarget.textureMatrix states.coordinateType t)) := by
  by_cases hn : n = 0
  · have e : rt.draw (some vs) n type states w = (rt, w) := by
      unfold RenderTarget.draw
      simp [hn]
    rw [e]
    exact ⟨hv, fun hh => absurd hn hh⟩
  · obtain ⟨rt1, w1, e, g, buf, G, AP, hrt0, hw1e, -, hrt1, hw1t, -, hG, hAP, htr, -, hres⟩ :=
      RenderTarget.draw_world rt vs n type states w hn
    obtain ⟨hI1, hG1, hV1⟩ := RenderTarget.draw_entry texOf rt rt1 w w1 e g h hv hrt0 hw1e
      (by rw [hrt1]) (by rw [hrt1]) (by rw [hrt1]) (by rw [hrt1]) (by rw [hrt1])
    obtain ⟨X, hX, hXd⟩ := RenderTarget.setupDraw_no_draw rt1
      (decide (n ≤ rt.m_cache.vertexCache.length)) states w1
    have hAPm : AP.filter GLCall.isMatrixUpload = [] :=
      GLCall.Avoids.filter_eq_nil _ GLCall.isAttribPointer AP hAP
    have hAPd : AP.filter GLCall.isDrawCall = [] :=
      GLCall.Avoids.filter_eq_nil _ GLCall.isAttribPointer AP hAP
    have hGm : G.filter GLCall.isMatrixUpload = [] ∧ G.filter GLCall.isDrawCall = [] := by
      rcases hG with hG | hG <;> rw [hG] <;> exact ⟨rfl, rfl⟩
    have htr2 : (rt.draw (some vs) n type states w).2.gl.trace
        = (rt1.setupDraw (decide (n ≤ rt.m_cache.vertexCache.length)) states w1).2.gl.trace ++
          ((G ++
            [GLCall.glBindBuffer GLenum.GL_ARRAY_BUFFER buf,
              GLCall.glBufferData GLenum.GL_ARRAY_BUFFER
                ((RenderTarget.sizeofVertex * n) % 2 ^ 64)
                ((if n ≤ rt.m_cache.vertexCache.length then
                    (rt1.setupDraw (decide (n ≤ rt.m_cache.vertexCache.length)) states
                      w1).1.m_cache.vertexCache
                  else vs).take n)
                GLenum.GL_DYNAMIC_DRAW] ++ AP) ++
           (GLCall.glDrawArrays (RenderTarget.modes type) 0 (toInt32 n) ::
            ([GLCall.glBindBuffer GLenum.GL_ARRAY_BUFFER 0] ++
             (if w.config.openglES then [] else [GLCall.glBindVertexArray 0]) ++
             ((if states.shader.isSome then [GLCall.glUseProgram 0] else []) ++
              (if RenderTarget.isFboAttachment states.texture then
                 [GLCall.Texture_bind none CoordinateType.Pixels]
               else []) ++
              (if states.stencilMode.stencilOnly then [GLCall.glColorMask true true true true]
               else []))))) := by
      rw [htr]
      simp only [List.append_assoc, List.cons_append, List.nil_append, List.singleton_append]
    have hsplit : ∃ tail1 tail2,
        (rt.draw (some vs) n type states w).2.gl.trace
          = (rt1.setupDraw (decide (n ≤ rt.m_cache.vertexCache.length)) states w1).2.gl.trace ++
            (tail1 ++ GLCall.glDrawArrays (RenderTarget.modes type) 0 (toInt32 n) :: tail2) ∧
        tail1.filter GLCall.isMatrixUpload = [] ∧ tail1.filter GLCall.isDrawCall = [] ∧
        tail2.filter GLCall.isMatrixUpload = [] ∧ tail2.filter GLCall.isDrawCall = [] := by
      refine ⟨_, _, htr2, ?_, ?_, ?_, ?_⟩
      · simp [List.filter_append, hGm.1, hAPm, GLCall.isMatrixUpload]
      · simp [List.filter_append, hGm.2, hAPd, GLCall.isDrawCall]
      · cases w.config.openglES <;> cases states.shader.isSome <;>
          cases RenderTarget.isFboAttachment states.texture <;>
          cases states.stencilMode.stencilOnly <;> rfl
      · cases w.config.openglES <;> cases states.shader.isSome <;>
          cases RenderTarget.isFboAttachment states.texture <;>
          cases states.stencilMode.stencilOnly <;> rfl
    clear htr2 htr
    obtain ⟨tail1, tail2, hT, hm1, hd1, hm2, hd2⟩ := hsplit
    obtain ⟨hcv, hmat⟩ := RenderTarget.after_setupDraw texOf rt1
      (decide (n ≤ rt.m_cache.vertexCache.length)) states w1
      (rt.draw (some vs) n type states w) tail1
      (GLCall.glDrawArrays (RenderTarget.modes type) 0 (toInt32 n) :: tail2)
      hI1 hprog hloc hV1 htex hT hm1
      (by simp [List.filter_cons, GLCall.isMatrixUpload, hm2])
      (by rw [hres]) (by rw [hres]) (by rw [hres])
    refine ⟨hcv, ?_⟩
    intro _ t hts hl
    refine ⟨(if w.config.openglES then []
        else [GLCall.glBindVertexArray rt.m_cache.defaultArray]) ++ X ++ tail1, tail2,
      ?_, ?_, hd2, ?_⟩
    · rw [hT, hX, hw1t]
      simp only [List.append_assoc]
    · simp only [List.filter_append, hXd, hd1]
      cases w.config.openglES <;> rfl
    · rw [UniformState.run_append, ← World.ghost_step w0 w
        (rt1.setupDraw (decide (n ≤ rt.m_cache.vertexCache.length)) states w1).2 _ h.grows
        (by rw [hX, hw1t, List.append_assoc])]
      exact hmat t hts hl

/-- A vertex-buffer draw keeps the texture cache trustworthy, and when it issues its
primitive draw call for a registered texture, the `sf_texture` location of the program of
the shader used holds the matrix computed from the texture and coordinate type of the
draw. -/
theorem RenderTarget.drawVertexBuffer_valid {w0 : World}
    (texOf : Nat → Vector2u × Vector2u × Bool)
    (rt : RenderTarget) (vb : VertexBuffer) (first count : Nat)
    (states : RenderStates) (w : World)
    (h : World.Inv w0 w) (hprog : ∀ r, (w0.getShader r).m_shaderProgram ≠ 0)
    (hloc : ∀ p, w0.env.uniformLocation p "sf_texture" ≠ -1 →
      w0.env.uniformLocation p "sf_texture" ≠ w0.env.uniformLocation p "sf_modelview" ∧
      w0.env.uniformLocation p "sf_texture" ≠ w0.env.uniformLocation p "sf_projection")
    (hv : rt.CacheValid texOf w0.env (w.ghost w0))
    (htex : ∀ t, states.texture = some t → t.Registered texOf) :
    (rt.drawVertexBuffer vb first count states w).1.CacheValid texOf w0.env
      ((rt.drawVertexBuffer vb first count states w).2.ghost w0) ∧
    (w.config.vertexBufferAvailable = true → first ≤ vb.getVertexCount →
      min count (vb.getVertexCount - first) ≠ 0 → vb.getNativeHandle ≠ 0 →
      ∀ t, states.texture = some t →
      w0.env.uniformLocation (w0.getShader (RenderTarget.usedShader states)).m_shaderProgram
        "sf_texture" ≠ -1 →
      ∃ before after,
        (rt.drawVertexBuffer vb first count states w).2.gl.trace
          = w.gl.trace ++
            (before ++
              GLCall.glDrawArrays (RenderTarget.modes vb.getPrimitiveType) (toInt32 first)
                (toInt32 ((min count (vb.getVertexCount - first) : Nat) : Int)) :: after) ∧
        before.filter GLCall.isDrawCall = [] ∧ after.filter GLCall.isDrawCall = [] ∧
        ((w.ghost w0).run before).lastMatrix
            (w0.getShader (RenderTarget.usedShader states)).m_shaderProgram
            (w0.env.uniformLocation
              (w0.getShader (RenderTarget.usedShader states)).m_shaderProgram "sf_texture")
          = some (RenderTarget.textureMatrix states.coordinateType t)) := by
  by_cases hskip : w.config.vertexBufferAvailable = false ∨ vb.getVertexCount < first ∨
      min count (vb.getVertexCount - first) = 0 ∨ vb.getNativeHandle = 0
  · obtain ⟨h1, h2⟩ := RenderTarget.drawVertexBuffer_skipped rt vb first count states w hskip
    refine ⟨?_, ?_⟩
    · rw [h1, World.ghost_of_trace w0 _ w (by rw [h2])]
      exact hv
    · intro hav hf hc hh
      rcases hskip with hs | hs | hs | hs
      · rw [hav] at hs
        cases hs
      · omega
      · exact absurd hs hc
      · exact absurd hs hh
  · have hav : w.config.vertexBufferAvailable = true := by
      by_contra hc
      exact hskip (Or.inl (by simpa using hc))
    have hfirst : first ≤ vb.getVertexCount := by
      by_contra hc
      exact hskip (Or.inr (Or.inl (by omega)))
    have hcount : min count (vb.getVertexCount - first) ≠ 0 :=
      fun hc => hskip (Or.inr (Or.inr (Or.inl hc)))
    have hhandle : vb.getNativeHandle ≠ 0 := fun hc => hskip (Or.inr (Or.inr (Or.inr hc)))
    obtain ⟨rt1, w1, e, g, loc, EA, AP, hrt0, hw1e, -, hrt1, hw1t, -, hEA, hAP, htr, -, hres⟩ :=
      RenderTarget.drawVertexBuffer_world rt vb first count states w hav hfirst hcount hhandle
    obtain ⟨hI1, hG1, hV1⟩ := RenderTarget.draw_entry texOf rt rt1 w w1 e g h hv hrt0 hw1e
      (by rw [hrt1]) (by rw [hrt1]) (by rw [hrt1]) (by rw [hrt1]) (by rw [hrt1])
    obtain ⟨X, hX, hXd⟩ := RenderTarget.setupDraw_no_draw rt1 false states w1
    have hAPm : AP.filter GLCall.isMatrixUpload = [] :=
      GLCall.Avoids.filter_eq_nil _ GLCall.isAttribPointer AP hAP
    have hAPd : AP.filter GLCall.isDrawCall = [] :=
      GLCall.Avoids.filter_eq_nil _ GLCall.isAttribPointer AP hAP
    have hEAm : EA.filter GLCall.isMatrixUpload = [] ∧ EA.filter GLCall.isDrawCall = [] := by
      rcases hEA with hE | hE <;> rw [hE] <;> exact ⟨rfl, rfl⟩
    have htr2 : (rt.drawVertexBuffer vb first count states w).2.gl.trace
        = (rt1.setupDraw false states w1).2.gl.trace ++
          (([GLCall.VertexBuffer_bind (some vb.getNativeHandle)] ++ EA ++ AP) ++
           (GLCall.glDrawArrays (RenderTarget.modes vb.getPrimitiveType) (toInt32 first)
              (toInt32 ((min count (vb.getVertexCount - first) : Nat) : Int)) ::
            ([GLCall.VertexBuffer_bind none] ++
             (if w.config.openglES then [] else [GLCall.glBindVertexArray 0]) ++
             ((if states.shader.isSome then [GLCall.glUseProgram 0] else []) ++
              (if RenderTarget.isFboAttachment states.texture then
                 [GLCall.Texture_bind none CoordinateType.Pixels]
               else []) ++
              (if states.stencilMode.stencilOnly then [GLCall.glColorMask true true true true]
               else []))))) := by
      rw [htr]
      simp only [List.append_assoc, List.cons_append, List.nil_append, List.singleton_append]
    have hsplit : ∃ tail1 tail2,
        (rt.drawVertexBuffer vb first count states w).2.gl.trace
          = (rt1.setupDraw false states w1).2.gl.trace ++
            (tail1 ++
              GLCall.glDrawArrays (RenderTarget.modes vb.getPrimitiveType) (toInt32 first)
                (toInt32 ((min count (vb.getVertexCount - first) : Nat) : Int)) :: tail2) ∧
        tail1.filter GLCall.isMatrixUpload = [] ∧ tail1.filter GLCall.isDrawCall = [] ∧
        tail2.filter GLCall.isMatrixUpload = [] ∧ tail2.filter GLCall.isDrawCall = [] := by
      refine ⟨_, _, htr2, ?_, ?_, ?_, ?_⟩
      · simp [List.filter_append, hEAm.1, hAPm, GLCall.isMatrixUpload]
      · simp [List.filter_append, hEAm.2, hAPd, GLCall.isDrawCall]
      · cases w.config.openglES <;> cases states.shader.isSome <;>
          cases RenderTarget.isFboAttachment states.texture <;>
          cases states.stencilMode.stencilOnly <;> rfl
      · cases w.config.openglES <;> cases states.shader.isSome <;>
          cases RenderTarget.isFboAttachment states.texture <;>
          cases states.stencilMode.stencilOnly <;> rfl
    clear htr2 htr
    obtain ⟨tail1, tail2, hT, hm1, hd1, hm2, hd2⟩ := hsplit
    obtain ⟨hcv, hmat⟩ := RenderTarget.after_setupDraw texOf rt1 false states w1
      (rt.drawVertexBuffer vb first count states w) tail1
      (GLCall.glDrawArrays (RenderTarget.modes vb.getPrimitiveType) (toInt32 first)
        (toInt32 ((min count (vb.getVertexCount - first) : Nat) : Int)) :: tail2)
      hI1 hprog hloc hV1 htex hT hm1
      (by simp [List.filter_cons, GLCall.isMatrixUpload, hm2])
      (by rw [hres]) (by rw [hres]) (by rw [hres])
    refine ⟨hcv, ?_⟩
    intro _ _ _ _ t hts hl
    refine ⟨(if w.config.openglES then []
        else [GLCall.glBindVertexArray rt.m_cache.defaultArray]) ++ X ++ tail1, tail2,
      ?_, ?_, hd2, ?_⟩
    · rw [hT, hX, hw1t]
      simp only [List.append_assoc]
    · simp only [List.filter_append, hXd, hd1]
      cases w.config.openglES <;> rfl
    · rw [UniformState.run_append, ← World.ghost_step w0 w
        (rt1.setupDraw false states w1).2 _ h.grows
        (by rw [hX, hw1t, List.append_assoc])]
      exact hmat t hts hl

/-- `resetGLStates` leaves a cache that names no texture. -/
theorem RenderTarget.resetGLStates_valid (texOf : Nat → Vector2u × Vector2u × Bool)
    (env : DriverEnv) (rt : RenderTarget) (w : World) (g : UniformState) :
    (rt.resetGLStates w).1.CacheValid texOf env g :=
  RenderTarget.CacheValid.of_none _ _ _ _ (by rw [RenderTarget.resetGLStates_target])

theorem RenderTarget.pushGLStates_valid (texOf : Nat → Vector2u × Vector2u × Bool)
    (env : DriverEnv) (rt : RenderTarget) (w : World) (g : UniformState) :
    (rt.pushGLStates w).1.CacheValid texOf env g := by
  unfold RenderTarget.pushGLStates
  exact RenderTarget.resetGLStates_valid _ _ _ _ _

/-- `setActive` issues no call, and leaves the target as it is or its cache disabled. -/
theorem RenderTarget.setActive_valid {w0 : World} (texOf : Nat → Vector2u × Vector2u × Bool)
    (rt : RenderTarget) (active : Bool) (w : World)
    (hv : rt.CacheValid texOf w0.env (w.ghost w0)) :
    (rt.setActive active w).2.1.CacheValid texOf w0.env
      ((rt.setActive active w).2.2.ghost w0) := by
  rw [World.ghost_of_trace w0 _ w (RenderTarget.setActive_trace rt active w)]
  rcases RenderTarget.setActive_cache rt active w with hc | hc
  · rw [hc]
    exact hv
  · exact RenderTarget.CacheValid.of_disabled _ _ _ _ hc

/-! ## Sequences of operations -/

theorem RenderTarget.runAll_cons (op : RenderTarget.Op) (ops : List RenderTarget.Op)
    (x : RenderTarget × World) :
    RenderTarget.runAll (op :: ops) x = RenderTarget.runAll ops (op.run x) :=
  rfl

/-- One operation preserves the invariant and keeps the texture cache trustworthy. -/
theorem RenderTarget.Op.run_valid {w0 : World} (texOf : Nat → Vector2u × Vector2u × Bool)
    (op : RenderTarget.Op) (x : RenderTarget × World)
    (hprog : ∀ r, (w0.getShader r).m_shaderProgram ≠ 0)
    (hloc : ∀ p, w0.env.uniformLocation p "sf_texture" ≠ -1 →
      w0.env.uniformLocation p "sf_texture" ≠ w0.env.uniformLocation p "sf_modelview" ∧
      w0.env.uniformLocation p "sf_texture" ≠ w0.env.uniformLocation p "sf_projection")
    (htex : ∀ t, op.texture = some t → t.Registered texOf)
    (h : World.Inv w0 x.2) (hv : x.1.CacheValid texOf w0.env (x.2.ghost w0)) :
    World.Inv w0 (op.run x).2 ∧ (op.run x).1.CacheValid texOf w0.env ((op.run x).2.ghost w0) := by
  cases op with
  | draw vs n type states =>
    exact ⟨RenderTarget.draw_inv _ _ _ _ _ _ h,
      (RenderTarget.draw_valid texOf x.1 vs n type states x.2 h hprog hloc hv htex).1⟩
  | drawVertexBuffer vb first count states =>
    exact ⟨RenderTarget.drawVertexBuffer_inv _ _ _ _ _ _ h,
      (RenderTarget.drawVertexBuffer_valid texOf x.1 vb first count states x.2 h hprog hloc hv
        htex).1⟩
  | resetGLStates =>
    exact ⟨RenderTarget.resetGLStates_inv _ _ h, RenderTarget.resetGLStates_valid _ _ _ _ _⟩
  | pushGLStates =>
    exact ⟨RenderTarget.pushGLStates_inv _ _ h, RenderTarget.pushGLStates_valid _ _ _ _ _⟩
  | setActive active =>
    exact ⟨RenderTarget.setActive_inv _ _ _ h, RenderTarget.setActive_valid texOf _ _ _ hv⟩

/-- A sequence of operations preserves the invariant and keeps the texture cache
trustworthy. -/
theorem RenderTarget.runAll_valid {w0 : World} (texOf : Nat → Vector2u × Vector2u × Bool)
    (hprog : ∀ r, (w0.getShader r).m_shaderProgram ≠ 0)
    (hloc : ∀ p, w0.env.uniformLocation p "sf_texture" ≠ -1 →
      w0.env.uniformLocation p "sf_texture" ≠ w0.env.uniformLocation p "sf_modelview" ∧
      w0.env.uniformLocation p "sf_texture" ≠ w0.env.uniformLocation p "sf_projection")
    (ops : List RenderTarget.Op) :
    ∀ x : RenderTarget × World,
      (∀ op ∈ ops, ∀ t, op.texture = some t → t.Registered texOf) →
      World.Inv w0 x.2 → x.1.CacheValid texOf w0.env (x.2.ghost w0) →
      World.Inv w0 (RenderTarget.runAll ops x).2 ∧
      (RenderTarget.runAll ops x).1.CacheValid texOf w0.env
        ((RenderTarget.runAll ops x).2.ghost w0) := by
  induction ops with
  | nil => intro x _ h hv; exact ⟨h, hv⟩
  | cons op rest ih =>
    intro x htex h hv
    rw [RenderTarget.runAll_cons]
    obtain ⟨h', hv'⟩ := RenderTarget.Op.run_valid texOf op x hprog hloc
      (htex op (List.mem_cons_self _ _)) h hv
    exact ih _ (fun o ho => htex o (List.mem_cons_of_mem _ ho)) h' hv'

/-- C29: start from a target whose persistent states are not yet set (as `initialize`
leaves it) in a world where both default shaders are compiled, every shader object has a
non-zero program and a location cache holding only answers of the driver, and the driver
gives `sf_texture` a location other than those of `sf_modelview` and `sf_projection`.
Run any sequence `pre` of draws (both overloads), `resetGLStates`, `pushGLStates` and
`setActive` calls whose textures are registered (non-zero cache identity; sizes and
flipped flag fixed per cache identity), then a draw with a registered texture `t` through
a shader that knows `sf_texture`. When that draw issues its primitive draw call, the
matrix most recently uploaded to the `sf_texture` location of the program of the shader
used is the one computed from `t` and the coordinate type of the draw, whether this draw
uploaded it or skipped the upload on a cache hit. `issued` are the calls of `pre`,
`before` those of the draw up to its draw call. -/
theorem texture_matrix_never_stale (texOf : Nat → Vector2u × Vector2u × Bool)
    (rt0 : RenderTarget) (w0 : World) (pre : List RenderTarget.Op) (states : RenderStates)
    (t : Texture)
    (hfresh : rt0.m_cache.glStatesSet = false)
    (hd1 : w0.defaultShaderFirst = false) (hd2 : w0.defaultTexShaderFirst = false)
    (hprog : ∀ r, (w0.getShader r).m_shaderProgram ≠ 0)
    (hcoh : ∀ r, (w0.getShader r).Coherent w0.env)
    (hloc : ∀ p, w0.env.uniformLocation p "sf_texture" ≠ -1 →
      w0.env.uniformLocation p "sf_texture" ≠ w0.env.uniformLocation p "sf_modelview" ∧
      w0.env.uniformLocation p "sf_texture" ≠ w0.env.uniformLocation p "sf_projection")
    (hpre : ∀ op ∈ pre, ∀ t', op.texture = some t' → t'.Registered texOf)
    (ht : states.texture = some t) (hreg : t.Registered texOf)
    (hl : w0.env.uniformLocation (w0.getShader (RenderTarget.usedShader states)).m_shaderProgram
      "sf_texture" ≠ -1) :
    (∀ (vs : List Vertex) (n : Nat) (type : PrimitiveType), n ≠ 0 →
      ∃ issued before after,
        (RenderTarget.runAll pre (rt0, w0)).2.gl.trace = w0.gl.trace ++ issued ∧
        ((RenderTarget.runAll pre (rt0, w0)).1.draw (some vs) n type states
            (RenderTarget.runAll pre (rt0, w0)).2).2.gl.trace
          = w0.gl.trace ++ (issued ++ before ++
              GLCall.glDrawArrays (RenderTarget.modes type) 0 (toInt32 n) :: after) ∧
        before.filter GLCall.isDrawCall = [] ∧ after.filter GLCall.isDrawCall = [] ∧
        (UniformState.run ⟨w0.gl.currentProgram, []⟩ (issued ++ before)).lastMatrix
            (w0.getShader (RenderTarget.usedShader states)).m_shaderProgram
            (w0.env.uniformLocation
              (w0.getShader (RenderTarget.usedShader states)).m_shaderProgram "sf_texture")
          = some (RenderTarget.textureMatrix states.coordinateType t)) ∧
    (∀ (vb : VertexBuffer) (first count : Nat),
      w0.config.vertexBufferAvailable = true → first ≤ vb.getVertexCount →
      min count (vb.getVertexCount - first) ≠ 0 → vb.getNativeHandle ≠ 0 →
      ∃ issued before after,
        (RenderTarget.runAll pre (rt0, w0)).2.gl.trace = w0.gl.trace ++ issued ∧
        ((RenderTarget.runAll pre (rt0, w0)).1.drawVertexBuffer vb first count states
            (RenderTarget.runAll pre (rt0, w0)).2).2.gl.trace
          = w0.gl.trace ++ (issued ++ before ++
              GLCall.glDrawArrays (RenderTarget.modes vb.getPrimitiveType) (toInt32 first)
                (toInt32 ((min count (vb.getVertexCount - first) : Nat) : Int)) :: after) ∧
        before.filter GLCall.isDrawCall = [] ∧ after.filter GLCall.isDrawCall = [] ∧
        (UniformState.run ⟨w0.gl.currentProgram, []⟩ (issued ++ before)).lastMatrix
            (w0.getShader (RenderTarget.usedShader states)).m_shaderProgram
            (w0.env.uniformLocation
              (w0.getShader (RenderTarget.usedShader states)).m_shaderProgram "sf_texture")
          = some (RenderTarget.textureMatrix states.coordinateType t)) := by
  have hv0 : rt0.CacheValid texOf w0.env (w0.ghost w0) := by
    intro _ hg
    rw [hfresh] at hg
    cases hg
  obtain ⟨hI, hV⟩ := RenderTarget.runAll_valid texOf hprog hloc pre (rt0, w0) hpre
    (World.Inv.refl w0 hd1 hd2 hcoh) hv0
  obtain ⟨issued, hi⟩ := hI.grows
  have hgh : (RenderTarget.runAll pre (rt0, w0)).2.ghost w0
      = UniformState.run ⟨w0.gl.currentProgram, []⟩ issued :=
    World.ghost_of_issued w0 _ issued hi.symm
  have htex : ∀ t', states.texture = some t' → t'.Registered texOf := by
    intro t' h'
    rw [ht] at h'
    cases h'
    exact hreg
  refine ⟨?_, ?_⟩
  · intro vs n type hn
    obtain ⟨before, after, htr, hb, ha, hm⟩ :=
      (RenderTarget.draw_valid texOf _ vs n type states _ hI hprog hloc hV htex).2 hn t ht hl
    refine ⟨issued, before, after, hi.symm, ?_, hb, ha, ?_⟩
    · rw [htr, ← hi]
      simp only [List.append_assoc]
    · rw [UniformState.run_append, ← hgh]
      exact hm
  · intro vb first count hav hf hc hh
    have hcfg : (RenderTarget.runAll pre (rt0, w0)).2.config.vertexBufferAvailable = true := by
      rw [World.config_of_fixed _ _ hI.fixed]
      exact hav
    obtain ⟨before, after, htr, hb, ha, hm⟩ :=
      (RenderTarget.drawVertexBuffer_valid texOf _ vb first count states _ hI hprog hloc hV
        htex).2 hcfg hf hc hh t ht hl
    refine ⟨issued, before, after, hi.symm, ?_, hb, ha, ?_⟩
    · rw [htr, ← hi]
      simp only [List.append_assoc]
    · rw [UniformState.run_append, ← hgh]
      exact hm

theorem paddedTexture_registered : paddedTexture.Registered sampleRegistry :=
  ⟨by decide, rfl⟩

/-- Witness of C29: on the fresh sample target, after a first draw of the quad with
`paddedTexture`, a second draw of the same quad with the same texture (a cache hit: no
`sf_texture` upload) still finds the matrix of `paddedTexture` at location 2 of the
textured default shader's program 5 when its draw call is issued. -/
theorem texture_matrix_never_stale_witness :
    sampleTarget.m_cache.glStatesSet = false ∧
    readyWorld.defaultShaderFirst = false ∧ readyWorld.defaultTexShaderFirst = false ∧
    paddedStates.texture = some paddedTexture ∧
    paddedTexture.Registered sampleRegistry ∧
    readyWorld.env.uniformLocation
      (readyWorld.getShader (RenderTarget.usedShader paddedStates)).m_shaderProgram
      "sf_texture" ≠ -1 ∧
    ∃ issued before after,
      (RenderTarget.runAll
          [RenderTarget.Op.draw sampleQuad 4 PrimitiveType.TriangleStrip paddedStates]
          (sampleTarget, readyWorld)).2.gl.trace = readyWorld.gl.trace ++ issued ∧
      ((RenderTarget.runAll
            [RenderTarget.Op.draw sampleQuad 4 PrimitiveType.TriangleStrip paddedStates]
            (sampleTarget, readyWorld)).1.draw (some sampleQuad) 4 PrimitiveType.TriangleStrip
          paddedStates
          (RenderTarget.runAll
            [RenderTarget.Op.draw sampleQuad 4 PrimitiveType.TriangleStrip paddedStates]
            (sampleTarget, readyWorld)).2).2.gl.trace
        = readyWorld.gl.trace ++ (issued ++ before ++
            GLCall.glDrawArrays (RenderTarget.modes PrimitiveType.TriangleStrip) 0 (toInt32 4) ::
              after) ∧
      before.filter GLCall.isDrawCall = [] ∧ after.filter GLCall.isDrawCall = [] ∧
      (UniformState.run ⟨readyWorld.gl.currentProgram, []⟩ (issued ++ before)).lastMatrix
          (readyWorld.getShader (RenderTarget.usedShader paddedStates)).m_shaderProgram
          (readyWorld.env.uniformLocation
            (readyWorld.getShader (RenderTarget.usedShader paddedStates)).m_shaderProgram
            "sf_texture")
        = some (RenderTarget.textureMatrix paddedStates.coordinateType paddedTexture) := by
  have hl : readyWorld.env.uniformLocation
      (readyWorld.getShader (RenderTarget.usedShader paddedStates)).m_shaderProgram
      "sf_texture" ≠ -1 := by decide
  have hpre : ∀ op ∈ [RenderTarget.Op.draw sampleQuad 4 PrimitiveType.TriangleStrip paddedStates],
      ∀ t', op.texture = some t' → t'.Registered sampleRegistry := by
    intro op hop t' h'
    rw [List.mem_singleton] at hop
    subst hop
    have e : t' = paddedTexture := (Option.some.inj h').symm
    rw [e]
    exact paddedTexture_registered
  obtain ⟨issued, before, after, h1, h2, h3, h4, h5⟩ :=
    (texture_matrix_never_stale sampleRegistry sampleTarget readyWorld
      [RenderTarget.Op.draw sampleQuad 4 PrimitiveType.TriangleStrip paddedStates]
      paddedStates paddedTexture rfl rfl rfl
      (by intro r; cases r <;> simp [readyWorld, World.getShader])
      (by intro r; cases r <;> (intro name loc h; cases h))
      (by intro p _; simp [readyWorld, distinctEnv])
      hpre rfl paddedTexture_registered hl).1 sampleQuad 4 PrimitiveType.TriangleStrip
      (by decide)
  refine ⟨rfl, rfl, rfl, rfl, paddedTexture_registered, hl, issued, before, after, h1, h2, h3,
    h4, h5⟩

/-! ## The model-view and projection matrices held by the shader in use -/

theorem Shader.bindTexturesLoop_currentProgram (ts : List (Int × Texture)) :
    ∀ (i : Nat) (w : World),
      (Shader.bindTexturesLoop i ts w).gl.currentProgram = w.gl.currentProgram := by
  induction ts with
  | nil => intro i w; rfl
  | cons x rest ih =>
    intro i w
    obtain ⟨location, texture⟩ := x
    unfold Shader.bindTexturesLoop
    simp only []
    rw [ih]
    rfl

theorem Shader.bindTextures_currentProgram (s : Shader) (w : World) :
    (s.bindTextures w).gl.currentProgram = w.gl.currentProgram := by
  unfold Shader.bindTextures
  rw [World.call_currentProgram (GLCall.glActiveTexture 0) _ rfl,
    Shader.bindTexturesLoop_currentProgram]

theorem Shader.bind_currentProgram (r : ShaderRef) (w : World)
    (hp : (w.getShader r).m_shaderProgram ≠ 0) :
    (Shader.bind (some r) w).gl.currentProgram = (w.getShader r).m_shaderProgram := by
  unfold Shader.bind
  simp only [hp, ne_eq, not_false_eq_true, if_true]
  by_cases hc : (w.getShader r).m_currentTexture = -1
  · rw [if_neg (not_not.2 hc), Shader.bindTextures_currentProgram]
    rfl
  · rw [if_pos hc,
      World.call_currentProgram (GLCall.glUniform1i (w.getShader r).m_currentTexture 0) _ rfl,
      Shader.bindTextures_currentProgram]
    rfl

theorem RenderTarget.disableAttrib_currentProgram (location : Int) (w : World) :
    (RenderTarget.disableAttrib location w).gl.currentProgram = w.gl.currentProgram := by
  unfold RenderTarget.disableAttrib
  split_ifs
  · rfl
  · rfl

theorem RenderTarget.enableAttrib_currentProgram (location : Int) (w : World) :
    (RenderTarget.enableAttrib location w).gl.currentProgram = w.gl.currentProgram := by
  unfold RenderTarget.enableAttrib
  split_ifs
  · rfl
  · rfl

/-- After `applyShader` with a shader that has a program, that program is in use. -/
theorem RenderTarget.applyShader_currentProgram (rt : RenderTarget) (r : ShaderRef)
    (w : World) (hp : (w.getShader r).m_shaderProgram ≠ 0) :
    (rt.applyShader (some r) w).2.gl.currentProgram = (w.getShader r).m_shaderProgram := by
  unfold RenderTarget.applyShader
  simp only []
  split_ifs
  · simp only [RenderTarget.enableAttrib_currentProgram]
    show (RenderTarget.disableAttrib _ (RenderTarget.disableAttrib _
      (RenderTarget.disableAttrib _ (Shader.bind (some r) w)))).gl.currentProgram = _
    simp only [RenderTarget.disableAttrib_currentProgram]
    exact Shader.bind_currentProgram r w hp
  · exact Shader.bind_currentProgram r w hp

/-- The uniforms of the shader in use after `setupDraw`, once both default shaders are
compiled, for a shader with a program `p`: that program is in use; its `sf_modelview`
location (when the program has one, distinct from its `sf_projection` and `sf_texture`
locations) holds the identity on the pre-transformed path and the transform of the draw
otherwise; its `sf_projection` location (when the program has one, distinct from its
`sf_texture` location) holds the matrix of the transform of the current view. -/
theorem RenderTarget.setupDraw_uniforms {w0 : World} (rt : RenderTarget)
    (useVertexCache : Bool) (states : RenderStates) (w : World) (h : World.Inv w0 w)
    (p : Nat) (lmv lpr ltx : Int)
    (hp : p = (w0.getShader (RenderTarget.usedShader states)).m_shaderProgram)
    (hmv : lmv = w0.env.uniformLocation p "sf_modelview")
    (hpr : lpr = w0.env.uniformLocation p "sf_projection")
    (htx : ltx = w0.env.uniformLocation p "sf_texture")
    (hprog : p ≠ 0) :
    ((rt.setupDraw useVertexCache states w).2.ghost w0).current = p ∧
    (lmv ≠ -1 → lmv ≠ lpr → lmv ≠ ltx →
      ((rt.setupDraw useVertexCache states w).2.ghost w0).lastMatrix p lmv
        = some (if useVertexCache = true then Transform.Identity.getMatrix
            else states.transform.getMatrix)) ∧
    (lpr ≠ -1 → lpr ≠ ltx →
      ((rt.setupDraw useVertexCache states w).2.ghost w0).lastMatrix p lpr
        = some rt.m_view.getTransform.getMatrix) := by
  have hfin := RenderTarget.setupDraw_inv rt useVertexCache states w h
  generalize hr : rt.setupDraw useVertexCache states w = res at hfin ⊢
  unfold RenderTarget.setupDraw at hr
  lift_lets at hr
  extract_lets w1 a u usedShader w2 viewport top w3 w4 b s w5 textureId shaderId t' w6 at hr
  -- the invariant, stage by stage
  have i1 : World.Inv w0 w1 := by
    simp only [w1]
    apply_rules [World.Inv.ite, World.call_inv]
  have ia : World.Inv w0 a.2 := by
    simp only [a]
    apply World.Inv.ite_snd
    · exact RenderTarget.resetGLStates_inv _ _ i1
    · exact i1
  have hav : a.1.m_view = rt.m_view := by
    simp only [a]
    split_ifs
    · rw [RenderTarget.resetGLStates_target]
    · rfl
  clear_value w1
  clear_value a
  have hu : u = (RenderTarget.usedShader states, a.2) :=
    RenderTarget.chooseShader_used states a.2 ia
  have hus : usedShader = RenderTarget.usedShader states := by
    simp only [usedShader, hu]
  clear_value usedShader
  subst hus
  have hu2 : u.2 = a.2 := by rw [hu]
  clear_value u
  have i2 : World.Inv w0 w2 := by
    simp only [w2, hu2]
    split_ifs
    · exact World.setUniformMat4_ref_inv _ _ _ _ ia
    · exact World.setUniformMat4_ref_inv _ _ _ _ ia
  have i3 : World.Inv w0 w3 := i2.call _
  have i4 : World.Inv w0 w4 := World.setUniformMat4_ref_inv _ _ _ _ i3
  have ib : World.Inv w0 b.2 := by
    simp only [b]
    apply World.Inv.ite_snd
    · exact RenderTarget.applyBlendMode_inv _ _ _ i4
    · exact i4
  have is : World.Inv w0 s.2 := by
    simp only [s]
    apply World.Inv.ite_snd
    · exact RenderTarget.applyStencilMode_inv _ _ _ ib
    · exact ib
  have i5 : World.Inv w0 w5 := by
    simp only [w5]
    apply World.Inv.ite
    · exact is.call _
    · exact is
  have it : World.Inv w0 t'.1.2 := by
    simp only [t']
    split_ifs
    · exact RenderTarget.applyTexture_inv _ _ _ _ i5
    · exact RenderTarget.applyTexture_inv _ _ _ _ i5
    · exact i5
  have i6 : World.Inv w0 w6 := by
    simp only [w6]
    cases states.texture with
    | none => exact it
    | some t =>
      simp only []
      apply World.Inv.ite
      · exact RenderTarget.uploadTextureUniforms_inv _ _ _ _ it
      · exact it
  -- the matrices, stage by stage
  have k3 : w3.ghost w0 = w2.ghost w0 := World.ghost_call_other w2 _ i2 rfl rfl
  have kb : (b.2.ghost w0).matrices = (w4.ghost w0).matrices := by
    simp only [b]
    split_ifs
    · exact World.ghost_matrices_of_sel w4 _ i4.grows
        (RenderTarget.applyBlendMode_trace_mono _ _ _ _ List.prefix_rfl)
        (by simp [List.filter_cons, GLCall.isMatrixUpload])
    · rfl
  have ks : (s.2.ghost w0).matrices = (w4.ghost w0).matrices := by
    rw [← kb]
    simp only [s]
    split_ifs
    · exact World.ghost_matrices_of_sel b.2 _ ib.grows
        (RenderTarget.applyStencilMode_trace_mono _ _ _ _ List.prefix_rfl)
        (by
          rw [RenderTarget.applyStencilMode_sel]
          split_ifs <;> simp [List.filter_cons, GLCall.isMatrixUpload])
    · rfl
  have k5 : (w5.ghost w0).matrices = (w4.ghost w0).matrices := by
    rw [← ks]
    simp only [w5]
    split_ifs
    · rw [World.ghost_call_other s.2 (GLCall.glColorMask false false false false) is rfl rfl]
    · rfl
  have happly : ∀ x : RenderTarget,
      ((x.applyTexture states.texture states.coordinateType w5).2.ghost w0).matrices
        = (w5.ghost w0).matrices := by
    intro x
    exact World.ghost_matrices_of_sel w5 _ i5.grows
      (RenderTarget.applyTexture_trace_mono _ _ _ _ _ List.prefix_rfl)
      (by simp [List.filter_cons, GLCall.isMatrixUpload])
  have kt : (t'.1.2.ghost w0).matrices = (w4.ghost w0).matrices := by
    rw [← k5]
    simp only [t']
    split_ifs
    · exact happly _
    · exact happly _
    · rfl
  -- a location other than that of `sf_texture` keeps its matrix through the texture stage
  have k6 : ∀ l : Int, l ≠ ltx →
      (w6.ghost w0).lastMatrix p l = (w4.ghost w0).lastMatrix p l := by
    intro l hl
    have hk : (t'.1.2.ghost w0).lastMatrix p l = (w4.ghost w0).lastMatrix p l := by
      unfold UniformState.lastMatrix
      rw [kt]
    have hup : ∀ t : Texture,
        ((RenderTarget.uploadTextureUniforms (RenderTarget.usedShader states)
          states.coordinateType t t'.1.2).ghost w0).lastMatrix p l
        = (t'.1.2.ghost w0).lastMatrix p l := by
      intro t
      unfold RenderTarget.uploadTextureUniforms
      simp only []
      split_ifs
      · rw [(World.setUniformVec2_ref_ghost _ _ _ _ _
          (World.setUniformMat4_ref_inv _ _ _ _ it)).2]
        exact World.setUniformMat4_ref_other _ _ _ _ it p l
          (fun hh => hl (by rw [hh.2, htx, hp]))
      · exact World.setUniformMat4_ref_other _ _ _ _ it p l
          (fun hh => hl (by rw [hh.2, htx, hp]))
    rw [← hk]
    simp only [w6]
    cases states.texture with
    | none => rfl
    | some t =>
      simp only []
      split_ifs
      · exact hup t
      · rfl
  -- the final `applyShader`
  have kf : ∀ x : RenderTarget,
      ((x.applyShader (some (RenderTarget.usedShader states)) w6).2.ghost w0).matrices
        = (w6.ghost w0).matrices := by
    intro x
    exact @World.ghost_matrices_of_sel w0 w6 _ i6.grows
      (RenderTarget.applyShader_trace_mono _ _ _ _ List.prefix_rfl)
      (RenderTarget.applyShader_sel _ _ _ _)
  have hprog6 : (w6.getShader (RenderTarget.usedShader states)).m_shaderProgram = p := by
    rw [hp]
    exact i6.handle _
  refine ⟨?_, ?_, ?_⟩
  · rw [← hfin.program, ← hr,
      RenderTarget.applyShader_currentProgram _ _ _ (by rw [hprog6]; exact hprog), hprog6]
  · intro hl hne1 hne2
    rw [← hr]
    unfold UniformState.lastMatrix
    rw [kf]
    have e6 := k6 lmv hne2
    unfold UniformState.lastMatrix at e6
    rw [e6]
    have e4 : (w4.ghost w0).lastMatrix p lmv = (w2.ghost w0).lastMatrix p lmv := by
      simp only [w4]
      rw [World.setUniformMat4_ref_other _ _ _ _ i3 p lmv
        (fun hh => hne1 (by rw [hh.2, hpr, hp])), k3]
    unfold UniformState.lastMatrix at e4
    rw [e4]
    have e2 : ∀ m, ((a.2.setUniformMat4 (RenderTarget.usedShader states) "sf_modelview"
        m).ghost w0).lastMatrix p lmv = some m := by
      intro m
      have := World.setUniformMat4_ref_self (RenderTarget.usedShader states) "sf_modelview" m
        a.2 ia (by rw [← hp]; exact hprog) (by rw [← hp, ← hmv]; exact hl)
      rw [← hp, ← hmv] at this
      exact this
    show (w2.ghost w0).lastMatrix p lmv = _
    simp only [w2, hu2]
    split_ifs
    · exact e2 _
    · exact e2 _
  · intro hl hne
    rw [← hr]
    unfold UniformState.lastMatrix
    rw [kf]
    have e6 := k6 lpr hne
    unfold UniformState.lastMatrix at e6
    rw [e6]
    show (w4.ghost w0).lastMatrix p lpr = _
    simp only [w4]
    have := World.setUniformMat4_ref_self (RenderTarget.usedShader states) "sf_projection"
      a.1.m_view.getTransform.getMatrix w3 i3 (by rw [← hp]; exact hprog)
      (by rw [← hp, ← hpr]; exact hl)
    rw [← hp, ← hpr, hav] at this
    rw [hav]
    exact this

theorem UniformState.run_current (l : List GLCall) :
    ∀ g : UniformState, l.filter GLCall.isUseProgram = [] →
      (g.run l).current = g.current := by
  induction l with
  | nil => intro g _; rfl
  | cons c rest ih =>
    intro g h
    have hc : GLCall.isUseProgram c = false := by
      by_contra hc
      simp only [Bool.not_eq_false] at hc
      simp [List.filter_cons, hc] at h
    have hr : rest.filter GLCall.isUseProgram = [] := by
      simpa [List.filter_cons, hc] using h
    have e : (g.run (c :: rest)) = (GLCall.applyUniform g c).run rest := rfl
    rw [e, ih _ hr]
    cases c <;> first | rfl | simp [GLCall.isUseProgram] at hc

theorem GLCall.attribPointer_filter_useProgram (l : List GLCall)
    (h : ∀ c ∈ l, c.isAttribPointer = true) : l.filter GLCall.isUseProgram = [] := by
  rw [List.filter_eq_nil_iff]
  intro c hc
  have := h c hc
  cases c
  case glUseProgram q => simp [GLCall.isAttribPointer] at this
  all_goals simp [GLCall.isUseProgram]

/-- The uniforms of the shader in use when a draw overload issues its primitive draw
call: the calls between `setupDraw` and the draw call change neither the program in use
nor any matrix. -/
theorem RenderTarget.uniforms_at_draw {w0 : World} (rt1 : RenderTarget)
    (useVertexCache : Bool) (states : RenderStates) (w w1 : World)
    (pre X tail1 : List GLCall) (h : World.Inv w0 w) (hI1 : World.Inv w0 w1)
    (hw1t : w1.gl.trace = w.gl.trace ++ pre)
    (hX : (rt1.setupDraw useVertexCache states w1).2.gl.trace = w1.gl.trace ++ X)
    (hm1 : tail1.filter GLCall.isMatrixUpload = [])
    (hu1 : tail1.filter GLCall.isUseProgram = [])
    (p : Nat) (lmv lpr ltx : Int)
    (hp : p = (w0.getShader (RenderTarget.usedShader states)).m_shaderProgram)
    (hmv : lmv = w0.env.uniformLocation p "sf_modelview")
    (hpr : lpr = w0.env.uniformLocation p "sf_projection")
    (htx : ltx = w0.env.uniformLocation p "sf_texture")
    (hprog : p ≠ 0) :
    ((w.ghost w0).run (pre ++ X ++ tail1)).current = p ∧
    (lmv ≠ -1 → lmv ≠ lpr → lmv ≠ ltx →
      ((w.ghost w0).run (pre ++ X ++ tail1)).lastMatrix p lmv
        = some (if useVertexCache = true then Transform.Identity.getMatrix
            else states.transform.getMatrix)) ∧
    (lpr ≠ -1 → lpr ≠ ltx →
      ((w.ghost w0).run (pre ++ X ++ tail1)).lastMatrix p lpr
        = some rt1.m_view.getTransform.getMatrix) := by
  obtain ⟨c1, c2, c3⟩ := RenderTarget.setupDraw_uniforms rt1 useVertexCache states w1 hI1 p lmv
    lpr ltx hp hmv hpr htx hprog
  have hg : (w.ghost w0).run (pre ++ X ++ tail1)
      = ((rt1.setupDraw useVertexCache states w1).2.ghost w0).run tail1 := by
    rw [UniformState.run_append, ← World.ghost_step w0 w
      (rt1.setupDraw useVertexCache states w1).2 _ h.grows
      (by rw [hX, hw1t, List.append_assoc])]
  rw [hg]
  refine ⟨?_, ?_, ?_⟩
  · rw [UniformState.run_current _ _ hu1]
    exact c1
  · intro a b c
    unfold UniformState.lastMatrix
    rw [UniformState.run_matrices _ _ hm1]
    exact c2 a b c
  · intro a b
    unfold UniformState.lastMatrix
    rw [UniformState.run_matrices _ _ hm1]
    exact c3 a b

theorem RenderTarget.draw_start_inv {w0 : World} (rt : RenderTarget) (w w1 : World)
    (h : World.Inv w0 w)
    (hw1e : w1 = (if w.config.openglES then (rt.ensureActive w).2.2
      else (rt.ensureActive w).2.2.call (GLCall.glBindVertexArray rt.m_cache.defaultArray))) :
    World.Inv w0 w1 := by
  have hi : World.Inv w0 (rt.ensureActive w).2.2 := RenderTarget.ensureActive_inv rt w h
  rw [hw1e]
  split_ifs
  · exact hi
  · exact hi.call _

/-- A vertex-array draw that reaches the pipeline, once both default shaders are
compiled, with a shader that has a program `p`: when the primitive draw call is issued,
`p` is the program in use, its `sf_modelview` location holds the identity on the
pre-transformed path and the transform of the draw otherwise, and its `sf_projection`
location holds the matrix of the transform of the current view. -/
theorem RenderTarget.draw_uniforms {w0 : World} (rt : RenderTarget) (vs : List Vertex)
    (n : Nat) (type : PrimitiveType) (states : RenderStates) (w : World)
    (h : World.Inv w0 w) (hn : n ≠ 0)
    (p : Nat) (lmv lpr ltx : Int)
    (hp : p = (w0.getShader (RenderTarget.usedShader states)).m_shaderProgram)
    (hmv : lmv = w0.env.uniformLocation p "sf_modelview")
    (hpr : lpr = w0.env.uniformLocation p "sf_projection")
    (htx : ltx = w0.env.uniformLocation p "sf_texture")
    (hprog : p ≠ 0) :
    ∃ before after,
      (rt.draw (some vs) n type states w).2.gl.trace
        = w.gl.trace ++
          (before ++ GLCall.glDrawArrays (RenderTarget.modes type) 0 (toInt32 n) :: after) ∧
      before.filter GLCall.isDrawCall = [] ∧ after.filter GLCall.isDrawCall = [] ∧
      ((w.ghost w0).run before).current = p ∧
      (lmv ≠ -1 → lmv ≠ lpr → lmv ≠ ltx →
        ((w.ghost w0).run before).lastMatrix p lmv
          = some (if n ≤ rt.m_cache.vertexCache.length then Transform.Identity.getMatrix
              else states.transform.getMatrix)) ∧
      (lpr ≠ -1 → lpr ≠ ltx →
        ((w.ghost w0).run before).lastMatrix p lpr
          = some rt.m_view.getTransform.getMatrix) := by
  obtain ⟨rt1, w1, e, g, buf, G, AP, -, hw1e, -, hrt1, hw1t, -, hG, hAP, htr, -, -⟩ :=
    RenderTarget.draw_world rt vs n type states w hn
  have hI1 := RenderTarget.draw_start_inv rt w w1 h hw1e
  obtain ⟨X, hX, hXd⟩ := RenderTarget.setupDraw_no_draw rt1
    (decide (n ≤ rt.m_cache.vertexCache.length)) states w1
  have hAPm : AP.filter GLCall.isMatrixUpload = [] :=
    GLCall.Avoids.filter_eq_nil _ GLCall.isAttribPointer AP hAP
  have hAPd : AP.filter GLCall.isDrawCall = [] :=
    GLCall.Avoids.filter_eq_nil _ GLCall.isAttribPointer AP hAP
  have hAPu : AP.filter GLCall.isUseProgram = [] :=
    GLCall.attribPointer_filter_useProgram AP hAP
  have hGm : G.filter GLCall.isMatrixUpload = [] ∧ G.filter GLCall.isDrawCall = [] ∧
      G.filter GLCall.isUseProgram = [] := by
    rcases hG with hG | hG <;> rw [hG] <;> exact ⟨rfl, rfl, rfl⟩
  have htr2 : (rt.draw (some vs) n type states w).2.gl.trace
      = (rt1.setupDraw (decide (n ≤ rt.m_cache.vertexCache.length)) states w1).2.gl.trace ++
        ((G ++
          [GLCall.glBindBuffer GLenum.GL_ARRAY_BUFFER buf,
            GLCall.glBufferData GLenum.GL_ARRAY_BUFFER
              ((RenderTarget.sizeofVertex * n) % 2 ^ 64)
              ((if n ≤ rt.m_cache.vertexCache.length then
                  (rt1.setupDraw (decide (n ≤ rt.m_cache.vertexCache.length)) states
                    w1).1.m_cache.vertexCache
                else vs).take n)
              GLenum.GL_DYNAMIC_DRAW] ++ AP) ++
         (GLCall.glDrawArrays (RenderTarget.modes type) 0 (toInt32 n) ::
          ([GLCall.glBindBuffer GLenum.GL_ARRAY_BUFFER 0] ++
           (if w.config.openglES then [] else [GLCall.glBindVertexArray 0]) ++
           ((if states.shader.isSome then [GLCall.glUseProgram 0] else []) ++
            (if RenderTarget.isFboAttachment states.texture then
               [GLCall.Texture_bind none CoordinateType.Pixels]
             else []) ++
            (if states.stencilMode.stencilOnly then [GLCall.glColorMask true true true true]
             else []))))) := by
    rw [htr]
    simp only [List.append_assoc, List.cons_append, List.nil_append, List.singleton_append]
  have hsplit : ∃ tail1 tail2,
      (rt.draw (some vs) n type states w).2.gl.trace
        = (rt1.setupDraw (decide (n ≤ rt.m_cache.vertexCache.length)) states w1).2.gl.trace ++
          (tail1 ++ GLCall.glDrawArrays (RenderTarget.modes type) 0 (toInt32 n) :: tail2) ∧
      tail1.filter GLCall.isMatrixUpload = [] ∧ tail1.filter GLCall.isDrawCall = [] ∧
      tail1.filter GLCall.isUseProgram = [] ∧ tail2.filter GLCall.isDrawCall = [] := by
    refine ⟨_, _, htr2, ?_, ?_, ?_, ?_⟩
    · simp [List.filter_append, hGm.1, hAPm, GLCall.isMatrixUpload]
    · simp [List.filter_append, hGm.2.1, hAPd, GLCall.isDrawCall]
    · simp [List.filter_append, hGm.2.2, hAPu, GLCall.isUseProgram]
    · cases w.config.openglES <;> cases states.shader.isSome <;>
        cases RenderTarget.isFboAttachment states.texture <;>
        cases states.stencilMode.stencilOnly <;> rfl
  clear htr2 htr
  obtain ⟨tail1, tail2, hT, hm1, hd1, hu1, hd2⟩ := hsplit
  obtain ⟨c1, c2, c3⟩ := RenderTarget.uniforms_at_draw rt1
    (decide (n ≤ rt.m_cache.vertexCache.length)) states w w1 _ X tail1 h hI1 hw1t hX hm1 hu1
    p lmv lpr ltx hp hmv hpr htx hprog
  have hview : rt1.m_view = rt.m_view := by rw [hrt1]
  refine ⟨(if w.config.openglES then []
      else [GLCall.glBindVertexArray rt.m_cache.defaultArray]) ++ X ++ tail1, tail2,
    ?_, ?_, hd2, c1, ?_, ?_⟩
  · rw [hT, hX, hw1t]
    simp only [List.append_assoc]
  · simp only [List.filter_append, hXd, hd1]
    cases w.config.openglES <;> rfl
  · intro a b c
    rw [c2 a b c]
    simp only [decide_eq_true_eq]
  · intro a b
    rw [c3 a b, hview]

/-- The same for a draw from a vertex buffer, which never pre-transforms: the
`sf_modelview` location holds the transform of the draw. -/
theorem RenderTarget.drawVertexBuffer_uniforms {w0 : World} (rt : RenderTarget)
    (vb : VertexBuffer) (first count : Nat) (states : RenderStates) (w : World)
    (h : World.Inv w0 w) (hav : w.config.vertexBufferAvailable = true)
    (hfirst : first ≤ vb.getVertexCount)
    (hcount : min count (vb.getVertexCount - first) ≠ 0) (hhandle : vb.getNativeHandle ≠ 0)
    (p : Nat) (lmv lpr ltx : Int)
    (hp : p = (w0.getShader (RenderTarget.usedShader states)).m_shaderProgram)
    (hmv : lmv = w0.env.uniformLocation p "sf_modelview")
    (hpr : lpr = w0.env.uniformLocation p "sf_projection")
    (htx : ltx = w0.env.uniformLocation p "sf_texture")
    (hprog : p ≠ 0) :
    ∃ before after,
      (rt.drawVertexBuffer vb first count states w).2.gl.trace
        = w.gl.trace ++
          (before ++
            GLCall.glDrawArrays (RenderTarget.modes vb.getPrimitiveType) (toInt32 first)
              (toInt32 ((min count (vb.getVertexCount - first) : Nat) : Int)) :: after) ∧
      before.filter GLCall.isDrawCall = [] ∧ after.filter GLCall.isDrawCall = [] ∧
      ((w.ghost w0).run before).current = p ∧
      (lmv ≠ -1 → lmv ≠ lpr → lmv ≠ ltx →
        ((w.ghost w0).run before).lastMatrix p lmv = some states.transform.getMatrix) ∧
      (lpr ≠ -1 → lpr ≠ ltx →
        ((w.ghost w0).run before).lastMatrix p lpr
          = some rt.m_view.getTransform.getMatrix) := by
  obtain ⟨rt1, w1, e, g, loc, EA, AP, -, hw1e, -, hrt1, hw1t, -, hEA, hAP, htr, -, -⟩ :=
    RenderTarget.drawVertexBuffer_world rt vb first count states w hav hfirst hcount hhandle
  have hI1 := RenderTarget.draw_start_inv rt w w1 h hw1e
  obtain ⟨X, hX, hXd⟩ := RenderTarget.setupDraw_no_draw rt1 false states w1
  have hAPm : AP.filter GLCall.isMatrixUpload = [] :=
    GLCall.Avoids.filter_eq_nil _ GLCall.isAttribPointer AP hAP
  have hAPd : AP.filter GLCall.isDrawCall = [] :=
    GLCall.Avoids.filter_eq_nil _ GLCall.isAttribPointer AP hAP
  have hAPu : AP.filter GLCall.isUseProgram = [] :=
    GLCall.attribPointer_filter_useProgram AP hAP
  have hEAm : EA.filter GLCall.isMatrixUpload = [] ∧ EA.filter GLCall.isDrawCall = [] ∧
      EA.filter GLCall.isUseProgram = [] := by
    rcases hEA with hE | hE <;> rw [hE] <;> exact ⟨rfl, rfl, rfl⟩
  have htr2 : (rt.drawVertexBuffer vb first count states w).2.gl.trace
      = (rt1.setupDraw false states w1).2.gl.trace ++
        (([GLCall.VertexBuffer_bind (some vb.getNativeHandle)] ++ EA ++ AP) ++
         (GLCall.glDrawArrays (RenderTarget.modes vb.getPrimitiveType) (toInt32 first)
            (toInt32 ((min count (vb.getVertexCount - first) : Nat) : Int)) ::
          ([GLCall.VertexBuffer_bind none] ++
           (if w.config.openglES then [] else [GLCall.glBindVertexArray 0]) ++
           ((if states.shader.isSome then [GLCall.glUseProgram 0] else []) ++
            (if RenderTarget.isFboAttachment states.texture then
               [GLCall.Texture_bind none CoordinateType.Pixels]
             else []) ++
            (if states.stencilMode.stencilOnly then [GLCall.glColorMask true true true true]
             else []))))) := by
    rw [htr]
    simp only [List.append_assoc, List.cons_append, List.nil_append, List.singleton_append]
  have hsplit : ∃ tail1 tail2,
      (rt.drawVertexBuffer vb first count states w).2.gl.trace
        = (rt1.setupDraw false states w1).2.gl.trace ++
          (tail1 ++
            GLCall.glDrawArrays (RenderTarget.modes vb.getPrimitiveType) (toInt32 first)
              (toInt32 ((min count (vb.getVertexCount - first) : Nat) : Int)) :: tail2) ∧
      tail1.filter GLCall.isMatrixUpload = [] ∧ tail1.filter GLCall.isDrawCall = [] ∧
      tail1.filter GLCall.isUseProgram = [] ∧ tail2.filter GLCall.isDrawCall = [] := by
    refine ⟨_, _, htr2, ?_, ?_, ?_, ?_⟩
    · simp [List.filter_append, hEAm.1, hAPm, GLCall.isMatrixUpload]
    · simp [List.filter_append, hEAm.2.1, hAPd, GLCall.isDrawCall]
    · simp [List.filter_append, hEAm.2.2, hAPu, GLCall.isUseProgram]
    · cases w.config.openglES <;> cases states.shader.isSome <;>
        cases RenderTarget.isFboAttachment states.texture <;>
        cases states.stencilMode.stencilOnly <;> rfl
  clear htr2 htr
  obtain ⟨tail1, tail2, hT, hm1, hd1, hu1, hd2⟩ := hsplit
  obtain ⟨c1, c2, c3⟩ := RenderTarget.uniforms_at_draw rt1 false states w w1 _ X tail1 h hI1
    hw1t hX hm1 hu1 p lmv lpr ltx hp hmv hpr htx hprog
  have hview : rt1.m_view = rt.m_view := by rw [hrt1]
  refine ⟨(if w.config.openglES then []
      else [GLCall.glBindVertexArray rt.m_cache.defaultArray]) ++ X ++ tail1, tail2,
    ?_, ?_, hd2, c1, ?_, ?_⟩
  · rw [hT, hX, hw1t]
    simp only [List.append_assoc]
  · simp only [List.filter_append, hXd, hd1]
    cases w.config.openglES <;> rfl
  · intro a b c
    rw [c2 a b c]
    simp
  · intro a b
    rw [c3 a b, hview]

theorem World.ghost_self (w : World) : w.ghost w = ⟨w.gl.currentProgram, []⟩ := by
  unfold World.ghost
  rw [List.drop_length]
  rfl

/-! ## The model-view uniform and the uploaded vertices -/

theorem readyWorld_coherent : ∀ r, (readyWorld.getShader r).Coherent readyWorld.env := by
  intro r
  cases r <;> (intro name loc h; cases h)

theorem readyWorld_locations (p : Nat) :
    readyWorld.env.uniformLocation p "sf_modelview" = 0 ∧
    readyWorld.env.uniformLocation p "sf_projection" = 1 ∧
    readyWorld.env.uniformLocation p "sf_texture" = 2 := by
  simp [readyWorld, distinctEnv]

end sf
